import Mathlib

/-!
# Supply-chain chaincode (`cc-supplychain-go`): a shallow embedding

The contracts under `contracts/` are embedded as Lean functions over an
explicit world state.

* A Go method `func (sc *C) Op(ctx, args...) error` becomes
  `C.Op ctx w args : Option String × World`: the returned `error`
  (`none` is Go's `nil`) paired with the world state the stub holds when the
  method returns.  Writes are applied to the world state as they are issued,
  so a method that fails after a write returns the written world state.
* Ledger values are the JSON encodings of the five Go structs, or the one-byte
  index marker.  `json.Marshal` of a struct is the matching constructor of
  `Record`; `json.Unmarshal` into a struct follows Go's rules (keys are matched
  by the `json:"..."` tags of `model.go`, unknown keys are skipped, missing
  keys leave the zero value), so a record of one struct decodes into another
  struct through the tags they share.
* Go's `int` is the 64-bit two's-complement integer; `int16` state fields are
  carried as `Int`.
* `GetState` and `DelState` of the ledger stub do not fail.  The stub refuses
  to write under the empty key and to build a composite key from an attribute
  that holds U+0000 or U+10FFFF (`putStateError`, `compositeKeyError`); the
  five Create operations and `FractionateLote`, which write under ids the
  caller chooses, return these errors as the code does.  An operation that
  updates or destroys a record writes under the key it has read the record
  from, and indexes the attributes the record was created with.
  Error texts are abbreviated (the formatted key is left out).
-/

set_option linter.unusedVariables false

namespace SupplyChain

/-! ## Shared value types (`common/complementary_structs_functions.go`) -/

structure Price where
  Amount : String
  Currency : String
deriving DecidableEq

structure Environment where
  Temperature : String
  TemperatureMeasurement : String
  Humidity : String
deriving DecidableEq

structure Brand where
  Name : String
  Logo : String
deriving DecidableEq

structure NetContent where
  Weight : String
  WeightMeasurement : String
  Volumen : String
  VolumenMeasurement : String
  Units : String
deriving DecidableEq

structure Dimention where
  Width : String
  Height : String
  Deep : String
  Measurement : String
deriving DecidableEq

structure Location where
  Country : String
  Province : String
  Latitude : String
  Longitude : String
deriving DecidableEq

structure Capacity where
  Units : String
  UnitMeasurement : String
  Used : String
deriving DecidableEq

structure Transporting where
  Destinity : Location
  FinishTime : String
deriving DecidableEq

structure Certification where
  Issuer : String
  CertificationType : String
  Result : String
deriving DecidableEq

/-! ## Entity records (`*/model.go`) -/

abbrev LoteState := Int

def ManunfacturingLote : LoteState := 0
def TransportingLote : LoteState := 1
def StoredLote : LoteState := 2
def RepairingLote : LoteState := 3
def SelledLote : LoteState := 4
def DestroyedLote : LoteState := 5
def UsingLote : LoteState := 6

abbrev LoteProductState := Int

def LoteProductNormal : LoteProductState := 0
def LoteProductBroken : LoteProductState := 1

structure Lote where
  DocType : String
  LoteID : String
  ProductID : String
  ManufactureID : String
  OwnerID : String
  Advisor : String
  Price : Price
  Units : String
  Certifications : List Certification
  Environment : Environment
  LoteState : LoteState
  Components : List String
  CurrentLocationID : String
  FatherID : String
  LoteProductState : LoteProductState
deriving DecidableEq

abbrev ProductState := Int

def OnTestingProduct : ProductState := 0
def OnProductionProduct : ProductState := 1
def DiscontinuedProduct : ProductState := 2
def DestroyedProduct : ProductState := 3

structure Product where
  DocType : String
  ProductID : String
  ProductName : String
  Description : String
  Brand : Brand
  Core : String
  Variety : String
  ProductImage : String
  NetContent : NetContent
  WidthAndHeight : Dimention
  DisplaySpace : Dimention
  PackageType : String
  Certifications : List Certification
  Manufacturer : String
  ManufactureDetails : String
  ProductState : ProductState
  Components : List String
  Advisor : String
deriving DecidableEq

abbrev ManufactureState := Int

def OnProductionManufacture : ManufactureState := 0
def BrokenManufacture : ManufactureState := 1
def DestroyedManufacture : ManufactureState := 2

structure Manufacture where
  DocType : String
  ManufactureID : String
  OwnerID : String
  AdvisorID : String
  Location : Location
  Certifications : List Certification
  Production : List String
  ToUse : List String
  ToRepair : List String
  ManufactureState : ManufactureState
deriving DecidableEq

abbrev TransportState := Int

def AvailableTransport : TransportState := 0
def LoadingTrasport : TransportState := 1
def DeliveringTransport : TransportState := 2
def NonAvailableTransport : TransportState := 3
def DestroyedTransport : TransportState := 4

structure Transport where
  DocType : String
  TransportID : String
  OwnerID : String
  AdvisorID : String
  Capacity : Capacity
  Location : Location
  TransportState : TransportState
  TransportType : String
  Certifications : List Certification
  Transporting : Transporting
  Shipment : List String
deriving DecidableEq

abbrev WarehouseState := Int

def WorkingWarehouse : WarehouseState := 0
def NonAvailableWarehouse : WarehouseState := 1
def DestroyedWarehouse : WarehouseState := 2

structure Warehouse where
  DocType : String
  WarehouseID : String
  OwnerID : String
  AdvisorID : String
  Capacity : Capacity
  Location : Location
  Certifications : List Certification
  Storing : List String
  WarehouseState : WarehouseState
deriving DecidableEq

/-! ## Zero values (`new(T)`) -/

def Location.zero : Location := ⟨"", "", "", ""⟩
def Capacity.zero : Capacity := ⟨"", "", ""⟩
def Transporting.zero : Transporting := ⟨Location.zero, ""⟩

def Lote.zero : Lote :=
  { DocType := "", LoteID := "", ProductID := "", ManufactureID := "", OwnerID := "",
    Advisor := "", Price := ⟨"", ""⟩, Units := "", Certifications := [],
    Environment := ⟨"", "", ""⟩, LoteState := 0, Components := [], CurrentLocationID := "",
    FatherID := "", LoteProductState := 0 }

def Manufacture.zero : Manufacture :=
  { DocType := "", ManufactureID := "", OwnerID := "", AdvisorID := "",
    Location := Location.zero, Certifications := [], Production := [], ToUse := [],
    ToRepair := [], ManufactureState := 0 }

def Transport.zero : Transport :=
  { DocType := "", TransportID := "", OwnerID := "", AdvisorID := "",
    Capacity := Capacity.zero, Location := Location.zero, TransportState := 0,
    TransportType := "", Certifications := [], Transporting := Transporting.zero,
    Shipment := [] }

/-! ## Ledger values and JSON decoding -/

/-- A ledger value: the JSON encoding of one of the five structs
(`json.Marshal`), or the index marker `[]byte{0x00}` stored under composite
keys. -/
inductive Record where
  | lote (l : Lote)
  | product (p : Product)
  | manufacture (m : Manufacture)
  | transport (t : Transport)
  | warehouse (h : Warehouse)
  | index
deriving DecidableEq

/-- The call `json.Unmarshal(bytes, new(Lote))`: the keys of the stored object
whose tag is also a tag of `Lote` are copied, the other fields stay zero; the
index marker is not JSON. -/
def UnmarshalLote : Record → Option Lote
  | .lote l => some l
  | .product p =>
    some { Lote.zero with
      DocType := p.DocType, ProductID := p.ProductID, Certifications := p.Certifications,
      LoteProductState := p.ProductState, Components := p.Components, Advisor := p.Advisor }
  | .manufacture m =>
    some { Lote.zero with
      DocType := m.DocType, ManufactureID := m.ManufactureID, OwnerID := m.OwnerID }
  | .transport t =>
    some { Lote.zero with
      DocType := t.DocType, OwnerID := t.OwnerID, Certifications := t.Certifications }
  | .warehouse h =>
    some { Lote.zero with
      DocType := h.DocType, ProductID := h.WarehouseID, OwnerID := h.OwnerID,
      Certifications := h.Certifications }
  | .index => none

/-- The call `json.Unmarshal(bytes, new(Manufacture))`. -/
def UnmarshalManufacture : Record → Option Manufacture
  | .manufacture m => some m
  | .lote l =>
    some { Manufacture.zero with
      DocType := l.DocType, ManufactureID := l.ManufactureID, OwnerID := l.OwnerID }
  | .product p => some { Manufacture.zero with DocType := p.DocType }
  | .transport t =>
    some { Manufacture.zero with
      DocType := t.DocType, OwnerID := t.OwnerID, AdvisorID := t.AdvisorID,
      Location := t.Location }
  | .warehouse h =>
    some { Manufacture.zero with
      DocType := h.DocType, OwnerID := h.OwnerID, AdvisorID := h.AdvisorID,
      Location := h.Location }
  | .index => none

/-- The call `json.Unmarshal(bytes, new(Transport))`. -/
def UnmarshalTransport : Record → Option Transport
  | .transport t => some t
  | .lote l =>
    some { Transport.zero with
      DocType := l.DocType, OwnerID := l.OwnerID, Certifications := l.Certifications }
  | .product p =>
    some { Transport.zero with DocType := p.DocType, Certifications := p.Certifications }
  | .manufacture m =>
    some { Transport.zero with
      DocType := m.DocType, OwnerID := m.OwnerID, AdvisorID := m.AdvisorID,
      Location := m.Location }
  | .warehouse h =>
    some { Transport.zero with
      DocType := h.DocType, OwnerID := h.OwnerID, AdvisorID := h.AdvisorID,
      Capacity := h.Capacity, Location := h.Location, Certifications := h.Certifications }
  | .index => none

def Product.zero : Product :=
  { DocType := "", ProductID := "", ProductName := "", Description := "",
    Brand := ⟨"", ""⟩, Core := "", Variety := "", ProductImage := "",
    NetContent := ⟨"", "", "", "", ""⟩, WidthAndHeight := ⟨"", "", "", ""⟩,
    DisplaySpace := ⟨"", "", "", ""⟩, PackageType := "", Certifications := [],
    Manufacturer := "", ManufactureDetails := "", ProductState := 0, Components := [],
    Advisor := "" }

def Warehouse.zero : Warehouse :=
  { DocType := "", WarehouseID := "", OwnerID := "", AdvisorID := "",
    Capacity := Capacity.zero, Location := Location.zero, Certifications := [],
    Storing := [], WarehouseState := 0 }

/-- The call `json.Unmarshal(bytes, new(Product))`. -/
def UnmarshalProduct : Record → Option Product
  | .product p => some p
  | .lote l =>
    some { Product.zero with
      DocType := l.DocType, ProductID := l.ProductID, Certifications := l.Certifications,
      ProductState := l.LoteProductState, Components := l.Components, Advisor := l.Advisor }
  | .manufacture m => some { Product.zero with DocType := m.DocType }
  | .transport t =>
    some { Product.zero with DocType := t.DocType, Certifications := t.Certifications }
  | .warehouse h =>
    some { Product.zero with
      DocType := h.DocType, ProductID := h.WarehouseID, Certifications := h.Certifications }
  | .index => none

/-- The call `json.Unmarshal(bytes, new(Warehouse))`; the tag of `WarehouseID`
is `productid`. -/
def UnmarshalWarehouse : Record → Option Warehouse
  | .warehouse h => some h
  | .lote l =>
    some { Warehouse.zero with
      DocType := l.DocType, WarehouseID := l.ProductID, OwnerID := l.OwnerID,
      Certifications := l.Certifications }
  | .product p =>
    some { Warehouse.zero with
      DocType := p.DocType, WarehouseID := p.ProductID, Certifications := p.Certifications }
  | .manufacture m =>
    some { Warehouse.zero with
      DocType := m.DocType, OwnerID := m.OwnerID, AdvisorID := m.AdvisorID,
      Location := m.Location }
  | .transport t =>
    some { Warehouse.zero with
      DocType := t.DocType, OwnerID := t.OwnerID, AdvisorID := t.AdvisorID,
      Capacity := t.Capacity, Location := t.Location, Certifications := t.Certifications }
  | .index => none

/-! ## The ledger stub -/

/-- Ledger keys.  A primary key is the caller-chosen id; a composite key is
built from an index name and attributes. -/
inductive Key where
  | simple (id : String)
  | composite (objectType : String) (attributes : List String)
deriving DecidableEq

/-- The world state: the current value of every key, `none` where Go reads
`nil`. -/
abbrev World := Key → Option Record

/-- The world state of a ledger without any entry. -/
def World.empty : World := fun _ => none

/-- Modelled from the spec: `createCompositeKey(indexName, [attrs...]) -> key`
of the ledger stub (Fabric's shim, not part of this repository) is a
deterministic concatenation with a reserved separator, U+0000.  The stub
refuses an attribute that holds the separator (`compositeKeyError`); the key it
builds otherwise differs from every primary key and determines its index name
and attributes. -/
def CreateCompositeKey (objectType : String) (attributes : List String) : Key :=
  Key.composite objectType attributes

/-- The function `validateCompositeKeyAttribute` of the ledger stub (Fabric's
shim, not part of this repository), which its `CreateCompositeKey` runs on the
index name and on each attribute: a string that holds U+0000 or U+10FFFF is
refused with an error.  The stub also refuses a string that is not valid
UTF-8; a `String` is always valid. -/
def validateCompositeKeyAttribute (str : String) : Option String :=
  if str.data.any (fun c => c.toNat = 0 || c.toNat = 1114111) then
    some "input contains unicode U+0000 or U+10FFFF, not allowed in a composite key"
  else none

/-- The error the stub's `CreateCompositeKey` returns instead of a key: the
first error of the validation of the index name and of the attributes in
order, `none` when the key is built. -/
def compositeKeyError (objectType : String) (attributes : List String) : Option String :=
  (objectType :: attributes).findSome? validateCompositeKeyAttribute

/-- The error the stub's `PutState` returns instead of writing: the stub
refuses the empty key before it passes the write on, and writes under every
other key. -/
def putStateError (key : String) : Option String :=
  if key = "" then some "key must not be an empty string" else none

def GetState (w : World) (key : Key) : Option Record := w key

def PutState (w : World) (key : Key) (value : Record) : World :=
  fun k => if k = key then some value else w k

def DelState (w : World) (key : Key) : World :=
  fun k => if k = key then none else w k

/-- The transaction context: the decoded identity of the submitting client,
`none` when the credential cannot be read or decoded. -/
structure Ctx where
  clientID : Option String

/-- Modelled from the spec: `ctx.GetData()` of the custom transaction context
(declared outside the contracts) is the stored value of the entity the
operation is invoked on: every operation first re-reads the record at its
`key` argument. -/
def GetData (w : World) (key : String) : Option Record := GetState w (Key.simple key)

def GetSubmittingClientIdentity (ctx : Ctx) : Except String String :=
  match ctx.clientID with
  | none => .error "Failed to read clientID"
  | some id => .ok id

def GetSubmittingClientOrg (_ctx : Ctx) : Except String String := .ok ""

def VerifyClientOrgMatchesPeerOrg (_clientOrgID : String) : Option String := none

def ValidRole (_ctx : Ctx) (_role : String) : Option String := none

/-! ## `strconv.Atoi` and `strings.Split` -/

def int64Max : Int := 9223372036854775807
def int64Min : Int := -9223372036854775808

/-- Go's `int` arithmetic: the result of an addition or subtraction wraps
around in 64-bit two's complement. -/
def wrap64 (x : Int) : Int := (x + 9223372036854775808) % 18446744073709551616 - 9223372036854775808

def uint64Max : Nat := 18446744073709551615

def digitVal (c : Char) : Option Nat :=
  if 48 ≤ c.toNat ∧ c.toNat ≤ 57 then some (c.toNat - 48) else none

/-- The digit loop of `strconv.ParseUint` for base 10 and 64 bits, `acc` being
the value read so far.  A character that is not a digit ends the loop with a
syntax error (`none`).  A digit read when the value has reached the cutoff
`maxUint64/10 + 1`, or that takes the value beyond `maxUint64`, ends the loop
at once with a range error and the value `maxUint64`: the characters after it
are not looked at. -/
def parseDigits : List Char → Nat → Option Nat
  | [], acc => some acc
  | c :: cs, acc =>
    match digitVal c with
    | none => none
    | some d =>
      if 1844674407370955162 ≤ acc then some uint64Max
      else if uint64Max < acc * 10 + d then some uint64Max
      else parseDigits cs (acc * 10 + d)

/-- The value `strconv.Atoi` returns, its error dropped as every call site
does (`n, _ := strconv.Atoi(s)`).  After an optional sign the digits are read
by `parseDigits`; a syntax error (no digit at all, or a character that is not a
digit met while the value is in range) gives 0, and the value read, or the
bound a range error carries, is clamped to the `int64` range as `ParseInt`
does.  The fast path of `Atoi` for strings shorter than 19 bytes returns the
same values: such a string cannot leave the range, and any character that is
not a digit gives 0. -/
def AtoiChars (s : List Char) : Int :=
  match s with
  | [] => 0
  | c :: cs =>
    if c = '-' then
      match cs with
      | [] => 0
      | _ :: _ =>
        match parseDigits cs 0 with
        | none => 0
        | some n => max (-(n : Int)) int64Min
    else if c = '+' then
      match cs with
      | [] => 0
      | _ :: _ =>
        match parseDigits cs 0 with
        | none => 0
        | some n => min (n : Int) int64Max
    else
      match parseDigits (c :: cs) 0 with
      | none => 0
      | some n => min (n : Int) int64Max

def Atoi (s : String) : Int := AtoiChars s.data

/-- Pieces of a character list between occurrences of `sep`; `cur` holds the
piece being read, reversed. -/
def splitChars (sep : Char) : List Char → List Char → List (List Char)
  | [], cur => [cur.reverse]
  | c :: cs, cur =>
    if c = sep then cur.reverse :: splitChars sep cs [] else splitChars sep cs (c :: cur)

/-- The call `strings.Split(s, sep)` for a one-character separator. -/
def Split (s : String) (sep : Char) : List String :=
  (splitChars sep s.data []).map String.mk

/-- The call `strconv.Itoa(n)`: the decimal digits of `n`, after a minus sign
when `n` is negative. -/
def Itoa (n : Int) : String :=
  if n < 0 then "-" ++ Nat.repr (-n).toNat else Nat.repr n.toNat

/-! ## Lot contract (`lote/sc_lote.go`) -/

def lote_index : String := "lote"

namespace LoteSmartContract

def CreateLote (ctx : Ctx) (w : World) (key productID manufactureID priceamount
    pricecurrency units envTemp envTempMeasurement envHumidity : String)
    (components : List String) (currentLocationID : String) : Option String × World :=
  match ValidRole ctx "abac.manufacturer" with
  | some err => (some err, w)
  | none =>
  match GetState w (Key.simple key) with
  | some _ => (some "Cannot create new lote in world state as key alredy exists", w)
  | none =>
  match GetState w (Key.simple currentLocationID) with
  | none => (some "Location with key do not exists", w)
  | some _ =>
  if Atoi units < 1 then
    (some "Cannot create new lote in world state with less than 1 unit", w)
  else
  match GetSubmittingClientIdentity ctx with
  | .error err => (some err, w)
  | .ok advisor =>
  match GetSubmittingClientOrg ctx with
  | .error err => (some err, w)
  | .ok ownerID =>
  match VerifyClientOrgMatchesPeerOrg ownerID with
  | some err => (some err, w)
  | none =>
    let lote : Lote :=
      { DocType := "lote", LoteID := key, ProductID := productID,
        ManufactureID := manufactureID, Advisor := advisor, OwnerID := ownerID,
        Price := ⟨priceamount, pricecurrency⟩, Units := units, Certifications := [],
        Environment := ⟨envTemp, envTempMeasurement, envHumidity⟩,
        Components := components, CurrentLocationID := currentLocationID, FatherID := "",
        LoteState := ManunfacturingLote, LoteProductState := LoteProductNormal }
    match putStateError key with
    | some _ => (some "Unable to interact with world state", w)
    | none =>
    let w1 := PutState w (Key.simple key) (Record.lote lote)
    match compositeKeyError lote_index [lote.LoteID, lote.ProductID, lote.ManufactureID] with
    | some err => (some err, w1)
    | none =>
    let loteIndexKey :=
      CreateCompositeKey lote_index [lote.LoteID, lote.ProductID, lote.ManufactureID]
    (none, PutState w1 loteIndexKey Record.index)

def ExistsLote (w : World) (key : String) : Bool :=
  (GetState w (Key.simple key)).isSome

def LoteInspection (ctx : Ctx) (w : World) (key issuer certificationtype result : String) :
    Option String × World :=
  match GetState w (Key.simple key) with
  | none => (some "Cannot update lote in world state as key does not exist", w)
  | some currentLote =>
  match UnmarshalLote currentLote with
  | none => (some "Data retrieved from world state was not of type Lote", w)
  | some lote =>
  match GetSubmittingClientIdentity ctx with
  | .error err => (some err, w)
  | .ok advisor =>
  if advisor ≠ lote.Advisor then
    (some "submitting client not authorized to update asset, does not advise asset", w)
  else if lote.LoteState = 4 ∨ lote.LoteState = 5 then
    (some "Lote is selled or destroyed", w)
  else
    let lote := { lote with
      Certifications := lote.Certifications ++ [⟨issuer, certificationtype, result⟩] }
    (none, PutState w (Key.simple key) (Record.lote lote))

def StoreLote (ctx : Ctx) (w : World) (key currentLocationID newadvisor envTemp
    envTempMeasurement envHumidity : String) : Option String × World :=
  match GetState w (Key.simple key) with
  | none => (some "Cannot update lote in world state as key does not exist", w)
  | some currentLote =>
  match GetState w (Key.simple currentLocationID) with
  | none => (some "Location with key do not exists", w)
  | some _ =>
  match UnmarshalLote currentLote with
  | none => (some "Data retrieved from world state was not of type Lote", w)
  | some lote =>
  match GetSubmittingClientIdentity ctx with
  | .error err => (some err, w)
  | .ok advisor =>
  if advisor ≠ lote.Advisor then
    (some "submitting client not authorized to update asset, does not advise asset", w)
  else if lote.LoteState ≠ 1 then
    (some "Lote is not transporting", w)
  else
    let lote := { lote with
      LoteState := StoredLote, CurrentLocationID := currentLocationID,
      Environment := ⟨envTemp, envTempMeasurement, envHumidity⟩, Advisor := newadvisor }
    (none, PutState w (Key.simple key) (Record.lote lote))

def TransportLote (ctx : Ctx) (w : World) (key currentLocationID newadvisor envTemp
    envTempMeasurement envHumidity : String) : Option String × World :=
  match GetState w (Key.simple key) with
  | none => (some "Cannot update lote in world state as key does not exist", w)
  | some currentLote =>
  match GetState w (Key.simple currentLocationID) with
  | none => (some "Location with key do not exists", w)
  | some _ =>
  match UnmarshalLote currentLote with
  | none => (some "Data retrieved from world state was not of type Lote", w)
  | some lote =>
  match GetSubmittingClientIdentity ctx with
  | .error err => (some err, w)
  | .ok advisor =>
  if advisor ≠ lote.Advisor then
    (some "submitting client not authorized to update asset, does not advise current lote", w)
  else if lote.LoteState = 4 ∨ lote.LoteState = 5 then
    (some "Lote is selled or destroyed", w)
  else
    let lote := { lote with
      LoteState := TransportingLote,
      Environment := ⟨envTemp, envTempMeasurement, envHumidity⟩,
      CurrentLocationID := currentLocationID, Advisor := newadvisor }
    (none, PutState w (Key.simple key) (Record.lote lote))

def LoteDestroyed (ctx : Ctx) (w : World) (key : String) : Option String × World :=
  match GetState w (Key.simple key) with
  | none => (some "Cannot update lote in world state as key does not exist", w)
  | some currentLote =>
  match UnmarshalLote currentLote with
  | none => (some "Data retrieved from world state was not of type Lote", w)
  | some lote =>
  match GetSubmittingClientIdentity ctx with
  | .error err => (some err, w)
  | .ok advisor =>
  if advisor ≠ lote.Advisor then
    (some "submitting client not authorized to update asset, does not advise asset", w)
  else if lote.LoteState = 5 then
    (some "Lote is destroyed", w)
  else
    let lote := { lote with LoteState := DestroyedLote }
    let w1 := PutState w (Key.simple key) (Record.lote lote)
    let loteIndexKey :=
      CreateCompositeKey lote_index [lote.LoteID, lote.ProductID, lote.ManufactureID]
    (none, DelState w1 loteIndexKey)

def FractionateLote (ctx : Ctx) (w : World) (key newLote1Units newLote2Units newLote1ID
    newLote2ID : String) : Option String × World :=
  match GetState w (Key.simple key) with
  | none => (some "Cannot update lote in world state as key does not exist", w)
  | some currentLote =>
  match UnmarshalLote currentLote with
  | none => (some "Data retrieved from world state was not of type Lote", w)
  | some lote =>
  match GetSubmittingClientIdentity ctx with
  | .error err => (some err, w)
  | .ok advisor =>
  if advisor ≠ lote.Advisor then
    (some "submitting client not authorized to update asset, does not advise asset", w)
  else if lote.LoteState ≠ 2 ∧ lote.LoteState ≠ 6 ∧ lote.LoteState ≠ 0 then
    (some "Lote is not stored", w)
  else
    let unitslote1 := Atoi newLote1Units
    let unitslote2 := Atoi newLote2Units
    let unit := Atoi lote.Units
    if unit ≠ wrap64 (unitslote1 + unitslote2) then
      (some "Lote dont have enough units", w)
    else
      let newLote : Lote :=
        { DocType := "lote", LoteID := newLote1ID, ProductID := lote.ProductID,
          ManufactureID := lote.ManufactureID, OwnerID := lote.OwnerID, Price := lote.Price,
          Units := newLote1Units, Certifications := lote.Certifications,
          Environment := lote.Environment, Components := lote.Components,
          CurrentLocationID := lote.CurrentLocationID, LoteState := lote.LoteState,
          LoteProductState := lote.LoteProductState, Advisor := advisor, FatherID := key }
      match putStateError newLote1ID with
      | some _ => (some "Unable to interact with world state", w)
      | none =>
      let w1 := PutState w (Key.simple newLote1ID) (Record.lote newLote)
      match compositeKeyError lote_index
          [newLote.LoteID, newLote.ProductID, newLote.ManufactureID] with
      | some err => (some err, w1)
      | none =>
      let loteIndexKey :=
        CreateCompositeKey lote_index [newLote.LoteID, newLote.ProductID, newLote.ManufactureID]
      let w2 := PutState w1 loteIndexKey Record.index
      let newLote := { newLote with LoteID := newLote2ID, Units := newLote2Units }
      match putStateError newLote2ID with
      | some _ => (some "Unable to interact with world state", w2)
      | none =>
      let w3 := PutState w2 (Key.simple newLote2ID) (Record.lote newLote)
      match compositeKeyError lote_index
          [newLote.LoteID, newLote.ProductID, newLote.ManufactureID] with
      | some err => (some err, w3)
      | none =>
      let loteIndexKey :=
        CreateCompositeKey lote_index [newLote.LoteID, newLote.ProductID, newLote.ManufactureID]
      let w4 := PutState w3 loteIndexKey Record.index
      LoteDestroyed ctx w4 key

def TransferLote (ctx : Ctx) (w : World) (key currentLocationID newadvisor newowner priceamount
    pricecurrency envTemp envTempMeasurement envHumidity : String) :
    Option String × World :=
  match GetState w (Key.simple key) with
  | none => (some "Cannot update lote in world state as key does not exist", w)
  | some currentLote =>
  match GetState w (Key.simple currentLocationID) with
  | none => (some "Location with key do not exists", w)
  | some _ =>
  match UnmarshalLote currentLote with
  | none => (some "Data retrieved from world state was not of type Lote", w)
  | some lote =>
  match GetSubmittingClientIdentity ctx with
  | .error err => (some err, w)
  | .ok advisor =>
  if advisor ≠ lote.Advisor then
    (some "submitting client not authorized to update asset, does not advise asset", w)
  else
  match GetSubmittingClientOrg ctx with
  | .error err => (some err, w)
  | .ok ownerID =>
  match VerifyClientOrgMatchesPeerOrg ownerID with
  | some err => (some err, w)
  | none =>
  if lote.LoteState ≠ 1 then
    (some "Lote is not transporting", w)
  else
    let lote := { lote with
      LoteState := StoredLote, CurrentLocationID := currentLocationID,
      Environment := ⟨envTemp, envTempMeasurement, envHumidity⟩, OwnerID := newowner,
      Price := ⟨priceamount, pricecurrency⟩, Advisor := newadvisor }
    (none, PutState w (Key.simple key) (Record.lote lote))

def TransshipmentLote (ctx : Ctx) (w : World) (key currentLocationID newadvisor envTemp
    envTempMeasurement envHumidity : String) :
    Option String × World :=
  match GetState w (Key.simple key) with
  | none => (some "Cannot update lote in world state as key does not exist", w)
  | some currentLote =>
  match GetState w (Key.simple currentLocationID) with
  | none => (some "Location with key do not exists", w)
  | some _ =>
  match UnmarshalLote currentLote with
  | none => (some "Data retrieved from world state was not of type Lote", w)
  | some lote =>
  match GetSubmittingClientIdentity ctx with
  | .error err => (some err, w)
  | .ok advisor =>
  if advisor ≠ lote.Advisor then
    (some "submitting client not authorized to update asset, does not advise asset", w)
  else
  if lote.LoteState ≠ 1 then
    (some "Lote is not transporting", w)
  else
    let lote := { lote with
      CurrentLocationID := currentLocationID,
      Environment := ⟨envTemp, envTempMeasurement, envHumidity⟩, Advisor := newadvisor }
    (none, PutState w (Key.simple key) (Record.lote lote))

def ReturnLote (ctx : Ctx) (w : World) (key currentLocationID newadvisor newowner envTemp
    envTempMeasurement envHumidity : String) :
    Option String × World :=
  match GetState w (Key.simple key) with
  | none => (some "Cannot update lote in world state as key does not exist", w)
  | some currentLote =>
  match GetState w (Key.simple currentLocationID) with
  | none => (some "Location with key do not exists", w)
  | some _ =>
  match UnmarshalLote currentLote with
  | none => (some "Data retrieved from world state was not of type Lote", w)
  | some lote =>
  match GetSubmittingClientIdentity ctx with
  | .error err => (some err, w)
  | .ok advisor =>
  if advisor ≠ lote.Advisor then
    (some "submitting client not authorized to update asset, does not advise asset", w)
  else
  match GetSubmittingClientOrg ctx with
  | .error err => (some err, w)
  | .ok ownerID =>
  match VerifyClientOrgMatchesPeerOrg ownerID with
  | some err => (some err, w)
  | none =>
  if lote.LoteState = 4 then
    let lote := { lote with
      LoteState := StoredLote, LoteProductState := LoteProductBroken,
      CurrentLocationID := currentLocationID,
      Environment := ⟨envTemp, envTempMeasurement, envHumidity⟩, OwnerID := newowner,
      Advisor := newadvisor }
    (none, PutState w (Key.simple key) (Record.lote lote))
  else if lote.LoteState = 2 then
    let lote := { lote with
      LoteState := TransportingLote, LoteProductState := LoteProductBroken,
      CurrentLocationID := currentLocationID,
      Environment := ⟨envTemp, envTempMeasurement, envHumidity⟩, OwnerID := newowner,
      Advisor := newadvisor }
    (none, PutState w (Key.simple key) (Record.lote lote))
  else
    (some "Lote is not selled or stored", w)

def PutLoteOnReparation (ctx : Ctx) (w : World) (key currentLocationID newadvisor newowner
    envTemp envTempMeasurement envHumidity : String) :
    Option String × World :=
  match GetState w (Key.simple key) with
  | none => (some "Cannot update lote in world state as key does not exist", w)
  | some currentLote =>
  match GetState w (Key.simple currentLocationID) with
  | none => (some "Location with key do not exists", w)
  | some _ =>
  match UnmarshalLote currentLote with
  | none => (some "Data retrieved from world state was not of type Lote", w)
  | some lote =>
  match GetSubmittingClientIdentity ctx with
  | .error err => (some err, w)
  | .ok advisor =>
  if advisor ≠ lote.Advisor then
    (some "submitting client not authorized to update asset, does not advise asset", w)
  else
  match GetSubmittingClientOrg ctx with
  | .error err => (some err, w)
  | .ok ownerID =>
  match VerifyClientOrgMatchesPeerOrg ownerID with
  | some err => (some err, w)
  | none =>
  if lote.LoteState ≠ 1 then
    (some "Lote is not transporting", w)
  else if lote.LoteProductState ≠ 1 then
    (some "Lote is not broken", w)
  else
    let lote := { lote with
      LoteState := RepairingLote, CurrentLocationID := currentLocationID,
      Environment := ⟨envTemp, envTempMeasurement, envHumidity⟩, OwnerID := newowner,
      Advisor := newadvisor }
    (none, PutState w (Key.simple key) (Record.lote lote))

def RepairLote (ctx : Ctx) (w : World) (key currentLocationID newadvisor envTemp
    envTempMeasurement envHumidity : String) :
    Option String × World :=
  match GetState w (Key.simple key) with
  | none => (some "Cannot update lote in world state as key does not exist", w)
  | some currentLote =>
  match GetState w (Key.simple currentLocationID) with
  | none => (some "Location with key do not exists", w)
  | some _ =>
  match UnmarshalLote currentLote with
  | none => (some "Data retrieved from world state was not of type Lote", w)
  | some lote =>
  match GetSubmittingClientIdentity ctx with
  | .error err => (some err, w)
  | .ok advisor =>
  if advisor ≠ lote.Advisor then
    (some "submitting client not authorized to update asset, does not advise asset", w)
  else
  if lote.LoteState ≠ 3 then
    (some "Lote is not reparing", w)
  else
    let lote := { lote with
      LoteState := TransportingLote, LoteProductState := LoteProductNormal,
      Environment := ⟨envTemp, envTempMeasurement, envHumidity⟩,
      CurrentLocationID := currentLocationID, Advisor := newadvisor }
    (none, PutState w (Key.simple key) (Record.lote lote))

def PutLoteOnUsing (ctx : Ctx) (w : World) (key currentLocationID newadvisor envTemp
    envTempMeasurement envHumidity : String) :
    Option String × World :=
  match GetState w (Key.simple key) with
  | none => (some "Cannot update lote in world state as key does not exist", w)
  | some currentLote =>
  match GetState w (Key.simple currentLocationID) with
  | none => (some "Location with key do not exists", w)
  | some _ =>
  match UnmarshalLote currentLote with
  | none => (some "Data retrieved from world state was not of type Lote", w)
  | some lote =>
  match GetSubmittingClientIdentity ctx with
  | .error err => (some err, w)
  | .ok advisor =>
  if advisor ≠ lote.Advisor then
    (some "submitting client not authorized to update asset, does not advise asset", w)
  else
  if lote.LoteState ≠ 1 ∧ lote.LoteState ≠ 0 then
    (some "Lote is not transporting or manufacturing", w)
  else if lote.LoteProductState = 1 then
    (some "Lote is broken", w)
  else
    let lote := { lote with
      LoteState := UsingLote, CurrentLocationID := currentLocationID,
      Environment := ⟨envTemp, envTempMeasurement, envHumidity⟩, Advisor := newadvisor }
    (none, PutState w (Key.simple key) (Record.lote lote))

def UpdatePrice (ctx : Ctx) (w : World) (key priceamount pricecurrency : String) :
    Option String × World :=
  match GetState w (Key.simple key) with
  | none => (some "Cannot update lote in world state as key does not exist", w)
  | some currentLote =>
  match UnmarshalLote currentLote with
  | none => (some "Data retrieved from world state was not of type Lote", w)
  | some lote =>
  match GetSubmittingClientIdentity ctx with
  | .error err => (some err, w)
  | .ok advisor =>
  if advisor ≠ lote.Advisor then
    (some "submitting client not authorized to update asset, does not advise asset", w)
  else
    let lote := { lote with Price := ⟨priceamount, pricecurrency⟩ }
    (none, PutState w (Key.simple key) (Record.lote lote))

def UpdateAdvisor (ctx : Ctx) (w : World) (key newAdvisor : String) :
    Option String × World :=
  match GetState w (Key.simple key) with
  | none => (some "Cannot update lote in world state as key does not exist", w)
  | some currentLote =>
  match UnmarshalLote currentLote with
  | none => (some "Data retrieved from world state was not of type Lote", w)
  | some lote =>
  match GetSubmittingClientIdentity ctx with
  | .error err => (some err, w)
  | .ok advisor =>
  if advisor ≠ lote.Advisor then
    (some "submitting client not authorized to update asset, does not advise asset", w)
  else
    let lote := { lote with Advisor := advisor }
    (none, PutState w (Key.simple key) (Record.lote lote))

def UpdateEnvironment (ctx : Ctx) (w : World) (key envTemp envTempMeasurement envHumidity : String) :
    Option String × World :=
  match GetState w (Key.simple key) with
  | none => (some "Cannot update lote in world state as key does not exist", w)
  | some currentLote =>
  match UnmarshalLote currentLote with
  | none => (some "Data retrieved from world state was not of type Lote", w)
  | some lote =>
  match GetSubmittingClientIdentity ctx with
  | .error err => (some err, w)
  | .ok advisor =>
  if advisor ≠ lote.Advisor then
    (some "submitting client not authorized to update asset, does not advise asset", w)
  else
    let lote := { lote with Environment := ⟨envTemp, envTempMeasurement, envHumidity⟩ }
    (none, PutState w (Key.simple key) (Record.lote lote))

def SellLote (ctx : Ctx) (w : World) (key priceamount pricecurrency : String) :
    Option String × World :=
  match GetState w (Key.simple key) with
  | none => (some "Cannot update lote in world state as key does not exist", w)
  | some currentLote =>
  match UnmarshalLote currentLote with
  | none => (some "Data retrieved from world state was not of type Lote", w)
  | some lote =>
  match GetSubmittingClientIdentity ctx with
  | .error err => (some err, w)
  | .ok advisor =>
  if advisor ≠ lote.Advisor then
    (some "submitting client not authorized to update asset, does not advise asset", w)
  else
  if lote.LoteState ≠ 2 then
    (some "Lote is not stored", w)
  else
    let lote := { lote with
      Price := ⟨priceamount, pricecurrency⟩, LoteState := SelledLote }
    (none, PutState w (Key.simple key) (Record.lote lote))

def GetLote (w : World) (key : String) : Except String Lote :=
  match GetState w (Key.simple key) with
  | none => .error "Cannot read lote in world state as key does not exist"
  | some currentLote =>
  match UnmarshalLote currentLote with
  | none => .error "Data retrieved from world state was not of type Lote"
  | some lote => .ok lote

def GetLoteUnits (w : World) (key : String) : Except String String :=
  match GetState w (Key.simple key) with
  | none => .error "Cannot read lote in world state as key does not exist"
  | some currentLote =>
  match UnmarshalLote currentLote with
  | none => .error "Data retrieved from world state was not of type Lote"
  | some lote => .ok lote.Units

def GetLoteAdvisor (w : World) (key : String) : Except String String :=
  match GetState w (Key.simple key) with
  | none => .error "Cannot read lote in world state as key does not exist"
  | some currentLote =>
  match UnmarshalLote currentLote with
  | none => .error "Data retrieved from world state was not of type Lote"
  | some lote => .ok lote.Advisor

def IsLoteUsing (w : World) (key : String) : Except String Bool :=
  match GetState w (Key.simple key) with
  | none => .error "Cannot read lote in world state as key does not exist"
  | some currentLote =>
  match UnmarshalLote currentLote with
  | none => .error "Data retrieved from world state was not of type Lote"
  | some lote => .ok (decide (lote.LoteState = 6))

def IsLoteReparing (w : World) (key : String) : Except String Bool :=
  match GetState w (Key.simple key) with
  | none => .error "Cannot read lote in world state as key does not exist"
  | some currentLote =>
  match UnmarshalLote currentLote with
  | none => .error "Data retrieved from world state was not of type Lote"
  | some lote => .ok (decide (lote.LoteState = 3))

def IsLoteStored (w : World) (key : String) : Except String Bool :=
  match GetState w (Key.simple key) with
  | none => .error "Cannot read lote in world state as key does not exist"
  | some currentLote =>
  match UnmarshalLote currentLote with
  | none => .error "Data retrieved from world state was not of type Lote"
  | some lote => .ok (decide (lote.LoteState = 2))

def IsLoteManufacturing (w : World) (key : String) : Except String Bool :=
  match GetState w (Key.simple key) with
  | none => .error "Cannot read lote in world state as key does not exist"
  | some currentLote =>
  match UnmarshalLote currentLote with
  | none => .error "Data retrieved from world state was not of type Lote"
  | some lote => .ok (decide (lote.LoteState = 0))

def IsLoteSelled (w : World) (key : String) : Except String Bool :=
  match GetState w (Key.simple key) with
  | none => .error "Cannot read lote in world state as key does not exist"
  | some currentLote =>
  match UnmarshalLote currentLote with
  | none => .error "Data retrieved from world state was not of type Lote"
  | some lote => .ok (decide (lote.LoteState = 6))

end LoteSmartContract

/-! ## Product contract (`product/sc_product.go`) -/

namespace ProductSmartContract

def ExistsProduct (w : World) (key : String) : Bool :=
  (GetState w (Key.simple key)).isSome

end ProductSmartContract

/-! ## Manufacturing-site contract (`manufacture/sc_manufacture.go`) -/

def manufacture_index : String := "manufacture"

/-- The loop `index_finded := -1; for i := 0; i < len(list); i++ { if loteKey ==
list[i] { index_finded = i; continue } }`, started at index `i` with the
current value `acc` of `index_finded` (`none` is `-1`). -/
def indexFinded (loteKey : String) : List String → Nat → Option Nat → Option Nat
  | [], _, acc => acc
  | x :: rest, i, acc => indexFinded loteKey rest (i + 1) (if loteKey = x then some i else acc)

/-- The loop `for j := 0; j < len(ToUse); j++ { if id == ToUse[j] { ToUse =
append(ToUse[:j], ToUse[j+1:]...) } }`: after a removal at `j` the next element
moves to `j` and the loop goes on at `j+1`, so that element is not compared. -/
def deleteFromToUse (id : String) : List String → List String
  | [] => []
  | [x] => if id = x then [] else [x]
  | x :: y :: rest =>
    if id = x then y :: deleteFromToUse id rest else x :: deleteFromToUse id (y :: rest)

namespace ManufactureSmartContract

def CreateManufacture (ctx : Ctx) (w : World) (key country province latitude
    longitude : String) : Option String × World :=
  match ValidRole ctx "abac.administrator" with
  | some err => (some err, w)
  | none =>
  match GetData w key with
  | some _ => (some "Cannot create new manufacture in world state as key already exists", w)
  | none =>
  match GetSubmittingClientIdentity ctx with
  | .error err => (some err, w)
  | .ok advisor =>
  match GetSubmittingClientOrg ctx with
  | .error err => (some err, w)
  | .ok ownerID =>
  match VerifyClientOrgMatchesPeerOrg ownerID with
  | some err => (some err, w)
  | none =>
    let manufacture : Manufacture :=
      { DocType := "manufacture", ManufactureID := key, OwnerID := ownerID,
        AdvisorID := advisor, Location := ⟨country, province, latitude, longitude⟩,
        Certifications := [], Production := [], ToRepair := [], ToUse := [],
        ManufactureState := OnProductionManufacture }
    match putStateError key with
    | some _ => (some "Unable to interact with world state", w)
    | none =>
    let w1 := PutState w (Key.simple key) (Record.manufacture manufacture)
    match compositeKeyError manufacture_index [manufacture.ManufactureID, manufacture.OwnerID] with
    | some err => (some err, w1)
    | none =>
    let manufactureIndexKey :=
      CreateCompositeKey manufacture_index [manufacture.ManufactureID, manufacture.OwnerID]
    (none, PutState w1 manufactureIndexKey Record.index)

/-- The first loop of `ManufactureCreateLote` ("Verify that exists the
components and units are equal"), from the components still to be checked and
the `list_components_id` collected so far.  An entry without `:` makes
`currentComponent_i[1]` panic, which ends the invocation with an error. -/
def verifyComponents (w : World) (toUse : List String) :
    List String → List String → Except String (List String)
  | [], list_components_id => .ok list_components_id
  | component :: rest, list_components_id =>
    if component = "" then verifyComponents w toUse rest list_components_id
    else
      match Split component ':' with
      | currentComponent_i_id :: unitsStr :: _ =>
        if ¬ LoteSmartContract.ExistsLote w currentComponent_i_id then
          .error "component do not exists"
        else if currentComponent_i_id ∉ toUse then
          .error "component do not finded in lote for use"
        else
          match LoteSmartContract.GetLoteUnits w currentComponent_i_id with
          | .error err => .error err
          | .ok currentLoteUnits =>
            if Atoi currentLoteUnits < Atoi unitsStr then
              .error "It is not enough lote units"
            else if Atoi currentLoteUnits ≠ Atoi unitsStr then
              .error "units in lote do not match with request, fractionate first"
            else verifyComponents w toUse rest (list_components_id ++ [currentComponent_i_id])
      | _ => .error "panic: index out of range [1] with length 1"

/-- The second loop of `ManufactureCreateLote` ("Destroy the components"): the
error, the world state and the site's `ToUse` list when the loop ends. -/
def destroyComponents (ctx : Ctx) :
    List String → World → List String → Option String × World × List String
  | [], w, toUse => (none, w, toUse)
  | id :: rest, w, toUse =>
    if id = "" then destroyComponents ctx rest w toUse
    else
      match LoteSmartContract.LoteDestroyed ctx w id with
      | (some err, w1) => (some err, w1, toUse)
      | (none, w1) => destroyComponents ctx rest w1 (deleteFromToUse id toUse)

def ManufactureCreateLote (ctx : Ctx) (w : World) (key loteKey productID priceamount
    pricecurrency units envTemp envTempMeasurement envHumidity : String)
    (components : List String) : Option String × World :=
  match GetData w key with
  | none => (some "Cannot update manufacture in world state as key does not exist", w)
  | some currentManufacture =>
  match UnmarshalManufacture currentManufacture with
  | none => (some "Data retrieved from world state was not of type Manufacturer", w)
  | some manufacture =>
  match GetSubmittingClientIdentity ctx with
  | .error err => (some err, w)
  | .ok advisor =>
  if advisor ≠ manufacture.AdvisorID then
    (some "submitting client not authorized to update asset, does not advise asset", w)
  else
  match GetSubmittingClientOrg ctx with
  | .error err => (some err, w)
  | .ok ownerID =>
  match VerifyClientOrgMatchesPeerOrg ownerID with
  | some err => (some err, w)
  | none =>
  if manufacture.ManufactureState ≠ 0 then
    (some "Manufacture is not working", w)
  else
  if ¬ ProductSmartContract.ExistsProduct w productID then
    (some "product do not exists", w)
  else
  match verifyComponents w manufacture.ToUse components [] with
  | .error err => (some err, w)
  | .ok list_components_id =>
  match destroyComponents ctx list_components_id w manufacture.ToUse with
  | (some err, w1, _) => (some err, w1)
  | (none, w1, toUse) =>
  let manufacture := { manufacture with ToUse := toUse }
  match LoteSmartContract.CreateLote ctx w1 loteKey productID key pricecurrency priceamount
      units envTemp envTempMeasurement envHumidity list_components_id key with
  | (some err, w2) => (some err, w2)
  | (none, w2) =>
    let manufacture := { manufacture with Production := manufacture.Production ++ [loteKey] }
    (none, PutState w2 (Key.simple key) (Record.manufacture manufacture))

def ManufacturePutLoteInUsing (ctx : Ctx) (w : World) (key loteKey : String) :
    Option String × World :=
  match GetData w key with
  | none => (some "Cannot update manufacture in world state as key does not exist", w)
  | some currentManufacture =>
  match UnmarshalManufacture currentManufacture with
  | none => (some "Data retrieved from world state was not of type Manufacturer", w)
  | some manufacture =>
  match GetSubmittingClientIdentity ctx with
  | .error err => (some err, w)
  | .ok advisor =>
  if advisor ≠ manufacture.AdvisorID then
    (some "submitting client not authorized to update asset, does not advise asset", w)
  else
  if manufacture.ManufactureState ≠ 0 then
    (some "Manufacture is not working", w)
  else
  match LoteSmartContract.GetLoteAdvisor w loteKey with
  | .error err => (some err, w)
  | .ok loteAdvisor =>
  if advisor ≠ loteAdvisor then
    (some "submitting client not authorized to update asset, does not advise asset", w)
  else
  match LoteSmartContract.IsLoteUsing w loteKey with
  | .error err => (some err, w)
  | .ok response =>
  if ¬ response then
    (some "lote is not using", w)
  else
    let manufacture := { manufacture with ToUse := manufacture.ToUse ++ [loteKey] }
    (none, PutState w (Key.simple key) (Record.manufacture manufacture))

def ManufacturePutLoteFromProductionToUsing (ctx : Ctx) (w : World) (key loteKey envTemp
    envTempMeasurement envHumidity : String) : Option String × World :=
  match GetData w key with
  | none => (some "Cannot update manufacture in world state as key does not exist", w)
  | some currentManufacture =>
  match UnmarshalManufacture currentManufacture with
  | none => (some "Data retrieved from world state was not of type Manufacturer", w)
  | some manufacture =>
  match GetSubmittingClientIdentity ctx with
  | .error err => (some err, w)
  | .ok advisor =>
  if advisor ≠ manufacture.AdvisorID then
    (some "submitting client not authorized to update asset, does not advise asset", w)
  else
  if manufacture.ManufactureState ≠ 0 then
    (some "Manufacture is not working", w)
  else
  match indexFinded loteKey manufacture.Production 0 none with
  | none => (some "component do not finded in lotes for use", w)
  | some index_finded =>
  match LoteSmartContract.GetLoteAdvisor w loteKey with
  | .error err => (some err, w)
  | .ok loteAdvisor =>
  if advisor ≠ loteAdvisor then
    (some "submitting client not authorized to update asset, does not advise asset", w)
  else
  match LoteSmartContract.IsLoteManufacturing w loteKey with
  | .error err => (some err, w)
  | .ok response =>
  if ¬ response then
    (some "lote is not manufacturing", w)
  else
  match LoteSmartContract.PutLoteOnUsing ctx w loteKey manufacture.ManufactureID
      manufacture.AdvisorID envTemp envTempMeasurement envHumidity with
  | (some err, w1) => (some err, w1)
  | (none, w1) =>
    let manufacture := { manufacture with
      Production := manufacture.Production.eraseIdx index_finded }
    let manufacture := { manufacture with ToUse := manufacture.ToUse ++ [loteKey] }
    (none, PutState w1 (Key.simple key) (Record.manufacture manufacture))

def ManufacturePutLoteInReparing (ctx : Ctx) (w : World) (key loteKey : String) :
    Option String × World :=
  match GetData w key with
  | none => (some "Cannot update manufacture in world state as key does not exist", w)
  | some currentManufacture =>
  match UnmarshalManufacture currentManufacture with
  | none => (some "Data retrieved from world state was not of type Manufacturer", w)
  | some manufacture =>
  match GetSubmittingClientIdentity ctx with
  | .error err => (some err, w)
  | .ok advisor =>
  if advisor ≠ manufacture.AdvisorID then
    (some "submitting client not authorized to update asset, does not advise asset", w)
  else
  if manufacture.ManufactureState ≠ 0 then
    (some "Manufacture is not working", w)
  else
  match LoteSmartContract.GetLoteAdvisor w loteKey with
  | .error err => (some err, w)
  | .ok loteAdvisor =>
  if advisor ≠ loteAdvisor then
    (some "submitting client not authorized to update asset, does not advise asset", w)
  else
  match LoteSmartContract.IsLoteReparing w loteKey with
  | .error _ => (some "lote is not reparing", w)
  | .ok response =>
  if ¬ response then
    (some "lote is not reparing", w)
  else
    let manufacture := { manufacture with ToRepair := manufacture.ToRepair ++ [loteKey] }
    (none, PutState w (Key.simple key) (Record.manufacture manufacture))

def ManufactureRepairLote (ctx : Ctx) (w : World) (key loteKey newLocation newAdvisor envTemp
    envTempMeasurement envHumidity : String) : Option String × World :=
  match GetData w key with
  | none => (some "Cannot update manufacture in world state as key does not exist", w)
  | some currentManufacture =>
  match UnmarshalManufacture currentManufacture with
  | none => (some "Data retrieved from world state was not of type Manufacturer", w)
  | some manufacture =>
  match GetSubmittingClientIdentity ctx with
  | .error err => (some err, w)
  | .ok advisor =>
  if advisor ≠ manufacture.AdvisorID then
    (some "submitting client not authorized to update asset, does not advise asset", w)
  else
  if manufacture.ManufactureState ≠ 0 then
    (some "Manufacture is not working", w)
  else
  match LoteSmartContract.GetLoteAdvisor w loteKey with
  | .error err => (some err, w)
  | .ok loteAdvisor =>
  if advisor ≠ loteAdvisor then
    (some "submitting client not authorized to update asset, does not advise asset", w)
  else
  match indexFinded loteKey manufacture.ToRepair 0 none with
  | none => (some "component do not finded in lotes for use", w)
  | some index_finded =>
  match LoteSmartContract.RepairLote ctx w loteKey newLocation newAdvisor envTemp
      envTempMeasurement envHumidity with
  | (some err, w1) => (some err, w1)
  | (none, w1) =>
    let manufacture := { manufacture with
      ToRepair := manufacture.ToRepair.eraseIdx index_finded }
    (none, PutState w1 (Key.simple key) (Record.manufacture manufacture))

def ManufactureDestroyLote (ctx : Ctx) (w : World) (key loteKey : String) :
    Option String × World :=
  match GetData w key with
  | none => (some "Cannot update manufacture in world state as key does not exist", w)
  | some currentManufacture =>
  match UnmarshalManufacture currentManufacture with
  | none => (some "Data retrieved from world state was not of type Manufacturer", w)
  | some manufacture =>
  match GetSubmittingClientIdentity ctx with
  | .error err => (some err, w)
  | .ok advisor =>
  if advisor ≠ manufacture.AdvisorID then
    (some "submitting client not authorized to update asset, does not advise asset", w)
  else
  if manufacture.ManufactureState ≠ 0 then
    (some "Manufacture is not working", w)
  else
  match LoteSmartContract.GetLoteAdvisor w loteKey with
  | .error err => (some err, w)
  | .ok loteAdvisor =>
  if advisor ≠ loteAdvisor then
    (some "submitting client not authorized to update asset, does not advise asset", w)
  else
  match indexFinded loteKey manufacture.ToRepair 0 none with
  | none => (some "component do not finded in lotes for use", w)
  | some index_finded =>
  match LoteSmartContract.LoteDestroyed ctx w loteKey with
  | (some err, w1) => (some err, w1)
  | (none, w1) =>
    let manufacture := { manufacture with
      ToRepair := manufacture.ToRepair.eraseIdx index_finded }
    (none, PutState w1 (Key.simple key) (Record.manufacture manufacture))

def ManufactureTransportLote (ctx : Ctx) (w : World) (key loteKey currentLocation newadvisor
    envTemp envTempMeasurement envHumidity : String) : Option String × World :=
  match GetData w key with
  | none => (some "Cannot update manufacture in world state as key does not exist", w)
  | some currentManufacture =>
  match UnmarshalManufacture currentManufacture with
  | none => (some "Data retrieved from world state was not of type Manufacturer", w)
  | some manufacture =>
  match GetSubmittingClientIdentity ctx with
  | .error err => (some err, w)
  | .ok advisor =>
  if advisor ≠ manufacture.AdvisorID then
    (some "submitting client not authorized to update asset, does not advise asset", w)
  else
  if manufacture.ManufactureState ≠ 0 then
    (some "Manufacture is not working", w)
  else
  match LoteSmartContract.GetLoteAdvisor w loteKey with
  | .error err => (some err, w)
  | .ok loteAdvisor =>
  if advisor ≠ loteAdvisor then
    (some "submitting client not authorized to update asset, does not advise asset", w)
  else
  match indexFinded loteKey manufacture.Production 0 none with
  | none => (some "component do not finded in lotes for use", w)
  | some index_finded =>
  match LoteSmartContract.TransportLote ctx w loteKey currentLocation newadvisor envTemp
      envTempMeasurement envHumidity with
  | (some err, w1) => (some err, w1)
  | (none, w1) =>
    let manufacture := { manufacture with
      Production := manufacture.Production.eraseIdx index_finded }
    (none, PutState w1 (Key.simple key) (Record.manufacture manufacture))

end ManufactureSmartContract

/-! ## Transport contract (`transport/sc_transport.go`) -/

namespace TransportSmartContract

def TransportDeliverStoreLote (ctx : Ctx) (w : World) (key loteKey nextLocation newadvisor envTemp
    envTempMeasurement envHumidity capacityUsed : String) :
    Option String × World :=
  match GetData w key with
  | none => (some "Cannot update transport in world state as key does not exist", w)
  | some currentTransport =>
  match UnmarshalTransport currentTransport with
  | none => (some "Data retrieved from world state was not of type Transport", w)
  | some transport =>
  match GetSubmittingClientIdentity ctx with
  | .error err => (some err, w)
  | .ok advisor =>
  if advisor ≠ transport.AdvisorID then
    (some "submitting client not authorized to update asset, does not advise asset", w)
  else
  if transport.TransportState ≠ 2 then
    (some "Transport is not delivering", w)
  else
  match LoteSmartContract.GetLoteAdvisor w loteKey with
  | .error err => (some err, w)
  | .ok loteAdvisor =>
  if advisor ≠ loteAdvisor then
    (some "submitting client not authorized to update asset, does not advise asset", w)
  else
  match indexFinded loteKey transport.Shipment 0 none with
  | none => (some "component do not finded in lotes for use", w)
  | some index_finded =>
  match LoteSmartContract.StoreLote ctx w loteKey nextLocation newadvisor envTemp
      envTempMeasurement envHumidity with
  | (some err, w1) => (some err, w1)
  | (none, w1) =>
    let transport := { transport with Shipment := transport.Shipment.eraseIdx index_finded }
    let transport :=
      if transport.Shipment.length = 0 then
        { transport with TransportState := AvailableTransport }
      else transport
    let transport := { transport with
      Capacity := ⟨transport.Capacity.Units, transport.Capacity.UnitMeasurement, capacityUsed⟩ }
    (none, PutState w1 (Key.simple key) (Record.transport transport))

def TransportDeliverRepairingLote (ctx : Ctx) (w : World) (key loteKey newOwner nextLocation
    newadvisor envTemp envTempMeasurement envHumidity capacityUsed : String) :
    Option String × World :=
  match GetData w key with
  | none => (some "Cannot update transport in world state as key does not exist", w)
  | some currentTransport =>
  match UnmarshalTransport currentTransport with
  | none => (some "Data retrieved from world state was not of type Transport", w)
  | some transport =>
  match GetSubmittingClientIdentity ctx with
  | .error err => (some err, w)
  | .ok advisor =>
  if advisor ≠ transport.AdvisorID then
    (some "submitting client not authorized to update asset, does not advise asset", w)
  else
  if transport.TransportState ≠ 2 then
    (some "Transport is not delivering", w)
  else
  match LoteSmartContract.GetLoteAdvisor w loteKey with
  | .error err => (some err, w)
  | .ok loteAdvisor =>
  if advisor ≠ loteAdvisor then
    (some "submitting client not authorized to update asset, does not advise asset", w)
  else
  match indexFinded loteKey transport.Shipment 0 none with
  | none => (some "component do not finded in lotes for use", w)
  | some index_finded =>
  match LoteSmartContract.PutLoteOnReparation ctx w loteKey nextLocation newadvisor newOwner
      envTemp envTempMeasurement envHumidity with
  | (some err, w1) => (some err, w1)
  | (none, w1) =>
    let transport := { transport with Shipment := transport.Shipment.eraseIdx index_finded }
    let transport :=
      if transport.Shipment.length = 0 then
        { transport with TransportState := AvailableTransport }
      else transport
    let transport := { transport with
      Capacity := ⟨transport.Capacity.Units, transport.Capacity.UnitMeasurement, capacityUsed⟩ }
    (none, PutState w1 (Key.simple key) (Record.transport transport))

def TransportDeliverUsingLote (ctx : Ctx) (w : World) (key loteKey nextLocation newadvisor envTemp
    envTempMeasurement envHumidity capacityUsed : String) :
    Option String × World :=
  match GetData w key with
  | none => (some "Cannot update transport in world state as key does not exist", w)
  | some currentTransport =>
  match UnmarshalTransport currentTransport with
  | none => (some "Data retrieved from world state was not of type Transport", w)
  | some transport =>
  match GetSubmittingClientIdentity ctx with
  | .error err => (some err, w)
  | .ok advisor =>
  if advisor ≠ transport.AdvisorID then
    (some "submitting client not authorized to update asset, does not advise asset", w)
  else
  if transport.TransportState ≠ 2 then
    (some "Transport is not delivering", w)
  else
  match LoteSmartContract.GetLoteAdvisor w loteKey with
  | .error err => (some err, w)
  | .ok loteAdvisor =>
  if advisor ≠ loteAdvisor then
    (some "submitting client not authorized to update asset, does not advise asset", w)
  else
  match indexFinded loteKey transport.Shipment 0 none with
  | none => (some "component do not finded in lotes for use", w)
  | some index_finded =>
  match LoteSmartContract.PutLoteOnUsing ctx w loteKey nextLocation newadvisor envTemp
      envTempMeasurement envHumidity with
  | (some err, w1) => (some err, w1)
  | (none, w1) =>
    let transport := { transport with Shipment := transport.Shipment.eraseIdx index_finded }
    let transport :=
      if transport.Shipment.length = 0 then
        { transport with TransportState := AvailableTransport }
      else transport
    let transport := { transport with
      Capacity := ⟨transport.Capacity.Units, transport.Capacity.UnitMeasurement, capacityUsed⟩ }
    (none, PutState w1 (Key.simple key) (Record.transport transport))

def TransportDeliverTransferLote (ctx : Ctx) (w : World) (key loteKey newOwner nextLocation
    priceamount pricecurrency newadvisor envTemp envTempMeasurement envHumidity capacityUsed : String) :
    Option String × World :=
  match GetData w key with
  | none => (some "Cannot update transport in world state as key does not exist", w)
  | some currentTransport =>
  match UnmarshalTransport currentTransport with
  | none => (some "Data retrieved from world state was not of type Transport", w)
  | some transport =>
  match GetSubmittingClientIdentity ctx with
  | .error err => (some err, w)
  | .ok advisor =>
  if advisor ≠ transport.AdvisorID then
    (some "submitting client not authorized to update asset, does not advise asset", w)
  else
  if transport.TransportState ≠ 2 then
    (some "Transport is not delivering", w)
  else
  match LoteSmartContract.GetLoteAdvisor w loteKey with
  | .error err => (some err, w)
  | .ok loteAdvisor =>
  if advisor ≠ loteAdvisor then
    (some "submitting client not authorized to update asset, does not advise asset", w)
  else
  match indexFinded loteKey transport.Shipment 0 none with
  | none => (some "component do not finded in lotes for use", w)
  | some index_finded =>
  match LoteSmartContract.TransferLote ctx w loteKey nextLocation newadvisor newOwner
      priceamount pricecurrency envTemp envTempMeasurement envHumidity with
  | (some err, w1) => (some err, w1)
  | (none, w1) =>
    let transport := { transport with Shipment := transport.Shipment.eraseIdx index_finded }
    let transport :=
      if transport.Shipment.length = 0 then
        { transport with TransportState := AvailableTransport }
      else transport
    let transport := { transport with
      Capacity := ⟨transport.Capacity.Units, transport.Capacity.UnitMeasurement, capacityUsed⟩ }
    (none, PutState w1 (Key.simple key) (Record.transport transport))

def TransportDeliverTransshipmentLote (ctx : Ctx) (w : World) (key loteKey nextLocation newadvisor
    envTemp envTempMeasurement envHumidity capacityUsed : String) :
    Option String × World :=
  match GetData w key with
  | none => (some "Cannot update transport in world state as key does not exist", w)
  | some currentTransport =>
  match UnmarshalTransport currentTransport with
  | none => (some "Data retrieved from world state was not of type Transport", w)
  | some transport =>
  match GetSubmittingClientIdentity ctx with
  | .error err => (some err, w)
  | .ok advisor =>
  if advisor ≠ transport.AdvisorID then
    (some "submitting client not authorized to update asset, does not advise asset", w)
  else
  if transport.TransportState ≠ 2 then
    (some "Transport is not delivering", w)
  else
  match LoteSmartContract.GetLoteAdvisor w loteKey with
  | .error err => (some err, w)
  | .ok loteAdvisor =>
  if advisor ≠ loteAdvisor then
    (some "submitting client not authorized to update asset, does not advise asset", w)
  else
  match indexFinded loteKey transport.Shipment 0 none with
  | none => (some "component do not finded in lotes for use", w)
  | some index_finded =>
  match LoteSmartContract.TransshipmentLote ctx w loteKey nextLocation newadvisor envTemp
      envTempMeasurement envHumidity with
  | (some err, w1) => (some err, w1)
  | (none, w1) =>
    let transport := { transport with Shipment := transport.Shipment.eraseIdx index_finded }
    let transport :=
      if transport.Shipment.length = 0 then
        { transport with TransportState := AvailableTransport }
      else transport
    let transport := { transport with
      Capacity := ⟨transport.Capacity.Units, transport.Capacity.UnitMeasurement, capacityUsed⟩ }
    (none, PutState w1 (Key.simple key) (Record.transport transport))

end TransportSmartContract

/-! ## Product contract, operations -/

def product_index : String := "product"

namespace ProductSmartContract

def CreateProduct (ctx : Ctx) (w : World) (key productName description brandname brandlogo
    core variety productImage Weight WeightMeasurement Volumen VolumenMeasurement Units
    PackDimentionWidth PackDimentionHeight PackDimentionDeep PackDimentionMeasurement
    DisplaySpaceWidth DisplaySpaceHeight DisplaySpaceDeep DisplaySpaceMeasurement packageType
    manufactureDetails manufacturer : String) (components : List String) :
    Option String × World :=
  match ValidRole ctx "abac.manufacturer_administrator" with
  | some err => (some err, w)
  | none =>
  match GetState w (Key.simple key) with
  | some _ => (some "Cannot create new product in world state as key already exists", w)
  | none =>
  match GetSubmittingClientIdentity ctx with
  | .error err => (some err, w)
  | .ok advisor =>
    let product : Product :=
      { DocType := "product", ProductID := key, ProductName := productName,
        Description := description, Brand := ⟨brandname, brandlogo⟩, Core := core,
        Variety := variety, ProductImage := productImage,
        NetContent := ⟨Weight, WeightMeasurement, Volumen, VolumenMeasurement, Units⟩,
        WidthAndHeight :=
          ⟨PackDimentionWidth, PackDimentionHeight, PackDimentionDeep,
            PackDimentionMeasurement⟩,
        DisplaySpace :=
          ⟨DisplaySpaceWidth, DisplaySpaceHeight, DisplaySpaceDeep, DisplaySpaceMeasurement⟩,
        PackageType := packageType, Certifications := [],
        ManufactureDetails := manufactureDetails, Manufacturer := manufacturer,
        Components := components, Advisor := advisor, ProductState := OnTestingProduct }
    match putStateError key with
    | some _ => (some "Unable to interact with world state", w)
    | none =>
    let w1 := PutState w (Key.simple key) (Record.product product)
    match compositeKeyError product_index
        [product.ProductID, product.ProductName, product.Variety] with
    | some err => (some err, w1)
    | none =>
    let productIndexKey :=
      CreateCompositeKey product_index
        [product.ProductID, product.ProductName, product.Variety]
    (none, PutState w1 productIndexKey Record.index)

def Certify (ctx : Ctx) (w : World) (key issuer certificationtype result : String) : Option String × World :=
  match GetState w (Key.simple key) with
  | none => (some "Cannot update product in world state as key does not exist", w)
  | some currentProduct =>
  match UnmarshalProduct currentProduct with
  | none => (some "Data retrieved from world state was not of type Product", w)
  | some product =>
  if product.ProductState ≠ 0 then
    (some "Product is not on testing", w)
  else
  match GetSubmittingClientIdentity ctx with
  | .error err => (some err, w)
  | .ok advisor =>
  if advisor ≠ product.Advisor then
    (some "submitting client not authorized to update asset, does not advise asset", w)
  else
    let product := { product with Certifications := product.Certifications ++ [⟨issuer, certificationtype, result⟩] }
    (none, PutState w (Key.simple key) (Record.product product))

def ProductOnProduction (ctx : Ctx) (w : World) (key : String) : Option String × World :=
  match GetState w (Key.simple key) with
  | none => (some "Cannot update product in world state as key does not exist", w)
  | some currentProduct =>
  match UnmarshalProduct currentProduct with
  | none => (some "Data retrieved from world state was not of type Product", w)
  | some product =>
  if product.ProductState ≠ 0 then
    (some "Product is not on testing", w)
  else
  match GetSubmittingClientIdentity ctx with
  | .error err => (some err, w)
  | .ok advisor =>
  if advisor ≠ product.Advisor then
    (some "submitting client not authorized to update asset, does not advise asset", w)
  else
    let product := { product with ProductState := OnProductionProduct }
    (none, PutState w (Key.simple key) (Record.product product))

def ProductDiscontinued (ctx : Ctx) (w : World) (key : String) : Option String × World :=
  match GetState w (Key.simple key) with
  | none => (some "Cannot update product in world state as key does not exist", w)
  | some currentProduct =>
  match UnmarshalProduct currentProduct with
  | none => (some "Data retrieved from world state was not of type Product", w)
  | some product =>
  if product.ProductState ≠ 1 then
    (some "Product is not on production", w)
  else
  match GetSubmittingClientIdentity ctx with
  | .error err => (some err, w)
  | .ok advisor =>
  if advisor ≠ product.Advisor then
    (some "submitting client not authorized to update asset, does not advise asset", w)
  else
    let product := { product with ProductState := DiscontinuedProduct }
    (none, PutState w (Key.simple key) (Record.product product))

def ProductContinued (ctx : Ctx) (w : World) (key : String) : Option String × World :=
  match GetState w (Key.simple key) with
  | none => (some "Cannot update product in world state as key does not exist", w)
  | some currentProduct =>
  match UnmarshalProduct currentProduct with
  | none => (some "Data retrieved from world state was not of type Product", w)
  | some product =>
  if product.ProductState ≠ 2 then
    (some "Product is not discontinued", w)
  else
  match GetSubmittingClientIdentity ctx with
  | .error err => (some err, w)
  | .ok advisor =>
  if advisor ≠ product.Advisor then
    (some "submitting client not authorized to update asset, does not advise asset", w)
  else
    let product := { product with ProductState := OnProductionProduct }
    (none, PutState w (Key.simple key) (Record.product product))

/-- The source calls `product.ProductIsDiscontinued()` here; the method
`ProductIsDesTroyed` of `model.go` is never called. -/
def ProductDestroyed (ctx : Ctx) (w : World) (key : String) : Option String × World :=
  match GetState w (Key.simple key) with
  | none => (some "Cannot update product in world state as key does not exist", w)
  | some currentProduct =>
  match UnmarshalProduct currentProduct with
  | none => (some "Data retrieved from world state was not of type Product", w)
  | some product =>
  if product.ProductState ≠ 2 then
    (some "Product is not discontinued", w)
  else
  match GetSubmittingClientIdentity ctx with
  | .error err => (some err, w)
  | .ok advisor =>
  if advisor ≠ product.Advisor then
    (some "submitting client not authorized to update asset, does not advise asset", w)
  else
    let product := { product with ProductState := DiscontinuedProduct }
    let w1 := PutState w (Key.simple key) (Record.product product)
    let productIndexKey :=
      CreateCompositeKey product_index
        [product.ProductID, product.ProductName, product.Variety]
    (none, DelState w1 productIndexKey)

def GetProductAdvisor (w : World) (key : String) : Except String String :=
  match GetState w (Key.simple key) with
  | none => .error "Cannot read product in world state as key does not exist"
  | some currentProduct =>
  match UnmarshalProduct currentProduct with
  | none => .error "Data retrieved from world state was not of type Product"
  | some product => .ok product.Advisor

end ProductSmartContract

/-! ## Manufacturing-site contract, further operations -/

namespace ManufactureSmartContract

def ManufactureInspection (ctx : Ctx) (w : World) (key issuer certificationtype
    result : String) : Option String × World :=
  match GetData w key with
  | none => (some "Cannot update manufacture in world state as key does not exist", w)
  | some currentManufacture =>
  match UnmarshalManufacture currentManufacture with
  | none => (some "Data retrieved from world state was not of type Manufacturer", w)
  | some manufacture =>
  match GetSubmittingClientIdentity ctx with
  | .error err => (some err, w)
  | .ok advisor =>
  if advisor ≠ manufacture.AdvisorID then
    (some "submitting client not authorized to update asset, does not advise asset", w)
  else
  if manufacture.ManufactureState = 2 then
    (some "Manufacture is destroyed", w)
  else
    let certification : Certification := ⟨issuer, certificationtype, result⟩
    let manufacture := { manufacture with
      Certifications := manufacture.Certifications ++ [certification] }
    (none, PutState w (Key.simple key) (Record.manufacture manufacture))

/-- The loop `for i := 0; i < len(components); i++ { if !ExistsProduct(ctx,
components[i]) { return error } }` of `ManufactureCreateProduct`. -/
def verifyProductComponents (w : World) : List String → Option String
  | [] => none
  | component :: rest =>
    if ¬ ProductSmartContract.ExistsProduct w component then
      some "component do not exists"
    else verifyProductComponents w rest

def ManufactureCreateProduct (ctx : Ctx) (w : World) (key productKey productName description
    brandname brandlogo core variety productImage Weight WeightMeasurement Volumen
    VolumenMeasurement Units PackDimentionWidth PackDimentionHeight PackDimentionDeep
    PackDimentionMeasurement DisplaySpaceWidth DisplaySpaceHeight DisplaySpaceDeep
    DisplaySpaceMeasurement packageType manufactureDetails : String)
    (components : List String) : Option String × World :=
  match GetData w key with
  | none => (some "Cannot update manufacture in world state as key does not exist", w)
  | some currentManufacture =>
  match UnmarshalManufacture currentManufacture with
  | none => (some "Data retrieved from world state was not of type Manufacturer", w)
  | some manufacture =>
  match GetSubmittingClientIdentity ctx with
  | .error err => (some err, w)
  | .ok advisor =>
  if advisor ≠ manufacture.AdvisorID then
    (some "submitting client not authorized to update asset, does not advise asset", w)
  else
  if manufacture.ManufactureState ≠ 0 then
    (some "Manufacture is not working", w)
  else
  match verifyProductComponents w components with
  | some err => (some err, w)
  | none =>
  match ProductSmartContract.CreateProduct ctx w productKey productName description brandname
      brandlogo core variety productImage Weight WeightMeasurement Volumen VolumenMeasurement
      Units PackDimentionWidth PackDimentionHeight PackDimentionDeep PackDimentionMeasurement
      DisplaySpaceWidth DisplaySpaceHeight DisplaySpaceDeep DisplaySpaceMeasurement
      packageType manufactureDetails key components with
  | (some err, w1) => (some err, w1)
  | (none, w1) => (none, w1)

def ManufactureCertifyProduct (ctx : Ctx) (w : World) (key productKey issuer certificationtype
    result : String) :
    Option String × World :=
  match GetData w key with
  | none => (some "Cannot update manufacture in world state as key does not exist", w)
  | some currentManufacture =>
  match UnmarshalManufacture currentManufacture with
  | none => (some "Data retrieved from world state was not of type Manufacturer", w)
  | some manufacture =>
  match GetSubmittingClientIdentity ctx with
  | .error err => (some err, w)
  | .ok advisor =>
  if advisor ≠ manufacture.AdvisorID then
    (some "submitting client not authorized to update asset, does not advise asset", w)
  else
  if manufacture.ManufactureState ≠ 0 then
    (some "Manufacture is not working", w)
  else
  match ProductSmartContract.GetProductAdvisor w productKey with
  | .error err => (some err, w)
  | .ok productAdvisor =>
  if advisor ≠ productAdvisor then
    (some "submitting client not authorized to update asset, does not advise asset", w)
  else
  match ProductSmartContract.Certify ctx w productKey issuer certificationtype result with
  | (some err, w1) => (some err, w1)
  | (none, w1) => (none, w1)

def ManufactureStartProductionProduct (ctx : Ctx) (w : World) (key productKey : String) :
    Option String × World :=
  match GetData w key with
  | none => (some "Cannot update manufacture in world state as key does not exist", w)
  | some currentManufacture =>
  match UnmarshalManufacture currentManufacture with
  | none => (some "Data retrieved from world state was not of type Manufacturer", w)
  | some manufacture =>
  match GetSubmittingClientIdentity ctx with
  | .error err => (some err, w)
  | .ok advisor =>
  if advisor ≠ manufacture.AdvisorID then
    (some "submitting client not authorized to update asset, does not advise asset", w)
  else
  if manufacture.ManufactureState ≠ 0 then
    (some "Manufacture is not working", w)
  else
  match ProductSmartContract.GetProductAdvisor w productKey with
  | .error err => (some err, w)
  | .ok productAdvisor =>
  if advisor ≠ productAdvisor then
    (some "submitting client not authorized to update asset, does not advise asset", w)
  else
  match ProductSmartContract.ProductOnProduction ctx w productKey with
  | (some err, w1) => (some err, w1)
  | (none, w1) => (none, w1)

/-- The source assigns the result of `ProductDiscontinued` to `err` and then
assigns `err` again from `GetProductAdvisor`, so the error of the delegated
call is never looked at; `w1` is the world state the delegated call left. -/
def ManufactureDiscontinuetionProduct (ctx : Ctx) (w : World) (key productKey : String) :
    Option String × World :=
  match GetData w key with
  | none => (some "Cannot update manufacture in world state as key does not exist", w)
  | some currentManufacture =>
  match UnmarshalManufacture currentManufacture with
  | none => (some "Data retrieved from world state was not of type Manufacturer", w)
  | some manufacture =>
  match GetSubmittingClientIdentity ctx with
  | .error err => (some err, w)
  | .ok advisor =>
  if advisor ≠ manufacture.AdvisorID then
    (some "submitting client not authorized to update asset, does not advise asset", w)
  else
  if manufacture.ManufactureState ≠ 0 then
    (some "Manufacture is not working", w)
  else
  let w1 := (ProductSmartContract.ProductDiscontinued ctx w productKey).2
  match ProductSmartContract.GetProductAdvisor w1 productKey with
  | .error err => (some err, w1)
  | .ok productAdvisor =>
  if advisor ≠ productAdvisor then
    (some "submitting client not authorized to update asset, does not advise asset", w1)
  else (none, w1)

def ManufactureContinueProduct (ctx : Ctx) (w : World) (key productKey : String) :
    Option String × World :=
  match GetData w key with
  | none => (some "Cannot update manufacture in world state as key does not exist", w)
  | some currentManufacture =>
  match UnmarshalManufacture currentManufacture with
  | none => (some "Data retrieved from world state was not of type Manufacturer", w)
  | some manufacture =>
  match GetSubmittingClientIdentity ctx with
  | .error err => (some err, w)
  | .ok advisor =>
  if advisor ≠ manufacture.AdvisorID then
    (some "submitting client not authorized to update asset, does not advise asset", w)
  else
  if manufacture.ManufactureState ≠ 0 then
    (some "Manufacture is not working", w)
  else
  match ProductSmartContract.GetProductAdvisor w productKey with
  | .error err => (some err, w)
  | .ok productAdvisor =>
  if advisor ≠ productAdvisor then
    (some "submitting client not authorized to update asset, does not advise asset", w)
  else
  match ProductSmartContract.ProductContinued ctx w productKey with
  | (some err, w1) => (some err, w1)
  | (none, w1) => (none, w1)

def ManufactureDestroyProduct (ctx : Ctx) (w : World) (key productKey : String) :
    Option String × World :=
  match GetData w key with
  | none => (some "Cannot update manufacture in world state as key does not exist", w)
  | some currentManufacture =>
  match UnmarshalManufacture currentManufacture with
  | none => (some "Data retrieved from world state was not of type Manufacturer", w)
  | some manufacture =>
  match GetSubmittingClientIdentity ctx with
  | .error err => (some err, w)
  | .ok advisor =>
  if advisor ≠ manufacture.AdvisorID then
    (some "submitting client not authorized to update asset, does not advise asset", w)
  else
  if manufacture.ManufactureState ≠ 0 then
    (some "Manufacture is not working", w)
  else
  match ProductSmartContract.GetProductAdvisor w productKey with
  | .error err => (some err, w)
  | .ok productAdvisor =>
  if advisor ≠ productAdvisor then
    (some "submitting client not authorized to update asset, does not advise asset", w)
  else
  match ProductSmartContract.ProductDestroyed ctx w productKey with
  | (some err, w1) => (some err, w1)
  | (none, w1) => (none, w1)

/-- The loop of `ManufactureFractionateLoteForUse` over `list_components`,
from index `i`: the error, the world state and the site's `ToUse` list when the
loop ends.  An entry without `:` and a missing entry `2*i` or `2*i+1` of
`list_componentNames` make the index expression panic, which ends the
invocation with an error. -/
def fractionateComponents (ctx : Ctx) (list_componentNames : List String) :
    List String → Nat → World → List String → Option String × World × List String
  | [], _, w, toUse => (none, w, toUse)
  | component :: rest, i, w, toUse =>
    if component = "" then fractionateComponents ctx list_componentNames rest (i + 1) w toUse
    else
      match Split component ':' with
      | currentComponent_i_id :: currentComponent_i_units_str :: _ =>
        if ¬ LoteSmartContract.ExistsLote w currentComponent_i_id then
          (some "component do not exists", w, toUse)
        else
          match indexFinded currentComponent_i_id toUse 0 none with
          | none => (some "component do not finded in lote for use", w, toUse)
          | some finded =>
            match LoteSmartContract.GetLoteUnits w currentComponent_i_id with
            | .error err => (some err, w, toUse)
            | .ok currentLoteUnits =>
              if Atoi currentLoteUnits < Atoi currentComponent_i_units_str then
                (some "It is not enough lote units", w, toUse)
              else if Atoi currentLoteUnits > Atoi currentComponent_i_units_str then
                let new_component_units :=
                  Itoa (wrap64 (Atoi currentLoteUnits - Atoi currentComponent_i_units_str))
                match list_componentNames[2 * i]?, list_componentNames[2 * i + 1]? with
                | some name1, some name2 =>
                  match LoteSmartContract.FractionateLote ctx w currentComponent_i_id
                      currentComponent_i_units_str new_component_units name1 name2 with
                  | (some err, w1) => (some err, w1, toUse)
                  | (none, w1) =>
                    fractionateComponents ctx list_componentNames rest (i + 1) w1
                      (toUse.eraseIdx finded ++ [name1, name2])
                | _, _ => (some "panic: index out of range", w, toUse)
              else fractionateComponents ctx list_componentNames rest (i + 1) w toUse
      | _ => (some "panic: index out of range [1] with length 1", w, toUse)

def ManufactureFractionateLoteForUse (ctx : Ctx) (w : World) (key components
    newComponentNames : String) : Option String × World :=
  match GetData w key with
  | none => (some "Cannot update manufacture in world state as key does not exist", w)
  | some currentManufacture =>
  match UnmarshalManufacture currentManufacture with
  | none => (some "Data retrieved from world state was not of type Manufacturer", w)
  | some manufacture =>
  match GetSubmittingClientIdentity ctx with
  | .error err => (some err, w)
  | .ok advisor =>
  if advisor ≠ manufacture.AdvisorID then
    (some "submitting client not authorized to update asset, does not advise asset", w)
  else
  match GetSubmittingClientOrg ctx with
  | .error err => (some err, w)
  | .ok ownerID =>
  match VerifyClientOrgMatchesPeerOrg ownerID with
  | some err => (some err, w)
  | none =>
  if manufacture.ManufactureState ≠ 0 then
    (some "Manufacture is not working", w)
  else
  let list_components := if components ≠ "" then Split components ',' else []
  let list_componentNames := if newComponentNames ≠ "" then Split newComponentNames ',' else []
  match fractionateComponents ctx list_componentNames list_components 0 w
      manufacture.ToUse with
  | (some err, w1, _) => (some err, w1)
  | (none, w1, toUse) =>
    let manufacture := { manufacture with ToUse := toUse }
    (none, PutState w1 (Key.simple key) (Record.manufacture manufacture))

def ManufactureInspectionLote (ctx : Ctx) (w : World) (key loteKey issuer certificationtype
    result : String) : Option String × World :=
  match GetData w key with
  | none => (some "Cannot update manufacture in world state as key does not exist", w)
  | some currentManufacture =>
  match UnmarshalManufacture currentManufacture with
  | none => (some "Data retrieved from world state was not of type Manufacturer", w)
  | some manufacture =>
  match GetSubmittingClientIdentity ctx with
  | .error err => (some err, w)
  | .ok advisor =>
  if advisor ≠ manufacture.AdvisorID then
    (some "submitting client not authorized to update asset, does not advise asset", w)
  else
  if manufacture.ManufactureState ≠ 0 then
    (some "Manufacture is not working", w)
  else
  match LoteSmartContract.GetLoteAdvisor w loteKey with
  | .error err => (some err, w)
  | .ok loteAdvisor =>
  if advisor ≠ loteAdvisor then
    (some "submitting client not authorized to update asset, does not advise asset", w)
  else
  match LoteSmartContract.LoteInspection ctx w loteKey issuer certificationtype result with
  | (some err, w1) => (some err, w1)
  | (none, w1) => (none, w1)

def ManufactureUpdateAdvisor (ctx : Ctx) (w : World) (key newAdvisor : String) :
    Option String × World :=
  match GetData w key with
  | none => (some "Cannot update manufacture in world state as key does not exist", w)
  | some currentManufacture =>
  match UnmarshalManufacture currentManufacture with
  | none => (some "Data retrieved from world state was not of type Manufacturer", w)
  | some manufacture =>
  match GetSubmittingClientIdentity ctx with
  | .error err => (some err, w)
  | .ok advisor =>
  if advisor ≠ manufacture.AdvisorID then
    (some "submitting client not authorized to update asset, does not advise asset", w)
  else
  if manufacture.ManufactureState ≠ 0 then
    (some "Manufacture is not working", w)
  else
    let manufacture := { manufacture with AdvisorID := newAdvisor }
    (none, PutState w (Key.simple key) (Record.manufacture manufacture))

def ManufactureBroken (ctx : Ctx) (w : World) (key : String) : Option String × World :=
  match GetData w key with
  | none => (some "Cannot update manufacture in world state as key does not exist", w)
  | some currentManufacture =>
  match UnmarshalManufacture currentManufacture with
  | none => (some "Data retrieved from world state was not of type Manufacturer", w)
  | some manufacture =>
  match GetSubmittingClientIdentity ctx with
  | .error err => (some err, w)
  | .ok advisor =>
  if advisor ≠ manufacture.AdvisorID then
    (some "submitting client not authorized to update asset, does not advise asset", w)
  else
  if manufacture.ManufactureState ≠ 0 then
    (some "Manufacture is not working", w)
  else
    let manufacture := { manufacture with ManufactureState := BrokenManufacture }
    (none, PutState w (Key.simple key) (Record.manufacture manufacture))

def ManufactureReadyToProduce (ctx : Ctx) (w : World) (key : String) :
    Option String × World :=
  match GetData w key with
  | none => (some "Cannot update manufacture in world state as key does not exist", w)
  | some currentManufacture =>
  match UnmarshalManufacture currentManufacture with
  | none => (some "Data retrieved from world state was not of type Manufacturer", w)
  | some manufacture =>
  match GetSubmittingClientIdentity ctx with
  | .error err => (some err, w)
  | .ok advisor =>
  if advisor ≠ manufacture.AdvisorID then
    (some "submitting client not authorized to update asset, does not advise asset", w)
  else
  if manufacture.ManufactureState ≠ 1 then
    (some "Manufacture is not broken", w)
  else
    let manufacture := { manufacture with ManufactureState := OnProductionManufacture }
    (none, PutState w (Key.simple key) (Record.manufacture manufacture))

def ManufactureDestroyed (ctx : Ctx) (w : World) (key : String) : Option String × World :=
  match GetData w key with
  | none => (some "Cannot update manufacture in world state as key does not exist", w)
  | some currentManufacture =>
  match UnmarshalManufacture currentManufacture with
  | none => (some "Data retrieved from world state was not of type Manufacturer", w)
  | some manufacture =>
  match GetSubmittingClientIdentity ctx with
  | .error err => (some err, w)
  | .ok advisor =>
  if advisor ≠ manufacture.AdvisorID then
    (some "submitting client not authorized to update asset, does not advise asset", w)
  else
  if manufacture.ManufactureState ≠ 1 then
    (some "Manufacture is not broken", w)
  else
    let manufacture := { manufacture with ManufactureState := DestroyedManufacture }
    let w1 := PutState w (Key.simple key) (Record.manufacture manufacture)
    let manufactureIndexKey :=
      CreateCompositeKey manufacture_index [manufacture.ManufactureID, manufacture.OwnerID]
    (none, DelState w1 manufactureIndexKey)

end ManufactureSmartContract

/-! ## Transport contract, further operations -/

def transport_index : String := "transport"

namespace TransportSmartContract

/-- The source builds the capacity from the fields of the new, zero-valued
transport: `Capacity{transport.Capacity.Units,
transport.Capacity.UnitMeasurement, capacityUsed}`. -/
def CreateTransport (ctx : Ctx) (w : World) (key capacityUnits capacityUnitMeasurement
    capacityUsed country province lat lon transportType : String) : Option String × World :=
  match ValidRole ctx "abac.administrator" with
  | some err => (some err, w)
  | none =>
  match GetData w key with
  | some _ => (some "Cannot create new transport in world state as key alredy exists", w)
  | none =>
  match GetSubmittingClientIdentity ctx with
  | .error err => (some err, w)
  | .ok advisor =>
  match GetSubmittingClientOrg ctx with
  | .error err => (some err, w)
  | .ok ownerID =>
  match VerifyClientOrgMatchesPeerOrg ownerID with
  | some err => (some err, w)
  | none =>
    let transport : Transport :=
      { Transport.zero with
        DocType := "transport", TransportID := key, AdvisorID := advisor, OwnerID := ownerID,
        Capacity :=
          ⟨Transport.zero.Capacity.Units, Transport.zero.Capacity.UnitMeasurement,
            capacityUsed⟩,
        Location := ⟨country, province, lat, lon⟩, Certifications := [], Shipment := [],
        TransportType := transportType, TransportState := AvailableTransport }
    match putStateError key with
    | some _ => (some "Unable to interact with world state", w)
    | none =>
    let w1 := PutState w (Key.simple key) (Record.transport transport)
    match compositeKeyError transport_index [transport.TransportID, transport.OwnerID] with
    | some err => (some err, w1)
    | none =>
    let transportIndexKey :=
      CreateCompositeKey transport_index [transport.TransportID, transport.OwnerID]
    (none, PutState w1 transportIndexKey Record.index)

def TransportInspection (ctx : Ctx) (w : World) (key issuer certificationtype
    result : String) : Option String × World :=
  match GetData w key with
  | none => (some "Cannot update transport in world state as key does not exist", w)
  | some currentTransport =>
  match UnmarshalTransport currentTransport with
  | none => (some "Data retrieved from world state was not of type Transport", w)
  | some transport =>
  match GetSubmittingClientIdentity ctx with
  | .error err => (some err, w)
  | .ok advisor =>
  if advisor ≠ transport.AdvisorID then
    (some "submitting client not authorized to update asset, does not advise asset", w)
  else
  if transport.TransportState ≠ 0 then
    (some "Transport is not available", w)
  else
    let transport := { transport with
      Certifications := transport.Certifications ++ [⟨issuer, certificationtype, result⟩] }
    (none, PutState w (Key.simple key) (Record.transport transport))

def UpdateTransportAdvisor (ctx : Ctx) (w : World) (key newAdvisor : String) :
    Option String × World :=
  match GetData w key with
  | none => (some "Cannot update transport in world state as key does not exist", w)
  | some currentTransport =>
  match UnmarshalTransport currentTransport with
  | none => (some "Data retrieved from world state was not of type Transport", w)
  | some transport =>
  match GetSubmittingClientIdentity ctx with
  | .error err => (some err, w)
  | .ok advisor =>
  if advisor ≠ transport.AdvisorID then
    (some "submitting client not authorized to update asset, does not advise asset", w)
  else
  if transport.TransportState ≠ 4 then
    (some "Transport is not available", w)
  else
    let transport := { transport with AdvisorID := newAdvisor }
    (none, PutState w (Key.simple key) (Record.transport transport))

/-- The loop of `LoadLoteInTransport` that reads the advisor of every lot of
the batch. -/
def verifyLoteAdvisors (w : World) (advisor : String) : List String → Option String
  | [] => none
  | id :: rest =>
    match LoteSmartContract.GetLoteAdvisor w id with
    | .error err => some err
    | .ok loteAdvisor =>
      if advisor ≠ loteAdvisor then
        some "submitting client not authorized to update asset, does not advise asset"
      else verifyLoteAdvisors w advisor rest

def LoadLoteInTransport (ctx : Ctx) (w : World) (key capacityUsed lotes : String) :
    Option String × World :=
  match GetData w key with
  | none => (some "Cannot update transport in world state as key does not exist", w)
  | some currentTransport =>
  match UnmarshalTransport currentTransport with
  | none => (some "Data retrieved from world state was not of type Transport", w)
  | some transport =>
  match GetSubmittingClientIdentity ctx with
  | .error err => (some err, w)
  | .ok advisor =>
  if advisor ≠ transport.AdvisorID then
    (some "submitting client not authorized to update asset, does not advise asset", w)
  else
  if transport.TransportState ≠ 0 then
    (some "Transport is not available", w)
  else
  if lotes = "" then
    (some "Does not exist lotes to load", w)
  else
  let lote := Split lotes ','
  match verifyLoteAdvisors w advisor lote with
  | some err => (some err, w)
  | none =>
    let transport := { transport with
      Capacity := ⟨transport.Capacity.Units, transport.Capacity.UnitMeasurement, capacityUsed⟩ }
    let transport := { transport with Shipment := transport.Shipment ++ lote }
    let transport := { transport with TransportState := LoadingTrasport }
    (none, PutState w (Key.simple key) (Record.transport transport))

def StartTransportDelivery (ctx : Ctx) (w : World) (key destCountry destProvince destLat
    desLon finishTime : String) : Option String × World :=
  match GetData w key with
  | none => (some "Cannot update transport in world state as key does not exist", w)
  | some currentTransport =>
  match UnmarshalTransport currentTransport with
  | none => (some "Data retrieved from world state was not of type Transport", w)
  | some transport =>
  match GetSubmittingClientIdentity ctx with
  | .error err => (some err, w)
  | .ok advisor =>
  if advisor ≠ transport.AdvisorID then
    (some "submitting client not authorized to update asset, does not advise asset", w)
  else
  if transport.TransportState ≠ 1 then
    (some "Transport is not loading", w)
  else
    let transport := { transport with
      Transporting := ⟨⟨destCountry, destProvince, destLat, desLon⟩, finishTime⟩ }
    let transport := { transport with TransportState := DeliveringTransport }
    (none, PutState w (Key.simple key) (Record.transport transport))

def TransportInspectionLote (ctx : Ctx) (w : World) (key loteKey issuer certificationtype
    result : String) : Option String × World :=
  match GetData w key with
  | none => (some "Cannot update transport in world state as key does not exist", w)
  | some currentTransport =>
  match UnmarshalTransport currentTransport with
  | none => (some "Data retrieved from world state was not of type Transport", w)
  | some transport =>
  match GetSubmittingClientIdentity ctx with
  | .error err => (some err, w)
  | .ok advisor =>
  if advisor ≠ transport.AdvisorID then
    (some "submitting client not authorized to update asset, does not advise asset", w)
  else
  if transport.TransportState ≠ 2 then
    (some "Transport is not delivering", w)
  else
  match LoteSmartContract.GetLoteAdvisor w loteKey with
  | .error err => (some err, w)
  | .ok loteAdvisor =>
  if advisor ≠ loteAdvisor then
    (some "submitting client not authorized to update asset, does not advise asset", w)
  else
  match LoteSmartContract.LoteInspection ctx w loteKey issuer certificationtype result with
  | (some err, w1) => (some err, w1)
  | (none, w1) => (none, w1)

def TransportIsNonAvailable (ctx : Ctx) (w : World) (key : String) : Option String × World :=
  match GetData w key with
  | none => (some "Cannot update transport in world state as key does not exist", w)
  | some currentTransport =>
  match UnmarshalTransport currentTransport with
  | none => (some "Data retrieved from world state was not of type Transport", w)
  | some transport =>
  match GetSubmittingClientIdentity ctx with
  | .error err => (some err, w)
  | .ok advisor =>
  if advisor ≠ transport.AdvisorID then
    (some "submitting client not authorized to update asset, does not advise asset", w)
  else
  if transport.TransportState ≠ 0 then
    (some "Transport is not destroyed", w)
  else
    let transport := { transport with TransportState := NonAvailableTransport }
    (none, PutState w (Key.simple key) (Record.transport transport))

def TransportIsAvailable (ctx : Ctx) (w : World) (key : String) : Option String × World :=
  match GetData w key with
  | none => (some "Cannot update transport in world state as key does not exist", w)
  | some currentTransport =>
  match UnmarshalTransport currentTransport with
  | none => (some "Data retrieved from world state was not of type Transport", w)
  | some transport =>
  match GetSubmittingClientIdentity ctx with
  | .error err => (some err, w)
  | .ok advisor =>
  if advisor ≠ transport.AdvisorID then
    (some "submitting client not authorized to update asset, does not advise asset", w)
  else
  if transport.TransportState ≠ 3 then
    (some "Transport is not a non available transport", w)
  else
    let transport := { transport with TransportState := AvailableTransport }
    (none, PutState w (Key.simple key) (Record.transport transport))

def TransportUpdateLocation (ctx : Ctx) (w : World) (key country province lat lon : String) :
    Option String × World :=
  match GetData w key with
  | none => (some "Cannot update transport in world state as key does not exist", w)
  | some currentTransport =>
  match UnmarshalTransport currentTransport with
  | none => (some "Data retrieved from world state was not of type Transport", w)
  | some transport =>
  match GetSubmittingClientIdentity ctx with
  | .error err => (some err, w)
  | .ok advisor =>
  if advisor ≠ transport.AdvisorID then
    (some "submitting client not authorized to update asset, does not advise asset", w)
  else
  if transport.TransportState ≠ 4 then
    (some "Transport is not destroyed", w)
  else
    let transport := { transport with Location := ⟨country, province, lat, lon⟩ }
    (none, PutState w (Key.simple key) (Record.transport transport))

def TransportDestroyed (ctx : Ctx) (w : World) (key : String) : Option String × World :=
  match GetData w key with
  | none => (some "Cannot update transport in world state as key does not exist", w)
  | some currentTransport =>
  match UnmarshalTransport currentTransport with
  | none => (some "Data retrieved from world state was not of type Transport", w)
  | some transport =>
  match GetSubmittingClientIdentity ctx with
  | .error err => (some err, w)
  | .ok advisor =>
  if advisor ≠ transport.AdvisorID then
    (some "submitting client not authorized to update asset, does not advise asset", w)
  else
  if transport.TransportState = 3 then
    (some "Transport is not non available", w)
  else
    let transport := { transport with TransportState := DestroyedTransport }
    let w1 := PutState w (Key.simple key) (Record.transport transport)
    let transportIndexKey :=
      CreateCompositeKey transport_index [transport.TransportID, transport.OwnerID]
    (none, DelState w1 transportIndexKey)

end TransportSmartContract

/-! ## Warehouse contract (`warehouse/sc_warehouse.go`) -/

def warehouse_index : String := "warehouse"

namespace WarehouseSmartContract

def CreateWarehouse (ctx : Ctx) (w : World) (key capacityUnits capacityUnitMeasurement
    capacityUsed country province lat lon : String) : Option String × World :=
  match ValidRole ctx "abac.administrator" with
  | some err => (some err, w)
  | none =>
  match GetData w key with
  | some _ => (some "Cannot create new warehouse in world state as key already exists", w)
  | none =>
  match GetSubmittingClientIdentity ctx with
  | .error err => (some err, w)
  | .ok advisor =>
  match GetSubmittingClientOrg ctx with
  | .error err => (some err, w)
  | .ok ownerID =>
  match VerifyClientOrgMatchesPeerOrg ownerID with
  | some err => (some err, w)
  | none =>
    let warehouse : Warehouse :=
      { DocType := "warehouse", WarehouseID := key, OwnerID := ownerID, AdvisorID := advisor,
        Capacity := ⟨capacityUnits, capacityUnitMeasurement, capacityUsed⟩,
        Location := ⟨country, province, lat, lon⟩, Certifications := [], Storing := [],
        WarehouseState := WorkingWarehouse }
    match putStateError key with
    | some _ => (some "Unable to interact with world state", w)
    | none =>
    let w1 := PutState w (Key.simple key) (Record.warehouse warehouse)
    match compositeKeyError warehouse_index [warehouse.WarehouseID, warehouse.OwnerID] with
    | some err => (some err, w1)
    | none =>
    let warehouseIndexKey :=
      CreateCompositeKey warehouse_index [warehouse.WarehouseID, warehouse.OwnerID]
    (none, PutState w1 warehouseIndexKey Record.index)

def WarehouseInspection (ctx : Ctx) (w : World) (key issuer certificationtype
    result : String) : Option String × World :=
  match GetData w key with
  | none => (some "Cannot update warehouse in world state as key does not exist", w)
  | some currentWarehouse =>
  match UnmarshalWarehouse currentWarehouse with
  | none => (some "Data retrieved from world state was not of type Warehouse", w)
  | some warehouse =>
  match GetSubmittingClientIdentity ctx with
  | .error err => (some err, w)
  | .ok advisor =>
  if advisor ≠ warehouse.AdvisorID then
    (some "submitting client not authorized to update asset, does not advise asset", w)
  else
  if warehouse.WarehouseState = 2 then
    (some "Warehouse is not working", w)
  else
    let warehouse := { warehouse with
      Certifications := warehouse.Certifications ++ [⟨issuer, certificationtype, result⟩] }
    (none, PutState w (Key.simple key) (Record.warehouse warehouse))

def WarehouseLoteInspection (ctx : Ctx) (w : World) (key loteKey issuer certificationtype
    result : String) : Option String × World :=
  match GetData w key with
  | none => (some "Cannot update warehouse in world state as key does not exist", w)
  | some currentWarehouse =>
  match UnmarshalWarehouse currentWarehouse with
  | none => (some "Data retrieved from world state was not of type Warehouse", w)
  | some warehouse =>
  match GetSubmittingClientIdentity ctx with
  | .error err => (some err, w)
  | .ok advisor =>
  if advisor ≠ warehouse.AdvisorID then
    (some "submitting client not authorized to update asset, does not advise asset", w)
  else
  if warehouse.WarehouseState ≠ 0 then
    (some "Warehouse is not available", w)
  else
  match LoteSmartContract.GetLoteAdvisor w loteKey with
  | .error err => (some err, w)
  | .ok loteAdvisor =>
  if advisor ≠ loteAdvisor then
    (some "submitting client not authorized to update asset, does not advise asset", w)
  else
  match LoteSmartContract.LoteInspection ctx w loteKey issuer certificationtype result with
  | (some err, w1) => (some err, w1)
  | (none, w1) => (none, w1)

/-- The source tests `!response` before `err`, so an error of `IsLoteStored`
is reported as "lote is not stored". -/
def WarehouseStoreLote (ctx : Ctx) (w : World) (key loteKey capacityUsed : String) :
    Option String × World :=
  match GetData w key with
  | none => (some "Cannot update warehouse in world state as key does not exist", w)
  | some currentWarehouse =>
  match UnmarshalWarehouse currentWarehouse with
  | none => (some "Data retrieved from world state was not of type Warehouse", w)
  | some warehouse =>
  match GetSubmittingClientIdentity ctx with
  | .error err => (some err, w)
  | .ok advisor =>
  if advisor ≠ warehouse.AdvisorID then
    (some "submitting client not authorized to update asset, does not advise asset", w)
  else
  if warehouse.WarehouseState ≠ 0 then
    (some "Warehouse is not working", w)
  else
  match LoteSmartContract.GetLoteAdvisor w loteKey with
  | .error err => (some err, w)
  | .ok loteAdvisor =>
  if advisor ≠ loteAdvisor then
    (some "submitting client not authorized to update asset, does not advise asset", w)
  else
  match LoteSmartContract.IsLoteStored w loteKey with
  | .error _ => (some "lote is not stored", w)
  | .ok response =>
  if ¬ response then
    (some "lote is not stored", w)
  else
    let warehouse := { warehouse with Storing := warehouse.Storing ++ [loteKey] }
    let warehouse := { warehouse with
      Capacity := ⟨warehouse.Capacity.Units, warehouse.Capacity.UnitMeasurement, capacityUsed⟩ }
    (none, PutState w (Key.simple key) (Record.warehouse warehouse))

def WarehouseRecieveSelledReturnLote (ctx : Ctx) (w : World) (key loteKey nextLocation
    newadvisor newOwner envTemp envTempMeasurement envHumidity capacityUsed : String) :
    Option String × World :=
  match GetData w key with
  | none => (some "Cannot update warehouse in world state as key does not exist", w)
  | some currentWarehouse =>
  match UnmarshalWarehouse currentWarehouse with
  | none => (some "Data retrieved from world state was not of type Warehouse", w)
  | some warehouse =>
  match GetSubmittingClientIdentity ctx with
  | .error err => (some err, w)
  | .ok advisor =>
  if advisor ≠ warehouse.AdvisorID then
    (some "submitting client not authorized to update asset, does not advise asset", w)
  else
  if warehouse.WarehouseState ≠ 0 then
    (some "Warehouse is not working", w)
  else
  match LoteSmartContract.GetLoteAdvisor w loteKey with
  | .error err => (some err, w)
  | .ok loteAdvisor =>
  if advisor ≠ loteAdvisor then
    (some "submitting client not authorized to update asset, does not advise asset", w)
  else
  match LoteSmartContract.IsLoteSelled w loteKey with
  | .error _ => (some "lote is not selled", w)
  | .ok response =>
  if ¬ response then
    (some "lote is not selled", w)
  else
  match LoteSmartContract.ReturnLote ctx w loteKey nextLocation newadvisor newOwner envTemp
      envTempMeasurement envHumidity with
  | (some err, w1) => (some err, w1)
  | (none, w1) =>
    let warehouse := { warehouse with Storing := warehouse.Storing ++ [loteKey] }
    let warehouse := { warehouse with
      Capacity := ⟨warehouse.Capacity.Units, warehouse.Capacity.UnitMeasurement, capacityUsed⟩ }
    (none, PutState w1 (Key.simple key) (Record.warehouse warehouse))

def WarehouseSellLote (ctx : Ctx) (w : World) (key loteKey priceamount pricecurrency
    capacityUsed : String) :
    Option String × World :=
  match GetData w key with
  | none => (some "Cannot update warehouse in world state as key does not exist", w)
  | some currentWarehouse =>
  match UnmarshalWarehouse currentWarehouse with
  | none => (some "Data retrieved from world state was not of type Warehouse", w)
  | some warehouse =>
  match GetSubmittingClientIdentity ctx with
  | .error err => (some err, w)
  | .ok advisor =>
  if advisor ≠ warehouse.AdvisorID then
    (some "submitting client not authorized to update asset, does not advise asset", w)
  else
  if warehouse.WarehouseState ≠ 0 then
    (some "Warehouse is not working", w)
  else
  match LoteSmartContract.GetLoteAdvisor w loteKey with
  | .error err => (some err, w)
  | .ok loteAdvisor =>
  if advisor ≠ loteAdvisor then
    (some "submitting client not authorized to update asset, does not advise asset", w)
  else
  match indexFinded loteKey warehouse.Storing 0 none with
  | none => (some "component do not finded in lotes for use", w)
  | some index_finded =>
  match LoteSmartContract.SellLote ctx w loteKey priceamount pricecurrency with
  | (some err, w1) => (some err, w1)
  | (none, w1) =>
    let warehouse := { warehouse with Storing := warehouse.Storing.eraseIdx index_finded }
    let warehouse := { warehouse with
      Capacity := ⟨warehouse.Capacity.Units, warehouse.Capacity.UnitMeasurement, capacityUsed⟩ }
    (none, PutState w1 (Key.simple key) (Record.warehouse warehouse))

def WarehouseTransportLote (ctx : Ctx) (w : World) (key loteKey nextLocation newadvisor
    envTemp envTempMeasurement envHumidity capacityUsed : String) :
    Option String × World :=
  match GetData w key with
  | none => (some "Cannot update warehouse in world state as key does not exist", w)
  | some currentWarehouse =>
  match UnmarshalWarehouse currentWarehouse with
  | none => (some "Data retrieved from world state was not of type Warehouse", w)
  | some warehouse =>
  match GetSubmittingClientIdentity ctx with
  | .error err => (some err, w)
  | .ok advisor =>
  if advisor ≠ warehouse.AdvisorID then
    (some "submitting client not authorized to update asset, does not advise asset", w)
  else
  if warehouse.WarehouseState ≠ 0 then
    (some "Warehouse is not working", w)
  else
  match LoteSmartContract.GetLoteAdvisor w loteKey with
  | .error err => (some err, w)
  | .ok loteAdvisor =>
  if advisor ≠ loteAdvisor then
    (some "submitting client not authorized to update asset, does not advise asset", w)
  else
  match indexFinded loteKey warehouse.Storing 0 none with
  | none => (some "component do not finded in lotes for use", w)
  | some index_finded =>
  match LoteSmartContract.TransportLote ctx w loteKey nextLocation newadvisor envTemp
      envTempMeasurement envHumidity with
  | (some err, w1) => (some err, w1)
  | (none, w1) =>
    let warehouse := { warehouse with Storing := warehouse.Storing.eraseIdx index_finded }
    let warehouse := { warehouse with
      Capacity := ⟨warehouse.Capacity.Units, warehouse.Capacity.UnitMeasurement, capacityUsed⟩ }
    (none, PutState w1 (Key.simple key) (Record.warehouse warehouse))

def WarehouseReturnLote (ctx : Ctx) (w : World) (key loteKey nextLocation newadvisor newOwner
    envTemp envTempMeasurement envHumidity capacityUsed : String) :
    Option String × World :=
  match GetData w key with
  | none => (some "Cannot update warehouse in world state as key does not exist", w)
  | some currentWarehouse =>
  match UnmarshalWarehouse currentWarehouse with
  | none => (some "Data retrieved from world state was not of type Warehouse", w)
  | some warehouse =>
  match GetSubmittingClientIdentity ctx with
  | .error err => (some err, w)
  | .ok advisor =>
  if advisor ≠ warehouse.AdvisorID then
    (some "submitting client not authorized to update asset, does not advise asset", w)
  else
  if warehouse.WarehouseState ≠ 0 then
    (some "Warehouse is not working", w)
  else
  match LoteSmartContract.GetLoteAdvisor w loteKey with
  | .error err => (some err, w)
  | .ok loteAdvisor =>
  if advisor ≠ loteAdvisor then
    (some "submitting client not authorized to update asset, does not advise asset", w)
  else
  match indexFinded loteKey warehouse.Storing 0 none with
  | none => (some "component do not finded in lotes for use", w)
  | some index_finded =>
  match LoteSmartContract.ReturnLote ctx w loteKey nextLocation newadvisor newOwner envTemp
      envTempMeasurement envHumidity with
  | (some err, w1) => (some err, w1)
  | (none, w1) =>
    let warehouse := { warehouse with Storing := warehouse.Storing.eraseIdx index_finded }
    let warehouse := { warehouse with
      Capacity := ⟨warehouse.Capacity.Units, warehouse.Capacity.UnitMeasurement, capacityUsed⟩ }
    (none, PutState w1 (Key.simple key) (Record.warehouse warehouse))

def WarehouseDestroyLote (ctx : Ctx) (w : World) (key loteKey capacityUsed : String) :
    Option String × World :=
  match GetData w key with
  | none => (some "Cannot update warehouse in world state as key does not exist", w)
  | some currentWarehouse =>
  match UnmarshalWarehouse currentWarehouse with
  | none => (some "Data retrieved from world state was not of type Warehouse", w)
  | some warehouse =>
  match GetSubmittingClientIdentity ctx with
  | .error err => (some err, w)
  | .ok advisor =>
  if advisor ≠ warehouse.AdvisorID then
    (some "submitting client not authorized to update asset, does not advise asset", w)
  else
  if warehouse.WarehouseState ≠ 0 then
    (some "Warehouse is not working", w)
  else
  match LoteSmartContract.GetLoteAdvisor w loteKey with
  | .error err => (some err, w)
  | .ok loteAdvisor =>
  if advisor ≠ loteAdvisor then
    (some "submitting client not authorized to update asset, does not advise asset", w)
  else
  match indexFinded loteKey warehouse.Storing 0 none with
  | none => (some "component do not finded in lotes for use", w)
  | some index_finded =>
  match LoteSmartContract.LoteDestroyed ctx w loteKey with
  | (some err, w1) => (some err, w1)
  | (none, w1) =>
    let warehouse := { warehouse with Storing := warehouse.Storing.eraseIdx index_finded }
    let warehouse := { warehouse with
      Capacity := ⟨warehouse.Capacity.Units, warehouse.Capacity.UnitMeasurement, capacityUsed⟩ }
    (none, PutState w1 (Key.simple key) (Record.warehouse warehouse))

def WarehouseUpdateAdvisor (ctx : Ctx) (w : World) (key newadvisor : String) :
    Option String × World :=
  match GetData w key with
  | none => (some "Cannot update warehouse in world state as key does not exist", w)
  | some currentWarehouse =>
  match UnmarshalWarehouse currentWarehouse with
  | none => (some "Data retrieved from world state was not of type Warehouse", w)
  | some warehouse =>
  match GetSubmittingClientIdentity ctx with
  | .error err => (some err, w)
  | .ok advisor =>
  if advisor ≠ warehouse.AdvisorID then
    (some "submitting client not authorized to update asset, does not advise asset", w)
  else
  if warehouse.WarehouseState ≠ 0 then
    (some "Warehouse is not available", w)
  else
    let warehouse := { warehouse with AdvisorID := newadvisor }
    (none, PutState w (Key.simple key) (Record.warehouse warehouse))

def WarehouseAvailable (ctx : Ctx) (w : World) (key : String) : Option String × World :=
  match GetData w key with
  | none => (some "Cannot update warehouse in world state as key does not exist", w)
  | some currentWarehouse =>
  match UnmarshalWarehouse currentWarehouse with
  | none => (some "Data retrieved from world state was not of type Warehouse", w)
  | some warehouse =>
  match GetSubmittingClientIdentity ctx with
  | .error err => (some err, w)
  | .ok advisor =>
  if advisor ≠ warehouse.AdvisorID then
    (some "submitting client not authorized to update asset, does not advise asset", w)
  else
  if warehouse.WarehouseState ≠ 1 then
    (some "Warehouse is not non available", w)
  else
    let warehouse := { warehouse with WarehouseState := WorkingWarehouse }
    (none, PutState w (Key.simple key) (Record.warehouse warehouse))

def WarehouseNonAvailable (ctx : Ctx) (w : World) (key : String) : Option String × World :=
  match GetData w key with
  | none => (some "Cannot update warehouse in world state as key does not exist", w)
  | some currentWarehouse =>
  match UnmarshalWarehouse currentWarehouse with
  | none => (some "Data retrieved from world state was not of type Warehouse", w)
  | some warehouse =>
  match GetSubmittingClientIdentity ctx with
  | .error err => (some err, w)
  | .ok advisor =>
  if advisor ≠ warehouse.AdvisorID then
    (some "submitting client not authorized to update asset, does not advise asset", w)
  else
  if warehouse.WarehouseState ≠ 0 then
    (some "Warehouse is not available", w)
  else
    let warehouse := { warehouse with WarehouseState := NonAvailableWarehouse }
    (none, PutState w (Key.simple key) (Record.warehouse warehouse))

def WarehouseDestroyed (ctx : Ctx) (w : World) (key : String) : Option String × World :=
  match GetData w key with
  | none => (some "Cannot update warehouse in world state as key does not exist", w)
  | some currentWarehouse =>
  match UnmarshalWarehouse currentWarehouse with
  | none => (some "Data retrieved from world state was not of type Warehouse", w)
  | some warehouse =>
  match GetSubmittingClientIdentity ctx with
  | .error err => (some err, w)
  | .ok advisor =>
  if advisor ≠ warehouse.AdvisorID then
    (some "submitting client not authorized to update asset, does not advise asset", w)
  else
  if warehouse.WarehouseState ≠ 1 then
    (some "Warehouse is not non available", w)
  else
    let warehouse := { warehouse with WarehouseState := DestroyedWarehouse }
    let w1 := PutState w (Key.simple key) (Record.warehouse warehouse)
    let warehouseIndexKey :=
      CreateCompositeKey warehouse_index [warehouse.WarehouseID, warehouse.OwnerID]
    (none, DelState w1 warehouseIndexKey)

end WarehouseSmartContract

/-! ## Ledger history and the read-only lot queries (`lote/sc_lote.go`) -/

/-- Modelled from the spec: one entry of `historyOf(key)`, the log the ledger
keeps of a key ("txId, timestamp, value or tombstone").  `Value` is `none` for
an entry without bytes; `Timestamp` is `none` for a timestamp that the
conversion `ptypes.Timestamp` rejects. -/
structure KeyModification where
  TxId : String
  Value : Option Record
  Timestamp : Option Nat
  IsDelete : Bool
  deriving DecidableEq

/-- Modelled from the spec: `historyOf(key)`, the entries of every key, newest
first; the call `GetHistoryForKey` itself does not fail. -/
abbrev History := String → List KeyModification

structure HistoryQueryResultLote where
  Record : Lote
  TxId : String
  Timestamp : Nat
  IsDelete : Bool
  deriving DecidableEq

inductive TraceabilityQueryResultLote where
  | mk (TracedLoteID : String) (HistoryResultLote : List HistoryQueryResultLote)
      (ChildsHistoryResultLote : List TraceabilityQueryResultLote)

namespace LoteSmartContract

/-- The loop `for resultsIterator.HasNext() { ... }` of `GetLoteHistory`, over
the entries still to be read, with the `records` collected so far and the
current value of the variable `father`. -/
def historyLoop (key : String) :
    List KeyModification → List HistoryQueryResultLote → String →
      Except String (List HistoryQueryResultLote × String)
  | [], records, father => .ok (records, father)
  | response :: rest, records, father =>
    let decoded : Except String (Lote × String) :=
      match response.Value with
      | some value =>
        match UnmarshalLote value with
        | none => .error "invalid character looking for beginning of value"
        | some lote => .ok (lote, lote.FatherID)
      | none => .ok ({ Lote.zero with LoteID := key }, father)
    match decoded with
    | .error err => .error err
    | .ok (lote, father) =>
      match response.Timestamp with
      | none => .error "timestamp: nil Timestamp"
      | some timestamp =>
        let record : HistoryQueryResultLote :=
          { TxId := response.TxId, Timestamp := timestamp, Record := lote,
            IsDelete := response.IsDelete }
        historyLoop key rest (records ++ [record]) father

/-- The method `GetLoteHistory`.  The recursion on `father` is bounded by
`fuel`, the depth of calls still allowed: `none` means the bound was reached
before the call returned. -/
def GetLoteHistory (hist : History) : Nat → String →
    Option (Except String (List HistoryQueryResultLote))
  | 0, _ => none
  | fuel + 1, key =>
    match historyLoop key (hist key) [] "" with
    | .error err => some (.error err)
    | .ok (records, father) =>
      if father ≠ "" then
        match GetLoteHistory hist fuel father with
        | none => none
        | some (.error err) => some (.error err)
        | some (.ok father_history) => some (.ok (records ++ father_history))
      else some (.ok records)

/-- The loop `for i := 0; i < len(components); i++ { child, err :=
sc.GetLoteTraceability(ctx, components[i]); ... }` of `GetLoteTraceability`,
with the recursive call as the parameter `trace`. -/
def traceChildren (trace : String → Option (Except String TraceabilityQueryResultLote)) :
    List String → List TraceabilityQueryResultLote →
      Option (Except String (List TraceabilityQueryResultLote))
  | [], childsTraceability => some (.ok childsTraceability)
  | component :: rest, childsTraceability =>
    match trace component with
    | none => none
    | some (.error err) => some (.error err)
    | some (.ok child) => traceChildren trace rest (childsTraceability ++ [child])

/-- The method `GetLoteTraceability`.  `fuel` bounds the depth of calls as in
`GetLoteHistory`.  The error of `json.Unmarshal` is not looked at, so a value
that does not decode is read as a lot without components. -/
def GetLoteTraceability (hist : History) (w : World) : Nat → String →
    Option (Except String TraceabilityQueryResultLote)
  | 0, _ => none
  | fuel + 1, key =>
    match GetLoteHistory hist fuel key with
    | none => none
    | some (.error err) => some (.error err)
    | some (.ok history) =>
      match GetState w (Key.simple key) with
      | none => some (.error "Cannot read lote in world state as key does not exist")
      | some currentLote =>
        let lote := (UnmarshalLote currentLote).getD Lote.zero
        let components := lote.Components
        if components.length = 0 then
          some (.ok (TraceabilityQueryResultLote.mk key history []))
        else
          match traceChildren (fun c => GetLoteTraceability hist w fuel c) components [] with
          | none => none
          | some (.error err) => some (.error err)
          | some (.ok childsTraceability) =>
            some (.ok (TraceabilityQueryResultLote.mk key history childsTraceability))

end LoteSmartContract

/-! ## Sample ledger states -/

/-- A lot `L1` of 10 units advised by `adv`, in the given state. -/
def sampleLote (st : LoteState) (ps : LoteProductState) : Lote :=
  { Lote.zero with
    DocType := "lote", LoteID := "L1", ProductID := "P1", ManufactureID := "M1",
    Advisor := "adv", Units := "10", CurrentLocationID := "M1", LoteState := st,
    LoteProductState := ps }

/-- A site `M1` advised by `adv`, in production, with the given lists. -/
def sampleSite (production toUse toRepair : List String) : Manufacture :=
  { Manufacture.zero with
    DocType := "manufacture", ManufactureID := "M1", AdvisorID := "adv",
    Production := production, ToUse := toUse, ToRepair := toRepair }

/-- A ledger holding the site `M1` and the lot `l` under `L1`. -/
def sampleWorld (m : Manufacture) (l : Lote) : World :=
  PutState (PutState World.empty (Key.simple "M1") (Record.manufacture m))
    (Key.simple "L1") (Record.lote l)

/-- A product `P1` advised by `adv`. -/
def sampleProduct : Product :=
  { DocType := "product", ProductID := "P1", ProductName := "", Description := "",
    Brand := ⟨"", ""⟩, Core := "", Variety := "", ProductImage := "",
    NetContent := ⟨"", "", "", "", ""⟩, WidthAndHeight := ⟨"", "", "", ""⟩,
    DisplaySpace := ⟨"", "", "", ""⟩, PackageType := "", Certifications := [],
    Manufacturer := "M1", ManufactureDetails := "", ProductState := 1, Components := [],
    Advisor := "adv" }

/-- A ledger holding the site `M1`, the lot `l` under `L1` and the product
`P1`. -/
def sampleWorldP (m : Manufacture) (l : Lote) : World :=
  PutState (sampleWorld m l) (Key.simple "P1") (Record.product sampleProduct)

/-- A transport `T1` advised by `adv`, with the given state and shipment. -/
def sampleTransport (st : TransportState) (shipment : List String) : Transport :=
  { Transport.zero with
    DocType := "transport", TransportID := "T1", AdvisorID := "adv", TransportState := st,
    Shipment := shipment }

/-- A ledger holding the site `M1`, the lot `l` under `L1` and the transport
`t` under `T1`. -/
def sampleWorldT (t : Transport) (l : Lote) : World :=
  PutState (sampleWorld (sampleSite [] [] []) l) (Key.simple "T1") (Record.transport t)

/-- The product `P1` in the given state. -/
def sampleProductIn (st : ProductState) : Product :=
  { sampleProduct with ProductName := "bolt", Variety := "m8", ProductState := st }

/-- A warehouse `W1` advised by `adv`, with the given state and stored lots. -/
def sampleWarehouse (st : WarehouseState) (storing : List String) : Warehouse :=
  { Warehouse.zero with
    DocType := "warehouse", WarehouseID := "W1", AdvisorID := "adv", WarehouseState := st,
    Storing := storing }

/-- A ledger holding one record under `key`. -/
def singleWorld (key : String) (r : Record) : World :=
  PutState World.empty (Key.simple key) r

/-- The caller `adv`. -/
def sampleCtx : Ctx := ⟨some "adv"⟩

/-- The ledger after the stored sample lot `L1` was fractionated into `L2`
with 4 units and `L3` with 6 units. -/
def sampleSplitWorld : World :=
  (LoteSmartContract.FractionateLote sampleCtx
    (sampleWorld (sampleSite [] [] []) (sampleLote StoredLote 0)) "L1" "4" "6" "L2" "L3").2

/-- The history of that ledger: `L1` was written by the transaction `tx1`
that created it and by the transaction `tx2` that fractionated it, `L2` and
`L3` by `tx2`. -/
def sampleSplitHistory : History := fun k =>
  if k = "L1" then
    [⟨"tx2", sampleSplitWorld (Key.simple "L1"), some 2, false⟩,
      ⟨"tx1", some (Record.lote (sampleLote StoredLote 0)), some 1, false⟩]
  else if k = "L2" ∨ k = "L3" then
    [⟨"tx2", sampleSplitWorld (Key.simple k), some 2, false⟩]
  else []

/-- A ledger holding the site `M1`, the sample lots `L1` and `L2`, and the lot
`L9` made of them. -/
def sampleTraceWorld : World :=
  PutState
    (PutState (sampleWorld (sampleSite ["L9"] [] []) (sampleLote DestroyedLote 0))
      (Key.simple "L2") (Record.lote { sampleLote DestroyedLote 0 with LoteID := "L2" }))
    (Key.simple "L9")
    (Record.lote
      { sampleLote ManunfacturingLote 0 with LoteID := "L9", Components := ["L1", "L2"] })

/-- A history in which every key of `sampleTraceWorld` was written once, by
the transaction `tx1`. -/
def sampleTraceHistory : History := fun k =>
  match sampleTraceWorld (Key.simple k) with
  | none => []
  | some r => [⟨"tx1", some r, some 1, false⟩]

/-- The ledger reached from the empty ledger by `CreateManufacture` of the
site `M1` and `CreateLote` of the lot `L1` with the components `["L1"]`. -/
def sampleCycleWorld : World :=
  (LoteSmartContract.CreateLote sampleCtx
    (ManufactureSmartContract.CreateManufacture sampleCtx World.empty "M1" "cu" "hav" "23"
      "-82").2
    "L1" "P1" "M1" "5" "USD" "10" "4" "C" "50" ["L1"] "M1").2

/-- The history of that ledger: every key was written once. -/
def sampleCycleHistory : History := fun k =>
  match sampleCycleWorld (Key.simple k) with
  | none => []
  | some r => [⟨"tx1", some r, some 1, false⟩]

/-! ## Vocabulary of the statements -/

/-- The component entry `"id:n"` that `ManufactureCreateLote` and
`ManufactureFractionateLoteForUse` read. -/
def componentSpec (id n : String) : String := id ++ ":" ++ n

/-- The `components` argument written from a list of entries: `none` is the
empty string, which both loops skip, `some (id, n)` is `"id:n"`. -/
def componentArgs (specs : List (Option (String × String))) : List String :=
  specs.map fun s =>
    match s with
    | none => ""
    | some (id, n) => componentSpec id n

/-- The ids named by a list of entries, in order. -/
def componentIds (specs : List (Option (String × String))) : List String :=
  specs.filterMap fun s => s.map Prod.fst

/-- The state of the lot record stored under `id`, `none` when `id` holds no
lot record. -/
def loteStateAt (w : World) (id : String) : Option LoteState :=
  match w (Key.simple id) with
  | some (Record.lote l) => some l.LoteState
  | _ => none

/-- The body the five `TransportDeliver*Lote` methods share, with the outcome
`res` of the delegated lot operation as a parameter. -/
def deliverWith (ctx : Ctx) (w : World) (key loteKey capacityUsed : String)
    (res : Option String × World) : Option String × World :=
  match GetData w key with
  | none => (some "Cannot update transport in world state as key does not exist", w)
  | some currentTransport =>
  match UnmarshalTransport currentTransport with
  | none => (some "Data retrieved from world state was not of type Transport", w)
  | some transport =>
  match GetSubmittingClientIdentity ctx with
  | .error err => (some err, w)
  | .ok advisor =>
  if advisor ≠ transport.AdvisorID then
    (some "submitting client not authorized to update asset, does not advise asset", w)
  else
  if transport.TransportState ≠ 2 then
    (some "Transport is not delivering", w)
  else
  match LoteSmartContract.GetLoteAdvisor w loteKey with
  | .error err => (some err, w)
  | .ok loteAdvisor =>
  if advisor ≠ loteAdvisor then
    (some "submitting client not authorized to update asset, does not advise asset", w)
  else
  match indexFinded loteKey transport.Shipment 0 none with
  | none => (some "component do not finded in lotes for use", w)
  | some index_finded =>
  match res with
  | (some err, w1) => (some err, w1)
  | (none, w1) =>
    let transport := { transport with Shipment := transport.Shipment.eraseIdx index_finded }
    let transport :=
      if transport.Shipment.length = 0 then
        { transport with TransportState := AvailableTransport }
      else transport
    let transport := { transport with
      Capacity := ⟨transport.Capacity.Units, transport.Capacity.UnitMeasurement, capacityUsed⟩ }
    (none, PutState w1 (Key.simple key) (Record.transport transport))

/-- What the spec says of a delivery whose outcome is `res`, on a ledger `w`
where `key` holds the transport `t`: the call fails and leaves the ledger
unchanged unless the transport is Delivering and `loteKey` is in the shipment;
a success stores a transport whose shipment is the old one without one
occurrence of `loteKey`, in the old order, and whose state is Available when
that shipment is empty and Delivering otherwise. -/
def DeliveryOutcome (w : World) (key loteKey : String) (t : Transport)
    (res : Option String × World) : Prop :=
  ((t.TransportState ≠ DeliveringTransport ∨ loteKey ∉ t.Shipment) →
    res.1 ≠ none ∧ res.2 = w) ∧
  (res.1 = none →
    ∃ pre post t2, t.Shipment = pre ++ loteKey :: post ∧
      res.2 (Key.simple key) = some (Record.transport t2) ∧
      t2.Shipment = pre ++ post ∧
      t2.TransportState =
        if pre ++ post = [] then AvailableTransport else DeliveringTransport)

/-- The three id lists of a site partition its lots: none has a repeated id
and no id is a member of two of them. -/
def ListsConsistent (m : Manufacture) : Prop :=
  m.Production.Nodup ∧ m.ToUse.Nodup ∧ m.ToRepair.Nodup ∧
  (∀ x, x ∈ m.Production → x ∉ m.ToUse) ∧
  (∀ x, x ∈ m.Production → x ∉ m.ToRepair) ∧
  (∀ x, x ∈ m.ToUse → x ∉ m.ToRepair)

/-- The lists (production, toUse, toRepair) of the site record stored under
`key`, `none` when `key` holds no site record. -/
def siteListsAt (w : World) (key : String) :
    Option (List String × List String × List String) :=
  match w (Key.simple key) with
  | some (Record.manufacture m) => some (m.Production, m.ToUse, m.ToRepair)
  | _ => none

/-- Runs invocations one after the other, each on the world state the one
before it left; `none` as soon as one of them returns an error. -/
def runAll : List (World → Option String × World) → World → Option World
  | [], w => some w
  | op :: rest, w =>
    match op w with
    | (none, w1) => runAll rest w1
    | (some _, _) => none

/-- The state of the product record stored under `id`, `none` when `id` holds
no product record. -/
def productStateAt (w : World) (id : String) : Option ProductState :=
  match w (Key.simple id) with
  | some (Record.product p) => some p.ProductState
  | _ => none

/-- The state of the transport record stored under `id`, `none` when `id`
holds no transport record. -/
def transportStateAt (w : World) (id : String) : Option TransportState :=
  match w (Key.simple id) with
  | some (Record.transport t) => some t.TransportState
  | _ => none

/-- The state of the warehouse record stored under `id`, `none` when `id`
holds no warehouse record. -/
def warehouseStateAt (w : World) (id : String) : Option WarehouseState :=
  match w (Key.simple id) with
  | some (Record.warehouse h) => some h.WarehouseState
  | _ => none

/-- The advisor of the lot record stored under `id`, `none` when `id` holds
no lot record. -/
def loteAdvisorAt (w : World) (id : String) : Option String :=
  match w (Key.simple id) with
  | some (Record.lote l) => some l.Advisor
  | _ => none

/-- The outcome `res` of an invocation on the ledger `w` is a refusal: an
error was returned and the ledger is as it was. -/
def Refused (w : World) (res : Option String × World) : Prop :=
  res.1 ≠ none ∧ res.2 = w

/-- A decimal integer as text: an optional sign followed by at least one
decimal digit and nothing else. -/
def isDecimalInteger (s : String) : Bool :=
  match s.data with
  | [] => false
  | c :: cs =>
    if c = '-' ∨ c = '+' then
      !cs.isEmpty && cs.all fun d => (digitVal d).isSome
    else (c :: cs).all fun d => (digitVal d).isSome

/-- The outcome of a lot operation that issues at most one write: an error
and nothing written, or success and one lot record written under `key`. -/
def LoteWrite (w : World) (key : String) (res : Option String × World) : Prop :=
  (res.1 ≠ none ∧ res.2 = w) ∨
    (res.1 = none ∧ ∃ l, res.2 = PutState w (Key.simple key) (Record.lote l))

/-- After the outcome `res`, a warehouse record stored under `key` has the
state of the warehouse `h`. -/
def KeepsWarehouseState (h : Warehouse) (key : String) (res : Option String × World) : Prop :=
  ∀ s, warehouseStateAt res.2 key = some s → s = h.WarehouseState

/-- Going from the ledger `w` to the ledger of the outcome `res`, no transport
record enters the state Loading: a transport record that is Loading afterwards
was a transport record in state Loading before, under the same key. -/
def NoNewLoading (w : World) (res : Option String × World) : Prop :=
  ∀ k, transportStateAt res.2 k = some LoadingTrasport →
    transportStateAt w k = some LoadingTrasport

/-- The lot record stored under `id`, `none` when `id` holds no lot record. -/
def loteAt (w : World) (id : String) : Option Lote :=
  match w (Key.simple id) with
  | some (Record.lote l) => some l
  | _ => none

/-- The state of the site record stored under `id`, `none` when `id` holds no
site record. -/
def manufactureStateAt (w : World) (id : String) : Option ManufactureState :=
  match w (Key.simple id) with
  | some (Record.manufacture m) => some m.ManufactureState
  | _ => none

/-- The claim's reading of one history entry: an entry without a value is a
bare lot carrying only `loteId = key`, an entry with a value is that value read
as a lot; an entry that cannot be read is an error. -/
def specRenderEntry (key : String) (e : KeyModification) :
    Except String HistoryQueryResultLote :=
  match e.Value with
  | none =>
    match e.Timestamp with
    | none => .error "timestamp: nil Timestamp"
    | some t => .ok ⟨{ Lote.zero with LoteID := key }, e.TxId, t, e.IsDelete⟩
  | some value =>
    match UnmarshalLote value with
    | none => .error "invalid character looking for beginning of value"
    | some lote =>
      match e.Timestamp with
      | none => .error "timestamp: nil Timestamp"
      | some t => .ok ⟨lote, e.TxId, t, e.IsDelete⟩

/-- The claim's "list of that key's own history entries in the ledger's
order": every entry rendered, or the error of the first entry that cannot be
read. -/
def specOwnHistory (key : String) :
    List KeyModification → Except String (List HistoryQueryResultLote)
  | [] => .ok []
  | e :: rest =>
    match specRenderEntry key e with
    | .error err => .error err
    | .ok r =>
      match specOwnHistory key rest with
      | .error err => .error err
      | .ok rs => .ok (r :: rs)

/-- The claim's "fatherId of the oldest entry that has a value": the entries
come newest first, so this is the last entry of the list with a value; the
empty string when no entry has a value. -/
def specOldestFather (entries : List KeyModification) : String :=
  match (entries.filterMap (fun e => e.Value)).getLast? with
  | none => ""
  | some value =>
    match UnmarshalLote value with
    | none => ""
    | some lote => lote.FatherID

/-- The claim's `GetLoteHistory`: the key's own entries, followed by the whole
history of the father when the oldest entry with a value names one; `fuel`
bounds the number of generations followed, and `none` means the bound was
reached. -/
def specLoteHistory (hist : History) : Nat → String →
    Option (Except String (List HistoryQueryResultLote))
  | 0, _ => none
  | fuel + 1, key =>
    match specOwnHistory key (hist key) with
    | .error err => some (.error err)
    | .ok own =>
      if specOldestFather (hist key) = "" then some (.ok own)
      else
        match specLoteHistory hist fuel (specOldestFather (hist key)) with
        | none => none
        | some (.error err) => some (.error err)
        | some (.ok fatherHistory) => some (.ok (own ++ fatherHistory))

/-- The value of the variable `father` after one round of the loop of
`GetLoteHistory` on the entry `e`, when it held `father` before. -/
def fatherOfEntry (e : KeyModification) (father : String) : String :=
  match e.Value with
  | none => father
  | some value =>
    match UnmarshalLote value with
    | none => ""
    | some lote => lote.FatherID

/-- The value of the variable `father` after the loop of `GetLoteHistory` has
read `entries`, when it held `father` before. -/
def fatherAfter (entries : List KeyModification) (father : String) : String :=
  match (entries.filterMap (fun e => e.Value)).getLast? with
  | none => father
  | some value =>
    match UnmarshalLote value with
    | none => ""
    | some lote => lote.FatherID

/-- The components list `GetLoteTraceability` reads for `key`: the list of the
record stored under `key` read as a lot, empty when `key` holds nothing or a
value that does not decode. -/
def componentsAt (w : World) (key : String) : List String :=
  match w (Key.simple key) with
  | none => []
  | some r => ((UnmarshalLote r).getD Lote.zero).Components

/-- The identity and provenance fields of the lot `l2` are those of `l`. -/
def SameIdentity (l l2 : Lote) : Prop :=
  l2.LoteID = l.LoteID ∧ l2.ProductID = l.ProductID ∧ l2.ManufactureID = l.ManufactureID ∧
    l2.Units = l.Units ∧ l2.Components = l.Components ∧ l2.FatherID = l.FatherID

/-- The outcome `res` of an operation on the lot `l` stored under `key` in the
ledger `w`: when it is a success, `key` holds a lot with the identity and
provenance fields of `l`, and every other primary key holds what it held. -/
def KeepsIdentity (w : World) (key : String) (l : Lote) (res : Option String × World) : Prop :=
  res.1 = none →
    (∃ l2, res.2 (Key.simple key) = some (Record.lote l2) ∧ SameIdentity l l2) ∧
      ∀ k, k ≠ key → res.2 (Key.simple k) = w (Key.simple k)

/-- The stored capacity of the transport under `key` after the outcome `res`
has the units and the measurement of `t` and the used capacity given. -/
def CarriesCapacity (key : String) (t : Transport) (capacityUsed : String)
    (res : Option String × World) : Prop :=
  res.1 = none →
    ∃ t2, res.2 (Key.simple key) = some (Record.transport t2) ∧
      t2.Capacity = ⟨t.Capacity.Units, t.Capacity.UnitMeasurement, capacityUsed⟩

/-- What C36 says of a transport: in state Available or NonAvailable the
shipment is empty, in state Loading or Delivering it is not. -/
def IdleCarriesNothing (t : Transport) : Prop :=
  ((t.TransportState = AvailableTransport ∨ t.TransportState = NonAvailableTransport) →
    t.Shipment = []) ∧
  ((t.TransportState = LoadingTrasport ∨ t.TransportState = DeliveringTransport) →
    t.Shipment ≠ [])

/-- The transport record stored under `key` in `w`, when there is one, is as
C36 says. -/
def TransportInvariant (w : World) (key : String) : Prop :=
  ∀ t, w (Key.simple key) = some (Record.transport t) → IdleCarriesNothing t

/-- An invocation of an operation of the transport contract, with its
arguments. -/
inductive TransportCall where
  | createTransport (key capacityUnits capacityUnitMeasurement capacityUsed country province
      lat lon transportType : String)
  | transportInspection (key issuer certificationtype result : String)
  | updateTransportAdvisor (key newAdvisor : String)
  | loadLoteInTransport (key capacityUsed lotes : String)
  | startTransportDelivery (key destCountry destProvince destLat desLon finishTime : String)
  | transportInspectionLote (key loteKey issuer certificationtype result : String)
  | transportDeliverStoreLote (key loteKey nextLocation newadvisor envTemp envTempMeasurement
      envHumidity capacityUsed : String)
  | transportDeliverRepairingLote (key loteKey newOwner nextLocation newadvisor envTemp
      envTempMeasurement envHumidity capacityUsed : String)
  | transportDeliverUsingLote (key loteKey nextLocation newadvisor envTemp envTempMeasurement
      envHumidity capacityUsed : String)
  | transportDeliverTransferLote (key loteKey newOwner nextLocation priceamount pricecurrency
      newadvisor envTemp envTempMeasurement envHumidity capacityUsed : String)
  | transportDeliverTransshipmentLote (key loteKey nextLocation newadvisor envTemp
      envTempMeasurement envHumidity capacityUsed : String)
  | transportIsNonAvailable (key : String)
  | transportIsAvailable (key : String)
  | transportUpdateLocation (key country province lat lon : String)
  | transportDestroyed (key : String)

/-- The outcome of an invocation of the transport contract by the caller `ctx`
on the ledger `w`. -/
def TransportCall.run (ctx : Ctx) (w : World) : TransportCall → Option String × World
  | .createTransport key a b c d e f g h =>
    TransportSmartContract.CreateTransport ctx w key a b c d e f g h
  | .transportInspection key a b c => TransportSmartContract.TransportInspection ctx w key a b c
  | .updateTransportAdvisor key a => TransportSmartContract.UpdateTransportAdvisor ctx w key a
  | .loadLoteInTransport key a b => TransportSmartContract.LoadLoteInTransport ctx w key a b
  | .startTransportDelivery key a b c d e =>
    TransportSmartContract.StartTransportDelivery ctx w key a b c d e
  | .transportInspectionLote key loteKey a b c =>
    TransportSmartContract.TransportInspectionLote ctx w key loteKey a b c
  | .transportDeliverStoreLote key loteKey a b c d e f =>
    TransportSmartContract.TransportDeliverStoreLote ctx w key loteKey a b c d e f
  | .transportDeliverRepairingLote key loteKey a b c d e f g =>
    TransportSmartContract.TransportDeliverRepairingLote ctx w key loteKey a b c d e f g
  | .transportDeliverUsingLote key loteKey a b c d e f =>
    TransportSmartContract.TransportDeliverUsingLote ctx w key loteKey a b c d e f
  | .transportDeliverTransferLote key loteKey a b c d e f g h i =>
    TransportSmartContract.TransportDeliverTransferLote ctx w key loteKey a b c d e f g h i
  | .transportDeliverTransshipmentLote key loteKey a b c d e f =>
    TransportSmartContract.TransportDeliverTransshipmentLote ctx w key loteKey a b c d e f
  | .transportIsNonAvailable key => TransportSmartContract.TransportIsNonAvailable ctx w key
  | .transportIsAvailable key => TransportSmartContract.TransportIsAvailable ctx w key
  | .transportUpdateLocation key a b c d =>
    TransportSmartContract.TransportUpdateLocation ctx w key a b c d
  | .transportDestroyed key => TransportSmartContract.TransportDestroyed ctx w key

/-- The ledgers reachable from `CreateTransport` of `key` through operations
of the transport contract: the ledger left by a successful `CreateTransport`
of `key`, by any caller on any ledger, and the ledger left by any invocation
of the transport contract, by any caller and with any arguments, on a ledger
so reached. -/
inductive TransportReachable (key : String) : World → Prop where
  | created (ctx : Ctx) (w : World) (capacityUnits capacityUnitMeasurement capacityUsed country
      province lat lon transportType : String)
      (h : (TransportSmartContract.CreateTransport ctx w key capacityUnits
        capacityUnitMeasurement capacityUsed country province lat lon transportType).1 = none) :
      TransportReachable key
        (TransportSmartContract.CreateTransport ctx w key capacityUnits capacityUnitMeasurement
          capacityUsed country province lat lon transportType).2
  | step (ctx : Ctx) (w : World) (call : TransportCall) (h : TransportReachable key w) :
      TransportReachable key (TransportCall.run ctx w call).2

/-- The new ids `ManufactureFractionateLoteForUse` reads from its
`newComponentNames` argument. -/
def componentNames (newComponentNames : String) : List String :=
  if newComponentNames ≠ "" then Split newComponentNames ',' else []

/-! ## Theorems -/

open LoteSmartContract

/-- Reading a key just written returns the written value. -/
theorem PutState_same (w : World) (k : Key) (v : Record) : PutState w k v k = some v := by
  simp [PutState]

/-- Writing a key leaves every other key as it was. -/
theorem PutState_other (w : World) (k k2 : Key) (v : Record) (h : k2 ≠ k) :
    PutState w k v k2 = w k2 := by
  simp [PutState, h]

/-- The stub writes under every key but the empty one. -/
theorem putStateError_eq_none (key : String) : putStateError key = none ↔ key ≠ "" := by
  unfold putStateError
  by_cases h : key = "" <;> simp [h]

/-- C1 (lot transition table): for a lot stored at `key` whose advisor is the
caller, and a location key present in the ledger, each of the eight transition
operations succeeds exactly when the lot satisfies the documented precondition,
and a successful call leaves at `key` a lot in the documented next state. -/
theorem C1_lote_transition_table (ctx : Ctx) (w : World) (key loc : String) (l : Lote)
    (r : Record) (a b c d e f g : String)
    (hk : w (Key.simple key) = some (Record.lote l))
    (hc : ctx.clientID = some l.Advisor)
    (hloc : w (Key.simple loc) = some r) :
    (((StoreLote ctx w key loc a b c d).1 = none ↔ l.LoteState = TransportingLote) ∧
      ((StoreLote ctx w key loc a b c d).1 = none →
        ∃ l2, (StoreLote ctx w key loc a b c d).2 (Key.simple key) = some (Record.lote l2) ∧
          l2.LoteState = StoredLote)) ∧
    (((TransportLote ctx w key loc a b c d).1 = none ↔
        (l.LoteState ≠ SelledLote ∧ l.LoteState ≠ DestroyedLote)) ∧
      ((TransportLote ctx w key loc a b c d).1 = none →
        ∃ l2, (TransportLote ctx w key loc a b c d).2 (Key.simple key) = some (Record.lote l2) ∧
          l2.LoteState = TransportingLote)) ∧
    (((TransferLote ctx w key loc a b c d e f g).1 = none ↔ l.LoteState = TransportingLote) ∧
      ((TransferLote ctx w key loc a b c d e f g).1 = none →
        ∃ l2, (TransferLote ctx w key loc a b c d e f g).2 (Key.simple key) =
            some (Record.lote l2) ∧
          l2.LoteState = StoredLote)) ∧
    (((TransshipmentLote ctx w key loc a b c d).1 = none ↔ l.LoteState = TransportingLote) ∧
      ((TransshipmentLote ctx w key loc a b c d).1 = none →
        ∃ l2, (TransshipmentLote ctx w key loc a b c d).2 (Key.simple key) =
            some (Record.lote l2) ∧
          l2.LoteState = l.LoteState)) ∧
    (((PutLoteOnReparation ctx w key loc a b c d e).1 = none ↔
        (l.LoteState = TransportingLote ∧ l.LoteProductState = LoteProductBroken)) ∧
      ((PutLoteOnReparation ctx w key loc a b c d e).1 = none →
        ∃ l2, (PutLoteOnReparation ctx w key loc a b c d e).2 (Key.simple key) =
            some (Record.lote l2) ∧
          l2.LoteState = RepairingLote)) ∧
    (((RepairLote ctx w key loc a b c d).1 = none ↔ l.LoteState = RepairingLote) ∧
      ((RepairLote ctx w key loc a b c d).1 = none →
        ∃ l2, (RepairLote ctx w key loc a b c d).2 (Key.simple key) = some (Record.lote l2) ∧
          l2.LoteState = TransportingLote ∧ l2.LoteProductState = LoteProductNormal)) ∧
    (((PutLoteOnUsing ctx w key loc a b c d).1 = none ↔
        ((l.LoteState = TransportingLote ∨ l.LoteState = ManunfacturingLote) ∧
          l.LoteProductState ≠ LoteProductBroken)) ∧
      ((PutLoteOnUsing ctx w key loc a b c d).1 = none →
        ∃ l2, (PutLoteOnUsing ctx w key loc a b c d).2 (Key.simple key) =
            some (Record.lote l2) ∧
          l2.LoteState = UsingLote)) ∧
    (((SellLote ctx w key a b).1 = none ↔ l.LoteState = StoredLote) ∧
      ((SellLote ctx w key a b).1 = none →
        ∃ l2, (SellLote ctx w key a b).2 (Key.simple key) = some (Record.lote l2) ∧
          l2.LoteState = SelledLote)) := by
  simp only [StoreLote, TransportLote, TransferLote, TransshipmentLote, PutLoteOnReparation,
    RepairLote, PutLoteOnUsing, SellLote, GetState, hk, hloc, UnmarshalLote,
    GetSubmittingClientIdentity, GetSubmittingClientOrg, VerifyClientOrgMatchesPeerOrg, hc,
    TransportingLote, StoredLote, SelledLote, DestroyedLote, RepairingLote, UsingLote,
    ManunfacturingLote, LoteProductBroken, LoteProductNormal]
  refine ⟨?_, ?_, ?_, ?_, ?_, ?_, ?_, ?_⟩
  · by_cases h1 : l.LoteState = 1 <;> simp [h1, PutState]
  · by_cases h4 : l.LoteState = 4 <;> by_cases h5 : l.LoteState = 5 <;> simp [h4, h5, PutState]
  · by_cases h1 : l.LoteState = 1 <;> simp [h1, PutState]
  · by_cases h1 : l.LoteState = 1 <;> simp [h1, PutState]
  · by_cases h1 : l.LoteState = 1 <;> by_cases hb : l.LoteProductState = 1 <;>
      simp [h1, hb, PutState]
  · by_cases h3 : l.LoteState = 3 <;> simp [h3, PutState]
  · by_cases h1 : l.LoteState = 1 <;> by_cases h0 : l.LoteState = 0 <;>
      by_cases hb : l.LoteProductState = 1 <;> simp [h1, h0, hb, PutState]
  · by_cases h2 : l.LoteState = 2 <;> simp [h2, PutState]

/-- Witness for C1: the sample lot in state Transporting, located at the site
`M1`; `StoreLote` succeeds on it. -/
theorem C1_lote_transition_table_witness :
    sampleWorld (sampleSite [] [] []) (sampleLote TransportingLote 0) (Key.simple "L1") =
        some (Record.lote (sampleLote TransportingLote 0)) ∧
      sampleCtx.clientID = some (sampleLote TransportingLote 0).Advisor ∧
      sampleWorld (sampleSite [] [] []) (sampleLote TransportingLote 0) (Key.simple "M1") =
        some (Record.manufacture (sampleSite [] [] [])) ∧
      ((StoreLote sampleCtx (sampleWorld (sampleSite [] [] []) (sampleLote TransportingLote 0))
          "L1" "M1" "a" "b" "c" "d").1 = none ↔
        (sampleLote TransportingLote 0).LoteState = TransportingLote) :=
  ⟨by decide, rfl, by decide,
    (C1_lote_transition_table sampleCtx
      (sampleWorld (sampleSite [] [] []) (sampleLote TransportingLote 0)) "L1" "M1"
      (sampleLote TransportingLote 0) (Record.manufacture (sampleSite [] [] []))
      "a" "b" "c" "d" "e" "f" "g" (by decide) rfl (by decide)).1.1⟩

/-- C2 (advisor gating on lots): when `key` holds a lot record and the caller's
identity is not that lot's advisor, each of the fifteen mutating lot operations
returns an error and leaves the world state as it was. -/
theorem C2_lote_advisor_gating (ctx : Ctx) (w : World) (key : String) (l : Lote)
    (a b c d e f g h : String)
    (hk : w (Key.simple key) = some (Record.lote l))
    (hc : ctx.clientID ≠ some l.Advisor) :
    ((LoteInspection ctx w key a b c).1 ≠ none ∧ (LoteInspection ctx w key a b c).2 = w) ∧
    ((StoreLote ctx w key a b c d e).1 ≠ none ∧ (StoreLote ctx w key a b c d e).2 = w) ∧
    ((TransportLote ctx w key a b c d e).1 ≠ none ∧ (TransportLote ctx w key a b c d e).2 = w) ∧
    ((FractionateLote ctx w key a b c d).1 ≠ none ∧ (FractionateLote ctx w key a b c d).2 = w) ∧
    ((TransferLote ctx w key a b c d e f g h).1 ≠ none ∧
      (TransferLote ctx w key a b c d e f g h).2 = w) ∧
    ((TransshipmentLote ctx w key a b c d e).1 ≠ none ∧
      (TransshipmentLote ctx w key a b c d e).2 = w) ∧
    ((ReturnLote ctx w key a b c d e f).1 ≠ none ∧ (ReturnLote ctx w key a b c d e f).2 = w) ∧
    ((PutLoteOnReparation ctx w key a b c d e f).1 ≠ none ∧
      (PutLoteOnReparation ctx w key a b c d e f).2 = w) ∧
    ((RepairLote ctx w key a b c d e).1 ≠ none ∧ (RepairLote ctx w key a b c d e).2 = w) ∧
    ((PutLoteOnUsing ctx w key a b c d e).1 ≠ none ∧ (PutLoteOnUsing ctx w key a b c d e).2 = w) ∧
    ((UpdatePrice ctx w key a b).1 ≠ none ∧ (UpdatePrice ctx w key a b).2 = w) ∧
    ((UpdateAdvisor ctx w key a).1 ≠ none ∧ (UpdateAdvisor ctx w key a).2 = w) ∧
    ((UpdateEnvironment ctx w key a b c).1 ≠ none ∧ (UpdateEnvironment ctx w key a b c).2 = w) ∧
    ((SellLote ctx w key a b).1 ≠ none ∧ (SellLote ctx w key a b).2 = w) ∧
    ((LoteDestroyed ctx w key).1 ≠ none ∧ (LoteDestroyed ctx w key).2 = w) := by
  have hadv : ∀ x, ctx.clientID = some x → x ≠ l.Advisor := by
    intro x hx hxl; exact hc (hxl ▸ hx)
  refine ⟨?_, ?_, ?_, ?_, ?_, ?_, ?_, ?_, ?_, ?_, ?_, ?_, ?_, ?_, ?_⟩
  all_goals
    simp only [LoteInspection, StoreLote, TransportLote, FractionateLote, TransferLote,
      TransshipmentLote, ReturnLote, PutLoteOnReparation, RepairLote, PutLoteOnUsing,
      UpdatePrice, UpdateAdvisor, UpdateEnvironment, SellLote, LoteDestroyed,
      GetState, hk, UnmarshalLote, GetSubmittingClientIdentity]
    cases hid : ctx.clientID with
    | none => cases hl : w (Key.simple a) <;> simp
    | some x =>
      have hx := hadv x hid
      cases hl : w (Key.simple a) <;> simp [hx]

/-- Witness for C2: the caller `eve` on the sample lot advised by `adv`;
`SellLote` is refused and writes nothing. -/
theorem C2_lote_advisor_gating_witness :
    sampleWorld (sampleSite [] [] []) (sampleLote StoredLote 0) (Key.simple "L1") =
        some (Record.lote (sampleLote StoredLote 0)) ∧
      (⟨some "eve"⟩ : Ctx).clientID ≠ some (sampleLote StoredLote 0).Advisor ∧
      (SellLote ⟨some "eve"⟩ (sampleWorld (sampleSite [] [] []) (sampleLote StoredLote 0))
          "L1" "100" "USD").1 ≠ none ∧
      (SellLote ⟨some "eve"⟩ (sampleWorld (sampleSite [] [] []) (sampleLote StoredLote 0))
          "L1" "100" "USD").2 = sampleWorld (sampleSite [] [] []) (sampleLote StoredLote 0) :=
  ⟨by decide, by decide,
    (C2_lote_advisor_gating ⟨some "eve"⟩
      (sampleWorld (sampleSite [] [] []) (sampleLote StoredLote 0)) "L1"
      (sampleLote StoredLote 0) "100" "USD" "c" "d" "e" "f" "g" "h"
      (by decide) (by decide)).2.2.2.2.2.2.2.2.2.2.2.2.2.1⟩

/-- C5 (ReturnLote has exactly two successful branches): for a lot at `key`
advised by the caller and an existing location, the call succeeds from Selled
(the lot becomes Stored and Broken) and from Stored (the lot becomes
Transporting and Broken), in both cases with owner, advisor, location and
environment taken from the arguments; from every other state it fails and the
world state is unchanged. -/
theorem C5_return_lote_branches (ctx : Ctx) (w : World) (key loc newadvisor newowner envTemp
    envTempMeasurement envHumidity : String) (l : Lote) (r : Record)
    (hk : w (Key.simple key) = some (Record.lote l))
    (hc : ctx.clientID = some l.Advisor)
    (hloc : w (Key.simple loc) = some r) :
    (l.LoteState = SelledLote →
      (ReturnLote ctx w key loc newadvisor newowner envTemp envTempMeasurement envHumidity).1 =
          none ∧
        ∃ l2, (ReturnLote ctx w key loc newadvisor newowner envTemp envTempMeasurement
              envHumidity).2 (Key.simple key) = some (Record.lote l2) ∧
          l2.LoteState = StoredLote ∧ l2.LoteProductState = LoteProductBroken ∧
          l2.OwnerID = newowner ∧ l2.Advisor = newadvisor ∧ l2.CurrentLocationID = loc ∧
          l2.Environment = ⟨envTemp, envTempMeasurement, envHumidity⟩) ∧
    (l.LoteState = StoredLote →
      (ReturnLote ctx w key loc newadvisor newowner envTemp envTempMeasurement envHumidity).1 =
          none ∧
        ∃ l2, (ReturnLote ctx w key loc newadvisor newowner envTemp envTempMeasurement
              envHumidity).2 (Key.simple key) = some (Record.lote l2) ∧
          l2.LoteState = TransportingLote ∧ l2.LoteProductState = LoteProductBroken ∧
          l2.OwnerID = newowner ∧ l2.Advisor = newadvisor ∧ l2.CurrentLocationID = loc ∧
          l2.Environment = ⟨envTemp, envTempMeasurement, envHumidity⟩) ∧
    (l.LoteState ≠ SelledLote → l.LoteState ≠ StoredLote →
      (ReturnLote ctx w key loc newadvisor newowner envTemp envTempMeasurement envHumidity).1 ≠
          none ∧
        (ReturnLote ctx w key loc newadvisor newowner envTemp envTempMeasurement envHumidity).2 =
          w) := by
  simp only [ReturnLote, GetState, hk, hloc, UnmarshalLote, GetSubmittingClientIdentity,
    GetSubmittingClientOrg, VerifyClientOrgMatchesPeerOrg, hc, SelledLote, StoredLote,
    TransportingLote, LoteProductBroken]
  refine ⟨?_, ?_, ?_⟩
  · intro h4; simp [h4, PutState]
  · intro h2; simp [h2, PutState]
  · intro h4 h2; simp [h4, h2]

/-- Witness for C5: the sample lot in state Selled is returned to the site
`M1` and becomes Stored and Broken. -/
theorem C5_return_lote_branches_witness :
    sampleWorld (sampleSite [] [] []) (sampleLote SelledLote 0) (Key.simple "L1") =
        some (Record.lote (sampleLote SelledLote 0)) ∧
      sampleCtx.clientID = some (sampleLote SelledLote 0).Advisor ∧
      sampleWorld (sampleSite [] [] []) (sampleLote SelledLote 0) (Key.simple "M1") =
        some (Record.manufacture (sampleSite [] [] [])) ∧
      (ReturnLote sampleCtx (sampleWorld (sampleSite [] [] []) (sampleLote SelledLote 0))
          "L1" "M1" "adv" "own" "4" "C" "50").1 = none :=
  ⟨by decide, rfl, by decide,
    ((C5_return_lote_branches sampleCtx
      (sampleWorld (sampleSite [] [] []) (sampleLote SelledLote 0)) "L1" "M1" "adv" "own"
      "4" "C" "50" (sampleLote SelledLote 0) (Record.manufacture (sampleSite [] [] []))
      (by decide) rfl (by decide)).1 rfl).1⟩

/-- C6 (end-to-end lot scenario): from a ledger without `L1` and with a
location key, `L1` being a key the ledger stub accepts (not empty, and
indexable together with the product and site ids), one caller `c` who names
themself as every new advisor creates `L1` with units "10"; `StoreLote` then
fails, writes nothing and the lot is Manufacturing; `TransportLote` succeeds
(Transporting); `StoreLote` succeeds (Stored); `SellLote` for 100 USD succeeds
(Selled, price 100 USD); `ReturnLote` succeeds (Stored, Broken). -/
theorem C6_end_to_end_scenario (w : World) (L1 loc caller : String) (r : Record)
    (productID manufactureID priceamount pricecurrency envTemp envTempMeasurement envHumidity
      newowner : String) (components : List String)
    (hL1 : w (Key.simple L1) = none)
    (hloc : w (Key.simple loc) = some r)
    (hkey : L1 ≠ "")
    (hattr : compositeKeyError lote_index [L1, productID, manufactureID] = none) :
    ∃ w1 w2 w3 w4 w5 : World,
      CreateLote ⟨some caller⟩ w L1 productID manufactureID priceamount pricecurrency "10"
          envTemp envTempMeasurement envHumidity components loc = (none, w1) ∧
      (StoreLote ⟨some caller⟩ w1 L1 loc caller envTemp envTempMeasurement envHumidity).1 ≠
          none ∧
      (StoreLote ⟨some caller⟩ w1 L1 loc caller envTemp envTempMeasurement envHumidity).2 =
          w1 ∧
      (∃ l, w1 (Key.simple L1) = some (Record.lote l) ∧ l.LoteState = ManunfacturingLote) ∧
      TransportLote ⟨some caller⟩ w1 L1 loc caller envTemp envTempMeasurement envHumidity =
          (none, w2) ∧
      (∃ l, w2 (Key.simple L1) = some (Record.lote l) ∧ l.LoteState = TransportingLote) ∧
      StoreLote ⟨some caller⟩ w2 L1 loc caller envTemp envTempMeasurement envHumidity =
          (none, w3) ∧
      (∃ l, w3 (Key.simple L1) = some (Record.lote l) ∧ l.LoteState = StoredLote) ∧
      SellLote ⟨some caller⟩ w3 L1 "100" "USD" = (none, w4) ∧
      (∃ l, w4 (Key.simple L1) = some (Record.lote l) ∧ l.LoteState = SelledLote ∧
        l.Price = ⟨"100", "USD"⟩) ∧
      ReturnLote ⟨some caller⟩ w4 L1 loc caller newowner envTemp envTempMeasurement
          envHumidity = (none, w5) ∧
      (∃ l, w5 (Key.simple L1) = some (Record.lote l) ∧ l.LoteState = StoredLote ∧
        l.LoteProductState = LoteProductBroken) := by
  have hne : loc ≠ L1 := by
    intro h; rw [h, hL1] at hloc; cases hloc
  have hneK : Key.simple loc ≠ Key.simple L1 := by
    intro h; exact hne (Key.simple.inj h)
  have h10 : ¬ (Atoi "10" < 1) := by decide
  have hput : putStateError L1 = none := (putStateError_eq_none L1).mpr hkey
  let env : Environment := ⟨envTemp, envTempMeasurement, envHumidity⟩
  let lot0 : Lote :=
    { DocType := "lote", LoteID := L1, ProductID := productID, ManufactureID := manufactureID,
      OwnerID := "", Advisor := caller, Price := ⟨priceamount, pricecurrency⟩, Units := "10",
      Certifications := [], Environment := env, LoteState := ManunfacturingLote,
      Components := components, CurrentLocationID := loc, FatherID := "",
      LoteProductState := LoteProductNormal }
  let lot1 : Lote := { lot0 with LoteState := TransportingLote }
  let lot2 : Lote := { lot0 with LoteState := StoredLote }
  let lot3 : Lote := { lot0 with LoteState := SelledLote, Price := ⟨"100", "USD"⟩ }
  let lot4 : Lote :=
    { lot3 with
      LoteState := StoredLote, LoteProductState := LoteProductBroken, OwnerID := newowner }
  let W1 : World :=
    PutState (PutState w (Key.simple L1) (Record.lote lot0))
      (CreateCompositeKey lote_index [L1, productID, manufactureID]) Record.index
  let W2 : World := PutState W1 (Key.simple L1) (Record.lote lot1)
  let W3 : World := PutState W2 (Key.simple L1) (Record.lote lot2)
  let W4 : World := PutState W3 (Key.simple L1) (Record.lote lot3)
  let W5 : World := PutState W4 (Key.simple L1) (Record.lote lot4)
  refine ⟨W1, W2, W3, W4, W5, ?_, ?_, ?_, ?_, ?_, ?_, ?_, ?_, ?_, ?_, ?_, ?_⟩
  · simp only [CreateLote, ValidRole, GetState, hL1, hloc, h10, GetSubmittingClientIdentity,
      GetSubmittingClientOrg, VerifyClientOrgMatchesPeerOrg, if_false, W1, lot0, env, hput,
      hattr]
  all_goals
    simp [StoreLote, TransportLote, SellLote, ReturnLote, GetState, PutState, hloc, hne, hneK,
      CreateCompositeKey, UnmarshalLote, GetSubmittingClientIdentity, GetSubmittingClientOrg,
      VerifyClientOrgMatchesPeerOrg, ManunfacturingLote, TransportingLote, StoredLote,
      SelledLote, LoteProductBroken, LoteProductNormal, W1, W2, W3, W4, W5, lot0, lot1, lot2,
      lot3, lot4, env]

/-- Witness for C6: the scenario on a ledger that holds only the site `M1`,
used as the location. -/
theorem C6_end_to_end_scenario_witness :
    ∃ w1 : World,
      CreateLote ⟨some "adv"⟩
          (PutState World.empty (Key.simple "M1") (Record.manufacture (sampleSite [] [] [])))
          "L1" "P1" "M1" "5" "USD" "10" "4" "C" "50" [] "M1" = (none, w1) :=
  let ⟨w1, _, _, _, _, h, _⟩ :=
    C6_end_to_end_scenario
      (PutState World.empty (Key.simple "M1") (Record.manufacture (sampleSite [] [] [])))
      "L1" "M1" "adv" (Record.manufacture (sampleSite [] [] []))
      "P1" "M1" "5" "USD" "4" "C" "50" "own" [] (by decide) (by decide) (by decide) (by decide)
  ⟨w1, h⟩

/-- The value of `Atoi` is an `int64`. -/
theorem Atoi_range (s : String) : int64Min ≤ Atoi s ∧ Atoi s ≤ int64Max := by
  unfold Atoi AtoiChars int64Min int64Max
  split
  · omega
  · split
    · split
      · omega
      · split
        · omega
        · rename_i n _; have := Int.ofNat_nonneg n; omega
    · split
      · split
        · omega
        · split
          · omega
          · rename_i n _; have := Int.ofNat_nonneg n; omega
      · split
        · omega
        · rename_i n _; have := Int.ofNat_nonneg n; omega

/-- An `int64` value is not changed by wrapping. -/
theorem wrap64_of_range (x : Int) (h1 : int64Min ≤ x) (h2 : x ≤ int64Max) : wrap64 x = x := by
  unfold wrap64; unfold int64Min at h1; unfold int64Max at h2
  omega

/-- C3 (counterexample): the stored sample lot `L1`, advised by the caller, is
split under two distinct ids absent from the ledger.  With 10 units split into
4 and 6 and the empty string as first id, the stub refuses the write of the
first child; with `"L2\x00"` as first id the stub refuses to build the index
key of the first child.  With 20000000000000000000 units split into
10000000000000000000 and 10000000000000000000 under the ids `L2` and `L3`,
`strconv.Atoi` reads each of the three numbers as the largest `int64` and the
sum of the parts is not the units read.  The three calls return an error. -/
theorem C3_fractionate_refused_counterexample :
    sampleWorld (sampleSite [] [] []) (sampleLote StoredLote 0) (Key.simple "L1") =
      some (Record.lote (sampleLote StoredLote 0)) ∧
    sampleCtx.clientID = some (sampleLote StoredLote 0).Advisor ∧
    (sampleLote StoredLote 0).LoteState = StoredLote ∧
    Atoi "4" + Atoi "6" = Atoi (sampleLote StoredLote 0).Units ∧
    "" ≠ "L3" ∧ "L2\x00" ≠ "L3" ∧ "L2" ≠ "L3" ∧
    sampleWorld (sampleSite [] [] []) (sampleLote StoredLote 0) (Key.simple "") = none ∧
    sampleWorld (sampleSite [] [] []) (sampleLote StoredLote 0) (Key.simple "L2\x00") = none ∧
    sampleWorld (sampleSite [] [] []) (sampleLote StoredLote 0) (Key.simple "L2") = none ∧
    sampleWorld (sampleSite [] [] []) (sampleLote StoredLote 0) (Key.simple "L3") = none ∧
    (FractionateLote sampleCtx (sampleWorld (sampleSite [] [] []) (sampleLote StoredLote 0))
        "L1" "4" "6" "" "L3").1 ≠ none ∧
    (FractionateLote sampleCtx (sampleWorld (sampleSite [] [] []) (sampleLote StoredLote 0))
        "L1" "4" "6" "L2\x00" "L3").1 ≠ none ∧
    (10000000000000000000 : Int) + 10000000000000000000 = 20000000000000000000 ∧
    Atoi "10000000000000000000" + Atoi "10000000000000000000" ≠ Atoi "20000000000000000000" ∧
    (FractionateLote sampleCtx
        (sampleWorld (sampleSite [] [] [])
          { sampleLote StoredLote 0 with Units := "20000000000000000000" })
        "L1" "10000000000000000000" "10000000000000000000" "L2" "L3").1 ≠ none := by
  refine ⟨by decide, rfl, rfl, by decide, by decide, by decide, by decide, by decide,
    by decide, by decide, by decide, by decide, by decide, by decide, by decide, by decide⟩

/-- C3 (amended, fractionation conservation): for a lot at `key` advised by
the caller, in state Stored, Using or Manufacturing, unit strings `a`, `b`
whose values add up to the lot's units, and two distinct ids absent from the
ledger that the ledger stub accepts (neither is empty, and each can be indexed
together with the parent's product and site ids), `FractionateLote` succeeds;
afterwards `id1` and `id2` hold lots with units `a` and `b`, father `key`, and
every other attribute (product, site, owner, price, certifications,
environment, components, location, state, product state) copied from the
parent, and `key` holds the parent in state Destroyed. -/
theorem C3_fractionate_conservation (ctx : Ctx) (w : World) (key a b id1 id2 : String)
    (l : Lote)
    (hk : w (Key.simple key) = some (Record.lote l))
    (hc : ctx.clientID = some l.Advisor)
    (hs : l.LoteState = StoredLote ∨ l.LoteState = UsingLote ∨ l.LoteState = ManunfacturingLote)
    (hsum : Atoi a + Atoi b = Atoi l.Units)
    (hid : id1 ≠ id2)
    (h1 : w (Key.simple id1) = none)
    (h2 : w (Key.simple id2) = none)
    (hn1 : id1 ≠ "")
    (hn2 : id2 ≠ "")
    (ha1 : compositeKeyError lote_index [id1, l.ProductID, l.ManufactureID] = none)
    (ha2 : compositeKeyError lote_index [id2, l.ProductID, l.ManufactureID] = none) :
    (FractionateLote ctx w key a b id1 id2).1 = none ∧
    (FractionateLote ctx w key a b id1 id2).2 (Key.simple id1) =
      some (Record.lote
        { l with DocType := "lote", LoteID := id1, Units := a, FatherID := key }) ∧
    (FractionateLote ctx w key a b id1 id2).2 (Key.simple id2) =
      some (Record.lote
        { l with DocType := "lote", LoteID := id2, Units := b, FatherID := key }) ∧
    (FractionateLote ctx w key a b id1 id2).2 (Key.simple key) =
      some (Record.lote { l with LoteState := DestroyedLote }) := by
  have hk1 : key ≠ id1 := by intro h; rw [h, h1] at hk; cases hk
  have hk2 : key ≠ id2 := by intro h; rw [h, h2] at hk; cases hk
  have hid2 : id2 ≠ id1 := fun h => hid h.symm
  have hw : wrap64 (Atoi a + Atoi b) = Atoi l.Units := by
    rw [hsum]; exact wrap64_of_range _ (Atoi_range _).1 (Atoi_range _).2
  have hst : ¬ (l.LoteState ≠ 2 ∧ l.LoteState ≠ 6 ∧ l.LoteState ≠ 0) := by
    rcases hs with h | h | h <;> simp [h, StoredLote, UsingLote, ManunfacturingLote]
  have h5 : l.LoteState ≠ 5 := by
    rcases hs with h | h | h <;> simp [h, StoredLote, UsingLote, ManunfacturingLote]
  have hk1s : id1 ≠ key := fun h => hk1 h.symm
  have hk2s : id2 ≠ key := fun h => hk2 h.symm
  have hp1 : putStateError id1 = none := (putStateError_eq_none id1).mpr hn1
  have hp2 : putStateError id2 = none := (putStateError_eq_none id2).mpr hn2
  simp only [FractionateLote, GetState, hk, UnmarshalLote, GetSubmittingClientIdentity, hc,
    hst, hw, ne_eq, not_true_eq_false, if_false, hp1, hp2, ha1, ha2, LoteDestroyed, PutState,
    CreateCompositeKey,
    reduceCtorEq, Key.simple.injEq, hk1, hk2, hid, hid2, if_true, h5, DelState, DestroyedLote]
  simp [hk1, hk2, hk1s, hk2s, hid, hid2, h5]

/-- Witness for C3: the sample lot of 10 units, stored, split into 4 and 6. -/
theorem C3_fractionate_conservation_witness :
    (FractionateLote sampleCtx (sampleWorld (sampleSite [] [] []) (sampleLote StoredLote 0))
        "L1" "4" "6" "L2" "L3").1 = none :=
  (C3_fractionate_conservation sampleCtx
    (sampleWorld (sampleSite [] [] []) (sampleLote StoredLote 0)) "L1" "4" "6" "L2" "L3"
    (sampleLote StoredLote 0) (by decide) rfl (Or.inl rfl) (by decide) (by decide)
    (by decide) (by decide) (by decide) (by decide) (by decide) (by decide)).1

/-- `FractionateLote` compares the lot's units with the 64-bit sum: whenever
that wrapped sum differs from the units, or the state is not Stored, Using or
Manufacturing, the call fails and writes nothing. -/
theorem FractionateLote_rejects (ctx : Ctx) (w : World) (key a b id1 id2 : String) (l : Lote)
    (hk : w (Key.simple key) = some (Record.lote l))
    (h : wrap64 (Atoi a + Atoi b) ≠ Atoi l.Units ∨
      (l.LoteState ≠ StoredLote ∧ l.LoteState ≠ UsingLote ∧ l.LoteState ≠ ManunfacturingLote)) :
    (FractionateLote ctx w key a b id1 id2).1 ≠ none ∧
      (FractionateLote ctx w key a b id1 id2).2 = w := by
  simp only [FractionateLote, GetState, hk, UnmarshalLote, GetSubmittingClientIdentity]
  cases ctx.clientID with
  | none => simp
  | some x =>
    by_cases hx : x = l.Advisor
    · by_cases hst : l.LoteState ≠ 2 ∧ l.LoteState ≠ 6 ∧ l.LoteState ≠ 0
      · simp [hx, hst]
      · rcases h with h | h
        · have h2 : ¬ (Atoi l.Units = wrap64 (Atoi a + Atoi b)) := fun e => h e.symm
          simp [hx, hst, h2]
        · exact absurd h hst
    · simp [hx]

/-- C4 (failing input): the second child of splitting the sample lot into
"10" and "0" has units "0"; splitting that child into two parts of
-9223372036854775808 each is accepted, because the 64-bit sum of the parts
wraps around to 0, although the parts do not add up to 0. -/
theorem C4_fractionate_accepts_overflowing_split :
    Atoi "-9223372036854775808" + Atoi "-9223372036854775808" ≠ Atoi "0" ∧
    (FractionateLote sampleCtx (sampleWorld (sampleSite [] [] []) (sampleLote StoredLote 0))
        "L1" "10" "0" "L2" "L3").1 = none ∧
    (FractionateLote sampleCtx (sampleWorld (sampleSite [] [] []) (sampleLote StoredLote 0))
        "L1" "10" "0" "L2" "L3").2 (Key.simple "L3") =
      some (Record.lote
        { sampleLote StoredLote 0 with LoteID := "L3", Units := "0", FatherID := "L1" }) ∧
    (FractionateLote sampleCtx
        (FractionateLote sampleCtx (sampleWorld (sampleSite [] [] []) (sampleLote StoredLote 0))
          "L1" "10" "0" "L2" "L3").2
        "L3" "-9223372036854775808" "-9223372036854775808" "L4" "L5").1 = none ∧
    (FractionateLote sampleCtx
        (FractionateLote sampleCtx (sampleWorld (sampleSite [] [] []) (sampleLote StoredLote 0))
          "L1" "10" "0" "L2" "L3").2
        "L3" "-9223372036854775808" "-9223372036854775808" "L4" "L5").2 (Key.simple "L4") =
      some (Record.lote
        { sampleLote StoredLote 0 with
          LoteID := "L4", Units := "-9223372036854775808", FatherID := "L3" }) := by
  refine ⟨by decide, by decide, by decide, by decide, by decide⟩

/-- Splitting a piece that has no separator. -/
theorem splitChars_no_sep (sep : Char) (cs cur : List Char) (h : sep ∉ cs) :
    splitChars sep cs cur = [cur.reverse ++ cs] := by
  induction cs generalizing cur with
  | nil => simp [splitChars]
  | cons c cs ih =>
    have hc : c ≠ sep := fun e => h (by simp [e])
    have hcs : sep ∉ cs := fun e => h (by simp [e])
    simp [splitChars, hc, ih _ hcs]

/-- Splitting at the first separator. -/
theorem splitChars_append (sep : Char) (cs rest cur : List Char) (h : sep ∉ cs) :
    splitChars sep (cs ++ sep :: rest) cur = (cur.reverse ++ cs) :: splitChars sep rest [] := by
  induction cs generalizing cur with
  | nil => simp [splitChars]
  | cons c cs ih =>
    have hc : c ≠ sep := fun e => h (by simp [e])
    have hcs : sep ∉ cs := fun e => h (by simp [e])
    simp [splitChars, hc, ih _ hcs]

/-- A component entry `id:n` splits into its id and its units. -/
theorem Split_componentSpec (id n : String) (hid : ':' ∉ id.data) (hn : ':' ∉ n.data) :
    Split (componentSpec id n) ':' = [id, n] := by
  have hd : (componentSpec id n).data = id.data ++ ':' :: n.data := by
    simp [componentSpec, String.data_append]
  unfold Split
  rw [hd, splitChars_append _ _ _ _ hid, splitChars_no_sep _ _ _ hn]
  simp

/-- A component entry `id:n` is not the empty string. -/
theorem componentSpec_ne_empty (id n : String) : componentSpec id n ≠ "" := by
  intro h
  have hd : (componentSpec id n).data = id.data ++ ':' :: n.data := by
    simp [componentSpec, String.data_append]
  rw [h] at hd
  simp at hd

open ManufactureSmartContract

/-- A successful validation loop returns the ids collected so far followed by
the named ids, and every named id is present in the ledger, is a member of
`toUse`, and holds a record whose units have the requested value. -/
theorem verifyComponents_ok (w : World) (toUse : List String)
    (specs : List (Option (String × String))) (acc ids : List String)
    (hform : ∀ id n, some (id, n) ∈ specs → ':' ∉ id.data ∧ ':' ∉ n.data)
    (h : verifyComponents w toUse (componentArgs specs) acc = .ok ids) :
    ids = acc ++ componentIds specs ∧
      ∀ id n, some (id, n) ∈ specs →
        w (Key.simple id) ≠ none ∧ id ∈ toUse ∧
          ∃ u, GetLoteUnits w id = .ok u ∧ Atoi u = Atoi n := by
  induction specs generalizing acc with
  | nil =>
    simp [componentArgs, verifyComponents] at h
    simp [componentIds, h]
  | cons s rest ih =>
    have hrest : ∀ id n, some (id, n) ∈ rest → ':' ∉ id.data ∧ ':' ∉ n.data :=
      fun id n hm => hform id n (List.mem_cons_of_mem _ hm)
    cases s with
    | none =>
      have h2 : verifyComponents w toUse (componentArgs rest) acc = .ok ids := by
        simpa [componentArgs, verifyComponents] using h
      obtain ⟨e1, e2⟩ := ih acc hrest h2
      refine ⟨by simpa [componentIds] using e1, ?_⟩
      intro id n hm
      simp at hm
      exact e2 id n hm
    | some p =>
      obtain ⟨id0, n0⟩ := p
      obtain ⟨f1, f2⟩ := hform id0 n0 (by simp)
      have hsplit := Split_componentSpec id0 n0 f1 f2
      have hne := componentSpec_ne_empty id0 n0
      simp only [componentArgs, List.map_cons, verifyComponents, hne, if_false, hsplit] at h
      by_cases hex : ExistsLote w id0 = true
      · by_cases hmem : id0 ∈ toUse
        · cases hu : GetLoteUnits w id0 with
          | error e => simp [hex, hmem, hu] at h
          | ok u =>
            by_cases hlt : Atoi u < Atoi n0
            · simp [hex, hmem, hu, hlt] at h
            · by_cases heq : Atoi u = Atoi n0
              · have h2 : verifyComponents w toUse (componentArgs rest) (acc ++ [id0]) =
                    .ok ids := by
                  simpa [componentArgs, hex, hmem, hu, heq] using h
                obtain ⟨e1, e2⟩ := ih (acc ++ [id0]) hrest h2
                refine ⟨by simpa [componentIds] using e1, ?_⟩
                intro id n hm
                simp at hm
                rcases hm with ⟨rfl, rfl⟩ | hm
                · refine ⟨?_, hmem, u, hu, heq⟩
                  intro hnone
                  simp [ExistsLote, GetState, hnone] at hex
                · exact e2 id n hm
              · simp [hex, hmem, hu, hlt, heq] at h
        · simp [hex, hmem] at h
      · simp [hex] at h

/-- A successful `LoteDestroyed` leaves a destroyed lot record under its key,
found a record not yet destroyed there, and changes no other primary key. -/
theorem LoteDestroyed_success (ctx : Ctx) (w : World) (id : String)
    (h : (LoteDestroyed ctx w id).1 = none) :
    loteStateAt (LoteDestroyed ctx w id).2 id = some DestroyedLote ∧
      loteStateAt w id ≠ some DestroyedLote ∧
      ∀ k, k ≠ id → (LoteDestroyed ctx w id).2 (Key.simple k) = w (Key.simple k) := by
  unfold LoteDestroyed at h ⊢
  simp only [GetState] at h ⊢
  cases hr : w (Key.simple id) with
  | none => simp [hr] at h
  | some rec =>
    simp only [hr] at h ⊢
    cases hl : UnmarshalLote rec with
    | none => simp [hl] at h
    | some lote =>
      simp only [hl, GetSubmittingClientIdentity] at h ⊢
      cases hid : ctx.clientID with
      | none => simp [hid] at h
      | some x =>
        simp only [hid] at h ⊢
        by_cases hx : x = lote.Advisor
        · by_cases h5 : lote.LoteState = 5
          · simp [hx, h5] at h
          · simp only [hx, h5, ne_eq, not_true_eq_false, if_false]
            refine ⟨?_, ?_, ?_⟩
            · simp [loteStateAt, DelState, PutState, CreateCompositeKey]
            · cases rec <;> simp_all [loteStateAt, UnmarshalLote, DestroyedLote]
            · intro k hk
              simp [DelState, PutState, CreateCompositeKey, hk]
        · simp [hx] at h

/-- A failed `LoteDestroyed` writes nothing. -/
theorem LoteDestroyed_failure (ctx : Ctx) (w : World) (id : String)
    (h : (LoteDestroyed ctx w id).1 ≠ none) : (LoteDestroyed ctx w id).2 = w := by
  unfold LoteDestroyed at h ⊢
  simp only [GetState] at h ⊢
  split
  · rfl
  · split
    · rfl
    · split
      · rfl
      · split
        · rfl
        · split
          · rfl
          · rename_i h1 h2 h3 h4 h5 h6 h7 h8 h9
            simp_all

/-- The destroy loop, when it ends without error, has destroyed every
non-empty id of its list, keeps destroyed what was destroyed before, and
changes no primary key outside its list. -/
theorem destroyComponents_success (ctx : Ctx) (ids : List String) (w w1 : World)
    (toUse toUse1 : List String)
    (h : destroyComponents ctx ids w toUse = (none, w1, toUse1)) :
    (∀ id ∈ ids, id ≠ "" → loteStateAt w1 id = some DestroyedLote) ∧
      (∀ id, loteStateAt w id = some DestroyedLote → loteStateAt w1 id = some DestroyedLote) ∧
      (∀ k, k ∉ ids → w1 (Key.simple k) = w (Key.simple k)) := by
  induction ids generalizing w toUse with
  | nil =>
    simp only [destroyComponents, Prod.mk.injEq, true_and] at h
    obtain ⟨rfl, rfl⟩ := h
    simp
  | cons id rest ih =>
    by_cases he : id = ""
    · simp only [destroyComponents, he, if_true] at h
      obtain ⟨a1, a2, a3⟩ := ih w toUse h
      refine ⟨?_, a2, ?_⟩
      · intro x hx hne
        simp at hx
        rcases hx with rfl | hx
        · exact absurd he hne
        · exact a1 x hx hne
      · intro k hk
        simp at hk
        exact a3 k hk.2
    · simp only [destroyComponents, he, if_false] at h
      rcases hd : LoteDestroyed ctx w id with ⟨e, wd⟩
      cases e with
      | some e => simp [hd] at h
      | none =>
        simp only [hd] at h
        have hs := LoteDestroyed_success ctx w id (by simp [hd])
        simp only [hd] at hs
        obtain ⟨s1, s2, s3⟩ := hs
        obtain ⟨a1, a2, a3⟩ := ih wd _ h
        have keep : ∀ x, loteStateAt w x = some DestroyedLote →
            loteStateAt wd x = some DestroyedLote := by
          intro x hx
          by_cases hxi : x = id
          · subst hxi; exact s1
          · simpa [loteStateAt, s3 x hxi] using hx
        refine ⟨?_, ?_, ?_⟩
        · intro x hx hne
          simp at hx
          rcases hx with rfl | hx
          · exact a2 _ s1
          · exact a1 x hx hne
        · intro x hx
          exact a2 x (keep x hx)
        · intro k hk
          simp at hk
          rw [a3 k hk.2, s3 k hk.1]

/-- A successful `CreateLote` found its key absent and wrote the new lot and
its index entry. -/
theorem CreateLote_success (ctx : Ctx) (w : World) (key productID manufactureID priceamount
    pricecurrency units envTemp envTempMeasurement envHumidity : String)
    (components : List String) (currentLocationID : String)
    (h : (CreateLote ctx w key productID manufactureID priceamount pricecurrency units envTemp
      envTempMeasurement envHumidity components currentLocationID).1 = none) :
    w (Key.simple key) = none ∧ w (Key.simple currentLocationID) ≠ none ∧
    ¬ (Atoi units < 1) ∧
    ∃ advisor, ctx.clientID = some advisor ∧
      (CreateLote ctx w key productID manufactureID priceamount pricecurrency units envTemp
        envTempMeasurement envHumidity components currentLocationID).2 =
      PutState
        (PutState w (Key.simple key)
          (Record.lote
            { DocType := "lote", LoteID := key, ProductID := productID,
              ManufactureID := manufactureID, Advisor := advisor, OwnerID := "",
              Price := ⟨priceamount, pricecurrency⟩, Units := units, Certifications := [],
              Environment := ⟨envTemp, envTempMeasurement, envHumidity⟩,
              Components := components, CurrentLocationID := currentLocationID,
              FatherID := "", LoteState := ManunfacturingLote,
              LoteProductState := LoteProductNormal }))
        (CreateCompositeKey lote_index [key, productID, manufactureID]) Record.index := by
  unfold CreateLote at h ⊢
  simp only [ValidRole, GetState, GetSubmittingClientIdentity, GetSubmittingClientOrg,
    VerifyClientOrgMatchesPeerOrg] at h ⊢
  cases hk : w (Key.simple key) with
  | some r => simp [hk] at h
  | none =>
    simp only [hk] at h ⊢
    cases hl : w (Key.simple currentLocationID) with
    | none => simp [hl] at h
    | some r =>
      simp only [hl] at h ⊢
      by_cases hu : Atoi units < 1
      · simp [hu] at h
      · cases hid : ctx.clientID with
        | none => simp [hu, hid] at h
        | some x =>
          simp only [hu, hid, if_false] at h ⊢
          cases hp : putStateError key with
          | some e => simp [hp] at h
          | none =>
            simp only [hp] at h ⊢
            cases hcomp : compositeKeyError lote_index [key, productID, manufactureID] with
            | some e => simp [hcomp] at h
            | none => simp

/-- A successful `ManufactureCreateLote` ran its four stages without error:
validation, the destroy loop, `CreateLote`, and the write of the site. -/
theorem ManufactureCreateLote_success (ctx : Ctx) (w : World) (key loteKey productID
    priceamount pricecurrency units envTemp envTempMeasurement envHumidity : String)
    (components : List String) (m : Manufacture)
    (hk : w (Key.simple key) = some (Record.manufacture m))
    (h : (ManufactureCreateLote ctx w key loteKey productID priceamount pricecurrency units
      envTemp envTempMeasurement envHumidity components).1 = none) :
    ∃ ids w1 toUse1,
      verifyComponents w m.ToUse components [] = .ok ids ∧
      destroyComponents ctx ids w m.ToUse = (none, w1, toUse1) ∧
      (CreateLote ctx w1 loteKey productID key pricecurrency priceamount units envTemp
        envTempMeasurement envHumidity ids key).1 = none ∧
      (ManufactureCreateLote ctx w key loteKey productID priceamount pricecurrency units
        envTemp envTempMeasurement envHumidity components).2 =
      PutState
        (CreateLote ctx w1 loteKey productID key pricecurrency priceamount units envTemp
          envTempMeasurement envHumidity ids key).2
        (Key.simple key)
        (Record.manufacture
          { m with ToUse := toUse1, Production := m.Production ++ [loteKey] }) := by
  unfold ManufactureCreateLote at h ⊢
  simp only [GetData, GetState, hk, UnmarshalManufacture, GetSubmittingClientIdentity,
    GetSubmittingClientOrg, VerifyClientOrgMatchesPeerOrg] at h ⊢
  cases hid : ctx.clientID with
  | none => simp [hid] at h
  | some x =>
    simp only [hid] at h ⊢
    by_cases hx : x = m.AdvisorID
    · by_cases hs : m.ManufactureState = 0
      · by_cases hp : ProductSmartContract.ExistsProduct w productID = true
        · cases hv : verifyComponents w m.ToUse components [] with
          | error e => simp [hx, hs, hp, hv] at h
          | ok ids =>
            rcases hd : destroyComponents ctx ids w m.ToUse with ⟨e, w1, toUse1⟩
            cases e with
            | some e => simp [hx, hs, hp, hv, hd] at h
            | none =>
              rcases hcl : CreateLote ctx w1 loteKey productID key pricecurrency priceamount
                units envTemp envTempMeasurement envHumidity ids key with ⟨e2, w2⟩
              cases e2 with
              | some e2 => simp [hx, hs, hp, hv, hd, hcl] at h
              | none =>
                refine ⟨ids, w1, toUse1, rfl, hd,
                  by simp [hcl], ?_⟩
                simp [hx, hs, hp, hv, hd, hcl]
        · simp [hx, hs, hp] at h
      · simp [hx, hs] at h
    · simp [hx] at h

/-- C7 (counterexample): two runs of successful invocations from the empty
ledger.  In the first the lot `L1` is created with 9223372036854775808 units
and put in the `toUse` list of the site `M1`; `ManufactureCreateLote` with the
entry `L1:9223372036854775807` then succeeds and consumes `L1`, although the
units of the lot differ from the units of the entry: `strconv.Atoi` reads both
as the largest `int64`.  In the second the units of `L1` are
"99999999999999999999x", read as the same value. -/
theorem C7_units_compared_by_atoi_counterexample :
    ((runAll
        [fun w => CreateManufacture sampleCtx w "M1" "cu" "hav" "23" "-82",
          fun w => ProductSmartContract.CreateProduct sampleCtx w "P1" "bolt" "" "" "" "" "m8" ""
            "" "" "" "" "" "" "" "" "" "" "" "" "" "" "" "M1" [],
          fun w => CreateLote sampleCtx w "L1" "P1" "M1" "5" "USD" "9223372036854775808" "4"
            "C" "50" [] "M1",
          fun w => PutLoteOnUsing sampleCtx w "L1" "M1" "adv" "4" "C" "50",
          fun w => ManufacturePutLoteInUsing sampleCtx w "M1" "L1"]
        World.empty).bind (fun w => (loteAt w "L1").map Lote.Units)) =
      some "9223372036854775808" ∧
    Atoi "9223372036854775808" = Atoi "9223372036854775807" ∧
    ((runAll
        [fun w => CreateManufacture sampleCtx w "M1" "cu" "hav" "23" "-82",
          fun w => ProductSmartContract.CreateProduct sampleCtx w "P1" "bolt" "" "" "" "" "m8" ""
            "" "" "" "" "" "" "" "" "" "" "" "" "" "" "" "M1" [],
          fun w => CreateLote sampleCtx w "L1" "P1" "M1" "5" "USD" "9223372036854775808" "4"
            "C" "50" [] "M1",
          fun w => PutLoteOnUsing sampleCtx w "L1" "M1" "adv" "4" "C" "50",
          fun w => ManufacturePutLoteInUsing sampleCtx w "M1" "L1",
          fun w => ManufactureCreateLote sampleCtx w "M1" "L9" "P1" "5" "USD" "3" "4" "C" "50"
            ["L1:9223372036854775807"]]
        World.empty).bind (fun w => loteStateAt w "L1")) = some DestroyedLote ∧
    ((runAll
        [fun w => CreateManufacture sampleCtx w "M1" "cu" "hav" "23" "-82",
          fun w => ProductSmartContract.CreateProduct sampleCtx w "P1" "bolt" "" "" "" "" "m8" ""
            "" "" "" "" "" "" "" "" "" "" "" "" "" "" "" "M1" [],
          fun w => CreateLote sampleCtx w "L1" "P1" "M1" "5" "USD" "99999999999999999999x" "4"
            "C" "50" [] "M1",
          fun w => PutLoteOnUsing sampleCtx w "L1" "M1" "adv" "4" "C" "50",
          fun w => ManufacturePutLoteInUsing sampleCtx w "M1" "L1",
          fun w => ManufactureCreateLote sampleCtx w "M1" "L9" "P1" "5" "USD" "3" "4" "C" "50"
            ["L1:9223372036854775807"]]
        World.empty).bind (fun w => loteStateAt w "L1")) = some DestroyedLote := by
  refine ⟨by decide, by decide, by decide, by decide⟩

/-- C7 (amended, ManufactureCreateLote consumes components only on exact
match): for a site at `key` and component entries of the form `id:n` (or
empty), the call fails if some entry names an id that is absent from the
ledger, or is not a member of the site's `toUse`, or holds a lot whose units
differ from `n`, both read by `strconv.Atoi` as the controller reads them; when
the call succeeds every named lot is in state Destroyed, `loteKey` holds a lot
in state Manufacturing whose components are the named ids in order and whose
manufactureId is the site key, and `loteKey` is appended to the site's
production list.  The ledger holds nothing under the empty key, which
`PutState` rejects. -/
theorem C7_manufacture_create_lote (ctx : Ctx) (w : World) (key loteKey productID priceamount
    pricecurrency units envTemp envTempMeasurement envHumidity : String)
    (specs : List (Option (String × String))) (m : Manufacture)
    (hk : w (Key.simple key) = some (Record.manufacture m))
    (hempty : w (Key.simple "") = none)
    (hform : ∀ id n, some (id, n) ∈ specs → ':' ∉ id.data ∧ ':' ∉ n.data) :
    (∀ id n, some (id, n) ∈ specs →
      (w (Key.simple id) = none ∨ id ∉ m.ToUse ∨
        ∃ l0, w (Key.simple id) = some (Record.lote l0) ∧ Atoi l0.Units ≠ Atoi n) →
      (ManufactureCreateLote ctx w key loteKey productID priceamount pricecurrency units
        envTemp envTempMeasurement envHumidity (componentArgs specs)).1 ≠ none) ∧
    ((ManufactureCreateLote ctx w key loteKey productID priceamount pricecurrency units
        envTemp envTempMeasurement envHumidity (componentArgs specs)).1 = none →
      (∀ id n l0, some (id, n) ∈ specs →
        w (Key.simple id) = some (Record.lote l0) →
        loteStateAt
          (ManufactureCreateLote ctx w key loteKey productID priceamount pricecurrency units
            envTemp envTempMeasurement envHumidity (componentArgs specs)).2 id =
          some DestroyedLote) ∧
      (∃ nl,
        (ManufactureCreateLote ctx w key loteKey productID priceamount pricecurrency units
          envTemp envTempMeasurement envHumidity (componentArgs specs)).2 (Key.simple loteKey) =
          some (Record.lote nl) ∧
        nl.LoteState = ManunfacturingLote ∧ nl.Components = componentIds specs ∧
        nl.ManufactureID = key) ∧
      (∃ m2,
        (ManufactureCreateLote ctx w key loteKey productID priceamount pricecurrency units
          envTemp envTempMeasurement envHumidity (componentArgs specs)).2 (Key.simple key) =
          some (Record.manufacture m2) ∧
        m2.Production = m.Production ++ [loteKey])) := by
  have main : (ManufactureCreateLote ctx w key loteKey productID priceamount pricecurrency
      units envTemp envTempMeasurement envHumidity (componentArgs specs)).1 = none →
      (∀ id n, some (id, n) ∈ specs →
        w (Key.simple id) ≠ none ∧ id ∈ m.ToUse ∧
          ∃ u, GetLoteUnits w id = .ok u ∧ Atoi u = Atoi n) ∧
      (∀ id n l0, some (id, n) ∈ specs →
        w (Key.simple id) = some (Record.lote l0) →
        loteStateAt
          (ManufactureCreateLote ctx w key loteKey productID priceamount pricecurrency units
            envTemp envTempMeasurement envHumidity (componentArgs specs)).2 id =
          some DestroyedLote) ∧
      (∃ nl,
        (ManufactureCreateLote ctx w key loteKey productID priceamount pricecurrency units
          envTemp envTempMeasurement envHumidity (componentArgs specs)).2 (Key.simple loteKey) =
          some (Record.lote nl) ∧
        nl.LoteState = ManunfacturingLote ∧ nl.Components = componentIds specs ∧
        nl.ManufactureID = key) ∧
      (∃ m2,
        (ManufactureCreateLote ctx w key loteKey productID priceamount pricecurrency units
          envTemp envTempMeasurement envHumidity (componentArgs specs)).2 (Key.simple key) =
          some (Record.manufacture m2) ∧
        m2.Production = m.Production ++ [loteKey]) := by
    intro h
    obtain ⟨ids, w1, toUse1, hv, hd, hcl, hres⟩ :=
      ManufactureCreateLote_success ctx w key loteKey productID priceamount pricecurrency units
        envTemp envTempMeasurement envHumidity (componentArgs specs) m hk h
    obtain ⟨hids, hgood⟩ := verifyComponents_ok w m.ToUse specs [] ids hform hv
    simp only [List.nil_append] at hids
    obtain ⟨d1, d2, d3⟩ := destroyComponents_success ctx ids w w1 m.ToUse toUse1 hd
    obtain ⟨c1, cloc, c2, adv, c3, c4⟩ := CreateLote_success ctx w1 loteKey productID key
      pricecurrency priceamount units envTemp envTempMeasurement envHumidity ids key hcl
    have hkl : loteKey ≠ key := by
      intro e; rw [e] at c1; exact cloc c1
    refine ⟨hgood, ?_, ?_, ?_⟩
    · intro id n l0 hm hl0
      have hne : id ≠ "" := by
        intro e; rw [e, hempty] at hl0; cases hl0
      have hmem : id ∈ ids := by
        rw [hids]; exact List.mem_filterMap.mpr ⟨some (id, n), hm, rfl⟩
      have hD := d1 id hmem hne
      have hidk : id ≠ key := by
        intro e; rw [e, hk] at hl0; cases hl0
      have hidl : id ≠ loteKey := by
        intro e; rw [e] at hD; simp [loteStateAt, c1] at hD
      rw [hres, c4]
      simpa [loteStateAt, PutState, CreateCompositeKey, hidk, hidl] using hD
    · rw [hres, c4]
      refine ⟨{ DocType := "lote", LoteID := loteKey, ProductID := productID,
                ManufactureID := key, Advisor := adv, OwnerID := "",
                Price := ⟨pricecurrency, priceamount⟩, Units := units, Certifications := [],
                Environment := ⟨envTemp, envTempMeasurement, envHumidity⟩,
                Components := ids, CurrentLocationID := key, FatherID := "",
                LoteState := ManunfacturingLote, LoteProductState := LoteProductNormal },
              ?_, rfl, hids, rfl⟩
      simp [PutState, CreateCompositeKey, hkl]
    · rw [hres]
      exact ⟨_, PutState_same _ _ _, rfl⟩
  refine ⟨?_, fun h => (main h).2⟩
  intro id n hm hbad hsucc
  obtain ⟨g1, g2, u, g3, g4⟩ := (main hsucc).1 id n hm
  rcases hbad with hb | hb | ⟨l0, hl0, hne⟩
  · exact g1 hb
  · exact hb g2
  · simp [GetLoteUnits, GetState, hl0, UnmarshalLote] at g3
    subst g3
    exact hne g4

/-- Witness for C7: the site `M1` with `L1` (10 units, Using) in its `toUse`
list builds the lot `L9` of product `P1` from the entry `L1:10`, and refuses
the entry `L1:9`. -/
theorem C7_manufacture_create_lote_witness :
    sampleWorldP (sampleSite [] ["L1"] []) (sampleLote UsingLote 0) (Key.simple "M1") =
        some (Record.manufacture (sampleSite [] ["L1"] [])) ∧
      (ManufactureCreateLote sampleCtx
          (sampleWorldP (sampleSite [] ["L1"] []) (sampleLote UsingLote 0))
          "M1" "L9" "P1" "5" "USD" "3" "4" "C" "50" (componentArgs [some ("L1", "10")])).1 =
        none ∧
      loteStateAt
          (ManufactureCreateLote sampleCtx
            (sampleWorldP (sampleSite [] ["L1"] []) (sampleLote UsingLote 0))
            "M1" "L9" "P1" "5" "USD" "3" "4" "C" "50" (componentArgs [some ("L1", "10")])).2
          "L1" = some DestroyedLote ∧
      (ManufactureCreateLote sampleCtx
          (sampleWorldP (sampleSite [] ["L1"] []) (sampleLote UsingLote 0))
          "M1" "L9" "P1" "5" "USD" "3" "4" "C" "50" (componentArgs [some ("L1", "9")])).1 ≠
        none :=
  ⟨by decide, by decide,
    ((C7_manufacture_create_lote sampleCtx
      (sampleWorldP (sampleSite [] ["L1"] []) (sampleLote UsingLote 0))
      "M1" "L9" "P1" "5" "USD" "3" "4" "C" "50" [some ("L1", "10")]
      (sampleSite [] ["L1"] []) (by decide) (by decide)
      (by
        intro id n h
        simp only [List.mem_singleton, Option.some.injEq, Prod.mk.injEq] at h
        obtain ⟨rfl, rfl⟩ := h
        exact ⟨by decide, by decide⟩)).2 (by decide)).1
      "L1" "10" (sampleLote UsingLote 0) (by simp) (by decide),
    (C7_manufacture_create_lote sampleCtx
      (sampleWorldP (sampleSite [] ["L1"] []) (sampleLote UsingLote 0))
      "M1" "L9" "P1" "5" "USD" "3" "4" "C" "50" [some ("L1", "9")]
      (sampleSite [] ["L1"] []) (by decide) (by decide)
      (by
        intro id n h
        simp only [List.mem_singleton, Option.some.injEq, Prod.mk.injEq] at h
        obtain ⟨rfl, rfl⟩ := h
        exact ⟨by decide, by decide⟩)).1
      "L1" "9" (by simp)
      (Or.inr (Or.inr ⟨sampleLote UsingLote 0, by decide, by decide⟩))⟩

/-- C8 (failing input): on the site `M1` with `L1` (10 units) in `toUse`,
`ManufactureCreateLote` with the valid entry `L1:10` and the units "0" for the
new lot returns an error after the destroy loop has run: at the point of
failure `L1` is Destroyed, while it was in state Using before the call. -/
theorem C8_manufacture_create_lote_fails_after_write :
    (ManufactureCreateLote sampleCtx
        (sampleWorldP (sampleSite [] ["L1"] []) (sampleLote UsingLote 0))
        "M1" "L9" "P1" "5" "USD" "0" "4" "C" "50" ["L1:10"]).1 =
      some "Cannot create new lote in world state with less than 1 unit" ∧
    loteStateAt (sampleWorldP (sampleSite [] ["L1"] []) (sampleLote UsingLote 0)) "L1" =
      some UsingLote ∧
    loteStateAt
        (ManufactureCreateLote sampleCtx
          (sampleWorldP (sampleSite [] ["L1"] []) (sampleLote UsingLote 0))
          "M1" "L9" "P1" "5" "USD" "0" "4" "C" "50" ["L1:10"]).2 "L1" =
      some DestroyedLote ∧
    (ManufactureCreateLote sampleCtx
        (sampleWorldP (sampleSite [] ["L1"] []) (sampleLote UsingLote 0))
        "M1" "L9" "P1" "5" "USD" "0" "4" "C" "50" ["L1:10"]).2 ≠
      sampleWorldP (sampleSite [] ["L1"] []) (sampleLote UsingLote 0) := by
  refine ⟨by decide, by decide, by decide, ?_⟩
  intro h
  have h2 := congrArg (fun w => loteStateAt w "L1") h
  revert h2
  decide

open TransportSmartContract

/-- The search loop returns the index of the last occurrence, or keeps its
initial value when there is none. -/
theorem indexFinded_spec (x : String) (l : List String) (i : Nat) (acc : Option Nat) :
    (x ∉ l → indexFinded x l i acc = acc) ∧
      (x ∈ l → ∃ pre post, l = pre ++ x :: post ∧ x ∉ post ∧
        indexFinded x l i acc = some (i + pre.length)) := by
  induction l generalizing i acc with
  | nil => simp [indexFinded]
  | cons a rest ih =>
    refine ⟨?_, ?_⟩
    · intro h
      simp at h
      simp [indexFinded, h.1, (ih (i + 1) acc).1 h.2]
    · intro _
      by_cases hr : x ∈ rest
      · obtain ⟨pre, post, e1, e2, e3⟩ := (ih (i + 1) (if x = a then some i else acc)).2 hr
        refine ⟨a :: pre, post, by simp [e1], e2, ?_⟩
        simp only [indexFinded, e3, List.length_cons]
        congr 1; omega
      · have hxa : x = a := by simp_all
        subst hxa
        refine ⟨[], rest, by simp, hr, ?_⟩
        simp [indexFinded, (ih (i + 1) (some i)).1 hr]

/-- The search loop started at 0 finds nothing exactly when the id is not in
the list. -/
theorem indexFinded_none (x : String) (l : List String) :
    indexFinded x l 0 none = none ↔ x ∉ l := by
  constructor
  · intro h hm
    obtain ⟨pre, post, _, _, e⟩ := (indexFinded_spec x l 0 none).2 hm
    rw [h] at e; cases e
  · intro h
    exact (indexFinded_spec x l 0 none).1 h

/-- Removing the found index removes the last occurrence and keeps the order
of the other entries. -/
theorem indexFinded_eraseIdx (x : String) (l : List String) (j : Nat)
    (h : indexFinded x l 0 none = some j) :
    ∃ pre post, l = pre ++ x :: post ∧ x ∉ post ∧ l.eraseIdx j = pre ++ post := by
  have hm : x ∈ l := by
    by_contra hn
    rw [(indexFinded_none x l).2 hn] at h; cases h
  obtain ⟨pre, post, e1, e2, e3⟩ := (indexFinded_spec x l 0 none).2 hm
  rw [h] at e3
  simp at e3
  refine ⟨pre, post, e1, e2, ?_⟩
  subst e1 e3
  simp [List.eraseIdx_append_of_length_le]

/-- The shared body meets the delivery contract whenever the delegated lot
operation writes nothing when it fails. -/
theorem deliverWith_outcome (ctx : Ctx) (w : World) (key loteKey capacityUsed : String)
    (t : Transport) (res : Option String × World)
    (hk : w (Key.simple key) = some (Record.transport t))
    (hres : res.1 ≠ none → res.2 = w) :
    DeliveryOutcome w key loteKey t (deliverWith ctx w key loteKey capacityUsed res) := by
  unfold DeliveryOutcome deliverWith
  simp only [GetData, GetState, hk, UnmarshalTransport, GetSubmittingClientIdentity,
    DeliveringTransport, AvailableTransport]
  cases hid : ctx.clientID with
  | none => simp
  | some x =>
    simp only []
    by_cases hx : x = t.AdvisorID
    · by_cases hs : t.TransportState = 2
      · cases ha : GetLoteAdvisor w loteKey with
        | error e => simp [hx, hs]
        | ok la =>
          by_cases hla : t.AdvisorID = la
          · cases hi : indexFinded loteKey t.Shipment 0 none with
            | none => simp [hx, hs, hla]
            | some j =>
              have hm : loteKey ∈ t.Shipment := by
                by_contra hn
                rw [(indexFinded_none _ _).2 hn] at hi; cases hi
              obtain ⟨pre, post, e1, e2, e3⟩ := indexFinded_eraseIdx _ _ _ hi
              rcases res with ⟨e, w1⟩
              cases e with
              | some e =>
                have := hres (by simp)
                simp at this
                simp [hx, hs, hla, hm, this]
              | none =>
                simp only [hx, hs, hla, ne_eq, not_true_eq_false, if_false, hm,
                  or_self, false_implies, true_and, forall_const, e3]
                refine ⟨pre, post, _, e1, PutState_same _ _ _, ?_, ?_⟩
                · split <;> rfl
                · by_cases hemp : pre ++ post = []
                  · have h0 : pre = [] ∧ post = [] := by simpa using hemp
                    simp [h0]
                  · have h0 : ¬ (pre = [] ∧ post = []) := by simpa using hemp
                    simp [h0, hs]
          · simp [hx, hs, hla]
      · simp [hx, hs]
    · simp [hx]

/-- A lot transition that returns an error has written nothing. -/
theorem lote_transition_failure (ctx : Ctx) (w : World) (key a b c d e f g h : String) :
    ((StoreLote ctx w key a b c d e).1 ≠ none → (StoreLote ctx w key a b c d e).2 = w) ∧
    ((TransportLote ctx w key a b c d e).1 ≠ none → (TransportLote ctx w key a b c d e).2 = w) ∧
    ((TransferLote ctx w key a b c d e f g h).1 ≠ none →
      (TransferLote ctx w key a b c d e f g h).2 = w) ∧
    ((TransshipmentLote ctx w key a b c d e).1 ≠ none →
      (TransshipmentLote ctx w key a b c d e).2 = w) ∧
    ((ReturnLote ctx w key a b c d e f).1 ≠ none → (ReturnLote ctx w key a b c d e f).2 = w) ∧
    ((PutLoteOnReparation ctx w key a b c d e f).1 ≠ none →
      (PutLoteOnReparation ctx w key a b c d e f).2 = w) ∧
    ((RepairLote ctx w key a b c d e).1 ≠ none → (RepairLote ctx w key a b c d e).2 = w) ∧
    ((PutLoteOnUsing ctx w key a b c d e).1 ≠ none → (PutLoteOnUsing ctx w key a b c d e).2 = w) ∧
    ((SellLote ctx w key a b).1 ≠ none → (SellLote ctx w key a b).2 = w) ∧
    ((LoteInspection ctx w key a b c).1 ≠ none → (LoteInspection ctx w key a b c).2 = w) := by
  refine ⟨?_, ?_, ?_, ?_, ?_, ?_, ?_, ?_, ?_, ?_⟩
  all_goals
    simp only [StoreLote, TransportLote, TransferLote, TransshipmentLote, ReturnLote,
      PutLoteOnReparation, RepairLote, PutLoteOnUsing, SellLote, LoteInspection, GetState,
      GetSubmittingClientIdentity, GetSubmittingClientOrg, VerifyClientOrgMatchesPeerOrg]
    intro hfail
    repeat' split
    all_goals first | rfl | simp_all

/-- C10 (transport delivery): on a ledger where `key` holds a transport, each
of the five `Deliver` operations fails and leaves the ledger unchanged unless
the transport is Delivering and `loteKey` is in its shipment; when it succeeds
the stored shipment is the old one with one occurrence of `loteKey` removed,
the other ids in their old order, and the state is Available if that shipment
is empty and Delivering otherwise. -/
theorem C10_transport_delivery (ctx : Ctx) (w : World) (key loteKey : String) (t : Transport)
    (newOwner nextLocation priceamount pricecurrency newadvisor envTemp envTempMeasurement
      envHumidity capacityUsed : String)
    (hk : w (Key.simple key) = some (Record.transport t)) :
    DeliveryOutcome w key loteKey t
      (TransportDeliverStoreLote ctx w key loteKey nextLocation newadvisor envTemp
        envTempMeasurement envHumidity capacityUsed) ∧
    DeliveryOutcome w key loteKey t
      (TransportDeliverTransferLote ctx w key loteKey newOwner nextLocation priceamount
        pricecurrency newadvisor envTemp envTempMeasurement envHumidity capacityUsed) ∧
    DeliveryOutcome w key loteKey t
      (TransportDeliverTransshipmentLote ctx w key loteKey nextLocation newadvisor envTemp
        envTempMeasurement envHumidity capacityUsed) ∧
    DeliveryOutcome w key loteKey t
      (TransportDeliverRepairingLote ctx w key loteKey newOwner nextLocation newadvisor
        envTemp envTempMeasurement envHumidity capacityUsed) ∧
    DeliveryOutcome w key loteKey t
      (TransportDeliverUsingLote ctx w key loteKey nextLocation newadvisor envTemp
        envTempMeasurement envHumidity capacityUsed) := by
  have hf := lote_transition_failure ctx w loteKey nextLocation newadvisor
  refine ⟨?_, ?_, ?_, ?_, ?_⟩
  · exact deliverWith_outcome ctx w key loteKey capacityUsed t _ hk
      (hf envTemp envTempMeasurement envHumidity "" "" "").1
  · exact deliverWith_outcome ctx w key loteKey capacityUsed t _ hk
      (hf newOwner priceamount pricecurrency envTemp envTempMeasurement envHumidity).2.2.1
  · exact deliverWith_outcome ctx w key loteKey capacityUsed t _ hk
      (hf envTemp envTempMeasurement envHumidity "" "" "").2.2.2.1
  · exact deliverWith_outcome ctx w key loteKey capacityUsed t _ hk
      (hf newOwner envTemp envTempMeasurement envHumidity "" "").2.2.2.2.2.1
  · exact deliverWith_outcome ctx w key loteKey capacityUsed t _ hk
      (hf envTemp envTempMeasurement envHumidity "" "" "").2.2.2.2.2.2.2.1

/-- Witness for C10: the transport `T1`, Delivering with shipment `[L1, L2]`,
delivers the transporting lot `L1` to the site `M1` for storage. -/
theorem C10_transport_delivery_witness :
    sampleWorldT (sampleTransport DeliveringTransport ["L1", "L2"])
        (sampleLote TransportingLote 0) (Key.simple "T1") =
      some (Record.transport (sampleTransport DeliveringTransport ["L1", "L2"])) ∧
    (TransportDeliverStoreLote sampleCtx
        (sampleWorldT (sampleTransport DeliveringTransport ["L1", "L2"])
          (sampleLote TransportingLote 0))
        "T1" "L1" "M1" "adv" "4" "C" "50" "1").1 = none ∧
    DeliveryOutcome
      (sampleWorldT (sampleTransport DeliveringTransport ["L1", "L2"])
        (sampleLote TransportingLote 0))
      "T1" "L1" (sampleTransport DeliveringTransport ["L1", "L2"])
      (TransportDeliverStoreLote sampleCtx
        (sampleWorldT (sampleTransport DeliveringTransport ["L1", "L2"])
          (sampleLote TransportingLote 0))
        "T1" "L1" "M1" "adv" "4" "C" "50" "1") :=
  ⟨by decide, by decide,
    (C10_transport_delivery sampleCtx
      (sampleWorldT (sampleTransport DeliveringTransport ["L1", "L2"])
        (sampleLote TransportingLote 0))
      "T1" "L1" (sampleTransport DeliveringTransport ["L1", "L2"])
      "own" "M1" "5" "USD" "adv" "4" "C" "50" "1" (by decide)).1⟩

/-- A successful `ManufacturePutLoteFromProductionToUsing` found the id in
`production` and stored the site with that entry moved to the end of `toUse`. -/
theorem ManufacturePutLoteFromProductionToUsing_success (ctx : Ctx) (w : World) (key loteKey
    envTemp envTempMeasurement envHumidity : String) (m : Manufacture)
    (hk : w (Key.simple key) = some (Record.manufacture m))
    (h : (ManufacturePutLoteFromProductionToUsing ctx w key loteKey envTemp envTempMeasurement
      envHumidity).1 = none) :
    ∃ j, indexFinded loteKey m.Production 0 none = some j ∧
      (ManufacturePutLoteFromProductionToUsing ctx w key loteKey envTemp envTempMeasurement
        envHumidity).2 (Key.simple key) =
      some (Record.manufacture
        { m with Production := m.Production.eraseIdx j, ToUse := m.ToUse ++ [loteKey] }) := by
  revert h
  unfold ManufacturePutLoteFromProductionToUsing
  simp only [GetData, GetState, hk, UnmarshalManufacture]
  repeat' split
  all_goals first
    | (intro h; simp at h; done)
    | (intro _; exact ⟨_, ‹_›, PutState_same _ _ _⟩)

/-- A successful `ManufactureRepairLote` found the id in `toRepair` and stored
the site without that entry. -/
theorem ManufactureRepairLote_success (ctx : Ctx) (w : World) (key loteKey newLocation
    newAdvisor envTemp envTempMeasurement envHumidity : String) (m : Manufacture)
    (hk : w (Key.simple key) = some (Record.manufacture m))
    (h : (ManufactureRepairLote ctx w key loteKey newLocation newAdvisor envTemp
      envTempMeasurement envHumidity).1 = none) :
    ∃ j, indexFinded loteKey m.ToRepair 0 none = some j ∧
      (ManufactureRepairLote ctx w key loteKey newLocation newAdvisor envTemp
        envTempMeasurement envHumidity).2 (Key.simple key) =
      some (Record.manufacture { m with ToRepair := m.ToRepair.eraseIdx j }) := by
  revert h
  unfold ManufactureRepairLote
  simp only [GetData, GetState, hk, UnmarshalManufacture]
  repeat' split
  all_goals first
    | (intro h; simp at h; done)
    | (intro _; exact ⟨_, ‹_›, PutState_same _ _ _⟩)

/-- A successful `ManufactureDestroyLote` found the id in `toRepair` and
stored the site without that entry. -/
theorem ManufactureDestroyLote_success (ctx : Ctx) (w : World) (key loteKey : String)
    (m : Manufacture)
    (hk : w (Key.simple key) = some (Record.manufacture m))
    (h : (ManufactureDestroyLote ctx w key loteKey).1 = none) :
    ∃ j, indexFinded loteKey m.ToRepair 0 none = some j ∧
      (ManufactureDestroyLote ctx w key loteKey).2 (Key.simple key) =
      some (Record.manufacture { m with ToRepair := m.ToRepair.eraseIdx j }) := by
  revert h
  unfold ManufactureDestroyLote
  simp only [GetData, GetState, hk, UnmarshalManufacture]
  repeat' split
  all_goals first
    | (intro h; simp at h; done)
    | (intro _; exact ⟨_, ‹_›, PutState_same _ _ _⟩)

/-- A successful `ManufactureTransportLote` found the id in `production` and
stored the site without that entry. -/
theorem ManufactureTransportLote_success (ctx : Ctx) (w : World) (key loteKey currentLocation
    newadvisor envTemp envTempMeasurement envHumidity : String) (m : Manufacture)
    (hk : w (Key.simple key) = some (Record.manufacture m))
    (h : (ManufactureTransportLote ctx w key loteKey currentLocation newadvisor envTemp
      envTempMeasurement envHumidity).1 = none) :
    ∃ j, indexFinded loteKey m.Production 0 none = some j ∧
      (ManufactureTransportLote ctx w key loteKey currentLocation newadvisor envTemp
        envTempMeasurement envHumidity).2 (Key.simple key) =
      some (Record.manufacture { m with Production := m.Production.eraseIdx j }) := by
  revert h
  unfold ManufactureTransportLote
  simp only [GetData, GetState, hk, UnmarshalManufacture]
  repeat' split
  all_goals first
    | (intro h; simp at h; done)
    | (intro _; exact ⟨_, ‹_›, PutState_same _ _ _⟩)

/-- A successful `ManufacturePutLoteInUsing` stored the site with `loteKey`
appended to `toUse`. -/
theorem ManufacturePutLoteInUsing_success (ctx : Ctx) (w : World) (key loteKey : String)
    (m : Manufacture)
    (hk : w (Key.simple key) = some (Record.manufacture m))
    (h : (ManufacturePutLoteInUsing ctx w key loteKey).1 = none) :
    (ManufacturePutLoteInUsing ctx w key loteKey).2 (Key.simple key) =
      some (Record.manufacture { m with ToUse := m.ToUse ++ [loteKey] }) := by
  revert h
  unfold ManufacturePutLoteInUsing
  simp only [GetData, GetState, hk, UnmarshalManufacture]
  repeat' split
  all_goals first
    | (intro h; simp at h; done)
    | (intro _; exact PutState_same _ _ _)

/-- A successful `ManufacturePutLoteInReparing` stored the site with `loteKey`
appended to `toRepair`. -/
theorem ManufacturePutLoteInReparing_success (ctx : Ctx) (w : World) (key loteKey : String)
    (m : Manufacture)
    (hk : w (Key.simple key) = some (Record.manufacture m))
    (h : (ManufacturePutLoteInReparing ctx w key loteKey).1 = none) :
    (ManufacturePutLoteInReparing ctx w key loteKey).2 (Key.simple key) =
      some (Record.manufacture { m with ToRepair := m.ToRepair ++ [loteKey] }) := by
  revert h
  unfold ManufacturePutLoteInReparing
  simp only [GetData, GetState, hk, UnmarshalManufacture]
  repeat' split
  all_goals first
    | (intro h; simp at h; done)
    | (intro _; exact PutState_same _ _ _)

/-- The removal loop returns a sublist of the list it is run on. -/
theorem deleteFromToUse_sublist (id : String) (l : List String) :
    (deleteFromToUse id l).Sublist l := by
  have key : ∀ l : List String, (deleteFromToUse id l).Sublist l ∧
      ∀ y, (deleteFromToUse id (y :: l)).Sublist (y :: l) := by
    intro l
    induction l with
    | nil =>
      refine ⟨by simp [deleteFromToUse], fun y => ?_⟩
      by_cases h : id = y <;> simp [deleteFromToUse, h]
    | cons a rest ih =>
      refine ⟨ih.2 a, fun y => ?_⟩
      by_cases h : id = y
      · subst h
        simp only [deleteFromToUse, if_true]
        exact (List.Sublist.cons₂ a ih.1).cons id
      · simp only [deleteFromToUse, h, if_false]
        exact List.Sublist.cons₂ y (ih.2 a)
  exact (key l).1

/-- The destroy loop, when it ends without error, returns a sublist of the
`toUse` list it started with and removes no key from the ledger. -/
theorem destroyComponents_frame (ctx : Ctx) (ids : List String) (w w1 : World)
    (toUse toUse1 : List String)
    (h : destroyComponents ctx ids w toUse = (none, w1, toUse1)) :
    toUse1.Sublist toUse ∧ ∀ k, w (Key.simple k) ≠ none → w1 (Key.simple k) ≠ none := by
  induction ids generalizing w toUse with
  | nil =>
    simp only [destroyComponents, Prod.mk.injEq, true_and] at h
    obtain ⟨rfl, rfl⟩ := h
    simp
  | cons id rest ih =>
    by_cases he : id = ""
    · simp only [destroyComponents, he, if_true] at h
      exact ih w toUse h
    · simp only [destroyComponents, he, if_false] at h
      rcases hd : LoteDestroyed ctx w id with ⟨e, wd⟩
      cases e with
      | some e => simp [hd] at h
      | none =>
        simp only [hd] at h
        have hs := LoteDestroyed_success ctx w id (by simp [hd])
        simp only [hd] at hs
        obtain ⟨s1, _, s3⟩ := hs
        obtain ⟨a1, a2⟩ := ih wd _ h
        refine ⟨a1.trans (deleteFromToUse_sublist id toUse), ?_⟩
        intro k hkne
        apply a2
        by_cases hki : k = id
        · subst hki
          intro hn
          simp [loteStateAt, hn] at s1
        · rw [s3 k hki]; exact hkne

/-- Replacing the three lists by sublists keeps them consistent. -/
theorem ListsConsistent_sublist (m m2 : Manufacture) (h : ListsConsistent m)
    (hp : m2.Production.Sublist m.Production) (hu : m2.ToUse.Sublist m.ToUse)
    (hr : m2.ToRepair.Sublist m.ToRepair) : ListsConsistent m2 := by
  obtain ⟨n1, n2, n3, d1, d2, d3⟩ := h
  exact ⟨n1.sublist hp, n2.sublist hu, n3.sublist hr,
    fun x hx hx2 => d1 x (hp.subset hx) (hu.subset hx2),
    fun x hx hx2 => d2 x (hp.subset hx) (hr.subset hx2),
    fun x hx hx2 => d3 x (hu.subset hx) (hr.subset hx2)⟩

/-- A successful `ManufactureFractionateLoteForUse` ran its loop without error
and wrote the site with the `toUse` list the loop left. -/
theorem ManufactureFractionateLoteForUse_success (ctx : Ctx) (w : World) (key components
    newComponentNames : String) (m : Manufacture)
    (hk : w (Key.simple key) = some (Record.manufacture m))
    (h : (ManufactureFractionateLoteForUse ctx w key components newComponentNames).1 = none) :
    ∃ w1 toUse,
      fractionateComponents ctx (componentNames newComponentNames)
          (if components ≠ "" then Split components ',' else []) 0 w m.ToUse =
        (none, w1, toUse) ∧
      (ManufactureFractionateLoteForUse ctx w key components newComponentNames).2 =
        PutState w1 (Key.simple key) (Record.manufacture { m with ToUse := toUse }) := by
  revert h
  unfold ManufactureFractionateLoteForUse componentNames
  simp only [GetData, GetState, hk, UnmarshalManufacture]
  generalize (if components ≠ "" then Split components ',' else []) = cs
  generalize (if newComponentNames ≠ "" then Split newComponentNames ',' else []) = nm
  repeat' split
  all_goals first
    | (intro h; simp at h; done)
    | (intro _; exact ⟨_, _, ‹_›, rfl⟩)

/-- The loop of `ManufactureFractionateLoteForUse` keeps the `toUse` list
duplicate-free and apart from two other lists when the new names are pairwise
distinct and in none of the lists: every id of the list is an id the loop
started with or one of the names the rounds before `i` appended. -/
theorem fractionateComponents_lists (ctx : Ctx) (names P R U0 : List String)
    (hnd : names.Nodup)
    (hfresh : ∀ x, x ∈ names → x ∉ P ∧ x ∉ U0 ∧ x ∉ R) :
    ∀ (cs : List String) (i : Nat) (w w1 : World) (toUse tu : List String),
      fractionateComponents ctx names cs i w toUse = (none, w1, tu) →
      toUse.Nodup → (∀ x, x ∈ toUse → x ∉ P ∧ x ∉ R) →
      (∀ x, x ∈ toUse → x ∈ U0 ∨ ∃ j, j < 2 * i ∧ names[j]? = some x) →
      tu.Nodup ∧ ∀ x, x ∈ tu → x ∉ P ∧ x ∉ R := by
  intro cs
  induction cs with
  | nil =>
    intro i w w1 toUse tu h n1 n2 _
    simp only [fractionateComponents, Prod.mk.injEq, true_and] at h
    obtain ⟨_, rfl⟩ := h
    exact ⟨n1, n2⟩
  | cons c rest ih =>
    intro i w w1 toUse tu h n1 n2 n3
    have hmono : ∀ x, x ∈ toUse → x ∈ U0 ∨ ∃ j, j < 2 * (i + 1) ∧ names[j]? = some x := by
      intro x hx
      rcases n3 x hx with h0 | ⟨j, hj, hjx⟩
      · exact Or.inl h0
      · exact Or.inr ⟨j, by omega, hjx⟩
    simp only [fractionateComponents] at h
    split at h
    · exact ih _ _ _ _ _ h n1 n2 hmono
    · split at h
      · split at h
        · simp at h
        · split at h
          · simp at h
          · split at h
            · simp at h
            · split at h
              · simp at h
              · split at h
                · split at h
                  · rename_i name1 name2 hn1 hn2
                    split at h
                    · simp at h
                    · have hm1 : name1 ∈ names := List.mem_iff_getElem?.mpr ⟨_, hn1⟩
                      have hm2 : name2 ∈ names := List.mem_iff_getElem?.mpr ⟨_, hn2⟩
                      have hlt1 : 2 * i < names.length := by
                        by_contra hc
                        rw [List.getElem?_eq_none (by omega)] at hn1
                        cases hn1
                      have hne12 : name1 ≠ name2 := by
                        intro e
                        have hij : names[2 * i]? = names[2 * i + 1]? := by rw [hn1, hn2, e]
                        have := List.getElem?_inj hlt1 hnd hij
                        omega
                      have hnot : ∀ nm k, names[k]? = some nm → 2 * i ≤ k → nm ∈ names →
                          nm ∉ toUse := by
                        intro nm k hk hik hmem hin
                        rcases n3 nm hin with h0 | ⟨j, hj, hjx⟩
                        · exact (hfresh nm hmem).2.1 h0
                        · have hltj : j < names.length := by
                            by_contra hc
                            rw [List.getElem?_eq_none (by omega)] at hjx
                            cases hjx
                          have hij : names[j]? = names[k]? := by rw [hjx, hk]
                          have := List.getElem?_inj hltj hnd hij
                          omega
                      have hsub : (toUse.eraseIdx ‹Nat›).Sublist toUse :=
                        List.eraseIdx_sublist _ _
                      refine ih _ _ _ _ _ h ?_ ?_ ?_
                      · refine List.Nodup.append (n1.sublist hsub) ?_ ?_
                        · simp [hne12]
                        · intro x hx hx2
                          simp only [List.mem_cons, List.mem_singleton, List.not_mem_nil,
                            or_false] at hx2
                          rcases hx2 with e | e
                          · subst e; exact hnot _ _ hn1 (by omega) hm1 (hsub.subset hx)
                          · subst e; exact hnot _ _ hn2 (by omega) hm2 (hsub.subset hx)
                      · intro x hx
                        simp only [List.mem_append, List.mem_cons, List.mem_singleton,
                          List.not_mem_nil, or_false] at hx
                        rcases hx with hx | e | e
                        · exact n2 x (hsub.subset hx)
                        · subst e; exact ⟨(hfresh _ hm1).1, (hfresh _ hm1).2.2⟩
                        · subst e; exact ⟨(hfresh _ hm2).1, (hfresh _ hm2).2.2⟩
                      · intro x hx
                        simp only [List.mem_append, List.mem_cons, List.mem_singleton,
                          List.not_mem_nil, or_false] at hx
                        rcases hx with hx | e | e
                        · exact hmono x (hsub.subset hx)
                        · subst e; exact Or.inr ⟨2 * i, by omega, hn1⟩
                        · subst e; exact Or.inr ⟨2 * i + 1, by omega, hn2⟩
                  · simp at h
                · exact ih _ _ _ _ _ h n1 n2 hmono
      · simp at h

/-- The loop of `ManufactureFractionateLoteForUse` puts into the `toUse` list
only names it was given. -/
theorem fractionateComponents_mem (ctx : Ctx) (names : List String) :
    ∀ (cs : List String) (i : Nat) (w w1 : World) (toUse tu : List String),
      fractionateComponents ctx names cs i w toUse = (none, w1, tu) →
      ∀ x, x ∈ tu → x ∈ toUse ∨ x ∈ names := by
  intro cs
  induction cs with
  | nil =>
    intro i w w1 toUse tu h x hx
    simp only [fractionateComponents, Prod.mk.injEq, true_and] at h
    obtain ⟨_, rfl⟩ := h
    exact Or.inl hx
  | cons c rest ih =>
    intro i w w1 toUse tu h x hx
    simp only [fractionateComponents] at h
    split at h
    · exact ih _ _ _ _ _ h x hx
    · split at h
      · split at h
        · simp at h
        · split at h
          · simp at h
          · split at h
            · simp at h
            · split at h
              · simp at h
              · split at h
                · split at h
                  · rename_i name1 name2 hn1 hn2
                    split at h
                    · simp at h
                    · rcases ih _ _ _ _ _ h x hx with hx2 | hx2
                      · simp only [List.mem_append, List.mem_cons, List.mem_singleton,
                          List.not_mem_nil, or_false] at hx2
                        rcases hx2 with hx2 | e | e
                        · exact Or.inl ((List.eraseIdx_sublist _ _).subset hx2)
                        · subst e; exact Or.inr (List.mem_iff_getElem?.mpr ⟨_, hn1⟩)
                        · subst e; exact Or.inr (List.mem_iff_getElem?.mpr ⟨_, hn2⟩)
                      · exact Or.inr hx2
                  · simp at h
                · exact ih _ _ _ _ _ h x hx
      · simp at h

/-- C9 (counterexample): two runs of successful invocations from the empty
ledger.  After the first, which ends with `ManufacturePutLoteInReparing`, the
lot `L1` is a member of both `toUse` and `toRepair` of the site `M1`.  In the
second, `ManufactureFractionateLoteForUse` splits the lot `L1` of `toUse` under
the names `L2` and `L3`, `L2` being a lot of `production`; afterwards `L2` is a
member of both `production` and `toUse`. -/
theorem C9_lot_in_two_lists_counterexample :
    (runAll
      [ fun w => CreateManufacture sampleCtx w "M1" "CU" "LH" "23" "-82",
        fun w => CreateLote sampleCtx w "L1" "P1" "M1" "5" "USD" "10" "4" "C" "50" [] "M1",
        fun w => PutLoteOnUsing sampleCtx w "L1" "M1" "adv" "4" "C" "50",
        fun w => ManufacturePutLoteInUsing sampleCtx w "M1" "L1",
        fun w => TransportLote sampleCtx w "L1" "M1" "adv" "4" "C" "50",
        fun w => StoreLote sampleCtx w "L1" "M1" "adv" "4" "C" "50",
        fun w => ReturnLote sampleCtx w "L1" "M1" "adv" "" "4" "C" "50",
        fun w => PutLoteOnReparation sampleCtx w "L1" "M1" "adv" "" "4" "C" "50",
        fun w => ManufacturePutLoteInReparing sampleCtx w "M1" "L1" ]
      World.empty).bind (fun w => siteListsAt w "M1") =
      some ([], ["L1"], ["L1"]) ∧
    (runAll
      [ fun w => CreateManufacture sampleCtx w "M1" "CU" "LH" "23" "-82",
        fun w => ProductSmartContract.CreateProduct sampleCtx w "P1" "bolt" "" "" "" "" "m8" ""
          "" "" "" "" "" "" "" "" "" "" "" "" "" "" "" "M1" [],
        fun w => ManufactureCreateLote sampleCtx w "M1" "L1" "P1" "5" "USD" "10" "4" "C" "50" [],
        fun w => ManufacturePutLoteFromProductionToUsing sampleCtx w "M1" "L1" "4" "C" "50",
        fun w => ManufactureCreateLote sampleCtx w "M1" "L2" "P1" "5" "USD" "10" "4" "C" "50" [],
        fun w => ManufactureFractionateLoteForUse sampleCtx w "M1" "L1:4" "L2,L3" ]
      World.empty).bind (fun w => siteListsAt w "M1") =
      some (["L2"], ["L2", "L3"], []) := by
  refine ⟨by decide, by decide⟩

/-- C9 (amended): on a site whose three lists are duplicate-free and pairwise
disjoint, a successful `ManufacturePutLoteFromProductionToUsing`,
`ManufactureRepairLote`, `ManufactureDestroyLote` or `ManufactureTransportLote`
stores lists that are again duplicate-free and pairwise disjoint, and so does
a successful `ManufactureCreateLote` when every id in the lists is a key of
the ledger; `ManufacturePutLoteInUsing` and `ManufacturePutLoteInReparing`
append `loteKey` to `toUse` and to `toRepair` and leave the other lists as
they are; a successful `ManufactureFractionateLoteForUse` leaves `production`
and `toRepair` as they are and stores in `toUse` ids of `toUse` and new names
it is given, and the lists it stores are duplicate-free and pairwise disjoint
when the new names are pairwise distinct and in none of the three lists. -/
theorem C9_site_lists_amended (ctx : Ctx) (w : World) (key loteKey : String) (m : Manufacture)
    (a b c d e f g : String) (components : List String)
    (hk : w (Key.simple key) = some (Record.manufacture m))
    (hcons : ListsConsistent m) :
    ((ManufacturePutLoteFromProductionToUsing ctx w key loteKey a b c).1 = none →
      ∃ m2, (ManufacturePutLoteFromProductionToUsing ctx w key loteKey a b c).2
          (Key.simple key) = some (Record.manufacture m2) ∧ ListsConsistent m2) ∧
    ((ManufactureRepairLote ctx w key loteKey a b c d e).1 = none →
      ∃ m2, (ManufactureRepairLote ctx w key loteKey a b c d e).2 (Key.simple key) =
          some (Record.manufacture m2) ∧ ListsConsistent m2) ∧
    ((ManufactureDestroyLote ctx w key loteKey).1 = none →
      ∃ m2, (ManufactureDestroyLote ctx w key loteKey).2 (Key.simple key) =
          some (Record.manufacture m2) ∧ ListsConsistent m2) ∧
    ((ManufactureTransportLote ctx w key loteKey a b c d e).1 = none →
      ∃ m2, (ManufactureTransportLote ctx w key loteKey a b c d e).2 (Key.simple key) =
          some (Record.manufacture m2) ∧ ListsConsistent m2) ∧
    ((∀ id, id ∈ m.Production ∨ id ∈ m.ToUse ∨ id ∈ m.ToRepair → w (Key.simple id) ≠ none) →
      (ManufactureCreateLote ctx w key loteKey a b c d e f g components).1 = none →
      ∃ m2, (ManufactureCreateLote ctx w key loteKey a b c d e f g components).2
          (Key.simple key) = some (Record.manufacture m2) ∧ ListsConsistent m2) ∧
    ((ManufacturePutLoteInUsing ctx w key loteKey).1 = none →
      ∃ m2, (ManufacturePutLoteInUsing ctx w key loteKey).2 (Key.simple key) =
          some (Record.manufacture m2) ∧
        m2.Production = m.Production ∧ m2.ToUse = m.ToUse ++ [loteKey] ∧
        m2.ToRepair = m.ToRepair) ∧
    ((ManufacturePutLoteInReparing ctx w key loteKey).1 = none →
      ∃ m2, (ManufacturePutLoteInReparing ctx w key loteKey).2 (Key.simple key) =
          some (Record.manufacture m2) ∧
        m2.Production = m.Production ∧ m2.ToUse = m.ToUse ∧
        m2.ToRepair = m.ToRepair ++ [loteKey]) ∧
    ((ManufactureFractionateLoteForUse ctx w key a b).1 = none →
      ∃ m2, (ManufactureFractionateLoteForUse ctx w key a b).2 (Key.simple key) =
          some (Record.manufacture m2) ∧
        m2.Production = m.Production ∧ m2.ToRepair = m.ToRepair ∧
        (∀ x, x ∈ m2.ToUse → x ∈ m.ToUse ∨ x ∈ componentNames b) ∧
        ((componentNames b).Nodup →
          (∀ x, x ∈ componentNames b → x ∉ m.Production ∧ x ∉ m.ToUse ∧ x ∉ m.ToRepair) →
          ListsConsistent m2)) := by
  refine ⟨?_, ?_, ?_, ?_, ?_, ?_, ?_, ?_⟩
  · intro h
    obtain ⟨j, hj, hres⟩ :=
      ManufacturePutLoteFromProductionToUsing_success ctx w key loteKey a b c m hk h
    obtain ⟨pre, post, e1, e2, e3⟩ := indexFinded_eraseIdx _ _ _ hj
    refine ⟨_, hres, ?_⟩
    obtain ⟨n1, n2, n3, d1, d2, d3⟩ := hcons
    have hmem : loteKey ∈ m.Production := by rw [e1]; simp
    have hnd : (loteKey :: (pre ++ post)).Nodup := by
      rw [e1] at n1; exact List.nodup_middle.mp n1
    have hsub : (pre ++ post).Sublist m.Production := by
      rw [← e3]; exact List.eraseIdx_sublist _ _
    simp only [ListsConsistent, e3]
    refine ⟨(List.nodup_cons.mp hnd).2, ?_, n3, ?_, ?_, ?_⟩
    · exact List.Nodup.append n2 (List.nodup_singleton _)
        (by simpa using d1 loteKey hmem)
    · intro x hx hx2
      simp only [List.mem_append, List.mem_singleton] at hx2
      rcases hx2 with hx2 | hx2
      · exact d1 x (hsub.subset hx) hx2
      · subst hx2; exact (List.nodup_cons.mp hnd).1 hx
    · intro x hx; exact d2 x (hsub.subset hx)
    · intro x hx
      simp only [List.mem_append, List.mem_singleton] at hx
      rcases hx with hx | hx
      · exact d3 x hx
      · subst hx; exact d2 x hmem
  · intro h
    obtain ⟨j, _, hres⟩ := ManufactureRepairLote_success ctx w key loteKey a b c d e m hk h
    exact ⟨_, hres, ListsConsistent_sublist m _ hcons (List.Sublist.refl _)
      (List.Sublist.refl _) (List.eraseIdx_sublist _ _)⟩
  · intro h
    obtain ⟨j, _, hres⟩ := ManufactureDestroyLote_success ctx w key loteKey m hk h
    exact ⟨_, hres, ListsConsistent_sublist m _ hcons (List.Sublist.refl _)
      (List.Sublist.refl _) (List.eraseIdx_sublist _ _)⟩
  · intro h
    obtain ⟨j, _, hres⟩ := ManufactureTransportLote_success ctx w key loteKey a b c d e m hk h
    exact ⟨_, hres, ListsConsistent_sublist m _ hcons (List.eraseIdx_sublist _ _)
      (List.Sublist.refl _) (List.Sublist.refl _)⟩
  · intro hpres h
    obtain ⟨ids, w1, toUse1, _, hd, hcl, hres⟩ :=
      ManufactureCreateLote_success ctx w key loteKey a b c d e f g components m hk h
    obtain ⟨hsub, hkeep⟩ := destroyComponents_frame ctx ids w w1 m.ToUse toUse1 hd
    obtain ⟨c1, _, _, _, _, _⟩ := CreateLote_success ctx w1 loteKey a key c b d e f g ids key hcl
    have hfresh : ∀ id, id ∈ m.Production ∨ id ∈ m.ToUse ∨ id ∈ m.ToRepair → id ≠ loteKey := by
      intro id hid e
      subst e
      exact hkeep id (hpres id hid) c1
    rw [hres]
    refine ⟨_, PutState_same _ _ _, ?_⟩
    obtain ⟨n1, n2, n3, d1, d2, d3⟩ := hcons
    simp only [ListsConsistent]
    refine ⟨?_, n2.sublist hsub, n3, ?_, ?_, ?_⟩
    · exact List.Nodup.append n1 (List.nodup_singleton _)
        (by simpa using fun hm => hfresh loteKey (Or.inl hm) rfl)
    · intro x hx hx2
      simp only [List.mem_append, List.mem_singleton] at hx
      rcases hx with hx | hx
      · exact d1 x hx (hsub.subset hx2)
      · exact hfresh x (Or.inr (Or.inl (hsub.subset hx2))) hx
    · intro x hx hx2
      simp only [List.mem_append, List.mem_singleton] at hx
      rcases hx with hx | hx
      · exact d2 x hx hx2
      · exact hfresh x (Or.inr (Or.inr hx2)) hx
    · intro x hx; exact d3 x (hsub.subset hx)
  · intro h
    exact ⟨_, ManufacturePutLoteInUsing_success ctx w key loteKey m hk h, rfl, rfl, rfl⟩
  · intro h
    exact ⟨_, ManufacturePutLoteInReparing_success ctx w key loteKey m hk h, rfl, rfl, rfl⟩
  · intro h
    obtain ⟨w1, toUse, hloop, hres⟩ :=
      ManufactureFractionateLoteForUse_success ctx w key a b m hk h
    rw [hres]
    refine ⟨_, PutState_same _ _ _, rfl, rfl,
      fractionateComponents_mem ctx (componentNames b) _ 0 w w1 m.ToUse toUse hloop, ?_⟩
    intro hnd hfresh
    obtain ⟨n1, n2, n3, d1, d2, d3⟩ := hcons
    obtain ⟨r1, r2⟩ :=
      fractionateComponents_lists ctx (componentNames b) m.Production m.ToRepair m.ToUse hnd
        hfresh _ 0 w w1 m.ToUse toUse hloop n2
        (fun x hx => ⟨fun hp => d1 x hp hx, d3 x hx⟩) (fun x hx => Or.inl hx)
    exact ⟨n1, r1, n3, fun x hx hx2 => (r2 x hx2).1 hx, d2, fun x hx => (r2 x hx).2⟩

/-- Witness for C9 (amended): the site `M1` with `production = [L1]` moves the
manufacturing lot `L1` to `toUse`; the site `M1` with `toUse = [L1]` splits the
lot `L1` in use into `L2` and `L3`, which take its place in `toUse`. -/
theorem C9_site_lists_amended_witness :
    (sampleWorld (sampleSite ["L1"] [] []) (sampleLote ManunfacturingLote 0) (Key.simple "M1") =
        some (Record.manufacture (sampleSite ["L1"] [] [])) ∧
      ListsConsistent (sampleSite ["L1"] [] []) ∧
      (ManufacturePutLoteFromProductionToUsing sampleCtx
          (sampleWorld (sampleSite ["L1"] [] []) (sampleLote ManunfacturingLote 0))
          "M1" "L1" "4" "C" "50").1 = none ∧
      ∃ m2,
        (ManufacturePutLoteFromProductionToUsing sampleCtx
            (sampleWorld (sampleSite ["L1"] [] []) (sampleLote ManunfacturingLote 0))
            "M1" "L1" "4" "C" "50").2 (Key.simple "M1") = some (Record.manufacture m2) ∧
          ListsConsistent m2) ∧
    (sampleWorld (sampleSite [] ["L1"] []) (sampleLote UsingLote 0) (Key.simple "M1") =
        some (Record.manufacture (sampleSite [] ["L1"] [])) ∧
      ListsConsistent (sampleSite [] ["L1"] []) ∧
      (ManufactureFractionateLoteForUse sampleCtx
          (sampleWorld (sampleSite [] ["L1"] []) (sampleLote UsingLote 0))
          "M1" "L1:4" "L2,L3").1 = none ∧
      siteListsAt
          (ManufactureFractionateLoteForUse sampleCtx
            (sampleWorld (sampleSite [] ["L1"] []) (sampleLote UsingLote 0))
            "M1" "L1:4" "L2,L3").2 "M1" = some ([], ["L2", "L3"], []) ∧
      ∃ m2,
        (ManufactureFractionateLoteForUse sampleCtx
            (sampleWorld (sampleSite [] ["L1"] []) (sampleLote UsingLote 0))
            "M1" "L1:4" "L2,L3").2 (Key.simple "M1") = some (Record.manufacture m2) ∧
          ListsConsistent m2) :=
  ⟨⟨by decide, by simp [ListsConsistent, sampleSite, Manufacture.zero], by decide,
    (C9_site_lists_amended sampleCtx
      (sampleWorld (sampleSite ["L1"] [] []) (sampleLote ManunfacturingLote 0))
      "M1" "L1" (sampleSite ["L1"] [] []) "4" "C" "50" "d" "e" "f" "g" []
      (by decide) (by simp [ListsConsistent, sampleSite, Manufacture.zero])).1 (by decide)⟩,
   ⟨by decide, by simp [ListsConsistent, sampleSite, Manufacture.zero], by decide, by decide,
    let ⟨m2, h1, _, _, _, h4⟩ :=
      (C9_site_lists_amended sampleCtx
        (sampleWorld (sampleSite [] ["L1"] []) (sampleLote UsingLote 0))
        "M1" "L1" (sampleSite [] ["L1"] []) "L1:4" "L2,L3" "50" "d" "e" "f" "g" []
        (by decide) (by simp [ListsConsistent, sampleSite, Manufacture.zero])).2.2.2.2.2.2.2
        (by decide)
    ⟨m2, h1, h4 (by decide) (by decide)⟩⟩⟩

open ProductSmartContract

/-- C12 (product transition preconditions): for a product at `key` advised by
the caller, `Certify` and `ProductOnProduction` succeed exactly in state
Testing, `ProductDiscontinued` exactly in Production, `ProductContinued` and
`ProductDestroyed` exactly in Discontinued; a successful `ProductOnProduction`
or `ProductContinued` leaves Production, `ProductDiscontinued` leaves
Discontinued, `Certify` appends the certification and leaves Testing; a failed
call leaves the ledger as it was. -/
theorem C12_product_transitions (ctx : Ctx) (w : World) (key issuer certificationtype
    result : String) (p : Product)
    (hk : w (Key.simple key) = some (Record.product p))
    (hc : ctx.clientID = some p.Advisor) :
    (((Certify ctx w key issuer certificationtype result).1 = none ↔
        p.ProductState = OnTestingProduct) ∧
      ((Certify ctx w key issuer certificationtype result).1 = none →
        ∃ p2, (Certify ctx w key issuer certificationtype result).2 (Key.simple key) =
            some (Record.product p2) ∧
          p2.Certifications = p.Certifications ++ [⟨issuer, certificationtype, result⟩] ∧
          p2.ProductState = OnTestingProduct) ∧
      ((Certify ctx w key issuer certificationtype result).1 ≠ none →
        (Certify ctx w key issuer certificationtype result).2 = w)) ∧
    (((ProductOnProduction ctx w key).1 = none ↔ p.ProductState = OnTestingProduct) ∧
      ((ProductOnProduction ctx w key).1 = none →
        productStateAt (ProductOnProduction ctx w key).2 key = some OnProductionProduct) ∧
      ((ProductOnProduction ctx w key).1 ≠ none → (ProductOnProduction ctx w key).2 = w)) ∧
    (((ProductDiscontinued ctx w key).1 = none ↔ p.ProductState = OnProductionProduct) ∧
      ((ProductDiscontinued ctx w key).1 = none →
        productStateAt (ProductDiscontinued ctx w key).2 key = some DiscontinuedProduct) ∧
      ((ProductDiscontinued ctx w key).1 ≠ none → (ProductDiscontinued ctx w key).2 = w)) ∧
    (((ProductContinued ctx w key).1 = none ↔ p.ProductState = DiscontinuedProduct) ∧
      ((ProductContinued ctx w key).1 = none →
        productStateAt (ProductContinued ctx w key).2 key = some OnProductionProduct) ∧
      ((ProductContinued ctx w key).1 ≠ none → (ProductContinued ctx w key).2 = w)) ∧
    (((ProductDestroyed ctx w key).1 = none ↔ p.ProductState = DiscontinuedProduct) ∧
      ((ProductDestroyed ctx w key).1 ≠ none → (ProductDestroyed ctx w key).2 = w)) := by
  simp only [Certify, ProductOnProduction, ProductDiscontinued, ProductContinued,
    ProductDestroyed, GetState, hk, UnmarshalProduct, GetSubmittingClientIdentity, hc,
    OnTestingProduct, OnProductionProduct, DiscontinuedProduct, productStateAt]
  refine ⟨?_, ?_, ?_, ?_, ?_⟩
  · by_cases h : p.ProductState = 0 <;> simp [h, PutState]
  · by_cases h : p.ProductState = 0 <;> simp [h, PutState]
  · by_cases h : p.ProductState = 1 <;> simp [h, PutState]
  · by_cases h : p.ProductState = 2 <;> simp [h, PutState]
  · by_cases h : p.ProductState = 2 <;> simp [h, PutState]

/-- Witness for C12: the product `P1` in state Testing is put on production by
its advisor. -/
theorem C12_product_transitions_witness :
    singleWorld "P1" (Record.product (sampleProductIn OnTestingProduct)) (Key.simple "P1") =
        some (Record.product (sampleProductIn OnTestingProduct)) ∧
      sampleCtx.clientID = some (sampleProductIn OnTestingProduct).Advisor ∧
      productStateAt
          (ProductOnProduction sampleCtx
            (singleWorld "P1" (Record.product (sampleProductIn OnTestingProduct))) "P1").2
          "P1" = some OnProductionProduct :=
  ⟨by decide, rfl,
    (C12_product_transitions sampleCtx
      (singleWorld "P1" (Record.product (sampleProductIn OnTestingProduct))) "P1" "i" "c" "r"
      (sampleProductIn OnTestingProduct) (by decide) rfl).2.1.2.1 (by decide)⟩

/-- C13 (failing input): `ProductDestroyed` by the advisor of the
discontinued product `P1` succeeds and removes the index entry, but the stored
state is Discontinued, not Destroyed. -/
theorem C13_product_destroyed_leaves_discontinued :
    (ProductDestroyed sampleCtx
        (PutState (singleWorld "P1" (Record.product (sampleProductIn DiscontinuedProduct)))
          (CreateCompositeKey product_index ["P1", "bolt", "m8"]) Record.index) "P1").1 =
      none ∧
    productStateAt
        (ProductDestroyed sampleCtx
          (PutState (singleWorld "P1" (Record.product (sampleProductIn DiscontinuedProduct)))
            (CreateCompositeKey product_index ["P1", "bolt", "m8"]) Record.index) "P1").2
        "P1" = some DiscontinuedProduct ∧
    productStateAt
        (ProductDestroyed sampleCtx
          (PutState (singleWorld "P1" (Record.product (sampleProductIn DiscontinuedProduct)))
            (CreateCompositeKey product_index ["P1", "bolt", "m8"]) Record.index) "P1").2
        "P1" ≠ some DestroyedProduct ∧
    (ProductDestroyed sampleCtx
        (PutState (singleWorld "P1" (Record.product (sampleProductIn DiscontinuedProduct)))
          (CreateCompositeKey product_index ["P1", "bolt", "m8"]) Record.index) "P1").2
      (CreateCompositeKey product_index ["P1", "bolt", "m8"]) = none := by
  refine ⟨by decide, by decide, by decide, by decide⟩

/-- On every discontinued product advised by the caller `ProductDestroyed`
succeeds, stores the record it read, in state Discontinued, and deletes the
index entry. -/
theorem ProductDestroyed_discontinued (ctx : Ctx) (w : World) (key : String) (p : Product)
    (hk : w (Key.simple key) = some (Record.product p))
    (hc : ctx.clientID = some p.Advisor)
    (hs : p.ProductState = DiscontinuedProduct) :
    (ProductDestroyed ctx w key).1 = none ∧
      (ProductDestroyed ctx w key).2 (Key.simple key) = some (Record.product p) ∧
      (ProductDestroyed ctx w key).2
          (CreateCompositeKey product_index [p.ProductID, p.ProductName, p.Variety]) =
        none := by
  have hs2 : p.ProductState = 2 := hs
  have hp : ({ p with ProductState := DiscontinuedProduct } : Product) = p := by
    cases p; simp_all
  simp [ProductDestroyed, GetState, hk, UnmarshalProduct, GetSubmittingClientIdentity, hc, hs2,
    PutState, DelState, CreateCompositeKey, hp]

open TransportSmartContract

/-- In every state but NonAvailable `TransportDestroyed` by the advisor
succeeds, leaves the transport Destroyed and deletes its index entry. -/
theorem TransportDestroyed_other_states (ctx : Ctx) (w : World) (key : String) (t : Transport)
    (hk : w (Key.simple key) = some (Record.transport t))
    (hc : ctx.clientID = some t.AdvisorID)
    (hs : t.TransportState ≠ NonAvailableTransport) :
    (TransportDestroyed ctx w key).1 = none ∧
      (TransportDestroyed ctx w key).2 (Key.simple key) =
        some (Record.transport { t with TransportState := DestroyedTransport }) ∧
      (TransportDestroyed ctx w key).2
          (CreateCompositeKey transport_index [t.TransportID, t.OwnerID]) = none := by
  have hs2 : ¬ t.TransportState = 3 := hs
  simp [TransportDestroyed, GetData, GetState, hk, UnmarshalTransport,
    GetSubmittingClientIdentity, hc, hs2, PutState, DelState, CreateCompositeKey]

/-- C14 (failing input): `TransportDestroyed` by the advisor of the transport
`T1` in state NonAvailable returns the error "Transport is not non available"
and leaves the transport NonAvailable. -/
theorem C14_transport_destroyed_refused_when_non_available :
    (TransportDestroyed sampleCtx
        (singleWorld "T1" (Record.transport (sampleTransport NonAvailableTransport [])))
        "T1").1 = some "Transport is not non available" ∧
    transportStateAt
        (TransportDestroyed sampleCtx
          (singleWorld "T1" (Record.transport (sampleTransport NonAvailableTransport [])))
          "T1").2 "T1" = some NonAvailableTransport := by
  refine ⟨by decide, by decide⟩

open LoteSmartContract

/-- C17 (destroying a lot keeps the record and removes only the index): for a
lot at `key` advised by the caller and not Destroyed, `LoteDestroyed` succeeds;
afterwards `key` holds the same lot with state Destroyed and the composite key
built from its id, product and site holds nothing; on a lot already Destroyed
the call fails and the ledger is unchanged. -/
theorem C17_lote_destroyed (ctx : Ctx) (w : World) (key : String) (l : Lote)
    (hk : w (Key.simple key) = some (Record.lote l))
    (hc : ctx.clientID = some l.Advisor) :
    (l.LoteState ≠ DestroyedLote →
      (LoteDestroyed ctx w key).1 = none ∧
      (LoteDestroyed ctx w key).2 (Key.simple key) =
        some (Record.lote { l with LoteState := DestroyedLote }) ∧
      (LoteDestroyed ctx w key).2
          (CreateCompositeKey lote_index [l.LoteID, l.ProductID, l.ManufactureID]) = none ∧
      ∀ k, k ≠ key → (LoteDestroyed ctx w key).2 (Key.simple k) = w (Key.simple k)) ∧
    (l.LoteState = DestroyedLote →
      (LoteDestroyed ctx w key).1 ≠ none ∧ (LoteDestroyed ctx w key).2 = w) := by
  simp only [LoteDestroyed, GetState, hk, UnmarshalLote, GetSubmittingClientIdentity, hc,
    DestroyedLote]
  refine ⟨?_, ?_⟩
  · intro h
    simp only [h, ne_eq, not_true_eq_false, if_false]
    refine ⟨trivial, by simp [DelState, PutState, CreateCompositeKey],
      by simp [DelState, PutState, CreateCompositeKey], ?_⟩
    intro k hk2
    simp [DelState, PutState, CreateCompositeKey, hk2]
  · intro h
    simp [h]

/-- Witness for C17: the stored sample lot is destroyed by its advisor. -/
theorem C17_lote_destroyed_witness :
    sampleWorld (sampleSite [] [] []) (sampleLote StoredLote 0) (Key.simple "L1") =
        some (Record.lote (sampleLote StoredLote 0)) ∧
      sampleCtx.clientID = some (sampleLote StoredLote 0).Advisor ∧
      (LoteDestroyed sampleCtx (sampleWorld (sampleSite [] [] []) (sampleLote StoredLote 0))
          "L1").1 = none :=
  ⟨by decide, rfl,
    ((C17_lote_destroyed sampleCtx (sampleWorld (sampleSite [] [] []) (sampleLote StoredLote 0))
      "L1" (sampleLote StoredLote 0) (by decide) rfl).1 (by decide)).1⟩

/-- C18 (a destroyed lot's id cannot be reused): after a successful
`LoteDestroyed` on `key`, every `CreateLote` with the same key, by any caller
and with any arguments, fails and leaves the ledger as `LoteDestroyed` left
it. -/
theorem C18_destroyed_id_not_reusable (ctx ctx2 : Ctx) (w : World) (key productID
    manufactureID priceamount pricecurrency units envTemp envTempMeasurement envHumidity
    currentLocationID : String) (components : List String)
    (h : (LoteDestroyed ctx w key).1 = none) :
    loteStateAt (LoteDestroyed ctx w key).2 key = some DestroyedLote ∧
    (CreateLote ctx2 (LoteDestroyed ctx w key).2 key productID manufactureID priceamount
        pricecurrency units envTemp envTempMeasurement envHumidity components
        currentLocationID).1 ≠ none ∧
    (CreateLote ctx2 (LoteDestroyed ctx w key).2 key productID manufactureID priceamount
        pricecurrency units envTemp envTempMeasurement envHumidity components
        currentLocationID).2 = (LoteDestroyed ctx w key).2 := by
  obtain ⟨s1, _, _⟩ := LoteDestroyed_success ctx w key h
  refine ⟨s1, ?_⟩
  cases hr : (LoteDestroyed ctx w key).2 (Key.simple key) with
  | none => simp [loteStateAt, hr] at s1
  | some r => simp [CreateLote, ValidRole, GetState, hr]

/-- Witness for C18: the lot `L1` is created at the site `M1`, destroyed, and
cannot be created again. -/
theorem C18_destroyed_id_not_reusable_witness :
    (LoteDestroyed sampleCtx
        (CreateLote sampleCtx (singleWorld "M1" (Record.manufacture (sampleSite [] [] [])))
          "L1" "P1" "M1" "5" "USD" "10" "4" "C" "50" [] "M1").2 "L1").1 = none ∧
      (CreateLote sampleCtx
          (LoteDestroyed sampleCtx
            (CreateLote sampleCtx (singleWorld "M1" (Record.manufacture (sampleSite [] [] [])))
              "L1" "P1" "M1" "5" "USD" "10" "4" "C" "50" [] "M1").2 "L1").2
          "L1" "P1" "M1" "5" "USD" "10" "4" "C" "50" [] "M1").1 ≠ none :=
  ⟨by decide,
    (C18_destroyed_id_not_reusable sampleCtx sampleCtx
      (CreateLote sampleCtx (singleWorld "M1" (Record.manufacture (sampleSite [] [] [])))
        "L1" "P1" "M1" "5" "USD" "10" "4" "C" "50" [] "M1").2
      "L1" "P1" "M1" "5" "USD" "10" "4" "C" "50" "M1" [] (by decide)).2.1⟩

/-- C20 (failing input): `UpdateAdvisor(L1, "bob")` by `adv`, the advisor of
the sample lot, succeeds and stores the record with the advisor `adv`: the
argument `newAdvisor` is not used. -/
theorem C20_update_advisor_keeps_advisor :
    (UpdateAdvisor sampleCtx (sampleWorld (sampleSite [] [] []) (sampleLote StoredLote 0))
        "L1" "bob").1 = none ∧
    loteAdvisorAt
        (UpdateAdvisor sampleCtx (sampleWorld (sampleSite [] [] []) (sampleLote StoredLote 0))
          "L1" "bob").2 "L1" = some "adv" ∧
    loteAdvisorAt
        (UpdateAdvisor sampleCtx (sampleWorld (sampleSite [] [] []) (sampleLote StoredLote 0))
          "L1" "bob").2 "L1" ≠ some "bob" := by
  refine ⟨by decide, by decide, by decide⟩

/-- The value of a decimal digit is at most 9. -/
theorem digitVal_le (c : Char) (d : Nat) (h : digitVal c = some d) : d ≤ 9 := by
  unfold digitVal at h
  split at h
  · cases h; omega
  · cases h

/-- A character that is not a decimal digit, met while fewer than 20 digits
have been read, stops the digit loop with a syntax error. -/
theorem parseDigits_none (cs : List Char) (acc k : Nat) (hacc : acc < 10 ^ k)
    (hlen : k + cs.length ≤ 20)
    (h : (cs.all fun d => (digitVal d).isSome) = false) : parseDigits cs acc = none := by
  induction cs generalizing acc k with
  | nil => simp at h
  | cons c cs ih =>
    cases hd : digitVal c with
    | none => simp [parseDigits, hd]
    | some d =>
      simp only [List.all_cons, hd, Option.isSome_some, Bool.true_and] at h
      have hcs : 1 ≤ cs.length := by
        cases cs with
        | nil => simp at h
        | cons _ _ => simp
      simp only [List.length_cons] at hlen
      have hk : k ≤ 18 := by omega
      have hp : 10 ^ k ≤ 10 ^ 18 := Nat.pow_le_pow_right (by decide) hk
      have hd9 := digitVal_le c d hd
      have hnew : acc * 10 + d < 10 ^ (k + 1) := by
        rw [Nat.pow_succ]; omega
      have h18 : (10 : Nat) ^ 18 = 1000000000000000000 := by norm_num
      have h1 : ¬ (1844674407370955162 ≤ acc) := by omega
      have h2 : ¬ (uint64Max < acc * 10 + d) := by unfold uint64Max; omega
      simp only [parseDigits, hd, h1, h2, if_false]
      exact ih _ (k + 1) hnew (by omega) h

/-- A string of at most 20 characters that is not a decimal integer is read
as 0. -/
theorem Atoi_not_decimal (s : String) (h : isDecimalInteger s = false)
    (hlen : s.length ≤ 20) : Atoi s = 0 := by
  unfold isDecimalInteger at h
  unfold Atoi AtoiChars
  have hl : s.data.length ≤ 20 := hlen
  cases hs : s.data with
  | nil => rfl
  | cons c cs =>
    simp only [hs] at h
    rw [hs] at hl
    simp only [List.length_cons] at hl
    by_cases hm : c = '-'
    · simp only [hm, true_or, if_true] at h
      simp only [hm, if_true]
      cases cs with
      | nil => rfl
      | cons d ds =>
        have h2 : ((d :: ds).all fun d => (digitVal d).isSome) = false := by
          simpa using h
        simp [parseDigits_none _ 0 0 (by decide) (by simp at hl ⊢; omega) h2]
    · by_cases hp : c = '+'
      · simp only [hp, or_true, if_true] at h
        have hpm : ¬ ('+' = '-') := by decide
        simp only [hp, hpm, if_false, if_true]
        cases cs with
        | nil => rfl
        | cons d ds =>
          have h2 : ((d :: ds).all fun d => (digitVal d).isSome) = false := by
            simpa using h
          simp [parseDigits_none _ 0 0 (by decide) (by simp at hl ⊢; omega) h2]
      · simp only [hm, hp, or_self, if_false] at h
        simp [hm, hp, parseDigits_none _ 0 0 (by decide) (by simp at hl ⊢; omega) h]

/-- C19 (counterexample): on a ledger that holds only the site `M1`, used as
the location, with `L1` and the empty key absent.  The units string
"99999999999999999999x" is not a decimal integer and `CreateLote` accepts it,
`strconv.Atoi` returning the largest `int64` once the digits have left the
64-bit range.  With the empty string as key the call fails although the key is
absent, the location present and the units 10.  With the product id `"P\x00"`
the call fails after it has written the lot under `L1`. -/
theorem C19_create_lote_counterexample :
    isDecimalInteger "99999999999999999999x" = false ∧
    Atoi "99999999999999999999x" = 9223372036854775807 ∧
    (CreateLote sampleCtx (singleWorld "M1" (Record.manufacture (sampleSite [] [] [])))
        "L1" "P1" "M1" "5" "USD" "99999999999999999999x" "4" "C" "50" [] "M1").1 = none ∧
    singleWorld "M1" (Record.manufacture (sampleSite [] [] [])) (Key.simple "") = none ∧
    singleWorld "M1" (Record.manufacture (sampleSite [] [] [])) (Key.simple "L1") = none ∧
    singleWorld "M1" (Record.manufacture (sampleSite [] [] [])) (Key.simple "M1") ≠ none ∧
    1 ≤ Atoi "10" ∧
    (CreateLote sampleCtx (singleWorld "M1" (Record.manufacture (sampleSite [] [] [])))
        "" "P1" "M1" "5" "USD" "10" "4" "C" "50" [] "M1").1 ≠ none ∧
    (CreateLote sampleCtx (singleWorld "M1" (Record.manufacture (sampleSite [] [] [])))
        "L1" "P\x00" "M1" "5" "USD" "10" "4" "C" "50" [] "M1").1 ≠ none ∧
    (CreateLote sampleCtx (singleWorld "M1" (Record.manufacture (sampleSite [] [] [])))
        "L1" "P\x00" "M1" "5" "USD" "10" "4" "C" "50" [] "M1").2 (Key.simple "L1") =
      some (Record.lote
        { DocType := "lote", LoteID := "L1", ProductID := "P\x00", ManufactureID := "M1",
          OwnerID := "", Advisor := "adv", Price := ⟨"5", "USD"⟩, Units := "10",
          Certifications := [], Environment := ⟨"4", "C", "50"⟩,
          LoteState := ManunfacturingLote, Components := [], CurrentLocationID := "M1",
          FatherID := "", LoteProductState := LoteProductNormal }) := by
  refine ⟨by decide, by decide, by decide, by decide, by decide, by decide, by decide,
    by decide, by decide, by decide⟩

/-- C19 (amended, CreateLote): for a caller whose identity can be read,
`CreateLote` succeeds exactly when `key` is not empty and absent from the
ledger, `currentLocationID` is present, `strconv.Atoi` reads the units as an
integer of at least 1, and the ledger stub builds the index key of `key`,
product and site (none of them holds U+0000 or U+10FFFF); a units string of at
most 20 characters that is not a decimal integer is rejected; on success `key`
holds a lot in state Manufacturing, product state Normal, with no
certification, no father, the caller as advisor and the given product, site,
price, units, environment, components and location, the composite key built
from `key`, product and site holds the index marker, and no other key is
written; on a failure with an index key that the stub builds, nothing is
written. -/
theorem C19_create_lote (ctx : Ctx) (w : World) (caller key productID manufactureID
    priceamount pricecurrency units envTemp envTempMeasurement envHumidity
    currentLocationID : String) (components : List String)
    (hc : ctx.clientID = some caller) :
    ((CreateLote ctx w key productID manufactureID priceamount pricecurrency units envTemp
        envTempMeasurement envHumidity components currentLocationID).1 = none ↔
      (key ≠ "" ∧ w (Key.simple key) = none ∧ w (Key.simple currentLocationID) ≠ none ∧
        1 ≤ Atoi units ∧
        compositeKeyError lote_index [key, productID, manufactureID] = none)) ∧
    (isDecimalInteger units = false → units.length ≤ 20 →
      (CreateLote ctx w key productID manufactureID priceamount pricecurrency units envTemp
        envTempMeasurement envHumidity components currentLocationID).1 ≠ none) ∧
    ((CreateLote ctx w key productID manufactureID priceamount pricecurrency units envTemp
        envTempMeasurement envHumidity components currentLocationID).1 = none →
      (CreateLote ctx w key productID manufactureID priceamount pricecurrency units envTemp
          envTempMeasurement envHumidity components currentLocationID).2 (Key.simple key) =
        some (Record.lote
          { DocType := "lote", LoteID := key, ProductID := productID,
            ManufactureID := manufactureID, OwnerID := "", Advisor := caller,
            Price := ⟨priceamount, pricecurrency⟩, Units := units, Certifications := [],
            Environment := ⟨envTemp, envTempMeasurement, envHumidity⟩,
            LoteState := ManunfacturingLote, Components := components,
            CurrentLocationID := currentLocationID, FatherID := "",
            LoteProductState := LoteProductNormal }) ∧
      (CreateLote ctx w key productID manufactureID priceamount pricecurrency units envTemp
          envTempMeasurement envHumidity components currentLocationID).2
          (CreateCompositeKey lote_index [key, productID, manufactureID]) =
        some Record.index ∧
      ∀ k, k ≠ Key.simple key →
        k ≠ CreateCompositeKey lote_index [key, productID, manufactureID] →
        (CreateLote ctx w key productID manufactureID priceamount pricecurrency units envTemp
          envTempMeasurement envHumidity components currentLocationID).2 k = w k) ∧
    ((CreateLote ctx w key productID manufactureID priceamount pricecurrency units envTemp
        envTempMeasurement envHumidity components currentLocationID).1 ≠ none →
      compositeKeyError lote_index [key, productID, manufactureID] = none →
      (CreateLote ctx w key productID manufactureID priceamount pricecurrency units envTemp
        envTempMeasurement envHumidity components currentLocationID).2 = w) := by
  have hdec : isDecimalInteger units = false → units.length ≤ 20 → ¬ (1 ≤ Atoi units) := by
    intro h hl; rw [Atoi_not_decimal units h hl]; decide
  simp only [CreateLote, ValidRole, GetState, GetSubmittingClientIdentity,
    GetSubmittingClientOrg, VerifyClientOrgMatchesPeerOrg, hc]
  cases hk : w (Key.simple key) with
  | some r => simp
  | none =>
    cases hl : w (Key.simple currentLocationID) with
    | none => simp
    | some r =>
      by_cases hu : Atoi units < 1
      · have hu2 : ¬ (1 ≤ Atoi units) := by omega
        simp [hu, hu2]
      · have hu2 : 1 ≤ Atoi units := by omega
        by_cases hkey : key = ""
        · subst hkey
          have hp : putStateError "" = some "key must not be an empty string" := rfl
          simp [hu, hp]
        · have hp : putStateError key = none := (putStateError_eq_none key).mpr hkey
          cases hcomp : compositeKeyError lote_index [key, productID, manufactureID] with
          | some e => simp [hu, hp]
          | none =>
            simp only [hu, hp, if_false, true_and, ne_eq, not_true_eq_false,
              not_false_eq_true, reduceCtorEq, hu2, hkey, and_self, iff_true, false_implies,
              and_true, forall_const]
            refine ⟨fun h hl => hdec h hl hu2, ?_, ?_, ?_⟩
            · simp [PutState, CreateCompositeKey]
            · simp [PutState, CreateCompositeKey]
            · intro k h1 h2
              simp [PutState, h1, h2]

/-- Witness for C19: the caller `adv` creates `L1` with units "10" at the
site `M1`. -/
theorem C19_create_lote_witness :
    sampleCtx.clientID = some "adv" ∧
      (CreateLote sampleCtx (singleWorld "M1" (Record.manufacture (sampleSite [] [] [])))
          "L1" "P1" "M1" "5" "USD" "10" "4" "C" "50" [] "M1").1 = none :=
  ⟨rfl,
    (C19_create_lote sampleCtx (singleWorld "M1" (Record.manufacture (sampleSite [] [] [])))
      "adv" "L1" "P1" "M1" "5" "USD" "10" "4" "C" "50" "M1" [] rfl).1.mpr
      ⟨by decide, by decide, by decide, by decide, by decide⟩⟩

/-- Every lot transition either fails without writing or writes one lot
record under its key. -/
theorem lote_transition_write (ctx : Ctx) (w : World) (key a b c d e f g h : String) :
    LoteWrite w key (StoreLote ctx w key a b c d e) ∧
    LoteWrite w key (TransportLote ctx w key a b c d e) ∧
    LoteWrite w key (TransferLote ctx w key a b c d e f g h) ∧
    LoteWrite w key (TransshipmentLote ctx w key a b c d e) ∧
    LoteWrite w key (ReturnLote ctx w key a b c d e f) ∧
    LoteWrite w key (PutLoteOnReparation ctx w key a b c d e f) ∧
    LoteWrite w key (RepairLote ctx w key a b c d e) ∧
    LoteWrite w key (PutLoteOnUsing ctx w key a b c d e) ∧
    LoteWrite w key (SellLote ctx w key a b) ∧
    LoteWrite w key (LoteInspection ctx w key a b c) ∧
    LoteWrite w key (UpdatePrice ctx w key a b) ∧
    LoteWrite w key (UpdateAdvisor ctx w key a) ∧
    LoteWrite w key (UpdateEnvironment ctx w key a b c) := by
  refine ⟨?_, ?_, ?_, ?_, ?_, ?_, ?_, ?_, ?_, ?_, ?_, ?_, ?_⟩
  all_goals
    simp only [StoreLote, TransportLote, TransferLote, TransshipmentLote, ReturnLote,
      PutLoteOnReparation, RepairLote, PutLoteOnUsing, SellLote, LoteInspection, UpdatePrice,
      UpdateAdvisor, UpdateEnvironment, GetState, GetSubmittingClientIdentity,
      GetSubmittingClientOrg, VerifyClientOrgMatchesPeerOrg, LoteWrite]
    repeat' split
    all_goals first
      | (left; exact ⟨by simp, rfl⟩)
      | (right; exact ⟨rfl, _, rfl⟩)

open WarehouseSmartContract

/-- A lot write leaves the state of a warehouse record as it was. -/
theorem KeepsWarehouseState_of_LoteWrite (w : World) (key loteKey : String) (h : Warehouse)
    (res : Option String × World)
    (hk : w (Key.simple key) = some (Record.warehouse h))
    (hw : LoteWrite w loteKey res) : KeepsWarehouseState h key res := by
  intro s hs
  rcases hw with ⟨_, e⟩ | ⟨_, l, e⟩
  · rw [e] at hs
    simpa [warehouseStateAt, hk] using hs.symm
  · rw [e] at hs
    by_cases hkl : key = loteKey
    · simp [warehouseStateAt, PutState, hkl] at hs
    · simpa [warehouseStateAt, PutState, hkl, hk] using hs.symm

/-- After `LoteDestroyed` a warehouse record has the state it had. -/
theorem KeepsWarehouseState_of_LoteDestroyed (ctx : Ctx) (w : World) (key loteKey : String)
    (h : Warehouse) (hk : w (Key.simple key) = some (Record.warehouse h)) :
    KeepsWarehouseState h key (LoteDestroyed ctx w loteKey) := by
  intro s hs
  by_cases hf : (LoteDestroyed ctx w loteKey).1 = none
  · obtain ⟨s1, _, s3⟩ := LoteDestroyed_success ctx w loteKey hf
    by_cases hkl : key = loteKey
    · subst hkl
      cases hr : (LoteDestroyed ctx w key).2 (Key.simple key) with
      | none => simp [warehouseStateAt, hr] at hs
      | some r =>
        cases r <;> simp_all [warehouseStateAt, loteStateAt]
    · simp only [warehouseStateAt, s3 key hkl, hk] at hs
      simpa using hs.symm
  · rw [LoteDestroyed_failure ctx w loteKey hf] at hs
    simpa [warehouseStateAt, hk] using hs.symm

open LoteSmartContract WarehouseSmartContract

/-- The operations of the warehouse contract that write at most the warehouse
record or inspect a lot keep the state of the warehouse. -/
theorem warehouse_keeps_state_1 (ctx : Ctx) (w : World) (key loteKey : String) (h : Warehouse)
    (a b c d e f g : String)
    (hk : w (Key.simple key) = some (Record.warehouse h))
    (hc : ctx.clientID = some h.AdvisorID) :
    KeepsWarehouseState h key (CreateWarehouse ctx w key a b c d e f g) ∧
    KeepsWarehouseState h key (WarehouseInspection ctx w key a b c) ∧
    KeepsWarehouseState h key (WarehouseLoteInspection ctx w key loteKey a b c) ∧
    KeepsWarehouseState h key (WarehouseStoreLote ctx w key loteKey a) ∧
    KeepsWarehouseState h key (WarehouseUpdateAdvisor ctx w key a) := by
  have hw := lote_transition_write ctx w loteKey
  have k1 := KeepsWarehouseState_of_LoteWrite w key loteKey h _ hk
    (hw a b c "" "" "" "" "").2.2.2.2.2.2.2.2.2.1
  refine ⟨?_, ?_, ?_, ?_, ?_⟩
  · intro s
    simp [CreateWarehouse, ValidRole, GetData, GetState, hk, warehouseStateAt]
    intro hs; exact hs.symm
  · intro s
    simp only [WarehouseInspection, GetData, GetState, hk, UnmarshalWarehouse,
      GetSubmittingClientIdentity, hc]
    repeat' split
    all_goals simp_all [warehouseStateAt, PutState]
  · revert k1
    simp only [WarehouseLoteInspection, GetData, GetState, hk, UnmarshalWarehouse,
      GetSubmittingClientIdentity, hc, KeepsWarehouseState]
    repeat' split
    all_goals simp_all [warehouseStateAt, PutState]
  · intro s
    simp only [WarehouseStoreLote, GetData, GetState, hk, UnmarshalWarehouse,
      GetSubmittingClientIdentity, hc]
    repeat' split
    all_goals simp_all [warehouseStateAt, PutState]
  · intro s
    simp only [WarehouseUpdateAdvisor, GetData, GetState, hk, UnmarshalWarehouse,
      GetSubmittingClientIdentity, hc]
    repeat' split
    all_goals simp_all [warehouseStateAt, PutState]

/-- Receiving a returned lot, selling and sending out a lot keep the state of the
warehouse. -/
theorem warehouse_keeps_state_2 (ctx : Ctx) (w : World) (key loteKey : String) (h : Warehouse)
    (a b c d e f g : String)
    (hk : w (Key.simple key) = some (Record.warehouse h))
    (hc : ctx.clientID = some h.AdvisorID) :
    KeepsWarehouseState h key
      (WarehouseRecieveSelledReturnLote ctx w key loteKey a b c d e f g) ∧
    KeepsWarehouseState h key (WarehouseSellLote ctx w key loteKey a b c) ∧
    KeepsWarehouseState h key (WarehouseTransportLote ctx w key loteKey a b c d e f) := by
  have hw := lote_transition_write ctx w loteKey
  have k2 := KeepsWarehouseState_of_LoteWrite w key loteKey h _ hk
    (hw a b c d e f "" "").2.2.2.2.1
  have k3 := KeepsWarehouseState_of_LoteWrite w key loteKey h _ hk
    (hw a b "" "" "" "" "" "").2.2.2.2.2.2.2.2.1
  have k4 := KeepsWarehouseState_of_LoteWrite w key loteKey h _ hk
    (hw a b c d e "" "" "").2.1
  refine ⟨?_, ?_, ?_⟩
  · revert k2
    simp only [WarehouseRecieveSelledReturnLote, GetData, GetState, hk, UnmarshalWarehouse,
      GetSubmittingClientIdentity, hc, KeepsWarehouseState]
    repeat' split
    all_goals simp_all [warehouseStateAt, PutState]
  · revert k3
    simp only [WarehouseSellLote, GetData, GetState, hk, UnmarshalWarehouse,
      GetSubmittingClientIdentity, hc, KeepsWarehouseState]
    repeat' split
    all_goals simp_all [warehouseStateAt, PutState]
  · revert k4
    simp only [WarehouseTransportLote, GetData, GetState, hk, UnmarshalWarehouse,
      GetSubmittingClientIdentity, hc, KeepsWarehouseState]
    repeat' split
    all_goals simp_all [warehouseStateAt, PutState]

/-- Returning and destroying a stored lot keep the state of the warehouse. -/
theorem warehouse_keeps_state_3 (ctx : Ctx) (w : World) (key loteKey : String) (h : Warehouse)
    (a b c d e f g : String)
    (hk : w (Key.simple key) = some (Record.warehouse h))
    (hc : ctx.clientID = some h.AdvisorID) :
    KeepsWarehouseState h key (WarehouseReturnLote ctx w key loteKey a b c d e f g) ∧
    KeepsWarehouseState h key (WarehouseDestroyLote ctx w key loteKey a) := by
  have hw := lote_transition_write ctx w loteKey
  have k2 := KeepsWarehouseState_of_LoteWrite w key loteKey h _ hk
    (hw a b c d e f "" "").2.2.2.2.1
  have k5 := KeepsWarehouseState_of_LoteDestroyed ctx w key loteKey h hk
  refine ⟨?_, ?_⟩
  · revert k2
    simp only [WarehouseReturnLote, GetData, GetState, hk, UnmarshalWarehouse,
      GetSubmittingClientIdentity, hc, KeepsWarehouseState]
    repeat' split
    all_goals simp_all [warehouseStateAt, PutState]
  · revert k5
    simp only [WarehouseDestroyLote, GetData, GetState, hk, UnmarshalWarehouse,
      GetSubmittingClientIdentity, hc, KeepsWarehouseState]
    repeat' split
    all_goals simp_all [warehouseStateAt, PutState]

/-- C15 (warehouse lifecycle): for a warehouse at `key` advised by the caller,
`WarehouseNonAvailable` succeeds exactly from Working and yields NonAvailable,
`WarehouseAvailable` succeeds exactly from NonAvailable and yields Working,
`WarehouseDestroyed` succeeds exactly from NonAvailable and yields Destroyed,
each leaving the ledger unchanged when it fails; after any other operation of
the warehouse contract a warehouse record under `key` has the state it had, so
the state Destroyed is entered only from NonAvailable. -/
theorem C15_warehouse_lifecycle (ctx : Ctx) (w : World) (key loteKey : String) (h : Warehouse)
    (a b c d e f g : String)
    (hk : w (Key.simple key) = some (Record.warehouse h))
    (hc : ctx.clientID = some h.AdvisorID) :
    (((WarehouseNonAvailable ctx w key).1 = none ↔ h.WarehouseState = WorkingWarehouse) ∧
      ((WarehouseNonAvailable ctx w key).1 = none →
        warehouseStateAt (WarehouseNonAvailable ctx w key).2 key =
          some NonAvailableWarehouse) ∧
      ((WarehouseNonAvailable ctx w key).1 ≠ none → (WarehouseNonAvailable ctx w key).2 = w)) ∧
    (((WarehouseAvailable ctx w key).1 = none ↔ h.WarehouseState = NonAvailableWarehouse) ∧
      ((WarehouseAvailable ctx w key).1 = none →
        warehouseStateAt (WarehouseAvailable ctx w key).2 key = some WorkingWarehouse) ∧
      ((WarehouseAvailable ctx w key).1 ≠ none → (WarehouseAvailable ctx w key).2 = w)) ∧
    (((WarehouseDestroyed ctx w key).1 = none ↔ h.WarehouseState = NonAvailableWarehouse) ∧
      ((WarehouseDestroyed ctx w key).1 = none →
        warehouseStateAt (WarehouseDestroyed ctx w key).2 key = some DestroyedWarehouse) ∧
      ((WarehouseDestroyed ctx w key).1 ≠ none → (WarehouseDestroyed ctx w key).2 = w)) ∧
    KeepsWarehouseState h key (CreateWarehouse ctx w key a b c d e f g) ∧
    KeepsWarehouseState h key (WarehouseInspection ctx w key a b c) ∧
    KeepsWarehouseState h key (WarehouseLoteInspection ctx w key loteKey a b c) ∧
    KeepsWarehouseState h key (WarehouseStoreLote ctx w key loteKey a) ∧
    KeepsWarehouseState h key
      (WarehouseRecieveSelledReturnLote ctx w key loteKey a b c d e f g) ∧
    KeepsWarehouseState h key (WarehouseSellLote ctx w key loteKey a b c) ∧
    KeepsWarehouseState h key (WarehouseTransportLote ctx w key loteKey a b c d e f) ∧
    KeepsWarehouseState h key (WarehouseReturnLote ctx w key loteKey a b c d e f g) ∧
    KeepsWarehouseState h key (WarehouseDestroyLote ctx w key loteKey a) ∧
    KeepsWarehouseState h key (WarehouseUpdateAdvisor ctx w key a) := by
  have o1 := warehouse_keeps_state_1 ctx w key loteKey h a b c d e f g hk hc
  have o2 := warehouse_keeps_state_2 ctx w key loteKey h a b c d e f g hk hc
  have o3 := warehouse_keeps_state_3 ctx w key loteKey h a b c d e f g hk hc
  refine ⟨?_, ?_, ?_, o1.1, o1.2.1, o1.2.2.1, o1.2.2.2.1, o2.1, o2.2.1, o2.2.2, o3.1, o3.2,
    o1.2.2.2.2⟩
  · simp only [WarehouseNonAvailable, GetData, GetState, hk, UnmarshalWarehouse,
      GetSubmittingClientIdentity, hc, WorkingWarehouse, NonAvailableWarehouse]
    by_cases hs : h.WarehouseState = 0 <;> simp [hs, warehouseStateAt, PutState]
  · simp only [WarehouseAvailable, GetData, GetState, hk, UnmarshalWarehouse,
      GetSubmittingClientIdentity, hc, WorkingWarehouse, NonAvailableWarehouse]
    by_cases hs : h.WarehouseState = 1 <;> simp [hs, warehouseStateAt, PutState]
  · simp only [WarehouseDestroyed, GetData, GetState, hk, UnmarshalWarehouse,
      GetSubmittingClientIdentity, hc, DestroyedWarehouse, NonAvailableWarehouse]
    by_cases hs : h.WarehouseState = 1 <;>
      simp [hs, warehouseStateAt, PutState, DelState, CreateCompositeKey]

/-- Witness for C15: the warehouse `W1`, NonAvailable, is destroyed by its
advisor. -/
theorem C15_warehouse_lifecycle_witness :
    singleWorld "W1" (Record.warehouse (sampleWarehouse NonAvailableWarehouse []))
        (Key.simple "W1") =
        some (Record.warehouse (sampleWarehouse NonAvailableWarehouse [])) ∧
      sampleCtx.clientID = some (sampleWarehouse NonAvailableWarehouse []).AdvisorID ∧
      warehouseStateAt
          (WarehouseDestroyed sampleCtx
            (singleWorld "W1" (Record.warehouse (sampleWarehouse NonAvailableWarehouse [])))
            "W1").2 "W1" = some DestroyedWarehouse :=
  ⟨by decide, rfl,
    (C15_warehouse_lifecycle sampleCtx
      (singleWorld "W1" (Record.warehouse (sampleWarehouse NonAvailableWarehouse [])))
      "W1" "L1" (sampleWarehouse NonAvailableWarehouse []) "a" "b" "c" "d" "e" "f" "g"
      (by decide) rfl).2.2.1.2.1 (by decide)⟩

open LoteSmartContract TransportSmartContract

/-- The advisor loop passes exactly when every id of the batch resolves to a
record whose advisor is the given one. -/
theorem verifyLoteAdvisors_none (w : World) (advisor : String) (ids : List String) :
    verifyLoteAdvisors w advisor ids = none ↔
      ∀ id ∈ ids, GetLoteAdvisor w id = .ok advisor := by
  induction ids with
  | nil => simp [verifyLoteAdvisors]
  | cons id rest ih =>
    simp only [verifyLoteAdvisors, List.mem_cons, forall_eq_or_imp]
    cases hg : GetLoteAdvisor w id with
    | error e => simp
    | ok la =>
      by_cases hla : advisor = la
      · subst hla; simp [ih]
      · have : la ≠ advisor := fun e => hla e.symm
        simp [hla, this]

/-- A lot write brings no transport record into the state Loading. -/
theorem NoNewLoading_of_LoteWrite (w : World) (loteKey : String) (res : Option String × World)
    (hw : LoteWrite w loteKey res) : NoNewLoading w res := by
  intro k hs
  rcases hw with ⟨_, e⟩ | ⟨_, l, e⟩
  · rw [e] at hs; exact hs
  · rw [e] at hs
    by_cases hkl : k = loteKey
    · simp [transportStateAt, PutState, hkl] at hs
    · simpa [transportStateAt, PutState, hkl] using hs

/-- The operations of the transport contract that write at most the transport
record, other than `LoadLoteInTransport`, bring no transport record into the
state Loading. -/
theorem transport_no_new_loading_1 (ctx : Ctx) (w : World) (key : String)
    (a b c d e f g h : String) :
    NoNewLoading w (CreateTransport ctx w key a b c d e f g h) ∧
    NoNewLoading w (TransportInspection ctx w key a b c) ∧
    NoNewLoading w (UpdateTransportAdvisor ctx w key a) ∧
    NoNewLoading w (StartTransportDelivery ctx w key a b c d e) ∧
    NoNewLoading w (TransportIsNonAvailable ctx w key) ∧
    NoNewLoading w (TransportIsAvailable ctx w key) ∧
    NoNewLoading w (TransportUpdateLocation ctx w key a b c d) ∧
    NoNewLoading w (TransportDestroyed ctx w key) := by
  refine ⟨?_, ?_, ?_, ?_, ?_, ?_, ?_, ?_⟩
  all_goals
    intro k
    simp only [CreateTransport, TransportInspection, UpdateTransportAdvisor,
      StartTransportDelivery, TransportIsNonAvailable, TransportIsAvailable,
      TransportUpdateLocation, TransportDestroyed, ValidRole, GetData, GetState,
      GetSubmittingClientIdentity, GetSubmittingClientOrg, VerifyClientOrgMatchesPeerOrg]
    repeat' split
    all_goals first
      | exact id
      | (by_cases hk : k = key <;>
          simp_all [transportStateAt, PutState, DelState, CreateCompositeKey,
            LoadingTrasport, AvailableTransport, DeliveringTransport, NonAvailableTransport,
            DestroyedTransport])

open LoteSmartContract TransportSmartContract

/-- The shared delivery body brings no transport record into the state
Loading when the delegated lot operation is a lot write. -/
theorem deliverWith_no_new_loading (ctx : Ctx) (w : World) (key loteKey capacityUsed : String)
    (res : Option String × World) (hw : LoteWrite w loteKey res) :
    NoNewLoading w (deliverWith ctx w key loteKey capacityUsed res) := by
  intro k
  have hn := NoNewLoading_of_LoteWrite w loteKey res hw k
  rcases res with ⟨e, w1⟩
  revert hn
  simp only [deliverWith, GetData, GetState, GetSubmittingClientIdentity]
  repeat' split
  all_goals first
    | (intro _; exact id)
    | (by_cases hk : k = key <;>
        simp_all [transportStateAt, PutState, LoadingTrasport, AvailableTransport])

/-- The operations of the transport contract that delegate to a lot
transition bring no transport record into the state Loading. -/
theorem transport_no_new_loading_2 (ctx : Ctx) (w : World) (key loteKey capacityUsed : String)
    (a b c d e f g h : String) :
    NoNewLoading w (TransportDeliverStoreLote ctx w key loteKey a b c d e capacityUsed) ∧
    NoNewLoading w (TransportDeliverRepairingLote ctx w key loteKey a b c d e f capacityUsed) ∧
    NoNewLoading w (TransportDeliverUsingLote ctx w key loteKey a b c d e capacityUsed) ∧
    NoNewLoading w
      (TransportDeliverTransferLote ctx w key loteKey a b c d e f g h capacityUsed) ∧
    NoNewLoading w (TransportDeliverTransshipmentLote ctx w key loteKey a b c d e capacityUsed) ∧
    NoNewLoading w (TransportInspectionLote ctx w key loteKey a b c) := by
  refine ⟨?_, ?_, ?_, ?_, ?_, ?_⟩
  · exact deliverWith_no_new_loading ctx w key loteKey capacityUsed _
      (lote_transition_write ctx w loteKey a b c d e "" "" "").1
  · exact deliverWith_no_new_loading ctx w key loteKey capacityUsed _
      (lote_transition_write ctx w loteKey b c a d e f "" "").2.2.2.2.2.1
  · exact deliverWith_no_new_loading ctx w key loteKey capacityUsed _
      (lote_transition_write ctx w loteKey a b c d e "" "" "").2.2.2.2.2.2.2.1
  · exact deliverWith_no_new_loading ctx w key loteKey capacityUsed _
      (lote_transition_write ctx w loteKey b e a c d f g h).2.2.1
  · exact deliverWith_no_new_loading ctx w key loteKey capacityUsed _
      (lote_transition_write ctx w loteKey a b c d e "" "" "").2.2.2.1
  · intro k
    have hn := NoNewLoading_of_LoteWrite w loteKey _
      (lote_transition_write ctx w loteKey a b c "" "" "" "" "").2.2.2.2.2.2.2.2.2.1 k
    revert hn
    simp only [TransportInspectionLote, GetData, GetState, GetSubmittingClientIdentity]
    repeat' split
    all_goals first
      | (intro _; exact id)
      | simp_all

open LoteSmartContract TransportSmartContract

open LoteSmartContract ProductSmartContract ManufactureSmartContract TransportSmartContract
  WarehouseSmartContract

/-- Every mutating operation of the product contract refuses a caller who is
not the advisor of the product stored under `key`. -/
theorem product_advisor_gating (ctx : Ctx) (w : World) (key : String) (p : Product)
    (p1 p2 p3 p4 p5 p6 p7 p8 p9 p10 p11 p12 p13 p14 p15 p16 p17 p18 p19 p20 p21 p22 p23 :
      String) (components : List String)
    (hk : w (Key.simple key) = some (Record.product p))
    (hc : ctx.clientID ≠ some p.Advisor) :
    Refused w (CreateProduct ctx w key p1 p2 p3 p4 p5 p6 p7 p8 p9 p10 p11 p12 p13 p14 p15 p16
      p17 p18 p19 p20 p21 p22 p23 components) ∧
    Refused w (Certify ctx w key p1 p2 p3) ∧
    Refused w (ProductOnProduction ctx w key) ∧
    Refused w (ProductDiscontinued ctx w key) ∧
    Refused w (ProductContinued ctx w key) ∧
    Refused w (ProductDestroyed ctx w key) := by
  have hadv : ∀ x, ctx.clientID = some x → x ≠ p.Advisor := by
    intro x hx hxl; exact hc (hxl ▸ hx)
  refine ⟨?_, ?_, ?_, ?_, ?_, ?_⟩
  all_goals
    simp only [CreateProduct, Certify, ProductOnProduction, ProductDiscontinued,
      ProductContinued, ProductDestroyed, Refused, ValidRole, GetState, hk, UnmarshalProduct,
      GetSubmittingClientIdentity]
    cases hid : ctx.clientID with
    | none => repeat' split
              all_goals simp_all
    | some x =>
      have hx := hadv x hid
      repeat' split
      all_goals simp_all

/-- Every mutating operation of the transport contract refuses a caller who is
not the advisor of the transport stored under `key`. -/
theorem transport_advisor_gating (ctx : Ctx) (w : World) (key loteKey : String) (t : Transport)
    (a b c d e f g h i : String)
    (hk : w (Key.simple key) = some (Record.transport t))
    (hc : ctx.clientID ≠ some t.AdvisorID) :
    Refused w (CreateTransport ctx w key a b c d e f g h) ∧
    Refused w (TransportInspection ctx w key a b c) ∧
    Refused w (UpdateTransportAdvisor ctx w key a) ∧
    Refused w (LoadLoteInTransport ctx w key a b) ∧
    Refused w (StartTransportDelivery ctx w key a b c d e) ∧
    Refused w (TransportInspectionLote ctx w key loteKey a b c) ∧
    Refused w (TransportDeliverStoreLote ctx w key loteKey a b c d e f) ∧
    Refused w (TransportDeliverRepairingLote ctx w key loteKey a b c d e f g) ∧
    Refused w (TransportDeliverUsingLote ctx w key loteKey a b c d e f) ∧
    Refused w (TransportDeliverTransferLote ctx w key loteKey a b c d e f g h i) ∧
    Refused w (TransportDeliverTransshipmentLote ctx w key loteKey a b c d e f) ∧
    Refused w (TransportIsNonAvailable ctx w key) ∧
    Refused w (TransportIsAvailable ctx w key) ∧
    Refused w (TransportUpdateLocation ctx w key a b c d) ∧
    Refused w (TransportDestroyed ctx w key) := by
  have hadv : ∀ x, ctx.clientID = some x → x ≠ t.AdvisorID := by
    intro x hx hxl; exact hc (hxl ▸ hx)
  refine ⟨?_, ?_, ?_, ?_, ?_, ?_, ?_, ?_, ?_, ?_, ?_, ?_, ?_, ?_, ?_⟩
  all_goals
    simp only [CreateTransport, TransportInspection, UpdateTransportAdvisor,
      LoadLoteInTransport, StartTransportDelivery, TransportInspectionLote,
      TransportDeliverStoreLote, TransportDeliverRepairingLote, TransportDeliverUsingLote,
      TransportDeliverTransferLote, TransportDeliverTransshipmentLote,
      TransportIsNonAvailable, TransportIsAvailable, TransportUpdateLocation,
      TransportDestroyed, Refused, ValidRole, GetData, GetState, hk, UnmarshalTransport,
      GetSubmittingClientIdentity]
    cases hid : ctx.clientID with
    | none => simp
    | some x =>
      have hx := hadv x hid
      simp [hx]

/-- Every mutating operation of the warehouse contract refuses a caller who is
not the advisor of the warehouse stored under `key`. -/
theorem warehouse_advisor_gating (ctx : Ctx) (w : World) (key loteKey : String) (h : Warehouse)
    (a b c d e f g : String)
    (hk : w (Key.simple key) = some (Record.warehouse h))
    (hc : ctx.clientID ≠ some h.AdvisorID) :
    Refused w (CreateWarehouse ctx w key a b c d e f g) ∧
    Refused w (WarehouseInspection ctx w key a b c) ∧
    Refused w (WarehouseLoteInspection ctx w key loteKey a b c) ∧
    Refused w (WarehouseStoreLote ctx w key loteKey a) ∧
    Refused w (WarehouseRecieveSelledReturnLote ctx w key loteKey a b c d e f g) ∧
    Refused w (WarehouseSellLote ctx w key loteKey a b c) ∧
    Refused w (WarehouseTransportLote ctx w key loteKey a b c d e f) ∧
    Refused w (WarehouseReturnLote ctx w key loteKey a b c d e f g) ∧
    Refused w (WarehouseDestroyLote ctx w key loteKey a) ∧
    Refused w (WarehouseUpdateAdvisor ctx w key a) ∧
    Refused w (WarehouseAvailable ctx w key) ∧
    Refused w (WarehouseNonAvailable ctx w key) ∧
    Refused w (WarehouseDestroyed ctx w key) := by
  have hadv : ∀ x, ctx.clientID = some x → x ≠ h.AdvisorID := by
    intro x hx hxl; exact hc (hxl ▸ hx)
  refine ⟨?_, ?_, ?_, ?_, ?_, ?_, ?_, ?_, ?_, ?_, ?_, ?_, ?_⟩
  all_goals
    simp only [CreateWarehouse, WarehouseInspection, WarehouseLoteInspection,
      WarehouseStoreLote, WarehouseRecieveSelledReturnLote, WarehouseSellLote,
      WarehouseTransportLote, WarehouseReturnLote, WarehouseDestroyLote,
      WarehouseUpdateAdvisor, WarehouseAvailable, WarehouseNonAvailable, WarehouseDestroyed,
      Refused, ValidRole, GetData, GetState, hk, UnmarshalWarehouse,
      GetSubmittingClientIdentity]
    cases hid : ctx.clientID with
    | none => simp
    | some x =>
      have hx := hadv x hid
      simp [hx]

open LoteSmartContract ProductSmartContract ManufactureSmartContract TransportSmartContract
  WarehouseSmartContract

/-- Every mutating operation of the site contract refuses a caller who is not
the advisor of the site stored under `key`. -/
theorem manufacture_advisor_gating (ctx : Ctx) (w : World) (key otherKey : String)
    (m : Manufacture)
    (p1 p2 p3 p4 p5 p6 p7 p8 p9 p10 p11 p12 p13 p14 p15 p16 p17 p18 p19 p20 p21 p22 :
      String) (components : List String)
    (hk : w (Key.simple key) = some (Record.manufacture m))
    (hc : ctx.clientID ≠ some m.AdvisorID) :
    Refused w (CreateManufacture ctx w key p1 p2 p3 p4) ∧
    Refused w (ManufactureInspection ctx w key p1 p2 p3) ∧
    Refused w (ManufactureCreateProduct ctx w key otherKey p1 p2 p3 p4 p5 p6 p7 p8 p9 p10 p11
      p12 p13 p14 p15 p16 p17 p18 p19 p20 p21 p22 components) ∧
    Refused w (ManufactureCertifyProduct ctx w key otherKey p1 p2 p3) ∧
    Refused w (ManufactureStartProductionProduct ctx w key otherKey) ∧
    Refused w (ManufactureDiscontinuetionProduct ctx w key otherKey) ∧
    Refused w (ManufactureContinueProduct ctx w key otherKey) ∧
    Refused w (ManufactureDestroyProduct ctx w key otherKey) ∧
    Refused w (ManufactureCreateLote ctx w key otherKey p1 p2 p3 p4 p5 p6 p7 components) ∧
    Refused w (ManufactureFractionateLoteForUse ctx w key p1 p2) ∧
    Refused w (ManufacturePutLoteInUsing ctx w key otherKey) ∧
    Refused w (ManufacturePutLoteFromProductionToUsing ctx w key otherKey p1 p2 p3) ∧
    Refused w (ManufacturePutLoteInReparing ctx w key otherKey) ∧
    Refused w (ManufactureRepairLote ctx w key otherKey p1 p2 p3 p4 p5) ∧
    Refused w (ManufactureInspectionLote ctx w key otherKey p1 p2 p3) ∧
    Refused w (ManufactureDestroyLote ctx w key otherKey) ∧
    Refused w (ManufactureTransportLote ctx w key otherKey p1 p2 p3 p4 p5) ∧
    Refused w (ManufactureUpdateAdvisor ctx w key p1) ∧
    Refused w (ManufactureBroken ctx w key) ∧
    Refused w (ManufactureReadyToProduce ctx w key) ∧
    Refused w (ManufactureDestroyed ctx w key) := by
  have hadv : ∀ x, ctx.clientID = some x → x ≠ m.AdvisorID := by
    intro x hx hxl; exact hc (hxl ▸ hx)
  refine ⟨?_, ?_, ?_, ?_, ?_, ?_, ?_, ?_, ?_, ?_, ?_, ?_, ?_, ?_, ?_, ?_, ?_, ?_, ?_, ?_, ?_⟩
  all_goals
    simp only [CreateManufacture, ManufactureInspection, ManufactureCreateProduct,
      ManufactureCertifyProduct, ManufactureStartProductionProduct,
      ManufactureDiscontinuetionProduct, ManufactureContinueProduct,
      ManufactureDestroyProduct, ManufactureCreateLote, ManufactureFractionateLoteForUse,
      ManufacturePutLoteInUsing, ManufacturePutLoteFromProductionToUsing,
      ManufacturePutLoteInReparing, ManufactureRepairLote, ManufactureInspectionLote,
      ManufactureDestroyLote, ManufactureTransportLote, ManufactureUpdateAdvisor,
      ManufactureBroken, ManufactureReadyToProduce, ManufactureDestroyed,
      Refused, ValidRole, GetData, GetState, hk, UnmarshalManufacture,
      GetSubmittingClientIdentity]
    cases hid : ctx.clientID with
    | none => simp
    | some x =>
      have hx := hadv x hid
      simp [hx]

/-- C16 (advisor gating on products, sites, transports and warehouses): when
`key` holds a product, a site, a transport or a warehouse and the caller is
not the advisor stored in that record, every mutating operation of the
contract of that record, called on `key` with any other arguments, returns
an error and leaves every key of the ledger as it was. -/
theorem C16_advisor_gating (ctx : Ctx) (w : World) (key otherKey : String)
    (p1 p2 p3 p4 p5 p6 p7 p8 p9 p10 p11 p12 p13 p14 p15 p16 p17 p18 p19 p20 p21 p22 p23 :
      String) (components : List String) :
    (∀ p : Product, w (Key.simple key) = some (Record.product p) →
      ctx.clientID ≠ some p.Advisor →
      Refused w (CreateProduct ctx w key p1 p2 p3 p4 p5 p6 p7 p8 p9 p10 p11 p12 p13 p14 p15
        p16 p17 p18 p19 p20 p21 p22 p23 components) ∧
      Refused w (Certify ctx w key p1 p2 p3) ∧
      Refused w (ProductOnProduction ctx w key) ∧
      Refused w (ProductDiscontinued ctx w key) ∧
      Refused w (ProductContinued ctx w key) ∧
      Refused w (ProductDestroyed ctx w key)) ∧
    (∀ m : Manufacture, w (Key.simple key) = some (Record.manufacture m) →
      ctx.clientID ≠ some m.AdvisorID →
      Refused w (CreateManufacture ctx w key p1 p2 p3 p4) ∧
      Refused w (ManufactureInspection ctx w key p1 p2 p3) ∧
      Refused w (ManufactureCreateProduct ctx w key otherKey p1 p2 p3 p4 p5 p6 p7 p8 p9 p10
        p11 p12 p13 p14 p15 p16 p17 p18 p19 p20 p21 p22 components) ∧
      Refused w (ManufactureCertifyProduct ctx w key otherKey p1 p2 p3) ∧
      Refused w (ManufactureStartProductionProduct ctx w key otherKey) ∧
      Refused w (ManufactureDiscontinuetionProduct ctx w key otherKey) ∧
      Refused w (ManufactureContinueProduct ctx w key otherKey) ∧
      Refused w (ManufactureDestroyProduct ctx w key otherKey) ∧
      Refused w (ManufactureCreateLote ctx w key otherKey p1 p2 p3 p4 p5 p6 p7 components) ∧
      Refused w (ManufactureFractionateLoteForUse ctx w key p1 p2) ∧
      Refused w (ManufacturePutLoteInUsing ctx w key otherKey) ∧
      Refused w (ManufacturePutLoteFromProductionToUsing ctx w key otherKey p1 p2 p3) ∧
      Refused w (ManufacturePutLoteInReparing ctx w key otherKey) ∧
      Refused w (ManufactureRepairLote ctx w key otherKey p1 p2 p3 p4 p5) ∧
      Refused w (ManufactureInspectionLote ctx w key otherKey p1 p2 p3) ∧
      Refused w (ManufactureDestroyLote ctx w key otherKey) ∧
      Refused w (ManufactureTransportLote ctx w key otherKey p1 p2 p3 p4 p5) ∧
      Refused w (ManufactureUpdateAdvisor ctx w key p1) ∧
      Refused w (ManufactureBroken ctx w key) ∧
      Refused w (ManufactureReadyToProduce ctx w key) ∧
      Refused w (ManufactureDestroyed ctx w key)) ∧
    (∀ t : Transport, w (Key.simple key) = some (Record.transport t) →
      ctx.clientID ≠ some t.AdvisorID →
      Refused w (CreateTransport ctx w key p1 p2 p3 p4 p5 p6 p7 p8) ∧
      Refused w (TransportInspection ctx w key p1 p2 p3) ∧
      Refused w (UpdateTransportAdvisor ctx w key p1) ∧
      Refused w (LoadLoteInTransport ctx w key p1 p2) ∧
      Refused w (StartTransportDelivery ctx w key p1 p2 p3 p4 p5) ∧
      Refused w (TransportInspectionLote ctx w key otherKey p1 p2 p3) ∧
      Refused w (TransportDeliverStoreLote ctx w key otherKey p1 p2 p3 p4 p5 p6) ∧
      Refused w (TransportDeliverRepairingLote ctx w key otherKey p1 p2 p3 p4 p5 p6 p7) ∧
      Refused w (TransportDeliverUsingLote ctx w key otherKey p1 p2 p3 p4 p5 p6) ∧
      Refused w (TransportDeliverTransferLote ctx w key otherKey p1 p2 p3 p4 p5 p6 p7 p8 p9) ∧
      Refused w (TransportDeliverTransshipmentLote ctx w key otherKey p1 p2 p3 p4 p5 p6) ∧
      Refused w (TransportIsNonAvailable ctx w key) ∧
      Refused w (TransportIsAvailable ctx w key) ∧
      Refused w (TransportUpdateLocation ctx w key p1 p2 p3 p4) ∧
      Refused w (TransportDestroyed ctx w key)) ∧
    (∀ h : Warehouse, w (Key.simple key) = some (Record.warehouse h) →
      ctx.clientID ≠ some h.AdvisorID →
      Refused w (CreateWarehouse ctx w key p1 p2 p3 p4 p5 p6 p7) ∧
      Refused w (WarehouseInspection ctx w key p1 p2 p3) ∧
      Refused w (WarehouseLoteInspection ctx w key otherKey p1 p2 p3) ∧
      Refused w (WarehouseStoreLote ctx w key otherKey p1) ∧
      Refused w (WarehouseRecieveSelledReturnLote ctx w key otherKey p1 p2 p3 p4 p5 p6 p7) ∧
      Refused w (WarehouseSellLote ctx w key otherKey p1 p2 p3) ∧
      Refused w (WarehouseTransportLote ctx w key otherKey p1 p2 p3 p4 p5 p6) ∧
      Refused w (WarehouseReturnLote ctx w key otherKey p1 p2 p3 p4 p5 p6 p7) ∧
      Refused w (WarehouseDestroyLote ctx w key otherKey p1) ∧
      Refused w (WarehouseUpdateAdvisor ctx w key p1) ∧
      Refused w (WarehouseAvailable ctx w key) ∧
      Refused w (WarehouseNonAvailable ctx w key) ∧
      Refused w (WarehouseDestroyed ctx w key)) :=
  ⟨fun p hk hc => product_advisor_gating ctx w key p p1 p2 p3 p4 p5 p6 p7 p8 p9 p10 p11 p12
      p13 p14 p15 p16 p17 p18 p19 p20 p21 p22 p23 components hk hc,
    fun m hk hc => manufacture_advisor_gating ctx w key otherKey m p1 p2 p3 p4 p5 p6 p7 p8 p9
      p10 p11 p12 p13 p14 p15 p16 p17 p18 p19 p20 p21 p22 components hk hc,
    fun t hk hc => transport_advisor_gating ctx w key otherKey t p1 p2 p3 p4 p5 p6 p7 p8 p9
      hk hc,
    fun h hk hc => warehouse_advisor_gating ctx w key otherKey h p1 p2 p3 p4 p5 p6 p7 hk hc⟩

/-- Witness for C16: the caller `eve` asks the site `M1`, advised by `adv`, to
destroy the lot `L1` of its list for use; the call is refused and the ledger,
the lot included, is as it was. -/
theorem C16_advisor_gating_witness :
    sampleWorld (sampleSite [] ["L1"] []) (sampleLote UsingLote 0) (Key.simple "M1") =
        some (Record.manufacture (sampleSite [] ["L1"] [])) ∧
      (⟨some "eve"⟩ : Ctx).clientID ≠ some (sampleSite [] ["L1"] []).AdvisorID ∧
      Refused (sampleWorld (sampleSite [] ["L1"] []) (sampleLote UsingLote 0))
        (ManufactureDestroyLote ⟨some "eve"⟩
          (sampleWorld (sampleSite [] ["L1"] []) (sampleLote UsingLote 0)) "M1" "L1") :=
  ⟨by decide, by decide,
    ((C16_advisor_gating ⟨some "eve"⟩
      (sampleWorld (sampleSite [] ["L1"] []) (sampleLote UsingLote 0)) "M1" "L1"
      "" "" "" "" "" "" "" "" "" "" "" "" "" "" "" "" "" "" "" "" "" "" "" []).2.1
      (sampleSite [] ["L1"] []) (by decide) (by decide)).2.2.2.2.2.2.2.2.2.2.2.2.2.2.2.1⟩

open LoteSmartContract

/-- A call that leaves the ledger as it was brings no transport into Loading. -/
theorem NoNewLoading_refl (w : World) (e : Option String) : NoNewLoading w (e, w) :=
  fun _ h => h

/-- Writing a record that is not a Loading transport, after steps that brought
no transport into Loading, brings no transport into Loading. -/
theorem NoNewLoading_put (w w1 : World) (e1 e : Option String) (k : Key) (r : Record)
    (h : NoNewLoading w (e1, w1))
    (hr : ∀ t, r = Record.transport t → t.TransportState ≠ LoadingTrasport) :
    NoNewLoading w (e, PutState w1 k r) := by
  intro k0 hs
  by_cases hk : Key.simple k0 = k
  · subst hk
    cases r <;> simp_all [transportStateAt, PutState]
  · apply h k0
    simpa [transportStateAt, PutState, hk] using hs

/-- Deleting a key, after steps that brought no transport into Loading, brings
no transport into Loading. -/
theorem NoNewLoading_del (w w1 : World) (e1 e : Option String) (k : Key)
    (h : NoNewLoading w (e1, w1)) : NoNewLoading w (e, DelState w1 k) := by
  intro k0 hs
  by_cases hk : Key.simple k0 = k
  · subst hk
    simp [transportStateAt, DelState] at hs
  · apply h k0
    simpa [transportStateAt, DelState, hk] using hs

/-- Two steps that bring no transport into Loading compose. -/
theorem NoNewLoading_trans (w w1 : World) (e1 : Option String) (res : Option String × World)
    (h1 : NoNewLoading w (e1, w1)) (h2 : NoNewLoading w1 res) : NoNewLoading w res :=
  fun k hs => h1 k (h2 k hs)

/-- The operations of the lot contract bring no transport record into the
state Loading. -/
theorem lote_no_new_loading (ctx : Ctx) (w : World) (key a b c d e f g h i : String)
    (components : List String) :
    NoNewLoading w (CreateLote ctx w key a b c d e f g h components i) ∧
    NoNewLoading w (LoteDestroyed ctx w key) ∧
    NoNewLoading w (FractionateLote ctx w key a b c d) ∧
    NoNewLoading w (StoreLote ctx w key a b c d e) ∧
    NoNewLoading w (TransportLote ctx w key a b c d e) ∧
    NoNewLoading w (TransferLote ctx w key a b c d e f g h) ∧
    NoNewLoading w (TransshipmentLote ctx w key a b c d e) ∧
    NoNewLoading w (ReturnLote ctx w key a b c d e f) ∧
    NoNewLoading w (PutLoteOnReparation ctx w key a b c d e f) ∧
    NoNewLoading w (RepairLote ctx w key a b c d e) ∧
    NoNewLoading w (PutLoteOnUsing ctx w key a b c d e) ∧
    NoNewLoading w (SellLote ctx w key a b) ∧
    NoNewLoading w (LoteInspection ctx w key a b c) ∧
    NoNewLoading w (UpdatePrice ctx w key a b) ∧
    NoNewLoading w (UpdateAdvisor ctx w key a) ∧
    NoNewLoading w (UpdateEnvironment ctx w key a b c) := by
  have hd : ∀ w0 : World, NoNewLoading w0 (LoteDestroyed ctx w0 key) := by
    intro w0
    simp only [LoteDestroyed, GetState, GetSubmittingClientIdentity]
    repeat' split
    all_goals first
      | exact NoNewLoading_refl _ _
      | exact NoNewLoading_del _ _ none _ _
          (NoNewLoading_put _ _ none _ _ _ (NoNewLoading_refl _ _) (by intro t ht; cases ht))
  have hw := lote_transition_write ctx w key a b c d e f g h
  refine ⟨?_, hd w, ?_, NoNewLoading_of_LoteWrite _ _ _ hw.1,
    NoNewLoading_of_LoteWrite _ _ _ hw.2.1, NoNewLoading_of_LoteWrite _ _ _ hw.2.2.1,
    NoNewLoading_of_LoteWrite _ _ _ hw.2.2.2.1, NoNewLoading_of_LoteWrite _ _ _ hw.2.2.2.2.1,
    NoNewLoading_of_LoteWrite _ _ _ hw.2.2.2.2.2.1,
    NoNewLoading_of_LoteWrite _ _ _ hw.2.2.2.2.2.2.1,
    NoNewLoading_of_LoteWrite _ _ _ hw.2.2.2.2.2.2.2.1,
    NoNewLoading_of_LoteWrite _ _ _ hw.2.2.2.2.2.2.2.2.1,
    NoNewLoading_of_LoteWrite _ _ _ hw.2.2.2.2.2.2.2.2.2.1,
    NoNewLoading_of_LoteWrite _ _ _ hw.2.2.2.2.2.2.2.2.2.2.1,
    NoNewLoading_of_LoteWrite _ _ _ hw.2.2.2.2.2.2.2.2.2.2.2.1,
    NoNewLoading_of_LoteWrite _ _ _ hw.2.2.2.2.2.2.2.2.2.2.2.2⟩
  · simp only [CreateLote, ValidRole, GetState, GetSubmittingClientIdentity,
      GetSubmittingClientOrg, VerifyClientOrgMatchesPeerOrg]
    repeat' split
    all_goals first
      | exact NoNewLoading_refl _ _
      | exact NoNewLoading_put _ _ none _ _ _ (NoNewLoading_refl _ _)
          (by intro t ht; cases ht)
      | exact NoNewLoading_put _ _ none _ _ _
          (NoNewLoading_put _ _ none _ _ _ (NoNewLoading_refl _ _) (by intro t ht; cases ht))
          (by intro t ht; cases ht)
  · simp only [FractionateLote, GetState, GetSubmittingClientIdentity]
    repeat' split
    all_goals first
      | exact NoNewLoading_refl _ _
      | exact NoNewLoading_put _ _ none _ _ _ (NoNewLoading_refl _ _)
          (by intro t ht; cases ht)
      | exact NoNewLoading_put _ _ none _ _ _
          (NoNewLoading_put _ _ none _ _ _ (NoNewLoading_refl _ _) (by intro t ht; cases ht))
          (by intro t ht; cases ht)
      | exact NoNewLoading_put _ _ none _ _ _
          (NoNewLoading_put _ _ none _ _ _
            (NoNewLoading_put _ _ none _ _ _ (NoNewLoading_refl _ _)
              (by intro t ht; cases ht))
            (by intro t ht; cases ht))
          (by intro t ht; cases ht)
      | (refine NoNewLoading_trans _ _ none _ ?_ (hd _)
         exact NoNewLoading_put _ _ none _ _ _
          (NoNewLoading_put _ _ none _ _ _
            (NoNewLoading_put _ _ none _ _ _
              (NoNewLoading_put _ _ none _ _ _ (NoNewLoading_refl _ _)
                (by intro t ht; cases ht))
              (by intro t ht; cases ht))
            (by intro t ht; cases ht))
          (by intro t ht; cases ht))

open LoteSmartContract ProductSmartContract ManufactureSmartContract WarehouseSmartContract

/-- A step from a ledger reached without bringing a transport into Loading,
with the outcome named by an equation. -/
theorem NoNewLoading_step (w w0 w1 : World) (e e0 e1 : Option String)
    (res : Option String × World) (h0 : NoNewLoading w (e0, w0)) (h : NoNewLoading w0 res)
    (heq : res = (e1, w1)) : NoNewLoading w (e, w1) := by
  subst heq
  exact fun k hs => h0 k (h k hs)

/-- The operations of the product contract bring no transport record into the
state Loading. -/
theorem product_no_new_loading (ctx : Ctx) (w : World) (key : String)
    (p1 p2 p3 p4 p5 p6 p7 p8 p9 p10 p11 p12 p13 p14 p15 p16 p17 p18 p19 p20 p21 p22 p23 :
      String) (components : List String) :
    NoNewLoading w (CreateProduct ctx w key p1 p2 p3 p4 p5 p6 p7 p8 p9 p10 p11 p12 p13 p14 p15
      p16 p17 p18 p19 p20 p21 p22 p23 components) ∧
    NoNewLoading w (Certify ctx w key p1 p2 p3) ∧
    NoNewLoading w (ProductOnProduction ctx w key) ∧
    NoNewLoading w (ProductDiscontinued ctx w key) ∧
    NoNewLoading w (ProductContinued ctx w key) ∧
    NoNewLoading w (ProductDestroyed ctx w key) := by
  refine ⟨?_, ?_, ?_, ?_, ?_, ?_⟩
  all_goals
    simp only [CreateProduct, Certify, ProductOnProduction, ProductDiscontinued,
      ProductContinued, ProductDestroyed, ValidRole, GetState, GetSubmittingClientIdentity]
    repeat' split
    all_goals
      repeat (first
        | exact NoNewLoading_refl _ _
        | refine NoNewLoading_put _ _ none _ _ _ ?_ (by intro t ht; cases ht)
        | refine NoNewLoading_del _ _ none _ _ ?_)

/-- The loop that destroys the components brings no transport record into the
state Loading. -/
theorem destroyComponents_no_new_loading (ctx : Ctx) :
    ∀ (ids : List String) (w : World) (toUse : List String) (e e1 : Option String)
      (w1 : World) (tu : List String),
      destroyComponents ctx ids w toUse = (e1, w1, tu) → NoNewLoading w (e, w1) := by
  intro ids
  induction ids with
  | nil =>
    intro w toUse e e1 w1 tu heq
    simp only [destroyComponents, Prod.mk.injEq] at heq
    rw [← heq.2.1]
    exact NoNewLoading_refl _ _
  | cons id rest ih =>
    intro w toUse e e1 w1 tu heq
    simp only [destroyComponents] at heq
    split at heq
    · exact ih _ _ _ _ _ _ heq
    · split at heq
      · simp only [Prod.mk.injEq] at heq
        rw [← heq.2.1]
        exact NoNewLoading_step _ _ _ _ none _ _ (NoNewLoading_refl _ _)
          (lote_no_new_loading ctx _ _ "" "" "" "" "" "" "" "" "" []).2.1 ‹_›
      · exact NoNewLoading_trans _ _ none _
          (NoNewLoading_step _ _ _ _ none _ _ (NoNewLoading_refl _ _)
            (lote_no_new_loading ctx _ _ "" "" "" "" "" "" "" "" "" []).2.1 ‹_›)
          (ih _ _ _ _ _ _ heq)

/-- The loop that fractionates the components brings no transport record into
the state Loading. -/
theorem fractionateComponents_no_new_loading (ctx : Ctx) (names : List String) :
    ∀ (cs : List String) (i : Nat) (w : World) (toUse : List String) (e e1 : Option String)
      (w1 : World) (tu : List String),
      fractionateComponents ctx names cs i w toUse = (e1, w1, tu) →
        NoNewLoading w (e, w1) := by
  intro cs
  induction cs with
  | nil =>
    intro i w toUse e e1 w1 tu heq
    simp only [fractionateComponents, Prod.mk.injEq] at heq
    rw [← heq.2.1]
    exact NoNewLoading_refl _ _
  | cons c rest ih =>
    intro i w toUse e e1 w1 tu heq
    simp only [fractionateComponents] at heq
    repeat' split at heq
    all_goals first
      | exact ih _ _ _ _ _ _ _ heq
      | (simp only [Prod.mk.injEq] at heq
         rw [← heq.2.1]
         first
          | exact NoNewLoading_refl _ _
          | exact NoNewLoading_step _ _ _ _ none _ _ (NoNewLoading_refl _ _)
              (lote_no_new_loading ctx _ _ _ _ _ _ "" "" "" "" "" []).2.2.1 ‹_›)
      | exact NoNewLoading_trans _ _ none _
          (NoNewLoading_step _ _ _ _ none _ _ (NoNewLoading_refl _ _)
            (lote_no_new_loading ctx _ _ _ _ _ _ "" "" "" "" "" []).2.2.1 ‹_›)
          (ih _ _ _ _ _ _ _ heq)

open LoteSmartContract ProductSmartContract ManufactureSmartContract WarehouseSmartContract

/-- The operations of the warehouse contract bring no transport record into
the state Loading. -/
theorem warehouse_no_new_loading (ctx : Ctx) (w : World) (key loteKey : String)
    (a b c d e f g : String) :
    NoNewLoading w (CreateWarehouse ctx w key a b c d e f g) ∧
    NoNewLoading w (WarehouseInspection ctx w key a b c) ∧
    NoNewLoading w (WarehouseLoteInspection ctx w key loteKey a b c) ∧
    NoNewLoading w (WarehouseStoreLote ctx w key loteKey a) ∧
    NoNewLoading w (WarehouseRecieveSelledReturnLote ctx w key loteKey a b c d e f g) ∧
    NoNewLoading w (WarehouseSellLote ctx w key loteKey a b c) ∧
    NoNewLoading w (WarehouseTransportLote ctx w key loteKey a b c d e f) ∧
    NoNewLoading w (WarehouseReturnLote ctx w key loteKey a b c d e f g) ∧
    NoNewLoading w (WarehouseDestroyLote ctx w key loteKey a) ∧
    NoNewLoading w (WarehouseUpdateAdvisor ctx w key a) ∧
    NoNewLoading w (WarehouseAvailable ctx w key) ∧
    NoNewLoading w (WarehouseNonAvailable ctx w key) ∧
    NoNewLoading w (WarehouseDestroyed ctx w key) := by
  refine ⟨?_, ?_, ?_, ?_, ?_, ?_, ?_, ?_, ?_, ?_, ?_, ?_, ?_⟩
  all_goals
    simp only [CreateWarehouse, WarehouseInspection, WarehouseLoteInspection,
      WarehouseStoreLote, WarehouseRecieveSelledReturnLote, WarehouseSellLote,
      WarehouseTransportLote, WarehouseReturnLote, WarehouseDestroyLote,
      WarehouseUpdateAdvisor, WarehouseAvailable, WarehouseNonAvailable, WarehouseDestroyed,
      ValidRole, GetData, GetState, GetSubmittingClientIdentity]
    repeat' split
    all_goals
      repeat (first
        | exact NoNewLoading_refl _ _
        | refine NoNewLoading_put _ _ none _ _ _ ?_ (by intro t ht; cases ht)
        | refine NoNewLoading_del _ _ none _ _ ?_
        | refine NoNewLoading_step _ _ _ _ none _ _ ?_
            (lote_no_new_loading ctx _ _ _ _ _ _ _ _ _ _ _ _).1 ‹_›
        | refine NoNewLoading_step _ _ _ _ none _ _ ?_
            (lote_no_new_loading ctx _ _ "" "" "" "" "" "" "" "" "" []).2.1 ‹_›
        | refine NoNewLoading_step _ _ _ _ none _ _ ?_
            (lote_no_new_loading ctx _ _ _ _ _ _ "" "" "" "" "" []).2.2.1 ‹_›
        | refine NoNewLoading_step _ _ _ _ none _ _ ?_
            (lote_no_new_loading ctx _ _ _ _ _ _ _ "" "" "" "" []).2.2.2.1 ‹_›
        | refine NoNewLoading_step _ _ _ _ none _ _ ?_
            (lote_no_new_loading ctx _ _ _ _ _ _ _ "" "" "" "" []).2.2.2.2.1 ‹_›
        | refine NoNewLoading_step _ _ _ _ none _ _ ?_
            (lote_no_new_loading ctx _ _ _ _ _ _ _ _ _ _ "" []).2.2.2.2.2.1 ‹_›
        | refine NoNewLoading_step _ _ _ _ none _ _ ?_
            (lote_no_new_loading ctx _ _ _ _ _ _ _ "" "" "" "" []).2.2.2.2.2.2.1 ‹_›
        | refine NoNewLoading_step _ _ _ _ none _ _ ?_
            (lote_no_new_loading ctx _ _ _ _ _ _ _ _ "" "" "" []).2.2.2.2.2.2.2.1 ‹_›
        | refine NoNewLoading_step _ _ _ _ none _ _ ?_
            (lote_no_new_loading ctx _ _ _ _ _ _ _ _ "" "" "" []).2.2.2.2.2.2.2.2.1 ‹_›
        | refine NoNewLoading_step _ _ _ _ none _ _ ?_
            (lote_no_new_loading ctx _ _ _ _ _ _ _ "" "" "" "" []).2.2.2.2.2.2.2.2.2.1 ‹_›
        | refine NoNewLoading_step _ _ _ _ none _ _ ?_
            (lote_no_new_loading ctx _ _ _ _ _ _ _ "" "" "" "" []).2.2.2.2.2.2.2.2.2.2.1 ‹_›
        | refine NoNewLoading_step _ _ _ _ none _ _ ?_
            (lote_no_new_loading ctx _ _ _ _ "" "" "" "" "" "" "" []).2.2.2.2.2.2.2.2.2.2.2.1 ‹_›
        | refine NoNewLoading_step _ _ _ _ none _ _ ?_
            (lote_no_new_loading ctx _ _ _ _ _ "" "" "" "" "" "" []).2.2.2.2.2.2.2.2.2.2.2.2.1 ‹_›
        | refine NoNewLoading_step _ _ _ _ none _ _ ?_
            (lote_no_new_loading ctx _ _ _ _ "" "" "" "" "" "" "" []).2.2.2.2.2.2.2.2.2.2.2.2.2.1 ‹_›
        | refine NoNewLoading_step _ _ _ _ none _ _ ?_
            (lote_no_new_loading ctx _ _ _ "" "" "" "" "" "" "" "" []).2.2.2.2.2.2.2.2.2.2.2.2.2.2.1 ‹_›
        | refine NoNewLoading_step _ _ _ _ none _ _ ?_
            (lote_no_new_loading ctx _ _ _ _ _ "" "" "" "" "" "" []).2.2.2.2.2.2.2.2.2.2.2.2.2.2.2 ‹_›)

open LoteSmartContract ProductSmartContract ManufactureSmartContract WarehouseSmartContract

/-- The operations of the site contract on the site record and on products
bring no transport record into the state Loading. -/
theorem manufacture_no_new_loading_1 (ctx : Ctx) (w : World) (key otherKey : String)
    (p1 p2 p3 p4 p5 p6 p7 p8 p9 p10 p11 p12 p13 p14 p15 p16 p17 p18 p19 p20 p21 p22 :
      String) (components : List String) :
    NoNewLoading w (CreateManufacture ctx w key p1 p2 p3 p4) ∧
    NoNewLoading w (ManufactureInspection ctx w key p1 p2 p3) ∧
    NoNewLoading w (ManufactureCreateProduct ctx w key otherKey p1 p2 p3 p4 p5 p6 p7 p8 p9 p10
      p11 p12 p13 p14 p15 p16 p17 p18 p19 p20 p21 p22 components) ∧
    NoNewLoading w (ManufactureCertifyProduct ctx w key otherKey p1 p2 p3) ∧
    NoNewLoading w (ManufactureStartProductionProduct ctx w key otherKey) ∧
    NoNewLoading w (ManufactureDiscontinuetionProduct ctx w key otherKey) ∧
    NoNewLoading w (ManufactureContinueProduct ctx w key otherKey) ∧
    NoNewLoading w (ManufactureDestroyProduct ctx w key otherKey) ∧
    NoNewLoading w (ManufactureUpdateAdvisor ctx w key p1) ∧
    NoNewLoading w (ManufactureBroken ctx w key) ∧
    NoNewLoading w (ManufactureReadyToProduce ctx w key) ∧
    NoNewLoading w (ManufactureDestroyed ctx w key) := by
  refine ⟨?_, ?_, ?_, ?_, ?_, ?_, ?_, ?_, ?_, ?_, ?_, ?_⟩
  all_goals
    simp only [CreateManufacture, ManufactureInspection, ManufactureCreateProduct,
      ManufactureCertifyProduct, ManufactureStartProductionProduct,
      ManufactureDiscontinuetionProduct, ManufactureContinueProduct,
      ManufactureDestroyProduct, ManufactureUpdateAdvisor,
      ManufactureBroken, ManufactureReadyToProduce, ManufactureDestroyed,
      ValidRole, GetData, GetState, GetSubmittingClientIdentity, GetSubmittingClientOrg,
      VerifyClientOrgMatchesPeerOrg]
    repeat' split
    all_goals
      repeat (first
        | exact NoNewLoading_refl _ _
        | refine NoNewLoading_put _ _ none _ _ _ ?_ (by intro t ht; cases ht)
        | refine NoNewLoading_del _ _ none _ _ ?_
        | exact (product_no_new_loading ctx w otherKey "" "" "" "" "" "" "" "" "" "" "" "" "" ""
            "" "" "" "" "" "" "" "" "" []).2.2.2.1
        | refine NoNewLoading_step _ _ _ _ none _ _ ?_
            (product_no_new_loading ctx _ _ _ _ _ _ _ _ _ _ _ _ _ _ _ _ _ _ _ _ _ _ _ _ _ _).1 ‹_›
        | refine NoNewLoading_step _ _ _ _ none _ _ ?_
            (product_no_new_loading ctx _ _ _ _ _ "" "" "" "" "" "" "" "" "" "" "" "" "" "" "" "" "" "" "" "" []).2.1 ‹_›
        | refine NoNewLoading_step _ _ _ _ none _ _ ?_
            (product_no_new_loading ctx _ _ "" "" "" "" "" "" "" "" "" "" "" "" "" "" "" "" "" "" "" "" "" "" "" []).2.2.1 ‹_›
        | refine NoNewLoading_step _ _ _ _ none _ _ ?_
            (product_no_new_loading ctx _ _ "" "" "" "" "" "" "" "" "" "" "" "" "" "" "" "" "" "" "" "" "" "" "" []).2.2.2.1 ‹_›
        | refine NoNewLoading_step _ _ _ _ none _ _ ?_
            (product_no_new_loading ctx _ _ "" "" "" "" "" "" "" "" "" "" "" "" "" "" "" "" "" "" "" "" "" "" "" []).2.2.2.2.1 ‹_›
        | refine NoNewLoading_step _ _ _ _ none _ _ ?_
            (product_no_new_loading ctx _ _ "" "" "" "" "" "" "" "" "" "" "" "" "" "" "" "" "" "" "" "" "" "" "" []).2.2.2.2.2 ‹_›)

/-- The operations of the site contract on lots bring no transport record
into the state Loading. -/
theorem manufacture_no_new_loading_2 (ctx : Ctx) (w : World) (key otherKey : String)
    (p1 p2 p3 p4 p5 p6 p7 : String) (components : List String) :
    NoNewLoading w (ManufactureCreateLote ctx w key otherKey p1 p2 p3 p4 p5 p6 p7 components) ∧
    NoNewLoading w (ManufactureFractionateLoteForUse ctx w key p1 p2) ∧
    NoNewLoading w (ManufacturePutLoteInUsing ctx w key otherKey) ∧
    NoNewLoading w (ManufacturePutLoteFromProductionToUsing ctx w key otherKey p1 p2 p3) ∧
    NoNewLoading w (ManufacturePutLoteInReparing ctx w key otherKey) ∧
    NoNewLoading w (ManufactureRepairLote ctx w key otherKey p1 p2 p3 p4 p5) ∧
    NoNewLoading w (ManufactureInspectionLote ctx w key otherKey p1 p2 p3) ∧
    NoNewLoading w (ManufactureDestroyLote ctx w key otherKey) ∧
    NoNewLoading w (ManufactureTransportLote ctx w key otherKey p1 p2 p3 p4 p5) := by
  refine ⟨?_, ?_, ?_, ?_, ?_, ?_, ?_, ?_, ?_⟩
  all_goals
    simp only [ManufactureCreateLote, ManufactureFractionateLoteForUse,
      ManufacturePutLoteInUsing, ManufacturePutLoteFromProductionToUsing,
      ManufacturePutLoteInReparing, ManufactureRepairLote, ManufactureInspectionLote,
      ManufactureDestroyLote, ManufactureTransportLote,
      ValidRole, GetData, GetState, GetSubmittingClientIdentity, GetSubmittingClientOrg,
      VerifyClientOrgMatchesPeerOrg]
    repeat' split
    all_goals
      repeat (first
        | exact NoNewLoading_refl _ _
        | refine NoNewLoading_put _ _ none _ _ _ ?_ (by intro t ht; cases ht)
        | refine NoNewLoading_del _ _ none _ _ ?_
        | exact destroyComponents_no_new_loading ctx _ _ _ _ _ _ _ ‹_›
        | exact fractionateComponents_no_new_loading ctx _ _ _ _ _ _ _ _ _ ‹_›
        | refine NoNewLoading_step _ _ _ _ none _ _ ?_
            (lote_no_new_loading ctx _ _ _ _ _ _ _ _ _ _ _ _).1 ‹_›
        | refine NoNewLoading_step _ _ _ _ none _ _ ?_
            (lote_no_new_loading ctx _ _ "" "" "" "" "" "" "" "" "" []).2.1 ‹_›
        | refine NoNewLoading_step _ _ _ _ none _ _ ?_
            (lote_no_new_loading ctx _ _ _ _ _ _ "" "" "" "" "" []).2.2.1 ‹_›
        | refine NoNewLoading_step _ _ _ _ none _ _ ?_
            (lote_no_new_loading ctx _ _ _ _ _ _ _ "" "" "" "" []).2.2.2.1 ‹_›
        | refine NoNewLoading_step _ _ _ _ none _ _ ?_
            (lote_no_new_loading ctx _ _ _ _ _ _ _ "" "" "" "" []).2.2.2.2.1 ‹_›
        | refine NoNewLoading_step _ _ _ _ none _ _ ?_
            (lote_no_new_loading ctx _ _ _ _ _ _ _ _ _ _ "" []).2.2.2.2.2.1 ‹_›
        | refine NoNewLoading_step _ _ _ _ none _ _ ?_
            (lote_no_new_loading ctx _ _ _ _ _ _ _ "" "" "" "" []).2.2.2.2.2.2.1 ‹_›
        | refine NoNewLoading_step _ _ _ _ none _ _ ?_
            (lote_no_new_loading ctx _ _ _ _ _ _ _ _ "" "" "" []).2.2.2.2.2.2.2.1 ‹_›
        | refine NoNewLoading_step _ _ _ _ none _ _ ?_
            (lote_no_new_loading ctx _ _ _ _ _ _ _ _ "" "" "" []).2.2.2.2.2.2.2.2.1 ‹_›
        | refine NoNewLoading_step _ _ _ _ none _ _ ?_
            (lote_no_new_loading ctx _ _ _ _ _ _ _ "" "" "" "" []).2.2.2.2.2.2.2.2.2.1 ‹_›
        | refine NoNewLoading_step _ _ _ _ none _ _ ?_
            (lote_no_new_loading ctx _ _ _ _ _ _ _ "" "" "" "" []).2.2.2.2.2.2.2.2.2.2.1 ‹_›
        | refine NoNewLoading_step _ _ _ _ none _ _ ?_
            (lote_no_new_loading ctx _ _ _ _ "" "" "" "" "" "" "" []).2.2.2.2.2.2.2.2.2.2.2.1 ‹_›
        | refine NoNewLoading_step _ _ _ _ none _ _ ?_
            (lote_no_new_loading ctx _ _ _ _ _ "" "" "" "" "" "" []).2.2.2.2.2.2.2.2.2.2.2.2.1 ‹_›
        | refine NoNewLoading_step _ _ _ _ none _ _ ?_
            (lote_no_new_loading ctx _ _ _ _ "" "" "" "" "" "" "" []).2.2.2.2.2.2.2.2.2.2.2.2.2.1 ‹_›
        | refine NoNewLoading_step _ _ _ _ none _ _ ?_
            (lote_no_new_loading ctx _ _ _ "" "" "" "" "" "" "" "" []).2.2.2.2.2.2.2.2.2.2.2.2.2.2.1 ‹_›
        | refine NoNewLoading_step _ _ _ _ none _ _ ?_
            (lote_no_new_loading ctx _ _ _ _ _ "" "" "" "" "" "" []).2.2.2.2.2.2.2.2.2.2.2.2.2.2.2 ‹_›)

open LoteSmartContract ProductSmartContract ManufactureSmartContract TransportSmartContract
  WarehouseSmartContract

/-- C11 (loading a transport): on a ledger where `key` holds the transport
`t`, `LoadLoteInTransport` succeeds exactly when the caller is the advisor of
`t`, `t` is Available, `lotes` is not empty and every id of `lotes` split at
the commas resolves to a record advised by the caller, and it fails when `key`
holds nothing; a success stores under `key` the transport `t` with the ids
appended in order to the shipment, the state Loading and the given used
capacity, and changes no other key, so every lot record is as it was; a
failure writes nothing; on every ledger and with any arguments, no other
operation of the transport contract and no operation of the lot, product, site
and warehouse contracts brings a transport record into the state Loading. -/
theorem C11_load_lote_in_transport (ctx : Ctx) (w : World) (key capacityUsed lotes : String)
    (t : Transport)
    (hk : w (Key.simple key) = some (Record.transport t)) :
    ((LoadLoteInTransport ctx w key capacityUsed lotes).1 = none ↔
      ctx.clientID = some t.AdvisorID ∧ t.TransportState = AvailableTransport ∧ lotes ≠ "" ∧
      ∀ id ∈ Split lotes ',', GetLoteAdvisor w id = .ok t.AdvisorID) ∧
    (∀ w0 : World, w0 (Key.simple key) = none →
      (LoadLoteInTransport ctx w0 key capacityUsed lotes).1 ≠ none) ∧
    ((LoadLoteInTransport ctx w key capacityUsed lotes).1 = none →
      (LoadLoteInTransport ctx w key capacityUsed lotes).2 =
        PutState w (Key.simple key) (Record.transport
          { t with
            Capacity := ⟨t.Capacity.Units, t.Capacity.UnitMeasurement, capacityUsed⟩
            Shipment := t.Shipment ++ Split lotes ','
            TransportState := LoadingTrasport }) ∧
      ∀ id l, w (Key.simple id) = some (Record.lote l) →
        (LoadLoteInTransport ctx w key capacityUsed lotes).2 (Key.simple id) =
          some (Record.lote l)) ∧
    ((LoadLoteInTransport ctx w key capacityUsed lotes).1 ≠ none →
      (LoadLoteInTransport ctx w key capacityUsed lotes).2 = w) ∧
    (∀ (ctx0 : Ctx) (w0 : World) (k0 k1 : String)
        (p1 p2 p3 p4 p5 p6 p7 p8 p9 p10 p11 p12 p13 p14 p15 p16 p17 p18 p19 p20 p21 p22 p23 :
          String) (components : List String),
      (NoNewLoading w0 (CreateTransport ctx0 w0 k0 p1 p2 p3 p4 p5 p6 p7 p8) ∧
       NoNewLoading w0 (TransportInspection ctx0 w0 k0 p1 p2 p3) ∧
       NoNewLoading w0 (UpdateTransportAdvisor ctx0 w0 k0 p1) ∧
       NoNewLoading w0 (StartTransportDelivery ctx0 w0 k0 p1 p2 p3 p4 p5) ∧
       NoNewLoading w0 (TransportIsNonAvailable ctx0 w0 k0) ∧
       NoNewLoading w0 (TransportIsAvailable ctx0 w0 k0) ∧
       NoNewLoading w0 (TransportUpdateLocation ctx0 w0 k0 p1 p2 p3 p4) ∧
       NoNewLoading w0 (TransportDestroyed ctx0 w0 k0) ∧
       NoNewLoading w0 (TransportDeliverStoreLote ctx0 w0 k0 k1 p1 p2 p3 p4 p5 p6) ∧
       NoNewLoading w0 (TransportDeliverRepairingLote ctx0 w0 k0 k1 p1 p2 p3 p4 p5 p6 p7) ∧
       NoNewLoading w0 (TransportDeliverUsingLote ctx0 w0 k0 k1 p1 p2 p3 p4 p5 p6) ∧
       NoNewLoading w0 (TransportDeliverTransferLote ctx0 w0 k0 k1 p1 p2 p3 p4 p5 p6 p7 p8 p9) ∧
       NoNewLoading w0 (TransportDeliverTransshipmentLote ctx0 w0 k0 k1 p1 p2 p3 p4 p5 p6) ∧
       NoNewLoading w0 (TransportInspectionLote ctx0 w0 k0 k1 p1 p2 p3)) ∧
      (NoNewLoading w0 (CreateLote ctx0 w0 k0 p1 p2 p3 p4 p5 p6 p7 p8 components p9) ∧
       NoNewLoading w0 (LoteDestroyed ctx0 w0 k0) ∧
       NoNewLoading w0 (FractionateLote ctx0 w0 k0 p1 p2 p3 p4) ∧
       NoNewLoading w0 (StoreLote ctx0 w0 k0 p1 p2 p3 p4 p5) ∧
       NoNewLoading w0 (TransportLote ctx0 w0 k0 p1 p2 p3 p4 p5) ∧
       NoNewLoading w0 (TransferLote ctx0 w0 k0 p1 p2 p3 p4 p5 p6 p7 p8) ∧
       NoNewLoading w0 (TransshipmentLote ctx0 w0 k0 p1 p2 p3 p4 p5) ∧
       NoNewLoading w0 (ReturnLote ctx0 w0 k0 p1 p2 p3 p4 p5 p6) ∧
       NoNewLoading w0 (PutLoteOnReparation ctx0 w0 k0 p1 p2 p3 p4 p5 p6) ∧
       NoNewLoading w0 (RepairLote ctx0 w0 k0 p1 p2 p3 p4 p5) ∧
       NoNewLoading w0 (PutLoteOnUsing ctx0 w0 k0 p1 p2 p3 p4 p5) ∧
       NoNewLoading w0 (SellLote ctx0 w0 k0 p1 p2) ∧
       NoNewLoading w0 (LoteInspection ctx0 w0 k0 p1 p2 p3) ∧
       NoNewLoading w0 (UpdatePrice ctx0 w0 k0 p1 p2) ∧
       NoNewLoading w0 (UpdateAdvisor ctx0 w0 k0 p1) ∧
       NoNewLoading w0 (UpdateEnvironment ctx0 w0 k0 p1 p2 p3)) ∧
      (NoNewLoading w0 (CreateProduct ctx0 w0 k0 p1 p2 p3 p4 p5 p6 p7 p8 p9 p10 p11 p12 p13 p14 p15 p16
        p17 p18 p19 p20 p21 p22 p23 components) ∧
       NoNewLoading w0 (Certify ctx0 w0 k0 p1 p2 p3) ∧
       NoNewLoading w0 (ProductOnProduction ctx0 w0 k0) ∧
       NoNewLoading w0 (ProductDiscontinued ctx0 w0 k0) ∧
       NoNewLoading w0 (ProductContinued ctx0 w0 k0) ∧
       NoNewLoading w0 (ProductDestroyed ctx0 w0 k0)) ∧
      (NoNewLoading w0 (CreateManufacture ctx0 w0 k0 p1 p2 p3 p4) ∧
       NoNewLoading w0 (ManufactureInspection ctx0 w0 k0 p1 p2 p3) ∧
       NoNewLoading w0 (ManufactureCreateProduct ctx0 w0 k0 k1 p1 p2 p3 p4 p5 p6 p7 p8 p9 p10 p11
        p12 p13 p14 p15 p16 p17 p18 p19 p20 p21 p22 components) ∧
       NoNewLoading w0 (ManufactureCertifyProduct ctx0 w0 k0 k1 p1 p2 p3) ∧
       NoNewLoading w0 (ManufactureStartProductionProduct ctx0 w0 k0 k1) ∧
       NoNewLoading w0 (ManufactureDiscontinuetionProduct ctx0 w0 k0 k1) ∧
       NoNewLoading w0 (ManufactureContinueProduct ctx0 w0 k0 k1) ∧
       NoNewLoading w0 (ManufactureDestroyProduct ctx0 w0 k0 k1) ∧
       NoNewLoading w0 (ManufactureUpdateAdvisor ctx0 w0 k0 p1) ∧
       NoNewLoading w0 (ManufactureBroken ctx0 w0 k0) ∧
       NoNewLoading w0 (ManufactureReadyToProduce ctx0 w0 k0) ∧
       NoNewLoading w0 (ManufactureDestroyed ctx0 w0 k0)) ∧
      (NoNewLoading w0 (ManufactureCreateLote ctx0 w0 k0 k1 p1 p2 p3 p4 p5 p6 p7 components) ∧
       NoNewLoading w0 (ManufactureFractionateLoteForUse ctx0 w0 k0 p1 p2) ∧
       NoNewLoading w0 (ManufacturePutLoteInUsing ctx0 w0 k0 k1) ∧
       NoNewLoading w0 (ManufacturePutLoteFromProductionToUsing ctx0 w0 k0 k1 p1 p2 p3) ∧
       NoNewLoading w0 (ManufacturePutLoteInReparing ctx0 w0 k0 k1) ∧
       NoNewLoading w0 (ManufactureRepairLote ctx0 w0 k0 k1 p1 p2 p3 p4 p5) ∧
       NoNewLoading w0 (ManufactureInspectionLote ctx0 w0 k0 k1 p1 p2 p3) ∧
       NoNewLoading w0 (ManufactureDestroyLote ctx0 w0 k0 k1) ∧
       NoNewLoading w0 (ManufactureTransportLote ctx0 w0 k0 k1 p1 p2 p3 p4 p5)) ∧
      (NoNewLoading w0 (CreateWarehouse ctx0 w0 k0 p1 p2 p3 p4 p5 p6 p7) ∧
       NoNewLoading w0 (WarehouseInspection ctx0 w0 k0 p1 p2 p3) ∧
       NoNewLoading w0 (WarehouseLoteInspection ctx0 w0 k0 k1 p1 p2 p3) ∧
       NoNewLoading w0 (WarehouseStoreLote ctx0 w0 k0 k1 p1) ∧
       NoNewLoading w0 (WarehouseRecieveSelledReturnLote ctx0 w0 k0 k1 p1 p2 p3 p4 p5 p6 p7) ∧
       NoNewLoading w0 (WarehouseSellLote ctx0 w0 k0 k1 p1 p2 p3) ∧
       NoNewLoading w0 (WarehouseTransportLote ctx0 w0 k0 k1 p1 p2 p3 p4 p5 p6) ∧
       NoNewLoading w0 (WarehouseReturnLote ctx0 w0 k0 k1 p1 p2 p3 p4 p5 p6 p7) ∧
       NoNewLoading w0 (WarehouseDestroyLote ctx0 w0 k0 k1 p1) ∧
       NoNewLoading w0 (WarehouseUpdateAdvisor ctx0 w0 k0 p1) ∧
       NoNewLoading w0 (WarehouseAvailable ctx0 w0 k0) ∧
       NoNewLoading w0 (WarehouseNonAvailable ctx0 w0 k0) ∧
       NoNewLoading w0 (WarehouseDestroyed ctx0 w0 k0))) := by
  refine ⟨?_, ?_, ?_, ?_, ?_⟩
  · simp only [LoadLoteInTransport, GetData, GetState, hk, UnmarshalTransport,
      GetSubmittingClientIdentity, AvailableTransport]
    cases hid : ctx.clientID with
    | none => simp
    | some x =>
      simp only []
      by_cases hx : x = t.AdvisorID
      · subst hx
        by_cases hs : t.TransportState = 0
        · by_cases hl : lotes = ""
          · simp [hs, hl]
          · cases hv : verifyLoteAdvisors w t.AdvisorID (Split lotes ',') with
            | none =>
              have := (verifyLoteAdvisors_none w t.AdvisorID _).1 hv
              simp [hs, hl]
              exact this
            | some err =>
              have hn : ¬ ∀ id ∈ Split lotes ',', GetLoteAdvisor w id = .ok t.AdvisorID := by
                intro hall
                rw [(verifyLoteAdvisors_none w t.AdvisorID _).2 hall] at hv
                cases hv
              simp [hs, hl, hn]
        · simp [hs]
      · simp [hx]
  · intro w0 h0
    simp [LoadLoteInTransport, GetData, GetState, h0]
  · intro hok
    have hw : (LoadLoteInTransport ctx w key capacityUsed lotes).2 =
        PutState w (Key.simple key) (Record.transport
          { t with
            Capacity := ⟨t.Capacity.Units, t.Capacity.UnitMeasurement, capacityUsed⟩
            Shipment := t.Shipment ++ Split lotes ','
            TransportState := LoadingTrasport }) := by
      revert hok
      simp only [LoadLoteInTransport, GetData, GetState, hk, UnmarshalTransport,
        GetSubmittingClientIdentity]
      repeat' split
      all_goals first
        | (intro h; simp at h; done)
        | (intro _; rfl)
    refine ⟨hw, ?_⟩
    intro id l hl
    rw [hw]
    have hne : id ≠ key := by
      intro e
      rw [e, hk] at hl
      cases hl
    simp [PutState, hne, hl]
  · simp only [LoadLoteInTransport, GetData, GetState, hk, UnmarshalTransport,
      GetSubmittingClientIdentity]
    repeat' split
    all_goals first
      | (intro _; rfl)
      | (intro h; simp at h)
  · intro ctx0 w0 k0 k1 p1 p2 p3 p4 p5 p6 p7 p8 p9 p10 p11 p12 p13 p14 p15 p16 p17 p18 p19 p20
      p21 p22 p23 components
    have o1 := transport_no_new_loading_1 ctx0 w0 k0 p1 p2 p3 p4 p5 p6 p7 p8
    have o2 := transport_no_new_loading_2 ctx0 w0 k0 k1 p6 p1 p2 p3 p4 p5 p6 p7 p8
    have o2r := transport_no_new_loading_2 ctx0 w0 k0 k1 p7 p1 p2 p3 p4 p5 p6 p7 p8
    have o2t := transport_no_new_loading_2 ctx0 w0 k0 k1 p9 p1 p2 p3 p4 p5 p6 p7 p8
    exact ⟨⟨o1.1, o1.2.1, o1.2.2.1, o1.2.2.2.1, o1.2.2.2.2.1, o1.2.2.2.2.2.1,
        o1.2.2.2.2.2.2.1, o1.2.2.2.2.2.2.2, o2.1, o2r.2.1, o2.2.2.1, o2t.2.2.2.1,
        o2.2.2.2.2.1, o2.2.2.2.2.2⟩,
      lote_no_new_loading ctx0 w0 k0 p1 p2 p3 p4 p5 p6 p7 p8 p9 components,
      product_no_new_loading ctx0 w0 k0 p1 p2 p3 p4 p5 p6 p7 p8 p9 p10 p11 p12 p13 p14 p15 p16
        p17 p18 p19 p20 p21 p22 p23 components,
      manufacture_no_new_loading_1 ctx0 w0 k0 k1 p1 p2 p3 p4 p5 p6 p7 p8 p9 p10 p11 p12 p13 p14
        p15 p16 p17 p18 p19 p20 p21 p22 components,
      manufacture_no_new_loading_2 ctx0 w0 k0 k1 p1 p2 p3 p4 p5 p6 p7 components,
      warehouse_no_new_loading ctx0 w0 k0 k1 p1 p2 p3 p4 p5 p6 p7⟩

/-- Witness for C11: the available transport `T1`, advised by `adv`, loads the
lot `L1` of the same advisor. -/
theorem C11_load_lote_in_transport_witness :
    sampleWorldT (sampleTransport AvailableTransport []) (sampleLote StoredLote 0)
        (Key.simple "T1") =
      some (Record.transport (sampleTransport AvailableTransport [])) ∧
    (LoadLoteInTransport sampleCtx
        (sampleWorldT (sampleTransport AvailableTransport []) (sampleLote StoredLote 0))
        "T1" "10" "L1").1 = none ∧
    transportStateAt
      (LoadLoteInTransport sampleCtx
        (sampleWorldT (sampleTransport AvailableTransport []) (sampleLote StoredLote 0))
        "T1" "10" "L1").2 "T1" = some LoadingTrasport ∧
    ((LoadLoteInTransport sampleCtx
        (sampleWorldT (sampleTransport AvailableTransport []) (sampleLote StoredLote 0))
        "T1" "10" "L1").1 = none ↔
      sampleCtx.clientID = some (sampleTransport AvailableTransport []).AdvisorID ∧
      (sampleTransport AvailableTransport []).TransportState = AvailableTransport ∧
      "L1" ≠ "" ∧
      ∀ id ∈ Split "L1" ',',
        GetLoteAdvisor
          (sampleWorldT (sampleTransport AvailableTransport []) (sampleLote StoredLote 0)) id =
          .ok (sampleTransport AvailableTransport []).AdvisorID) :=
  ⟨by decide, by decide, by decide,
    (C11_load_lote_in_transport sampleCtx
      (sampleWorldT (sampleTransport AvailableTransport []) (sampleLote StoredLote 0))
      "T1" "10" "L1" (sampleTransport AvailableTransport [])
      (by decide)).1⟩


open LoteSmartContract

/-- C21 (lot certifications are append-only under inspection): on a ledger
where `key` holds the lot `l`, `LoteInspection` succeeds exactly when the
caller is the advisor of `l` and the state of `l` is neither Selled nor
Destroyed, and it fails on a ledger where `key` holds nothing; a success
stores under `key` the lot `l` with the certification made of the three
arguments appended to its certifications, every other field and every other
key being as before; in state Selled or Destroyed, as after every failure,
the call returns an error and the ledger is unchanged. -/
theorem C21_lote_inspection_appends (ctx : Ctx) (w : World) (key issuer certificationtype
    result : String) (l : Lote)
    (hk : w (Key.simple key) = some (Record.lote l)) :
    ((LoteInspection ctx w key issuer certificationtype result).1 = none ↔
      ctx.clientID = some l.Advisor ∧ l.LoteState ≠ SelledLote ∧
        l.LoteState ≠ DestroyedLote) ∧
    (∀ w0 : World, w0 (Key.simple key) = none →
      Refused w0 (LoteInspection ctx w0 key issuer certificationtype result)) ∧
    ((LoteInspection ctx w key issuer certificationtype result).1 = none →
      (LoteInspection ctx w key issuer certificationtype result).2 =
        PutState w (Key.simple key) (Record.lote
          { l with
            Certifications := l.Certifications ++ [⟨issuer, certificationtype, result⟩] })) ∧
    ((l.LoteState = SelledLote ∨ l.LoteState = DestroyedLote) →
      Refused w (LoteInspection ctx w key issuer certificationtype result)) ∧
    ((LoteInspection ctx w key issuer certificationtype result).1 ≠ none →
      (LoteInspection ctx w key issuer certificationtype result).2 = w) := by
  refine ⟨?_, ?_, ?_, ?_, ?_⟩
  · simp only [LoteInspection, GetState, hk, UnmarshalLote, GetSubmittingClientIdentity,
      SelledLote, DestroyedLote]
    cases hid : ctx.clientID with
    | none => simp
    | some x =>
      simp only []
      by_cases hx : x = l.Advisor
      · by_cases h4 : l.LoteState = 4
        · simp [hx, h4]
        · by_cases h5 : l.LoteState = 5
          · simp [hx, h5]
          · simp [hx, h4, h5]
      · simp [hx]
  · intro w0 h0
    simp [Refused, LoteInspection, GetState, h0]
  · simp only [LoteInspection, GetState, hk, UnmarshalLote, GetSubmittingClientIdentity]
    repeat' split
    all_goals first
      | (intro h; simp at h; done)
      | (intro _; rfl)
  · intro hs
    simp only [Refused, LoteInspection, GetState, hk, UnmarshalLote,
      GetSubmittingClientIdentity]
    have hs2 : l.LoteState = 4 ∨ l.LoteState = 5 := hs
    repeat' split
    all_goals simp_all
  · simp only [LoteInspection, GetState, hk, UnmarshalLote, GetSubmittingClientIdentity]
    repeat' split
    all_goals first
      | (intro _; rfl)
      | (intro h; simp at h)

/-- Witness for C21: the advisor `adv` has the stored sample lot inspected. -/
theorem C21_lote_inspection_appends_witness :
    sampleWorld (sampleSite [] [] []) (sampleLote StoredLote 0) (Key.simple "L1") =
        some (Record.lote (sampleLote StoredLote 0)) ∧
      (LoteInspection sampleCtx (sampleWorld (sampleSite [] [] []) (sampleLote StoredLote 0))
        "L1" "iso" "quality" "ok").1 = none ∧
      (LoteInspection sampleCtx (sampleWorld (sampleSite [] [] []) (sampleLote StoredLote 0))
        "L1" "iso" "quality" "ok").2 =
        PutState (sampleWorld (sampleSite [] [] []) (sampleLote StoredLote 0))
          (Key.simple "L1") (Record.lote
          { sampleLote StoredLote 0 with
            Certifications :=
              (sampleLote StoredLote 0).Certifications ++ [⟨"iso", "quality", "ok"⟩] }) :=
  ⟨by decide, by decide,
    (C21_lote_inspection_appends sampleCtx
      (sampleWorld (sampleSite [] [] []) (sampleLote StoredLote 0)) "L1" "iso" "quality" "ok"
      (sampleLote StoredLote 0) (by decide)).2.2.1 (by decide)⟩

/-- C22 (transshipment changes custody only): on a ledger where `key` holds
the lot `l`, a successful `TransshipmentLote` stores under `key` the lot `l`
with the location, environment and advisor taken from the arguments, so that
state, product state, owner, price, units, certifications, components,
product, site and father are those of `l`, and every key other than `key`,
primary or composite, holds what it held. -/
theorem C22_transshipment_frame (ctx : Ctx) (w : World) (key currentLocationID newadvisor
    envTemp envTempMeasurement envHumidity : String) (l : Lote)
    (hk : w (Key.simple key) = some (Record.lote l))
    (hok : (TransshipmentLote ctx w key currentLocationID newadvisor envTemp
      envTempMeasurement envHumidity).1 = none) :
    ∃ l2 : Lote,
      (TransshipmentLote ctx w key currentLocationID newadvisor envTemp envTempMeasurement
        envHumidity).2 (Key.simple key) = some (Record.lote l2) ∧
      l2.CurrentLocationID = currentLocationID ∧
      l2.Environment = ⟨envTemp, envTempMeasurement, envHumidity⟩ ∧
      l2.Advisor = newadvisor ∧
      l2.LoteState = l.LoteState ∧ l2.LoteProductState = l.LoteProductState ∧
      l2.OwnerID = l.OwnerID ∧ l2.Price = l.Price ∧ l2.Units = l.Units ∧
      l2.Certifications = l.Certifications ∧ l2.Components = l.Components ∧
      l2.ProductID = l.ProductID ∧ l2.ManufactureID = l.ManufactureID ∧
      l2.FatherID = l.FatherID ∧ l2.LoteID = l.LoteID ∧ l2.DocType = l.DocType ∧
      ∀ k : Key, k ≠ Key.simple key →
        (TransshipmentLote ctx w key currentLocationID newadvisor envTemp envTempMeasurement
          envHumidity).2 k = w k := by
  revert hok
  simp only [TransshipmentLote, GetState, hk, UnmarshalLote, GetSubmittingClientIdentity]
  repeat' split
  all_goals first
    | (intro h; simp at h; done)
    | (intro _
       refine ⟨_, PutState_same _ _ _, rfl, rfl, rfl, rfl, rfl, rfl, rfl, rfl, rfl, rfl, rfl,
         rfl, rfl, rfl, rfl, ?_⟩
       intro k hkk
       exact PutState_other _ _ _ _ hkk)

/-- Witness for C22: the transporting sample lot is transshipped at `M1`. -/
theorem C22_transshipment_frame_witness :
    sampleWorld (sampleSite [] [] []) (sampleLote TransportingLote 0) (Key.simple "L1") =
        some (Record.lote (sampleLote TransportingLote 0)) ∧
      (TransshipmentLote sampleCtx
        (sampleWorld (sampleSite [] [] []) (sampleLote TransportingLote 0))
        "L1" "M1" "bob" "4" "C" "50").1 = none ∧
      ∃ l2 : Lote,
        (TransshipmentLote sampleCtx
          (sampleWorld (sampleSite [] [] []) (sampleLote TransportingLote 0))
          "L1" "M1" "bob" "4" "C" "50").2 (Key.simple "L1") = some (Record.lote l2) ∧
        l2.Advisor = "bob" ∧ l2.LoteState = TransportingLote ∧ l2.Units = "10" := by
  refine ⟨by decide, by decide, ?_⟩
  obtain ⟨l2, h1, _, _, h4, h5, _, _, _, h9, _⟩ :=
    C22_transshipment_frame sampleCtx
      (sampleWorld (sampleSite [] [] []) (sampleLote TransportingLote 0))
      "L1" "M1" "bob" "4" "C" "50" (sampleLote TransportingLote 0) (by decide) (by decide)
  exact ⟨l2, h1, h4, h5, h9⟩

open LoteSmartContract ProductSmartContract ManufactureSmartContract

/-- C23 (failing input): on the site `M1` the advisor `adv` calls
`ManufactureDiscontinuetionProduct` for the product `P1`, which is in state
Testing; the delegated `ProductDiscontinued` returns "Product is not on
production", and the site operation reports success with the product still in
state Testing. -/
theorem C23_discontinuation_drops_product_error :
    (ProductDiscontinued sampleCtx
        (PutState (sampleWorld (sampleSite [] [] []) (sampleLote StoredLote 0))
          (Key.simple "P1") (Record.product (sampleProductIn OnTestingProduct))) "P1").1 =
      some "Product is not on production" ∧
    (ManufactureDiscontinuetionProduct sampleCtx
        (PutState (sampleWorld (sampleSite [] [] []) (sampleLote StoredLote 0))
          (Key.simple "P1") (Record.product (sampleProductIn OnTestingProduct))) "M1" "P1").1 =
      none ∧
    productStateAt
        (ManufactureDiscontinuetionProduct sampleCtx
          (PutState (sampleWorld (sampleSite [] [] []) (sampleLote StoredLote 0))
            (Key.simple "P1") (Record.product (sampleProductIn OnTestingProduct)))
          "M1" "P1").2 "P1" = some OnTestingProduct := by
  refine ⟨by decide, by decide, by decide⟩

/-- The five other site operations that delegate to the product contract
return an error whenever the delegated product operation, run on the ledger
the site operation was given, returns one. -/
theorem manufacture_product_errors_propagated (ctx : Ctx) (w : World) (key productKey : String)
    (p1 p2 p3 p4 p5 p6 p7 p8 p9 p10 p11 p12 p13 p14 p15 p16 p17 p18 p19 p20 p21 p22 :
      String) (components : List String) :
    ((CreateProduct ctx w productKey p1 p2 p3 p4 p5 p6 p7 p8 p9 p10 p11 p12 p13 p14 p15 p16
        p17 p18 p19 p20 p21 p22 key components).1 ≠ none →
      (ManufactureCreateProduct ctx w key productKey p1 p2 p3 p4 p5 p6 p7 p8 p9 p10 p11 p12
        p13 p14 p15 p16 p17 p18 p19 p20 p21 p22 components).1 ≠ none) ∧
    ((Certify ctx w productKey p1 p2 p3).1 ≠ none →
      (ManufactureCertifyProduct ctx w key productKey p1 p2 p3).1 ≠ none) ∧
    ((ProductOnProduction ctx w productKey).1 ≠ none →
      (ManufactureStartProductionProduct ctx w key productKey).1 ≠ none) ∧
    ((ProductContinued ctx w productKey).1 ≠ none →
      (ManufactureContinueProduct ctx w key productKey).1 ≠ none) ∧
    ((ProductDestroyed ctx w productKey).1 ≠ none →
      (ManufactureDestroyProduct ctx w key productKey).1 ≠ none) := by
  refine ⟨?_, ?_, ?_, ?_, ?_⟩
  all_goals
    simp only [ManufactureCreateProduct, ManufactureCertifyProduct,
      ManufactureStartProductionProduct, ManufactureContinueProduct,
      ManufactureDestroyProduct, GetData, GetState, GetSubmittingClientIdentity]
    intro hfail
    repeat' split
    all_goals simp_all

open LoteSmartContract ManufactureSmartContract

/-- A successful `PutLoteOnUsing` on the lot `l` writes `l` in state Using with
the location, advisor and environment given. -/
theorem PutLoteOnUsing_success (ctx : Ctx) (w : World) (key currentLocationID newadvisor envTemp
    envTempMeasurement envHumidity : String) (l : Lote)
    (hk : w (Key.simple key) = some (Record.lote l))
    (h : (PutLoteOnUsing ctx w key currentLocationID newadvisor envTemp envTempMeasurement
      envHumidity).1 = none) :
    (PutLoteOnUsing ctx w key currentLocationID newadvisor envTemp envTempMeasurement
      envHumidity).2 =
      PutState w (Key.simple key) (Record.lote
        { l with
          LoteState := UsingLote, CurrentLocationID := currentLocationID,
          Environment := ⟨envTemp, envTempMeasurement, envHumidity⟩,
          Advisor := newadvisor }) := by
  revert h
  simp only [PutLoteOnUsing, GetState, hk, UnmarshalLote, GetSubmittingClientIdentity]
  repeat' split
  all_goals first
    | (intro h; simp at h; done)
    | (intro _; rfl)

/-- C28 (moving a lot from production to use): on a ledger where `key` holds
the site `m` and `loteKey` the lot `l`, `ManufacturePutLoteFromProductionToUsing`
returns an error and leaves the ledger unchanged unless `loteKey` is in the
production list of `m`, the caller is the advisor of `l` and `l` is in state
Manufacturing; a success stores `l` in state Using with the id of the site as
location, the advisor of the site as advisor and the environment given, and
stores the site with the last occurrence of `loteKey` taken out of
`production` and `loteKey` appended to `toUse`. -/
theorem C28_production_to_using (ctx : Ctx) (w : World) (key loteKey envTemp
    envTempMeasurement envHumidity : String) (m : Manufacture) (l : Lote)
    (hk : w (Key.simple key) = some (Record.manufacture m))
    (hl : w (Key.simple loteKey) = some (Record.lote l)) :
    ((loteKey ∉ m.Production ∨ ctx.clientID ≠ some l.Advisor ∨
        l.LoteState ≠ ManunfacturingLote) →
      Refused w (ManufacturePutLoteFromProductionToUsing ctx w key loteKey envTemp
        envTempMeasurement envHumidity)) ∧
    ((ManufacturePutLoteFromProductionToUsing ctx w key loteKey envTemp envTempMeasurement
        envHumidity).1 ≠ none →
      (ManufacturePutLoteFromProductionToUsing ctx w key loteKey envTemp envTempMeasurement
        envHumidity).2 = w) ∧
    ((ManufacturePutLoteFromProductionToUsing ctx w key loteKey envTemp envTempMeasurement
        envHumidity).1 = none →
      (ManufacturePutLoteFromProductionToUsing ctx w key loteKey envTemp envTempMeasurement
        envHumidity).2 (Key.simple loteKey) =
        some (Record.lote
          { l with
            LoteState := UsingLote, CurrentLocationID := m.ManufactureID,
            Environment := ⟨envTemp, envTempMeasurement, envHumidity⟩,
            Advisor := m.AdvisorID }) ∧
      ∃ pre post, m.Production = pre ++ loteKey :: post ∧ loteKey ∉ post ∧
        (ManufacturePutLoteFromProductionToUsing ctx w key loteKey envTemp envTempMeasurement
          envHumidity).2 (Key.simple key) =
          some (Record.manufacture
            { m with Production := pre ++ post, ToUse := m.ToUse ++ [loteKey] })) := by
  have hne : loteKey ≠ key := by
    intro e
    rw [e, hk] at hl
    cases hl
  have hne2 : (Key.simple loteKey) ≠ (Key.simple key) := by
    intro e
    exact hne (by injection e)
  have hf := (lote_transition_failure ctx w loteKey m.ManufactureID m.AdvisorID envTemp
    envTempMeasurement envHumidity "" "" "").2.2.2.2.2.2.2.1
  refine ⟨?_, ?_, ?_⟩
  · intro hcond
    have hmem : loteKey ∉ m.Production →
        indexFinded loteKey m.Production 0 none = none := (indexFinded_none _ _).2
    cases hid : ctx.clientID with
    | none =>
      simp [Refused, ManufacturePutLoteFromProductionToUsing, GetData, GetState, hk,
        UnmarshalManufacture, GetSubmittingClientIdentity, hid]
    | some x =>
      rw [hid] at hcond
      revert hf
      simp only [Refused, ManufacturePutLoteFromProductionToUsing, GetData, GetState, hk, hl,
        UnmarshalManufacture, UnmarshalLote, GetSubmittingClientIdentity, GetLoteAdvisor,
        IsLoteManufacturing, ManunfacturingLote, hid] at hcond ⊢
      repeat' split
      all_goals simp_all
  · revert hf
    simp only [ManufacturePutLoteFromProductionToUsing, GetData, GetState, hk,
      UnmarshalManufacture, GetSubmittingClientIdentity]
    repeat' split
    all_goals simp_all
  · intro hok
    have hP := PutLoteOnUsing_success ctx w loteKey m.ManufactureID m.AdvisorID envTemp
      envTempMeasurement envHumidity l hl
    obtain ⟨j, hj, hsite⟩ := ManufacturePutLoteFromProductionToUsing_success ctx w key loteKey
      envTemp envTempMeasurement envHumidity m hk hok
    obtain ⟨pre, post, e1, e2, e3⟩ := indexFinded_eraseIdx _ _ _ hj
    refine ⟨?_, pre, post, e1, e2, by rw [hsite, e3]⟩
    revert hok hP
    simp only [ManufacturePutLoteFromProductionToUsing, GetData, GetState, hk,
      UnmarshalManufacture, GetSubmittingClientIdentity]
    repeat' split
    all_goals first
      | (intro h; simp at h; done)
      | (intro hok hP
         rename_i heq
         rw [heq] at hP
         have hw1 := hP rfl
         simp only [] at hw1
         simp [hw1, PutState, hne])

/-- Witness for C28: the site `M1` moves the manufactured lot `L1` from its
production list to its list for use. -/
theorem C28_production_to_using_witness :
    sampleWorld (sampleSite ["L1"] [] []) (sampleLote ManunfacturingLote 0) (Key.simple "M1") =
        some (Record.manufacture (sampleSite ["L1"] [] [])) ∧
      sampleWorld (sampleSite ["L1"] [] []) (sampleLote ManunfacturingLote 0)
          (Key.simple "L1") = some (Record.lote (sampleLote ManunfacturingLote 0)) ∧
      (ManufacturePutLoteFromProductionToUsing sampleCtx
        (sampleWorld (sampleSite ["L1"] [] []) (sampleLote ManunfacturingLote 0))
        "M1" "L1" "4" "C" "50").1 = none ∧
      loteStateAt
        (ManufacturePutLoteFromProductionToUsing sampleCtx
          (sampleWorld (sampleSite ["L1"] [] []) (sampleLote ManunfacturingLote 0))
          "M1" "L1" "4" "C" "50").2 "L1" = some UsingLote ∧
      (ManufacturePutLoteFromProductionToUsing sampleCtx
        (sampleWorld (sampleSite ["L1"] [] []) (sampleLote ManunfacturingLote 0))
        "M1" "L1" "4" "C" "50").2 (Key.simple "L1") =
        some (Record.lote
          { sampleLote ManunfacturingLote 0 with
            LoteState := UsingLote, CurrentLocationID := "M1",
            Environment := ⟨"4", "C", "50"⟩, Advisor := "adv" }) :=
  ⟨by decide, by decide, by decide, by decide,
    ((C28_production_to_using sampleCtx
      (sampleWorld (sampleSite ["L1"] [] []) (sampleLote ManunfacturingLote 0))
      "M1" "L1" "4" "C" "50" (sampleSite ["L1"] [] []) (sampleLote ManunfacturingLote 0)
      (by decide) (by decide)).2.2 (by decide)).1⟩

open LoteSmartContract ManufactureSmartContract

/-- C29 (counterexample): the lot `L9` created by a successful
`ManufactureCreateLote` on the site `M1` has the site as `manufactureId` and
as location, and an empty `fatherId`, not `M1`. -/
theorem C29_father_is_not_the_site :
    (ManufactureCreateLote sampleCtx
        (sampleWorldP (sampleSite [] ["L1"] []) (sampleLote UsingLote 0))
        "M1" "L9" "P1" "5" "USD" "3" "4" "C" "50" ["L1:10"]).1 = none ∧
    (loteAt
        (ManufactureCreateLote sampleCtx
          (sampleWorldP (sampleSite [] ["L1"] []) (sampleLote UsingLote 0))
          "M1" "L9" "P1" "5" "USD" "3" "4" "C" "50" ["L1:10"]).2 "L9").map
      (fun l => (l.FatherID, l.ManufactureID)) = some ("", "M1") ∧
    ¬ (loteAt
        (ManufactureCreateLote sampleCtx
          (sampleWorldP (sampleSite [] ["L1"] []) (sampleLote UsingLote 0))
          "M1" "L9" "P1" "5" "USD" "3" "4" "C" "50" ["L1:10"]).2 "L9").map
      (fun l => l.FatherID) = some "M1" := by
  refine ⟨by decide, by decide, by decide⟩

/-- C29 (provenance of a manufactured lot, amended): on a ledger where `key`
holds a site, the lot stored under `loteKey` by a successful
`ManufactureCreateLote` has `manufactureId` and location equal to the site
key and an empty `fatherId`. -/
theorem C29_manufactured_lote_provenance (ctx : Ctx) (w : World) (key loteKey productID
    priceamount pricecurrency units envTemp envTempMeasurement envHumidity : String)
    (components : List String) (m : Manufacture)
    (hk : w (Key.simple key) = some (Record.manufacture m))
    (hok : (ManufactureCreateLote ctx w key loteKey productID priceamount pricecurrency units
      envTemp envTempMeasurement envHumidity components).1 = none) :
    ∃ l : Lote,
      loteAt (ManufactureCreateLote ctx w key loteKey productID priceamount pricecurrency units
        envTemp envTempMeasurement envHumidity components).2 loteKey = some l ∧
      l.LoteID = loteKey ∧ l.ManufactureID = key ∧ l.CurrentLocationID = key ∧
      l.FatherID = "" := by
  obtain ⟨ids, w1, toUse1, _, _, hc, hw⟩ := ManufactureCreateLote_success ctx w key loteKey
    productID priceamount pricecurrency units envTemp envTempMeasurement envHumidity components
    m hk hok
  obtain ⟨h1, h2, _, advisor, _, hcw⟩ := CreateLote_success ctx w1 loteKey productID key
    pricecurrency priceamount units envTemp envTempMeasurement envHumidity ids key hc
  have hne : loteKey ≠ key := by
    intro e
    rw [e] at h1
    exact h2 h1
  rw [hw, hcw]
  have hne2 : Key.simple loteKey ≠ Key.simple key := fun e => hne (by injection e)
  simp [loteAt, PutState, hne, hne2, CreateCompositeKey]

/-- Witness for C29: the site `M1` makes the lot `L9` out of `L1`. -/
theorem C29_manufactured_lote_provenance_witness :
    sampleWorldP (sampleSite [] ["L1"] []) (sampleLote UsingLote 0) (Key.simple "M1") =
        some (Record.manufacture (sampleSite [] ["L1"] [])) ∧
      (ManufactureCreateLote sampleCtx
        (sampleWorldP (sampleSite [] ["L1"] []) (sampleLote UsingLote 0))
        "M1" "L9" "P1" "5" "USD" "3" "4" "C" "50" ["L1:10"]).1 = none ∧
      ∃ l : Lote,
        loteAt (ManufactureCreateLote sampleCtx
          (sampleWorldP (sampleSite [] ["L1"] []) (sampleLote UsingLote 0))
          "M1" "L9" "P1" "5" "USD" "3" "4" "C" "50" ["L1:10"]).2 "L9" = some l ∧
        l.LoteID = "L9" ∧ l.ManufactureID = "M1" ∧ l.CurrentLocationID = "M1" ∧
        l.FatherID = "" :=
  ⟨by decide, by decide,
    C29_manufactured_lote_provenance sampleCtx
      (sampleWorldP (sampleSite [] ["L1"] []) (sampleLote UsingLote 0))
      "M1" "L9" "P1" "5" "USD" "3" "4" "C" "50" ["L1:10"] (sampleSite [] ["L1"] [])
      (by decide) (by decide)⟩

open LoteSmartContract ProductSmartContract ManufactureSmartContract

/-- C30 (counterexample): on the site `M1` in state Broken, advised by the
caller, `ManufactureReadyToProduce` succeeds and stores the site in state
OnProduction, `ManufactureInspection` succeeds, and `ManufactureDestroyed`
succeeds and stores the site in state Destroyed. -/
theorem C30_broken_site_operations_succeed :
    (ManufactureReadyToProduce sampleCtx
        (singleWorld "M1" (Record.manufacture
          { sampleSite [] [] [] with ManufactureState := BrokenManufacture })) "M1").1 = none ∧
    manufactureStateAt
        (ManufactureReadyToProduce sampleCtx
          (singleWorld "M1" (Record.manufacture
            { sampleSite [] [] [] with ManufactureState := BrokenManufacture })) "M1").2 "M1" =
      some OnProductionManufacture ∧
    (ManufactureInspection sampleCtx
        (singleWorld "M1" (Record.manufacture
          { sampleSite [] [] [] with ManufactureState := BrokenManufacture }))
        "M1" "iso" "safety" "ok").1 = none ∧
    (ManufactureDestroyed sampleCtx
        (singleWorld "M1" (Record.manufacture
          { sampleSite [] [] [] with ManufactureState := BrokenManufacture })) "M1").1 = none ∧
    manufactureStateAt
        (ManufactureDestroyed sampleCtx
          (singleWorld "M1" (Record.manufacture
            { sampleSite [] [] [] with ManufactureState := BrokenManufacture })) "M1").2 "M1" =
      some DestroyedManufacture := by
  refine ⟨by decide, by decide, by decide, by decide, by decide⟩

/-- The operations of the site contract that work for products and lots, and
the advisor and Broken transitions, refuse a site that is not OnProduction. -/
theorem manufacture_state_gating (ctx : Ctx) (w : World) (key otherKey : String)
    (m : Manufacture)
    (p1 p2 p3 p4 p5 p6 p7 p8 p9 p10 p11 p12 p13 p14 p15 p16 p17 p18 p19 p20 p21 p22 :
      String) (components : List String)
    (hk : w (Key.simple key) = some (Record.manufacture m))
    (hc : ctx.clientID = some m.AdvisorID)
    (hs : m.ManufactureState ≠ OnProductionManufacture) :
    Refused w (CreateManufacture ctx w key p1 p2 p3 p4) ∧
    Refused w (ManufactureCreateProduct ctx w key otherKey p1 p2 p3 p4 p5 p6 p7 p8 p9 p10 p11
      p12 p13 p14 p15 p16 p17 p18 p19 p20 p21 p22 components) ∧
    Refused w (ManufactureCertifyProduct ctx w key otherKey p1 p2 p3) ∧
    Refused w (ManufactureStartProductionProduct ctx w key otherKey) ∧
    Refused w (ManufactureDiscontinuetionProduct ctx w key otherKey) ∧
    Refused w (ManufactureContinueProduct ctx w key otherKey) ∧
    Refused w (ManufactureDestroyProduct ctx w key otherKey) ∧
    Refused w (ManufactureCreateLote ctx w key otherKey p1 p2 p3 p4 p5 p6 p7 components) ∧
    Refused w (ManufactureFractionateLoteForUse ctx w key p1 p2) ∧
    Refused w (ManufacturePutLoteInUsing ctx w key otherKey) ∧
    Refused w (ManufacturePutLoteFromProductionToUsing ctx w key otherKey p1 p2 p3) ∧
    Refused w (ManufacturePutLoteInReparing ctx w key otherKey) ∧
    Refused w (ManufactureRepairLote ctx w key otherKey p1 p2 p3 p4 p5) ∧
    Refused w (ManufactureInspectionLote ctx w key otherKey p1 p2 p3) ∧
    Refused w (ManufactureDestroyLote ctx w key otherKey) ∧
    Refused w (ManufactureTransportLote ctx w key otherKey p1 p2 p3 p4 p5) ∧
    Refused w (ManufactureUpdateAdvisor ctx w key p1) ∧
    Refused w (ManufactureBroken ctx w key) := by
  have hs0 : ¬ m.ManufactureState = 0 := hs
  refine ⟨?_, ?_, ?_, ?_, ?_, ?_, ?_, ?_, ?_, ?_, ?_, ?_, ?_, ?_, ?_, ?_, ?_, ?_⟩
  all_goals
    simp [CreateManufacture, ManufactureCreateProduct,
      ManufactureCertifyProduct, ManufactureStartProductionProduct,
      ManufactureDiscontinuetionProduct, ManufactureContinueProduct,
      ManufactureDestroyProduct, ManufactureCreateLote, ManufactureFractionateLoteForUse,
      ManufacturePutLoteInUsing, ManufacturePutLoteFromProductionToUsing,
      ManufacturePutLoteInReparing, ManufactureRepairLote, ManufactureInspectionLote,
      ManufactureDestroyLote, ManufactureTransportLote, ManufactureUpdateAdvisor,
      ManufactureBroken, Refused, ValidRole, GetData, GetState, hk, UnmarshalManufacture,
      GetSubmittingClientIdentity, GetSubmittingClientOrg, VerifyClientOrgMatchesPeerOrg,
      hc, hs0]

/-- C30 (site state gating, amended): on a ledger where `key` holds a site in
state Broken or Destroyed whose advisor is the caller, every mutating
operation of the site contract other than `ManufactureInspection`,
`ManufactureReadyToProduce` and `ManufactureDestroyed` returns an error and
leaves the ledger unchanged; these three do the same on a Destroyed site, and
succeed on a Broken site, where they store the site with the certification
appended, in state OnProduction and in state Destroyed respectively. -/
theorem C30_site_state_gating (ctx : Ctx) (w : World) (key otherKey : String) (m : Manufacture)
    (p1 p2 p3 p4 p5 p6 p7 p8 p9 p10 p11 p12 p13 p14 p15 p16 p17 p18 p19 p20 p21 p22 :
      String) (components : List String)
    (hk : w (Key.simple key) = some (Record.manufacture m))
    (hc : ctx.clientID = some m.AdvisorID)
    (hs : m.ManufactureState = BrokenManufacture ∨
      m.ManufactureState = DestroyedManufacture) :
    (Refused w (CreateManufacture ctx w key p1 p2 p3 p4) ∧
      Refused w (ManufactureCreateProduct ctx w key otherKey p1 p2 p3 p4 p5 p6 p7 p8 p9 p10
        p11 p12 p13 p14 p15 p16 p17 p18 p19 p20 p21 p22 components) ∧
      Refused w (ManufactureCertifyProduct ctx w key otherKey p1 p2 p3) ∧
      Refused w (ManufactureStartProductionProduct ctx w key otherKey) ∧
      Refused w (ManufactureDiscontinuetionProduct ctx w key otherKey) ∧
      Refused w (ManufactureContinueProduct ctx w key otherKey) ∧
      Refused w (ManufactureDestroyProduct ctx w key otherKey) ∧
      Refused w (ManufactureCreateLote ctx w key otherKey p1 p2 p3 p4 p5 p6 p7 components) ∧
      Refused w (ManufactureFractionateLoteForUse ctx w key p1 p2) ∧
      Refused w (ManufacturePutLoteInUsing ctx w key otherKey) ∧
      Refused w (ManufacturePutLoteFromProductionToUsing ctx w key otherKey p1 p2 p3) ∧
      Refused w (ManufacturePutLoteInReparing ctx w key otherKey) ∧
      Refused w (ManufactureRepairLote ctx w key otherKey p1 p2 p3 p4 p5) ∧
      Refused w (ManufactureInspectionLote ctx w key otherKey p1 p2 p3) ∧
      Refused w (ManufactureDestroyLote ctx w key otherKey) ∧
      Refused w (ManufactureTransportLote ctx w key otherKey p1 p2 p3 p4 p5) ∧
      Refused w (ManufactureUpdateAdvisor ctx w key p1) ∧
      Refused w (ManufactureBroken ctx w key)) ∧
    (m.ManufactureState = DestroyedManufacture →
      Refused w (ManufactureInspection ctx w key p1 p2 p3) ∧
      Refused w (ManufactureReadyToProduce ctx w key) ∧
      Refused w (ManufactureDestroyed ctx w key)) ∧
    (m.ManufactureState = BrokenManufacture →
      (ManufactureInspection ctx w key p1 p2 p3).1 = none ∧
      (ManufactureInspection ctx w key p1 p2 p3).2 (Key.simple key) =
        some (Record.manufacture
          { m with Certifications := m.Certifications ++ [⟨p1, p2, p3⟩] }) ∧
      (ManufactureReadyToProduce ctx w key).1 = none ∧
      manufactureStateAt (ManufactureReadyToProduce ctx w key).2 key =
        some OnProductionManufacture ∧
      (ManufactureDestroyed ctx w key).1 = none ∧
      manufactureStateAt (ManufactureDestroyed ctx w key).2 key =
        some DestroyedManufacture) := by
  have hs0 : m.ManufactureState ≠ OnProductionManufacture := by
    rcases hs with h | h <;> rw [h] <;> decide
  refine ⟨manufacture_state_gating ctx w key otherKey m p1 p2 p3 p4 p5 p6 p7 p8 p9 p10 p11 p12
    p13 p14 p15 p16 p17 p18 p19 p20 p21 p22 components hk hc hs0, ?_, ?_⟩
  · intro hd
    have hd2 : m.ManufactureState = 2 := hd
    simp [ManufactureInspection, ManufactureReadyToProduce, ManufactureDestroyed, Refused,
      GetData, GetState, hk, UnmarshalManufacture, GetSubmittingClientIdentity, hc, hd2]
  · intro hb
    have hb2 : m.ManufactureState = 1 := hb
    simp [ManufactureInspection, ManufactureReadyToProduce, ManufactureDestroyed,
      manufactureStateAt, GetData, GetState, hk, UnmarshalManufacture,
      GetSubmittingClientIdentity, hc, hb2, PutState, DelState, CreateCompositeKey]

/-- Witness for C30: on the Broken site `M1` the advisor is refused
`ManufactureBroken`. -/
theorem C30_site_state_gating_witness :
    singleWorld "M1" (Record.manufacture
        { sampleSite [] [] [] with ManufactureState := BrokenManufacture }) (Key.simple "M1") =
      some (Record.manufacture
        { sampleSite [] [] [] with ManufactureState := BrokenManufacture }) ∧
    Refused
      (singleWorld "M1" (Record.manufacture
        { sampleSite [] [] [] with ManufactureState := BrokenManufacture }))
      (ManufactureBroken sampleCtx
        (singleWorld "M1" (Record.manufacture
          { sampleSite [] [] [] with ManufactureState := BrokenManufacture })) "M1") :=
  ⟨by decide,
    (C30_site_state_gating sampleCtx
      (singleWorld "M1" (Record.manufacture
        { sampleSite [] [] [] with ManufactureState := BrokenManufacture })) "M1" "L1"
      { sampleSite [] [] [] with ManufactureState := BrokenManufacture }
      "" "" "" "" "" "" "" "" "" "" "" "" "" "" "" "" "" "" "" "" "" "" []
      (by decide) (by decide) (Or.inl (by decide))).1.2.2.2.2.2.2.2.2.2.2.2.2.2.2.2.2.2⟩

open LoteSmartContract ManufactureSmartContract

/-- C27 (failing input): the site `M1` holds in `toUse` the lot `L1` of
9223372036854775807 units; for the component spec `L1:-1` the lot has more
units than asked, the difference 9223372036854775808 wraps around in 64 bits,
and the call succeeds with the second child `B` holding
"-9223372036854775808" units. -/
theorem C27_fractionate_for_use_wraps_difference :
    Atoi "9223372036854775807" - Atoi "-1" = 9223372036854775808 ∧
    (ManufactureFractionateLoteForUse sampleCtx
        (sampleWorld (sampleSite [] ["L1"] [])
          { sampleLote UsingLote 0 with Units := "9223372036854775807" })
        "M1" "L1:-1" "A,B").1 = none ∧
    (loteAt
        (ManufactureFractionateLoteForUse sampleCtx
          (sampleWorld (sampleSite [] ["L1"] [])
            { sampleLote UsingLote 0 with Units := "9223372036854775807" })
          "M1" "L1:-1" "A,B").2 "A").map (fun l => l.Units) = some "-1" ∧
    (loteAt
        (ManufactureFractionateLoteForUse sampleCtx
          (sampleWorld (sampleSite [] ["L1"] [])
            { sampleLote UsingLote 0 with Units := "9223372036854775807" })
          "M1" "L1:-1" "A,B").2 "B").map (fun l => l.Units) =
      some "-9223372036854775808" ∧
    siteListsAt
        (ManufactureFractionateLoteForUse sampleCtx
          (sampleWorld (sampleSite [] ["L1"] [])
            { sampleLote UsingLote 0 with Units := "9223372036854775807" })
          "M1" "L1:-1" "A,B").2 "M1" = some ([], ["A", "B"], []) := by
  refine ⟨by decide, by decide, by decide, by decide, by decide⟩

/-- One round of the loop of `ManufactureFractionateLoteForUse`, on the entry
`c` that splits at `:` into the id `id` and the units text `nStr`, where `id`
exists, is found in `toUse` at the index `j` and has the units text `uStr`:
with fewer units than asked the loop ends with an error; with exactly the
units asked the round changes nothing; with more units, and a difference that
fits in 64 bits, the lot is fractionated into the entries `2 * i` and
`2 * i + 1` of the names, with the units asked and the difference, and the two
names replace the entry at `j` of `toUse`. -/
theorem fractionateComponents_round (ctx : Ctx) (names rest toUse tail : List String) (i j : Nat)
    (w : World) (c id nStr uStr : String)
    (hc : c ≠ "") (hsplit : Split c ':' = id :: nStr :: tail)
    (hex : ExistsLote w id = true)
    (hj : indexFinded id toUse 0 none = some j)
    (hu : GetLoteUnits w id = .ok uStr) :
    (Atoi uStr < Atoi nStr →
      fractionateComponents ctx names (c :: rest) i w toUse =
        (some "It is not enough lote units", w, toUse)) ∧
    (Atoi uStr = Atoi nStr →
      fractionateComponents ctx names (c :: rest) i w toUse =
        fractionateComponents ctx names rest (i + 1) w toUse) ∧
    (Atoi nStr < Atoi uStr → Atoi uStr - Atoi nStr ≤ int64Max →
      ∀ a b, names[2 * i]? = some a → names[2 * i + 1]? = some b →
        fractionateComponents ctx names (c :: rest) i w toUse =
          match FractionateLote ctx w id nStr (Itoa (Atoi uStr - Atoi nStr)) a b with
          | (some err, w1) => (some err, w1, toUse)
          | (none, w1) =>
            fractionateComponents ctx names rest (i + 1) w1
              (toUse.eraseIdx j ++ [a, b])) := by
  refine ⟨?_, ?_, ?_⟩
  · intro hlt
    simp [fractionateComponents, hc, hsplit, hex, hj, hu, hlt]
  · intro heq
    simp [fractionateComponents, hc, hsplit, hex, hj, hu, heq]
  · intro hgt hfit a b ha hb
    have hnlt : ¬ Atoi uStr < Atoi nStr := not_lt.mpr (le_of_lt hgt)
    have hw : wrap64 (Atoi uStr - Atoi nStr) = Atoi uStr - Atoi nStr := by
      apply wrap64_of_range
      · have := (Atoi_range uStr).1
        have := (Atoi_range nStr).2
        simp only [int64Min, int64Max] at *
        omega
      · exact hfit
    simp [fractionateComponents, hc, hsplit, hex, hj, hu, hnlt, hgt, ha, hb, hw]

open LoteSmartContract

/-- With one more level of calls allowed `GetLoteHistory` returns what it
returned. -/
theorem GetLoteHistory_succ (hist : History) :
    ∀ (n : Nat) (key : String) (r : Except String (List HistoryQueryResultLote)),
      GetLoteHistory hist n key = some r → GetLoteHistory hist (n + 1) key = some r := by
  intro n
  induction n with
  | zero => intro key r h; simp [GetLoteHistory] at h
  | succ n ih =>
    intro key r h
    rw [GetLoteHistory] at h ⊢
    cases hl : historyLoop key (hist key) [] "" with
    | error e => simpa [hl] using h
    | ok p =>
      obtain ⟨records, father⟩ := p
      simp only [hl] at h ⊢
      by_cases hf : father = ""
      · simpa [hf] using h
      · simp only [hf, ne_eq, not_false_eq_true, if_true] at h ⊢
        cases hg : GetLoteHistory hist n father with
        | none => simp [hg] at h
        | some r2 =>
          rw [ih father r2 hg]
          simpa [hg] using h

/-- The result of `GetLoteHistory` does not depend on the depth allowed, once
it is enough. -/
theorem GetLoteHistory_mono (hist : History) (n m : Nat) (key : String)
    (r : Except String (List HistoryQueryResultLote))
    (h : GetLoteHistory hist n key = some r) (hnm : n ≤ m) :
    GetLoteHistory hist m key = some r := by
  induction hnm with
  | refl => exact h
  | step _ ih => exact GetLoteHistory_succ hist _ key r ih

open LoteSmartContract

/-- Reading one more entry first: the father after the loop. -/
theorem fatherAfter_cons (e : KeyModification) (rest : List KeyModification) (father : String) :
    fatherAfter (e :: rest) father = fatherAfter rest (fatherOfEntry e father) := by
  unfold fatherAfter fatherOfEntry
  cases hv : e.Value with
  | none => simp [List.filterMap_cons, hv]
  | some value =>
    simp only [List.filterMap_cons, hv]
    rw [List.getLast?_cons]
    cases hr : (List.filterMap (fun e => e.Value) rest).getLast? with
    | none => simp
    | some v2 => simp

/-- The loop of `GetLoteHistory` renders the entries in order and leaves in
`father` the father named by the oldest entry with a value. -/
theorem historyLoop_spec (key : String) :
    ∀ (entries : List KeyModification) (records : List HistoryQueryResultLote)
      (father : String),
      historyLoop key entries records father =
        (specOwnHistory key entries).map
          (fun own => (records ++ own, fatherAfter entries father)) := by
  intro entries
  induction entries with
  | nil => intro records father; simp [historyLoop, specOwnHistory, fatherAfter, Except.map]
  | cons e rest ih =>
    intro records father
    rw [fatherAfter_cons]
    simp only [historyLoop, specOwnHistory, specRenderEntry, fatherOfEntry]
    cases hv : e.Value with
    | none =>
      cases ht : e.Timestamp with
      | none => simp [Except.map, hv, ht]
      | some t =>
        simp only [hv, ht, ih]
        cases specOwnHistory key rest <;> simp [Except.map]
    | some value =>
      cases hu : UnmarshalLote value with
      | none => simp [Except.map, hv, hu]
      | some lote =>
        cases ht : e.Timestamp with
        | none => simp [Except.map, hv, hu, ht]
        | some t =>
          simp only [hv, hu, ht, ih]
          cases specOwnHistory key rest <;> simp [Except.map]

/-- The oldest father of the claim is the father the loop ends with. -/
theorem specOldestFather_eq (entries : List KeyModification) :
    specOldestFather entries = fatherAfter entries "" := rfl

/-- The method and the claim's reading of it agree at every depth. -/
theorem GetLoteHistory_eq_spec (hist : History) :
    ∀ (n : Nat) (key : String), GetLoteHistory hist n key = specLoteHistory hist n key := by
  intro n
  induction n with
  | zero => intro key; rfl
  | succ n ih =>
    intro key
    rw [GetLoteHistory, specLoteHistory, historyLoop_spec, specOldestFather_eq]
    cases ho : specOwnHistory key (hist key) with
    | error e => simp [Except.map]
    | ok own =>
      simp only [Except.map, List.nil_append, ne_eq, ite_not, ih]

open LoteSmartContract

/-- When the chain of fathers of `key` reaches a record without father after
`d` steps, `GetLoteHistory` returns with `d + 1` levels of calls. -/
theorem GetLoteHistory_returns (hist : History) :
    ∀ (d : Nat) (key : String),
      Nat.iterate (fun k => specOldestFather (hist k)) (d + 1) key = "" →
        (GetLoteHistory hist (d + 1) key).isSome = true := by
  intro d
  induction d with
  | zero =>
    intro key h
    simp only [Function.iterate_succ, Function.iterate_zero, Function.comp, id] at h
    rw [GetLoteHistory_eq_spec, specLoteHistory]
    cases specOwnHistory key (hist key) <;> simp [h]
  | succ d ih =>
    intro key h
    rw [Function.iterate_succ] at h
    have h2 := ih (specOldestFather (hist key)) h
    rw [GetLoteHistory_eq_spec] at h2 ⊢
    rw [specLoteHistory]
    cases specOwnHistory key (hist key) with
    | error e => simp
    | ok own =>
      simp only []
      split
      · simp
      · cases hs : specLoteHistory hist (d + 1) (specOldestFather (hist key)) with
        | none => simp [hs] at h2
        | some r => cases r <;> simp

/-- C24 (history concatenation): at every depth `GetLoteHistory` is the
claim's history, that is the key's own entries rendered in the ledger's order,
an entry without value as a bare lot with `loteId = key`, followed by the whole
history of the father named by the oldest entry with a value, and by nothing
when that father is empty; the result does not change with more depth, and a
chain of fathers that ends after `d` steps is followed to its end with depth
`d + 1`; so for a child whose oldest entry names the root, a lot without
father, the result is the child's own entries followed by the root's. -/
theorem C24_history_concatenation (hist : History) (key : String) :
    (∀ n, GetLoteHistory hist n key = specLoteHistory hist n key) ∧
    (∀ n own, specOwnHistory key (hist key) = .ok own →
      GetLoteHistory hist (n + 1) key =
        if specOldestFather (hist key) = "" then some (.ok own)
        else
          (GetLoteHistory hist n (specOldestFather (hist key))).map
            (fun r => r.map (fun fatherHistory => own ++ fatherHistory))) ∧
    (∀ n m r, GetLoteHistory hist n key = some r → n ≤ m →
      GetLoteHistory hist m key = some r) ∧
    (∀ d, Nat.iterate (fun k => specOldestFather (hist k)) (d + 1) key = "" →
      ∀ m, d + 1 ≤ m → (GetLoteHistory hist m key).isSome = true) ∧
    (∀ root ownChild ownRoot,
      specOwnHistory key (hist key) = .ok ownChild →
      specOldestFather (hist key) = root → root ≠ "" →
      specOwnHistory root (hist root) = .ok ownRoot →
      specOldestFather (hist root) = "" →
      ∀ m, 2 ≤ m → GetLoteHistory hist m key = some (.ok (ownChild ++ ownRoot))) := by
  refine ⟨fun n => GetLoteHistory_eq_spec hist n key, ?_,
    fun n m r h hnm => GetLoteHistory_mono hist n m key r h hnm, ?_, ?_⟩
  · intro n own ho
    rw [GetLoteHistory_eq_spec, specLoteHistory, ho, GetLoteHistory_eq_spec]
    simp only []
    split
    · rfl
    · cases hs : specLoteHistory hist n (specOldestFather (hist key)) with
      | none => rfl
      | some r => cases r <;> rfl
  · intro d hd m hm
    have h1 := GetLoteHistory_returns hist d key hd
    cases hr : GetLoteHistory hist (d + 1) key with
    | none => simp [hr] at h1
    | some r => rw [GetLoteHistory_mono hist (d + 1) m key r hr hm]; rfl
  · intro root ownChild ownRoot hc hf hne hr hfr m hm
    have h2 : GetLoteHistory hist 2 key = some (.ok (ownChild ++ ownRoot)) := by
      rw [GetLoteHistory_eq_spec]
      simp [specLoteHistory, hc, hf, hne, hr, hfr]
    exact GetLoteHistory_mono hist 2 m key _ h2 hm

/-- Witness for C24: the stored sample lot `L1` was created by `tx1` and
fractionated by `tx2` into `L2` and `L3`; the history of `L2` is its own entry
followed by the two entries of `L1`. -/
theorem C24_history_concatenation_witness :
    specOldestFather (sampleSplitHistory "L2") = "L1" ∧
    specOldestFather (sampleSplitHistory "L1") = "" ∧
    GetLoteHistory sampleSplitHistory 2 "L2" =
      some (.ok
        ([⟨{ sampleLote StoredLote 0 with LoteID := "L2", Units := "4", FatherID := "L1" },
            "tx2", 2, false⟩] ++
          [⟨{ sampleLote StoredLote 0 with LoteState := DestroyedLote }, "tx2", 2, false⟩,
            ⟨sampleLote StoredLote 0, "tx1", 1, false⟩])) :=
  ⟨by decide, by decide,
    (C24_history_concatenation sampleSplitHistory "L2").2.2.2.2 "L1" _ _ rfl (by decide)
      (by decide) rfl (by decide) 2 (le_refl 2)⟩

open LoteSmartContract

/-- The traceability of a lot without components is the lot with its history
and no children. -/
theorem GetLoteTraceability_leaf (hist : History) (w : World) (key : String) (l : Lote)
    (h : List HistoryQueryResultLote) (n m : Nat)
    (hk : w (Key.simple key) = some (Record.lote l)) (hc : l.Components = [])
    (hh : GetLoteHistory hist n key = some (.ok h)) (hm : n + 1 ≤ m) :
    GetLoteTraceability hist w m key =
      some (.ok (TraceabilityQueryResultLote.mk key h [])) := by
  obtain ⟨m1, rfl⟩ : ∃ m1, m = m1 + 1 := ⟨m - 1, by omega⟩
  have h1 := GetLoteHistory_mono hist n m1 key _ hh (by omega)
  simp [GetLoteTraceability, h1, GetState, hk, UnmarshalLote, hc]

/-- C25 (traceability tree of depth 1): on a ledger where `key` holds a lot
with the components `[X, Y]` and `X` and `Y` hold lots without components, and
`GetLoteHistory` returns `h`, `hx` and `hy` for the three ids within `n` levels
of calls, `GetLoteTraceability` returns, with `n + 2` levels or more, the
result with the id `key`, the history `h` and exactly the two children for `X`
and `Y` in that order, each with its own history and no children; for the lot
`X`, which has no components, it returns the result without children. -/
theorem C25_traceability_depth_one (hist : History) (w : World) (key X Y : String)
    (l lx ly : Lote) (h hx hy : List HistoryQueryResultLote) (n : Nat)
    (hk : w (Key.simple key) = some (Record.lote l)) (hc : l.Components = [X, Y])
    (hkx : w (Key.simple X) = some (Record.lote lx)) (hcx : lx.Components = [])
    (hky : w (Key.simple Y) = some (Record.lote ly)) (hcy : ly.Components = [])
    (hh : GetLoteHistory hist n key = some (.ok h))
    (hhx : GetLoteHistory hist n X = some (.ok hx))
    (hhy : GetLoteHistory hist n Y = some (.ok hy)) :
    (∀ m, n + 2 ≤ m →
      GetLoteTraceability hist w m key =
        some (.ok (TraceabilityQueryResultLote.mk key h
          [TraceabilityQueryResultLote.mk X hx [], TraceabilityQueryResultLote.mk Y hy []]))) ∧
    (∀ m, n + 1 ≤ m →
      GetLoteTraceability hist w m X =
        some (.ok (TraceabilityQueryResultLote.mk X hx []))) := by
  refine ⟨?_, fun m hm => GetLoteTraceability_leaf hist w X lx hx n m hkx hcx hhx hm⟩
  intro m hm
  obtain ⟨m1, rfl⟩ : ∃ m1, m = m1 + 1 := ⟨m - 1, by omega⟩
  have h1 := GetLoteHistory_mono hist n m1 key _ hh (by omega)
  have tx := GetLoteTraceability_leaf hist w X lx hx n m1 hkx hcx hhx (by omega)
  have ty := GetLoteTraceability_leaf hist w Y ly hy n m1 hky hcy hhy (by omega)
  simp [GetLoteTraceability, h1, GetState, hk, UnmarshalLote, hc, traceChildren, tx, ty]

/-- Witness for C25: the lot `L9` made of `L1` and `L2`. -/
theorem C25_traceability_depth_one_witness :
    sampleTraceWorld (Key.simple "L9") =
      some (Record.lote
        { sampleLote ManunfacturingLote 0 with LoteID := "L9", Components := ["L1", "L2"] }) ∧
    GetLoteTraceability sampleTraceHistory sampleTraceWorld 3 "L9" =
      some (.ok (TraceabilityQueryResultLote.mk "L9"
        [⟨{ sampleLote ManunfacturingLote 0 with LoteID := "L9", Components := ["L1", "L2"] },
          "tx1", 1, false⟩]
        [TraceabilityQueryResultLote.mk "L1" [⟨sampleLote DestroyedLote 0, "tx1", 1, false⟩] [],
          TraceabilityQueryResultLote.mk "L2"
            [⟨{ sampleLote DestroyedLote 0 with LoteID := "L2" }, "tx1", 1, false⟩] []])) :=
  ⟨rfl,
    (C25_traceability_depth_one sampleTraceHistory sampleTraceWorld "L9" "L1" "L2"
      { sampleLote ManunfacturingLote 0 with LoteID := "L9", Components := ["L1", "L2"] }
      (sampleLote DestroyedLote 0) { sampleLote DestroyedLote 0 with LoteID := "L2" }
      _ _ _ 1 rfl rfl rfl rfl rfl rfl rfl rfl rfl).1 3 (le_refl 3)⟩

open LoteSmartContract ManufactureSmartContract

/-- A lot that lists itself as its first component is never traced to the
end: whatever the depth allowed, the recursion reaches it. -/
theorem GetLoteTraceability_self_component (hist : History) (w : World) (key : String)
    (rest : List String)
    (hh : ∀ n, ∃ h, GetLoteHistory hist (n + 1) key = some (.ok h))
    (hc : componentsAt w key = key :: rest) :
    ∀ n, GetLoteTraceability hist w n key = none := by
  intro n
  induction n with
  | zero => rfl
  | succ n ih =>
    cases n with
    | zero => simp [GetLoteTraceability, GetLoteHistory]
    | succ k =>
      obtain ⟨h, hk⟩ := hh k
      unfold componentsAt at hc
      cases hw : w (Key.simple key) with
      | none => simp [hw] at hc
      | some r =>
        simp only [hw] at hc
        rw [GetLoteTraceability]
        simp [hk, GetState, hw, hc, traceChildren, ih]

/-- C26 (counterexample): the ledger reached from the empty ledger by
`CreateManufacture` of `M1` and `CreateLote` of `L1` with the components
`["L1"]` holds a lot that is its own component, and `GetLoteTraceability` of
`L1` does not return, whatever the depth of calls allowed. -/
theorem C26_self_component_reachable :
    (CreateManufacture sampleCtx World.empty "M1" "cu" "hav" "23" "-82").1 = none ∧
    (CreateLote sampleCtx
        (CreateManufacture sampleCtx World.empty "M1" "cu" "hav" "23" "-82").2
        "L1" "P1" "M1" "5" "USD" "10" "4" "C" "50" ["L1"] "M1").1 = none ∧
    componentsAt sampleCycleWorld "L1" = ["L1"] ∧
    ∀ n, GetLoteTraceability sampleCycleHistory sampleCycleWorld n "L1" = none := by
  refine ⟨by decide, by decide, by decide, ?_⟩
  apply GetLoteTraceability_self_component sampleCycleHistory sampleCycleWorld "L1" []
  · intro n
    exact ⟨_, GetLoteHistory_mono sampleCycleHistory 1 (n + 1) "L1" _ rfl (by omega)⟩
  · decide

/-- The loop over the components returns when every recursive call does. -/
theorem traceChildren_isSome
    (trace : String → Option (Except String TraceabilityQueryResultLote)) :
    ∀ (cs : List String) (acc : List TraceabilityQueryResultLote),
      (∀ c ∈ cs, (trace c).isSome = true) → (traceChildren trace cs acc).isSome = true := by
  intro cs
  induction cs with
  | nil => intro acc _; rfl
  | cons c rest ih =>
    intro acc h
    have hc := h c (List.mem_cons_self _ _)
    rw [traceChildren]
    cases ht : trace c with
    | none => simp [ht] at hc
    | some r =>
      cases r with
      | error e => rfl
      | ok child => exact ih _ (fun c2 h2 => h c2 (List.mem_cons_of_mem _ h2))

/-- Finitely many calls that each return from some depth on return from a
common depth on. -/
theorem trace_common_depth (trace : Nat → String → Option (Except String TraceabilityQueryResultLote)) :
    ∀ cs : List String,
      (∀ c ∈ cs, ∃ n, ∀ m, n ≤ m → (trace m c).isSome = true) →
        ∃ N, ∀ c ∈ cs, ∀ m, N ≤ m → (trace m c).isSome = true := by
  intro cs
  induction cs with
  | nil => intro _; exact ⟨0, fun c hc => by cases hc⟩
  | cons c rest ih =>
    intro h
    obtain ⟨n1, h1⟩ := h c (List.mem_cons_self _ _)
    obtain ⟨n2, h2⟩ := ih (fun c2 hc2 => h c2 (List.mem_cons_of_mem _ hc2))
    refine ⟨max n1 n2, ?_⟩
    intro c2 hc2 m hm
    rcases List.mem_cons.1 hc2 with e | e
    · subst e; exact h1 m (le_trans (le_max_left _ _) hm)
    · exact h2 c2 e m (le_trans (le_max_right _ _) hm)

/-- C26 (traceability terminates, amended): on every ledger whose components
relation is well-founded, so that no lot is reached from itself through
components lists and no chain of components goes on for ever, and with
histories that `GetLoteHistory` reads to the end, `GetLoteTraceability`
returns for every id once the depth of calls allowed is large enough. -/
theorem C26_traceability_terminates (hist : History) (w : World)
    (hwf : WellFounded (fun c k : String => c ∈ componentsAt w k))
    (hh : ∀ k, ∃ n, (GetLoteHistory hist n k).isSome = true) :
    ∀ key, ∃ n, ∀ m, n ≤ m → (GetLoteTraceability hist w m key).isSome = true := by
  intro key
  induction key using hwf.induction with
  | _ key ih =>
    obtain ⟨nh, hnh⟩ := hh key
    obtain ⟨N, hN⟩ := trace_common_depth (GetLoteTraceability hist w) (componentsAt w key) ih
    refine ⟨max nh N + 1, ?_⟩
    intro m hm
    obtain ⟨m1, rfl⟩ : ∃ m1, m = m1 + 1 := ⟨m - 1, by omega⟩
    have hm1 : nh ≤ m1 := by have := le_max_left nh N; omega
    have hm2 : N ≤ m1 := by have := le_max_right nh N; omega
    cases hr : GetLoteHistory hist nh key with
    | none => simp [hr] at hnh
    | some r =>
      have h1 := GetLoteHistory_mono hist nh m1 key r hr hm1
      rw [GetLoteTraceability]
      cases r with
      | error e => simp [h1]
      | ok h =>
        simp only [h1, GetState]
        cases hw : w (Key.simple key) with
        | none => rfl
        | some rec =>
          have hcomp : componentsAt w key = ((UnmarshalLote rec).getD Lote.zero).Components := by
            simp [componentsAt, hw]
          simp only []
          split
          · rfl
          · have hch := traceChildren_isSome (fun c => GetLoteTraceability hist w m1 c)
              ((UnmarshalLote rec).getD Lote.zero).Components []
              (fun c hc => hN c (by rw [hcomp]; exact hc) m1 hm2)
            cases ht : traceChildren (fun c => GetLoteTraceability hist w m1 c)
                ((UnmarshalLote rec).getD Lote.zero).Components [] with
            | none => simp [ht] at hch
            | some r2 => cases r2 <;> rfl

open LoteSmartContract ManufactureSmartContract

/-- In the sample ledger only `L9` has components, and they are `L1` and
`L2`. -/
theorem sampleTraceWorld_components (c k : String)
    (h : c ∈ componentsAt sampleTraceWorld k) : k = "L9" ∧ c ≠ "L9" := by
  unfold componentsAt sampleTraceWorld sampleWorld PutState at h
  by_cases h9 : k = "L9"
  · subst h9
    have : c = "L1" ∨ c = "L2" := by simpa [UnmarshalLote] using h
    rcases this with e | e <;> subst e <;> exact ⟨rfl, by decide⟩
  · by_cases h2 : k = "L2"
    · subst h2; simp [UnmarshalLote, sampleLote, Lote.zero] at h
    · by_cases h1 : k = "L1"
      · subst h1; simp [UnmarshalLote, sampleLote, Lote.zero] at h
      · by_cases hm : k = "M1"
        · subst hm; simp [UnmarshalLote, sampleSite, Lote.zero] at h
        · simp [h9, h2, h1, hm, World.empty] at h

/-- In the sample history no entry names a father. -/
theorem sampleTraceHistory_father (k : String) :
    specOldestFather (sampleTraceHistory k) = "" := by
  unfold sampleTraceHistory sampleTraceWorld sampleWorld PutState
  by_cases h9 : k = "L9"
  · subst h9; decide
  · by_cases h2 : k = "L2"
    · subst h2; decide
    · by_cases h1 : k = "L1"
      · subst h1; decide
      · by_cases hm : k = "M1"
        · subst hm; decide
        · simp [h9, h2, h1, hm, World.empty, specOldestFather]

/-- Witness for C26: on the sample ledger with the lot `L9` made of `L1` and
`L2` the tracing of every id returns. -/
theorem C26_traceability_terminates_witness :
    WellFounded (fun c k : String => c ∈ componentsAt sampleTraceWorld k) ∧
    (∀ k, ∃ n, (GetLoteHistory sampleTraceHistory n k).isSome = true) ∧
    ∀ key, ∃ n, ∀ m, n ≤ m →
      (GetLoteTraceability sampleTraceHistory sampleTraceWorld m key).isSome = true := by
  have hwf : WellFounded (fun c k : String => c ∈ componentsAt sampleTraceWorld k) := by
    apply Subrelation.wf _
      (InvImage.wf (fun k : String => if k = "L9" then 1 else 0) (@wellFounded_lt Nat _ _))
    intro c k h
    obtain ⟨hk, hc⟩ := sampleTraceWorld_components c k h
    simp [InvImage, hk, hc]
  have hh : ∀ k, ∃ n, (GetLoteHistory sampleTraceHistory n k).isSome = true := by
    intro k
    exact ⟨1, GetLoteHistory_returns sampleTraceHistory 0 k (sampleTraceHistory_father k)⟩
  exact ⟨hwf, hh, C26_traceability_terminates sampleTraceHistory sampleTraceWorld hwf hh⟩

open LoteSmartContract WarehouseSmartContract

/-- C33 (failing input): for the sample lot in state Selled `IsLoteSelled`
returns false, and for the sample lot in state Using it returns true. -/
theorem C33_is_lote_selled_tests_using :
    IsLoteSelled (sampleWorld (sampleSite [] [] []) (sampleLote SelledLote 0)) "L1" =
      .ok false ∧
    IsLoteSelled (sampleWorld (sampleSite [] [] []) (sampleLote UsingLote 0)) "L1" =
      .ok true ∧
    SelledLote = 4 ∧ UsingLote = 6 := by
  refine ⟨rfl, rfl, rfl, rfl⟩

/-- On a ledger where `key` holds the lot `l`, `IsLoteUsing`, `IsLoteReparing`,
`IsLoteStored` and `IsLoteManufacturing` return whether `l` is in the state
they name, and `IsLoteSelled` returns whether `l` is in state Using. -/
theorem lote_state_predicates (w : World) (key : String) (l : Lote)
    (hk : w (Key.simple key) = some (Record.lote l)) :
    IsLoteUsing w key = .ok (decide (l.LoteState = UsingLote)) ∧
    IsLoteReparing w key = .ok (decide (l.LoteState = RepairingLote)) ∧
    IsLoteStored w key = .ok (decide (l.LoteState = StoredLote)) ∧
    IsLoteManufacturing w key = .ok (decide (l.LoteState = ManunfacturingLote)) ∧
    IsLoteSelled w key = .ok (decide (l.LoteState = UsingLote)) := by
  simp [IsLoteUsing, IsLoteReparing, IsLoteStored, IsLoteManufacturing, IsLoteSelled, GetState,
    hk, UnmarshalLote, UsingLote, RepairingLote, StoredLote, ManunfacturingLote]

/-- C31 (failing input): the working warehouse `W1` and the lot `L1` in state
Selled are both advised by the caller `adv` and the location `W1` exists, yet
`WarehouseRecieveSelledReturnLote` returns "lote is not selled" and the lot
stays Selled. -/
theorem C31_receive_sold_lote_refused :
    (WarehouseRecieveSelledReturnLote sampleCtx
        (PutState (singleWorld "W1" (Record.warehouse (sampleWarehouse WorkingWarehouse [])))
          (Key.simple "L1") (Record.lote (sampleLote SelledLote 0)))
        "W1" "L1" "W1" "adv" "own" "4" "C" "50" "1").1 = some "lote is not selled" ∧
    loteStateAt
        (WarehouseRecieveSelledReturnLote sampleCtx
          (PutState (singleWorld "W1" (Record.warehouse (sampleWarehouse WorkingWarehouse [])))
            (Key.simple "L1") (Record.lote (sampleLote SelledLote 0)))
          "W1" "L1" "W1" "adv" "own" "4" "C" "50" "1").2 "L1" = some SelledLote ∧
    (ReturnLote sampleCtx
        (PutState (singleWorld "W1" (Record.warehouse (sampleWarehouse WorkingWarehouse [])))
          (Key.simple "L1") (Record.lote (sampleLote SelledLote 0)))
        "L1" "W1" "adv" "own" "4" "C" "50").1 = none := by
  refine ⟨by decide, by decide, by decide⟩

/-- The operation `ReturnLote` refuses a record in state 6 (Using). -/
theorem ReturnLote_refuses_using (ctx : Ctx) (w : World) (key a b c d e f : String)
    (r : Record) (l : Lote)
    (hl : w (Key.simple key) = some r) (hu : UnmarshalLote r = some l)
    (h6 : l.LoteState = 6) :
    (ReturnLote ctx w key a b c d e f).1 ≠ none := by
  have h4 : ¬ l.LoteState = 4 := by rw [h6]; decide
  have h2 : ¬ l.LoteState = 2 := by rw [h6]; decide
  simp only [ReturnLote, GetState, hl, hu, GetSubmittingClientIdentity, GetSubmittingClientOrg,
    VerifyClientOrgMatchesPeerOrg]
  repeat' split
  all_goals simp_all

/-- The operation `WarehouseRecieveSelledReturnLote` returns an error on every
ledger and for every caller and arguments: it goes on only when `IsLoteSelled`
holds, that is for a record in state 6, and `ReturnLote` refuses that state. -/
theorem WarehouseRecieveSelledReturnLote_never_succeeds (ctx : Ctx) (w : World)
    (key loteKey a b c d e f g : String) :
    (WarehouseRecieveSelledReturnLote ctx w key loteKey a b c d e f g).1 ≠ none := by
  cases hl : w (Key.simple loteKey) with
  | none =>
    simp only [WarehouseRecieveSelledReturnLote, GetData, GetState,
      GetSubmittingClientIdentity, GetLoteAdvisor, hl]
    repeat' split
    all_goals simp_all
  | some r =>
    cases hu : UnmarshalLote r with
    | none =>
      simp only [WarehouseRecieveSelledReturnLote, GetData, GetState,
        GetSubmittingClientIdentity, GetLoteAdvisor, hl, hu]
      repeat' split
      all_goals simp_all
    | some l =>
      by_cases h6 : l.LoteState = 6
      · have hr := ReturnLote_refuses_using ctx w loteKey a b c d e f r l hl hu h6
        revert hr
        simp only [WarehouseRecieveSelledReturnLote, GetData, GetState,
          GetSubmittingClientIdentity, GetLoteAdvisor, IsLoteSelled, hl, hu]
        repeat' split
        all_goals simp_all
      · simp only [WarehouseRecieveSelledReturnLote, GetData, GetState,
          GetSubmittingClientIdentity, GetLoteAdvisor, IsLoteSelled, hl, hu, h6]
        repeat' split
        all_goals simp_all

open LoteSmartContract ProductSmartContract ManufactureSmartContract

/-- C32 (failing input): from the empty ledger the caller `adv` creates the
site `M1`, the product `P1` and the lot `L1`, puts `L1` in use and registers it
twice in the list for use of `M1`, which is then `[L1, L1]`; a successful
`ManufactureCreateLote` that consumes `L1` stores the list `[L1]`: the removal
loop steps over the entry that follows the one it removes. -/
theorem C32_consumed_component_stays_listed :
    ((runAll
        [fun w => CreateManufacture sampleCtx w "M1" "cu" "hav" "23" "-82",
          fun w => CreateProduct sampleCtx w "P1" "bolt" "" "" "" "" "m8" "" "" "" "" "" "" ""
            "" "" "" "" "" "" "" "" "" "M1" [],
          fun w => CreateLote sampleCtx w "L1" "P1" "M1" "5" "USD" "10" "4" "C" "50" [] "M1",
          fun w => PutLoteOnUsing sampleCtx w "L1" "M1" "adv" "4" "C" "50",
          fun w => ManufacturePutLoteInUsing sampleCtx w "M1" "L1",
          fun w => ManufacturePutLoteInUsing sampleCtx w "M1" "L1"]
        World.empty).bind (fun w => siteListsAt w "M1")) = some ([], ["L1", "L1"], []) ∧
    ((runAll
        [fun w => CreateManufacture sampleCtx w "M1" "cu" "hav" "23" "-82",
          fun w => CreateProduct sampleCtx w "P1" "bolt" "" "" "" "" "m8" "" "" "" "" "" "" ""
            "" "" "" "" "" "" "" "" "" "M1" [],
          fun w => CreateLote sampleCtx w "L1" "P1" "M1" "5" "USD" "10" "4" "C" "50" [] "M1",
          fun w => PutLoteOnUsing sampleCtx w "L1" "M1" "adv" "4" "C" "50",
          fun w => ManufacturePutLoteInUsing sampleCtx w "M1" "L1",
          fun w => ManufacturePutLoteInUsing sampleCtx w "M1" "L1",
          fun w => ManufactureCreateLote sampleCtx w "M1" "L9" "P1" "5" "USD" "3" "4" "C" "50"
            ["L1:10"]]
        World.empty).bind (fun w => siteListsAt w "M1")) = some (["L9"], ["L1"], []) ∧
    deleteFromToUse "L1" ["L1", "L1"] = ["L1"] := by
  refine ⟨by decide, by decide, by decide⟩

/-- On a list without repetition the removal loop leaves no occurrence of the
id. -/
theorem deleteFromToUse_not_mem (id : String) (l : List String) (hn : l.Nodup) :
    id ∉ deleteFromToUse id l := by
  have key : ∀ l : List String, (l.Nodup → id ∉ deleteFromToUse id l) ∧
      ∀ y, (y :: l).Nodup → id ∉ deleteFromToUse id (y :: l) := by
    intro l
    induction l with
    | nil =>
      refine ⟨by simp [deleteFromToUse], fun y _ => ?_⟩
      by_cases h : id = y <;> simp [deleteFromToUse, h]
    | cons a rest ih =>
      refine ⟨ih.2 a, fun y hy => ?_⟩
      have hy2 := List.nodup_cons.1 hy
      by_cases h : id = y
      · subst h
        simp only [deleteFromToUse, if_true]
        intro hm
        rcases List.mem_cons.1 hm with e | e
        · exact hy2.1 (e ▸ List.mem_cons_self _ _)
        · exact hy2.1 (List.mem_cons_of_mem _ ((deleteFromToUse_sublist id rest).subset e))
      · simp only [deleteFromToUse, h, if_false]
        intro hm
        rcases List.mem_cons.1 hm with e | e
        · exact h e
        · exact ih.2 a hy2.2 e
  exact (key l).1 hn

/-- Started on a list without repetition, the destroy loop ends without error
only with a list that holds none of the ids it consumed. -/
theorem destroyComponents_consumed (ctx : Ctx) (ids : List String) (w w1 : World)
    (toUse toUse1 : List String) (hn : toUse.Nodup)
    (h : destroyComponents ctx ids w toUse = (none, w1, toUse1)) :
    ∀ id ∈ ids, id ≠ "" → id ∉ toUse1 := by
  induction ids generalizing w toUse with
  | nil => intro id hid; cases hid
  | cons id rest ih =>
    by_cases he : id = ""
    · simp only [destroyComponents, he, if_true] at h
      intro id2 hm hne
      rcases List.mem_cons.1 hm with e | e
      · exact absurd (e.trans he) hne
      · exact ih w toUse hn h id2 e hne
    · simp only [destroyComponents, he, if_false] at h
      rcases hd : LoteDestroyed ctx w id with ⟨e, w2⟩
      rw [hd] at h
      cases e with
      | some err => simp at h
      | none =>
        simp only [] at h
        have hsub := deleteFromToUse_sublist id toUse
        have hn2 : (deleteFromToUse id toUse).Nodup := hn.sublist hsub
        intro id2 hm hne
        rcases List.mem_cons.1 hm with e | e
        · subst e
          intro hin
          exact deleteFromToUse_not_mem id2 toUse hn
            ((destroyComponents_frame ctx rest w2 w1 _ toUse1 h).1.subset hin)
        · exact ih w2 _ hn2 h id2 e hne

/-- On a site whose list for use has no repetition, a successful
`ManufactureCreateLote` stores a list for use that holds none of the ids it
consumed. -/
theorem ManufactureCreateLote_consumed (ctx : Ctx) (w : World) (key loteKey productID
    priceamount pricecurrency units envTemp envTempMeasurement envHumidity : String)
    (components : List String) (m : Manufacture)
    (hk : w (Key.simple key) = some (Record.manufacture m)) (hn : m.ToUse.Nodup)
    (hok : (ManufactureCreateLote ctx w key loteKey productID priceamount pricecurrency units
      envTemp envTempMeasurement envHumidity components).1 = none) :
    ∃ ids toUse1 production1,
      verifyComponents w m.ToUse components [] = .ok ids ∧
      siteListsAt (ManufactureCreateLote ctx w key loteKey productID priceamount pricecurrency
        units envTemp envTempMeasurement envHumidity components).2 key =
        some (production1, toUse1, m.ToRepair) ∧
      ∀ id ∈ ids, id ≠ "" → id ∉ toUse1 := by
  obtain ⟨ids, w1, toUse1, hv, hd, _, hw⟩ := ManufactureCreateLote_success ctx w key loteKey
    productID priceamount pricecurrency units envTemp envTempMeasurement envHumidity components
    m hk hok
  refine ⟨ids, toUse1, m.Production ++ [loteKey], hv, ?_,
    destroyComponents_consumed ctx ids w w1 m.ToUse toUse1 hn hd⟩
  rw [hw]
  simp [siteListsAt, PutState]

open LoteSmartContract ManufactureSmartContract TransportSmartContract

/-- C34 (fractionation does not require the new ids to be unused): on the
sample ledger the id `M1` holds the site record and differs from the parent
`L1`; `FractionateLote` of `L1` into `M1` and `L3` succeeds and `M1` then holds
the first child, a lot of 4 units with father `L1`; and `FractionateLote` of
`L1` into `L2` and `L2` succeeds, after which `L2` holds the second child, of 6
units, the only child there is, while the parent had 10 units. -/
theorem C34_fractionate_overwrites_existing_ids :
    sampleWorld (sampleSite [] [] []) (sampleLote StoredLote 0) (Key.simple "M1") =
      some (Record.manufacture (sampleSite [] [] [])) ∧
    (FractionateLote sampleCtx (sampleWorld (sampleSite [] [] []) (sampleLote StoredLote 0))
        "L1" "4" "6" "M1" "L3").1 = none ∧
    (FractionateLote sampleCtx (sampleWorld (sampleSite [] [] []) (sampleLote StoredLote 0))
        "L1" "4" "6" "M1" "L3").2 (Key.simple "M1") =
      some (Record.lote
        { sampleLote StoredLote 0 with LoteID := "M1", Units := "4", FatherID := "L1" }) ∧
    (FractionateLote sampleCtx (sampleWorld (sampleSite [] [] []) (sampleLote StoredLote 0))
        "L1" "4" "6" "L2" "L2").1 = none ∧
    (FractionateLote sampleCtx (sampleWorld (sampleSite [] [] []) (sampleLote StoredLote 0))
        "L1" "4" "6" "L2" "L2").2 (Key.simple "L2") =
      some (Record.lote
        { sampleLote StoredLote 0 with LoteID := "L2", Units := "6", FatherID := "L1" }) ∧
    loteStateAt
        (FractionateLote sampleCtx (sampleWorld (sampleSite [] [] []) (sampleLote StoredLote 0))
          "L1" "4" "6" "L2" "L2").2 "L1" = some DestroyedLote ∧
    Atoi "6" ≠ Atoi (sampleLote StoredLote 0).Units := by
  refine ⟨by decide, by decide, by decide, by decide, by decide, by decide, by decide⟩

/-- C35 (units of at least 1 is not preserved by fractionation): the sample
lot has 10 units; with the arguments "0" and "10", "-5" and "15", "abc" and
"10", whose values read by `Atoi` add up to 10, `FractionateLote` succeeds and
the first child has the units "0", "-5" and "abc", none of which denotes an
integer of at least 1. -/
theorem C35_fractionate_creates_child_below_one_unit :
    1 ≤ Atoi (sampleLote StoredLote 0).Units ∧
    (Atoi "0" + Atoi "10" = 10 ∧ Atoi "-5" + Atoi "15" = 10 ∧ Atoi "abc" + Atoi "10" = 10) ∧
    ((FractionateLote sampleCtx (sampleWorld (sampleSite [] [] []) (sampleLote StoredLote 0))
        "L1" "0" "10" "L2" "L3").1 = none ∧
      (loteAt (FractionateLote sampleCtx
        (sampleWorld (sampleSite [] [] []) (sampleLote StoredLote 0))
        "L1" "0" "10" "L2" "L3").2 "L2").map (fun l => l.Units) = some "0" ∧
      Atoi "0" < 1) ∧
    ((FractionateLote sampleCtx (sampleWorld (sampleSite [] [] []) (sampleLote StoredLote 0))
        "L1" "-5" "15" "L2" "L3").1 = none ∧
      (loteAt (FractionateLote sampleCtx
        (sampleWorld (sampleSite [] [] []) (sampleLote StoredLote 0))
        "L1" "-5" "15" "L2" "L3").2 "L2").map (fun l => l.Units) = some "-5" ∧
      Atoi "-5" < 1) ∧
    ((FractionateLote sampleCtx (sampleWorld (sampleSite [] [] []) (sampleLote StoredLote 0))
        "L1" "abc" "10" "L2" "L3").1 = none ∧
      (loteAt (FractionateLote sampleCtx
        (sampleWorld (sampleSite [] [] []) (sampleLote StoredLote 0))
        "L1" "abc" "10" "L2" "L3").2 "L2").map (fun l => l.Units) = some "abc" ∧
      isDecimalInteger "abc" = false ∧ Atoi "abc" < 1) := by
  refine ⟨by decide, ⟨by decide, by decide, by decide⟩, ⟨by decide, by decide, by decide⟩,
    ⟨by decide, by decide, by decide⟩, ⟨by decide, by decide, by decide, by decide⟩⟩

/-- C37 (swapped price arguments): on a ledger where `key` holds a site, the
lot stored under `loteKey` by a successful `ManufactureCreateLote` has the
argument `pricecurrency` as `price.amount` and the argument `priceamount` as
`price.currency`. -/
theorem C37_manufacture_create_lote_swaps_price (ctx : Ctx) (w : World) (key loteKey
    productID priceamount pricecurrency units envTemp envTempMeasurement envHumidity : String)
    (components : List String) (m : Manufacture)
    (hk : w (Key.simple key) = some (Record.manufacture m))
    (hok : (ManufactureCreateLote ctx w key loteKey productID priceamount pricecurrency units
      envTemp envTempMeasurement envHumidity components).1 = none) :
    ∃ l : Lote,
      loteAt (ManufactureCreateLote ctx w key loteKey productID priceamount pricecurrency units
        envTemp envTempMeasurement envHumidity components).2 loteKey = some l ∧
      l.Price.Amount = pricecurrency ∧ l.Price.Currency = priceamount := by
  obtain ⟨ids, w1, toUse1, _, _, hc, hw⟩ := ManufactureCreateLote_success ctx w key loteKey
    productID priceamount pricecurrency units envTemp envTempMeasurement envHumidity components
    m hk hok
  obtain ⟨h1, h2, _, advisor, _, hcw⟩ := CreateLote_success ctx w1 loteKey productID key
    pricecurrency priceamount units envTemp envTempMeasurement envHumidity ids key hc
  have hne : loteKey ≠ key := by
    intro e
    rw [e] at h1
    exact h2 h1
  rw [hw, hcw]
  have hne2 : Key.simple loteKey ≠ Key.simple key := fun e => hne (by injection e)
  simp [loteAt, PutState, hne, hne2, CreateCompositeKey]

/-- Witness for C37: the site `M1` makes the lot `L9` with the price amount
"5" and the currency "USD"; the stored price has the amount "USD" and the
currency "5". -/
theorem C37_manufacture_create_lote_swaps_price_witness :
    sampleWorldP (sampleSite [] ["L1"] []) (sampleLote UsingLote 0) (Key.simple "M1") =
        some (Record.manufacture (sampleSite [] ["L1"] [])) ∧
      (ManufactureCreateLote sampleCtx
        (sampleWorldP (sampleSite [] ["L1"] []) (sampleLote UsingLote 0))
        "M1" "L9" "P1" "5" "USD" "3" "4" "C" "50" ["L1:10"]).1 = none ∧
      ∃ l : Lote,
        loteAt (ManufactureCreateLote sampleCtx
          (sampleWorldP (sampleSite [] ["L1"] []) (sampleLote UsingLote 0))
          "M1" "L9" "P1" "5" "USD" "3" "4" "C" "50" ["L1:10"]).2 "L9" = some l ∧
        l.Price.Amount = "USD" ∧ l.Price.Currency = "5" :=
  ⟨by decide, by decide,
    C37_manufacture_create_lote_swaps_price sampleCtx
      (sampleWorldP (sampleSite [] ["L1"] []) (sampleLote UsingLote 0))
      "M1" "L9" "P1" "5" "USD" "3" "4" "C" "50" ["L1:10"] (sampleSite [] ["L1"] [])
      (by decide) (by decide)⟩

/-- C38 (advisor and location updates need a destroyed transport): on a
ledger where `key` holds the transport `t` advised by the caller,
`UpdateTransportAdvisor` and `TransportUpdateLocation` succeed exactly when `t`
is Destroyed, storing `t` with the new advisor and with the new location; in
the states Available, Loading, Delivering and NonAvailable they return an
error and leave the ledger unchanged. -/
theorem C38_updates_need_destroyed_transport (ctx : Ctx) (w : World) (key newAdvisor country
    province lat lon : String) (t : Transport)
    (hk : w (Key.simple key) = some (Record.transport t))
    (hc : ctx.clientID = some t.AdvisorID) :
    ((UpdateTransportAdvisor ctx w key newAdvisor).1 = none ↔
      t.TransportState = DestroyedTransport) ∧
    ((TransportUpdateLocation ctx w key country province lat lon).1 = none ↔
      t.TransportState = DestroyedTransport) ∧
    (t.TransportState = DestroyedTransport →
      (UpdateTransportAdvisor ctx w key newAdvisor).2 =
        PutState w (Key.simple key) (Record.transport { t with AdvisorID := newAdvisor }) ∧
      (TransportUpdateLocation ctx w key country province lat lon).2 =
        PutState w (Key.simple key)
          (Record.transport { t with Location := ⟨country, province, lat, lon⟩ })) ∧
    ((t.TransportState = AvailableTransport ∨ t.TransportState = LoadingTrasport ∨
        t.TransportState = DeliveringTransport ∨ t.TransportState = NonAvailableTransport) →
      Refused w (UpdateTransportAdvisor ctx w key newAdvisor) ∧
      Refused w (TransportUpdateLocation ctx w key country province lat lon)) := by
  refine ⟨?_, ?_, ?_, ?_⟩
  · by_cases hs : t.TransportState = 4 <;>
      simp [UpdateTransportAdvisor, GetData, GetState, hk, UnmarshalTransport,
        GetSubmittingClientIdentity, hc, hs, DestroyedTransport]
  · by_cases hs : t.TransportState = 4 <;>
      simp [TransportUpdateLocation, GetData, GetState, hk, UnmarshalTransport,
        GetSubmittingClientIdentity, hc, hs, DestroyedTransport]
  · intro hs
    have hs4 : t.TransportState = 4 := hs
    simp [UpdateTransportAdvisor, TransportUpdateLocation, GetData, GetState, hk,
      UnmarshalTransport, GetSubmittingClientIdentity, hc, hs4]
  · intro hs
    have hs4 : ¬ t.TransportState = 4 := by
      rcases hs with h | h | h | h <;> rw [h] <;> decide
    simp [Refused, UpdateTransportAdvisor, TransportUpdateLocation, GetData, GetState, hk,
      UnmarshalTransport, GetSubmittingClientIdentity, hc, hs4]

/-- Witness for C38: the advisor of the available transport `T1` is refused a
change of advisor. -/
theorem C38_updates_need_destroyed_transport_witness :
    singleWorld "T1" (Record.transport (sampleTransport AvailableTransport []))
        (Key.simple "T1") = some (Record.transport (sampleTransport AvailableTransport [])) ∧
      sampleCtx.clientID = some (sampleTransport AvailableTransport []).AdvisorID ∧
      Refused (singleWorld "T1" (Record.transport (sampleTransport AvailableTransport [])))
        (UpdateTransportAdvisor sampleCtx
          (singleWorld "T1" (Record.transport (sampleTransport AvailableTransport [])))
          "T1" "bob") :=
  ⟨by decide, by decide,
    ((C38_updates_need_destroyed_transport sampleCtx
      (singleWorld "T1" (Record.transport (sampleTransport AvailableTransport [])))
      "T1" "bob" "cu" "hav" "23" "-82" (sampleTransport AvailableTransport [])
      (by decide) (by decide)).2.2.2 (Or.inl (by decide))).1⟩

open LoteSmartContract TransportSmartContract

/-- A successful delivery stores the transport with the units and measurement
of capacity it had and the used capacity given. -/
theorem deliverWith_capacity (ctx : Ctx) (w : World) (key loteKey capacityUsed : String)
    (t : Transport) (res : Option String × World)
    (hk : w (Key.simple key) = some (Record.transport t)) :
    CarriesCapacity key t capacityUsed (deliverWith ctx w key loteKey capacityUsed res) := by
  rcases res with ⟨e, w1⟩
  simp only [CarriesCapacity, deliverWith, GetData, GetState, hk, UnmarshalTransport,
    GetSubmittingClientIdentity]
  repeat' split
  all_goals first
    | (intro h; simp at h; done)
    | (intro _; exact ⟨_, PutState_same _ _ _, rfl⟩)

/-- C39 (CreateTransport ignores the capacity arguments): a successful
`CreateTransport` stores a transport whose capacity has empty units and an
empty measurement, whatever the arguments `capacityUnits` and
`capacityUnitMeasurement`, and the used capacity given; and on a ledger where
`key` holds the transport `t`, a successful `LoadLoteInTransport` and each
successful Deliver operation store the transport with the units and the
measurement of `t` and the used capacity given. -/
theorem C39_create_transport_ignores_capacity (ctx : Ctx) (w : World) (key capacityUnits
    capacityUnitMeasurement capacityUsed country province lat lon transportType : String)
    (hok : (CreateTransport ctx w key capacityUnits capacityUnitMeasurement capacityUsed country
      province lat lon transportType).1 = none) :
    (∃ t : Transport,
      (CreateTransport ctx w key capacityUnits capacityUnitMeasurement capacityUsed country
        province lat lon transportType).2 (Key.simple key) = some (Record.transport t) ∧
      t.Capacity = ⟨"", "", capacityUsed⟩) ∧
    (∀ (ctx2 : Ctx) (w2 : World) (t : Transport) (loteKey a b c d e f g h used lotes : String),
      w2 (Key.simple key) = some (Record.transport t) →
      CarriesCapacity key t used (LoadLoteInTransport ctx2 w2 key used lotes) ∧
      CarriesCapacity key t used (TransportDeliverStoreLote ctx2 w2 key loteKey a b c d e used) ∧
      CarriesCapacity key t used
        (TransportDeliverRepairingLote ctx2 w2 key loteKey a b c d e f used) ∧
      CarriesCapacity key t used (TransportDeliverUsingLote ctx2 w2 key loteKey a b c d e used) ∧
      CarriesCapacity key t used
        (TransportDeliverTransferLote ctx2 w2 key loteKey a b c d e f g h used) ∧
      CarriesCapacity key t used
        (TransportDeliverTransshipmentLote ctx2 w2 key loteKey a b c d e used)) := by
  refine ⟨?_, ?_⟩
  · revert hok
    simp only [CreateTransport, ValidRole, GetData, GetState, GetSubmittingClientIdentity,
      GetSubmittingClientOrg, VerifyClientOrgMatchesPeerOrg]
    repeat' split
    all_goals first
      | (intro h; simp at h; done)
      | (intro _
         simp [PutState, CreateCompositeKey, Transport.zero, Capacity.zero])
  · intro ctx2 w2 t loteKey a b c d e f g h used lotes hk
    refine ⟨?_, deliverWith_capacity ctx2 w2 key loteKey used t _ hk,
      deliverWith_capacity ctx2 w2 key loteKey used t _ hk,
      deliverWith_capacity ctx2 w2 key loteKey used t _ hk,
      deliverWith_capacity ctx2 w2 key loteKey used t _ hk,
      deliverWith_capacity ctx2 w2 key loteKey used t _ hk⟩
    simp only [CarriesCapacity, LoadLoteInTransport, GetData, GetState, hk, UnmarshalTransport,
      GetSubmittingClientIdentity]
    repeat' split
    all_goals first
      | (intro h; simp at h; done)
      | (intro _; exact ⟨_, PutState_same _ _ _, rfl⟩)

/-- Witness for C39: the transport `T1` created with the capacity arguments
"40", "t" and "0" has the capacity units "" and the measurement "". -/
theorem C39_create_transport_ignores_capacity_witness :
    (CreateTransport sampleCtx World.empty "T1" "40" "t" "0" "cu" "hav" "23" "-82" "truck").1 =
        none ∧
      ∃ t : Transport,
        (CreateTransport sampleCtx World.empty "T1" "40" "t" "0" "cu" "hav" "23" "-82"
          "truck").2 (Key.simple "T1") = some (Record.transport t) ∧
        t.Capacity = ⟨"", "", "0"⟩ :=
  ⟨by decide,
    (C39_create_transport_ignores_capacity sampleCtx World.empty "T1" "40" "t" "0" "cu" "hav"
      "23" "-82" "truck" (by decide)).1⟩

open LoteSmartContract

/-- C40 (identity and provenance fields are immutable under transitions): on a
ledger where `key` holds the lot `l`, every successful call of the fourteen
operations named leaves under `key` a lot with the `loteId`, `productId`,
`manufactureId`, `units`, `components` and `fatherId` of `l`, and leaves every
primary key other than `key` as it was. -/
theorem C40_identity_fields_immutable (ctx : Ctx) (w : World) (key : String) (l : Lote)
    (a b c d e f g h : String)
    (hk : w (Key.simple key) = some (Record.lote l)) :
    KeepsIdentity w key l (LoteInspection ctx w key a b c) ∧
    KeepsIdentity w key l (StoreLote ctx w key a b c d e) ∧
    KeepsIdentity w key l (TransportLote ctx w key a b c d e) ∧
    KeepsIdentity w key l (TransferLote ctx w key a b c d e f g h) ∧
    KeepsIdentity w key l (TransshipmentLote ctx w key a b c d e) ∧
    KeepsIdentity w key l (ReturnLote ctx w key a b c d e f) ∧
    KeepsIdentity w key l (PutLoteOnReparation ctx w key a b c d e f) ∧
    KeepsIdentity w key l (RepairLote ctx w key a b c d e) ∧
    KeepsIdentity w key l (PutLoteOnUsing ctx w key a b c d e) ∧
    KeepsIdentity w key l (UpdatePrice ctx w key a b) ∧
    KeepsIdentity w key l (UpdateAdvisor ctx w key a) ∧
    KeepsIdentity w key l (UpdateEnvironment ctx w key a b c) ∧
    KeepsIdentity w key l (SellLote ctx w key a b) ∧
    KeepsIdentity w key l (LoteDestroyed ctx w key) := by
  have hne : ∀ k : String, k ≠ key → Key.simple k ≠ Key.simple key :=
    fun k hkk e => hkk (by injection e)
  refine ⟨?_, ?_, ?_, ?_, ?_, ?_, ?_, ?_, ?_, ?_, ?_, ?_, ?_, ?_⟩
  all_goals
    simp only [LoteInspection, StoreLote, TransportLote, TransferLote, TransshipmentLote,
      ReturnLote, PutLoteOnReparation, RepairLote, PutLoteOnUsing, UpdatePrice, UpdateAdvisor,
      UpdateEnvironment, SellLote, LoteDestroyed, KeepsIdentity, GetState, hk, UnmarshalLote,
      GetSubmittingClientIdentity, GetSubmittingClientOrg, VerifyClientOrgMatchesPeerOrg]
    repeat' split
    all_goals first
      | (intro h; simp at h; done)
      | (intro _
         exact ⟨⟨_, PutState_same _ _ _, rfl, rfl, rfl, rfl, rfl, rfl⟩,
           fun k hkk => PutState_other _ _ _ _ (hne k hkk)⟩)

/-- Witness for C40: the stored sample lot is sold; the record keeps its
identity fields. -/
theorem C40_identity_fields_immutable_witness :
    sampleWorld (sampleSite [] [] []) (sampleLote StoredLote 0) (Key.simple "L1") =
        some (Record.lote (sampleLote StoredLote 0)) ∧
      (SellLote sampleCtx (sampleWorld (sampleSite [] [] []) (sampleLote StoredLote 0))
        "L1" "100" "USD").1 = none ∧
      ∃ l2, (SellLote sampleCtx (sampleWorld (sampleSite [] [] []) (sampleLote StoredLote 0))
          "L1" "100" "USD").2 (Key.simple "L1") = some (Record.lote l2) ∧
        SameIdentity (sampleLote StoredLote 0) l2 :=
  ⟨by decide, by decide,
    ((C40_identity_fields_immutable sampleCtx
      (sampleWorld (sampleSite [] [] []) (sampleLote StoredLote 0)) "L1"
      (sampleLote StoredLote 0) "100" "USD" "" "" "" "" "" ""
      (by decide)).2.2.2.2.2.2.2.2.2.2.2.2.1 (by decide)).1⟩

open LoteSmartContract TransportSmartContract

/-- Splitting a text gives at least one piece. -/
theorem splitChars_ne_nil (sep : Char) : ∀ (cs cur : List Char), splitChars sep cs cur ≠ [] := by
  intro cs
  induction cs with
  | nil => intro cur; simp [splitChars]
  | cons c rest ih =>
    intro cur
    simp only [splitChars]
    split
    · simp
    · exact ih _

/-- The call `Split` returns at least one piece. -/
theorem Split_ne_nil (s : String) (sep : Char) : Split s sep ≠ [] := by
  simp [Split, splitChars_ne_nil]

/-- Whatever record `key` holds, read as a transport it is as C36 says when
the transport records are. -/
theorem TransportInvariant_decoded (w : World) (key : String) (r : Record) (t : Transport)
    (hinv : TransportInvariant w key) (hk : w (Key.simple key) = some r)
    (hu : UnmarshalTransport r = some t) : IdleCarriesNothing t := by
  cases r with
  | transport t0 =>
    simp only [UnmarshalTransport, Option.some.injEq] at hu
    subst hu
    exact hinv _ hk
  | index => simp [UnmarshalTransport] at hu
  | lote l =>
    simp only [UnmarshalTransport, Option.some.injEq] at hu
    subst hu
    simp [IdleCarriesNothing, Transport.zero, AvailableTransport, NonAvailableTransport,
      LoadingTrasport, DeliveringTransport]
  | product l =>
    simp only [UnmarshalTransport, Option.some.injEq] at hu
    subst hu
    simp [IdleCarriesNothing, Transport.zero, AvailableTransport, NonAvailableTransport,
      LoadingTrasport, DeliveringTransport]
  | manufacture l =>
    simp only [UnmarshalTransport, Option.some.injEq] at hu
    subst hu
    simp [IdleCarriesNothing, Transport.zero, AvailableTransport, NonAvailableTransport,
      LoadingTrasport, DeliveringTransport]
  | warehouse l =>
    simp only [UnmarshalTransport, Option.some.injEq] at hu
    subst hu
    simp [IdleCarriesNothing, Transport.zero, AvailableTransport, NonAvailableTransport,
      LoadingTrasport, DeliveringTransport]

/-- Writing a record that, if it is a transport written under `key`, is as C36
says, keeps the invariant. -/
theorem TransportInvariant_put (w : World) (key : String) (k : Key) (r : Record)
    (hinv : TransportInvariant w key)
    (hr : ∀ t, r = Record.transport t → k = Key.simple key → IdleCarriesNothing t) :
    TransportInvariant (PutState w k r) key := by
  intro t ht
  by_cases hk : Key.simple key = k
  · subst hk
    simp only [PutState, if_true, Option.some.injEq] at ht
    exact hr t ht rfl
  · simp only [PutState, hk, if_false] at ht
    exact hinv t ht

/-- Deleting a key keeps the invariant. -/
theorem TransportInvariant_del (w : World) (key : String) (k : Key)
    (hinv : TransportInvariant w key) : TransportInvariant (DelState w k) key := by
  intro t ht
  by_cases hk : Key.simple key = k
  · subst hk
    simp [DelState] at ht
  · simp only [DelState, hk, if_false] at ht
    exact hinv t ht

/-- A lot write keeps the invariant. -/
theorem TransportInvariant_of_LoteWrite (w : World) (key loteKey : String)
    (res : Option String × World) (hinv : TransportInvariant w key)
    (hw : LoteWrite w loteKey res) : TransportInvariant res.2 key := by
  rcases hw with ⟨_, e⟩ | ⟨_, l, e⟩
  · rw [e]; exact hinv
  · rw [e]
    exact TransportInvariant_put w key _ _ hinv (fun t ht _ => by cases ht)

open LoteSmartContract TransportSmartContract

/-- The operations of the transport contract that write at most the transport
record keep the invariant of C36 for every key. -/
theorem transport_invariant_1 (ctx : Ctx) (w : World) (key k0 : String)
    (a b c d e f g h : String) (hinv : TransportInvariant w key) :
    TransportInvariant (CreateTransport ctx w k0 a b c d e f g h).2 key ∧
    TransportInvariant (TransportInspection ctx w k0 a b c).2 key ∧
    TransportInvariant (UpdateTransportAdvisor ctx w k0 a).2 key ∧
    TransportInvariant (LoadLoteInTransport ctx w k0 a b).2 key ∧
    TransportInvariant (StartTransportDelivery ctx w k0 a b c d e).2 key ∧
    TransportInvariant (TransportIsNonAvailable ctx w k0).2 key ∧
    TransportInvariant (TransportIsAvailable ctx w k0).2 key ∧
    TransportInvariant (TransportUpdateLocation ctx w k0 a b c d).2 key ∧
    TransportInvariant (TransportDestroyed ctx w k0).2 key := by
  have hdec := fun r t => TransportInvariant_decoded w key r t hinv
  refine ⟨?_, ?_, ?_, ?_, ?_, ?_, ?_, ?_, ?_⟩
  all_goals
    simp only [CreateTransport, TransportInspection, UpdateTransportAdvisor,
      LoadLoteInTransport, StartTransportDelivery, TransportIsNonAvailable,
      TransportIsAvailable, TransportUpdateLocation, TransportDestroyed, ValidRole, GetData,
      GetState, GetSubmittingClientIdentity, GetSubmittingClientOrg,
      VerifyClientOrgMatchesPeerOrg]
    repeat' split
    all_goals
      repeat (first
        | exact hinv
        | refine TransportInvariant_del _ _ _ ?_
        | refine TransportInvariant_put _ _ _ _ ?_ ?_)
    all_goals
      intro t ht hkk
      first
        | (cases ht; done)
        | (injection ht with ht
           injection hkk with hkk
           subst ht
           subst hkk
           have hc := hdec _ _ ‹_› ‹_›
           simp_all [IdleCarriesNothing, AvailableTransport, NonAvailableTransport,
             LoadingTrasport, DeliveringTransport, DestroyedTransport, Split_ne_nil])
        | (injection ht with ht
           subst ht
           simp [IdleCarriesNothing, AvailableTransport, NonAvailableTransport,
             LoadingTrasport, DeliveringTransport, Transport.zero])

open LoteSmartContract TransportSmartContract

/-- The shared delivery body keeps the invariant of C36 when the delegated lot
operation is a lot write. -/
theorem deliverWith_invariant (ctx : Ctx) (w : World) (key k0 loteKey capacityUsed : String)
    (res : Option String × World) (hinv : TransportInvariant w key)
    (hw : LoteWrite w loteKey res) :
    TransportInvariant (deliverWith ctx w k0 loteKey capacityUsed res).2 key := by
  have hdec := fun r t => TransportInvariant_decoded w key r t hinv
  have hinv1 := TransportInvariant_of_LoteWrite w key loteKey res hinv hw
  simp only [deliverWith, GetData, GetState, GetSubmittingClientIdentity]
  repeat' split
  all_goals
    repeat (first
      | exact hinv
      | exact hinv1
      | refine TransportInvariant_put _ _ _ _ ?_ ?_)
  all_goals
    intro t ht hkk
    injection ht with ht
    injection hkk with hkk
    subst ht
    subst hkk
    have hc := hdec _ _ ‹_› ‹_›
    simp_all [IdleCarriesNothing, AvailableTransport, NonAvailableTransport,
      LoadingTrasport, DeliveringTransport, DestroyedTransport]

/-- The operations of the transport contract that delegate to a lot
transition keep the invariant of C36 for every key. -/
theorem transport_invariant_2 (ctx : Ctx) (w : World) (key k0 loteKey capacityUsed : String)
    (a b c d e f g h : String) (hinv : TransportInvariant w key) :
    TransportInvariant
      (TransportDeliverStoreLote ctx w k0 loteKey a b c d e capacityUsed).2 key ∧
    TransportInvariant
      (TransportDeliverRepairingLote ctx w k0 loteKey a b c d e f capacityUsed).2 key ∧
    TransportInvariant
      (TransportDeliverUsingLote ctx w k0 loteKey a b c d e capacityUsed).2 key ∧
    TransportInvariant
      (TransportDeliverTransferLote ctx w k0 loteKey a b c d e f g h capacityUsed).2 key ∧
    TransportInvariant
      (TransportDeliverTransshipmentLote ctx w k0 loteKey a b c d e capacityUsed).2 key ∧
    TransportInvariant (TransportInspectionLote ctx w k0 loteKey a b c).2 key := by
  refine ⟨?_, ?_, ?_, ?_, ?_, ?_⟩
  · exact deliverWith_invariant ctx w key k0 loteKey capacityUsed _ hinv
      (lote_transition_write ctx w loteKey a b c d e "" "" "").1
  · exact deliverWith_invariant ctx w key k0 loteKey capacityUsed _ hinv
      (lote_transition_write ctx w loteKey b c a d e f "" "").2.2.2.2.2.1
  · exact deliverWith_invariant ctx w key k0 loteKey capacityUsed _ hinv
      (lote_transition_write ctx w loteKey a b c d e "" "" "").2.2.2.2.2.2.2.1
  · exact deliverWith_invariant ctx w key k0 loteKey capacityUsed _ hinv
      (lote_transition_write ctx w loteKey b e a c d f g h).2.2.1
  · exact deliverWith_invariant ctx w key k0 loteKey capacityUsed _ hinv
      (lote_transition_write ctx w loteKey a b c d e "" "" "").2.2.2.1
  · have hl := TransportInvariant_of_LoteWrite w key loteKey _ hinv
      (lote_transition_write ctx w loteKey a b c "" "" "" "" "").2.2.2.2.2.2.2.2.2.1
    revert hl
    simp only [TransportInspectionLote, GetData, GetState, GetSubmittingClientIdentity]
    repeat' split
    all_goals first
      | (intro _; exact hinv)
      | simp_all

/-- Every invocation of the transport contract keeps the invariant of C36. -/
theorem TransportCall_invariant (ctx : Ctx) (w : World) (key : String) (call : TransportCall)
    (hinv : TransportInvariant w key) :
    TransportInvariant (TransportCall.run ctx w call).2 key := by
  cases call with
  | createTransport k0 a b c d e f g h =>
    exact (transport_invariant_1 ctx w key k0 a b c d e f g h hinv).1
  | transportInspection k0 a b c =>
    exact (transport_invariant_1 ctx w key k0 a b c "" "" "" "" "" hinv).2.1
  | updateTransportAdvisor k0 a =>
    exact (transport_invariant_1 ctx w key k0 a "" "" "" "" "" "" "" hinv).2.2.1
  | loadLoteInTransport k0 a b =>
    exact (transport_invariant_1 ctx w key k0 a b "" "" "" "" "" "" hinv).2.2.2.1
  | startTransportDelivery k0 a b c d e =>
    exact (transport_invariant_1 ctx w key k0 a b c d e "" "" "" hinv).2.2.2.2.1
  | transportInspectionLote k0 loteKey a b c =>
    exact (transport_invariant_2 ctx w key k0 loteKey "" a b c "" "" "" "" "" hinv).2.2.2.2.2
  | transportDeliverStoreLote k0 loteKey a b c d e f =>
    exact (transport_invariant_2 ctx w key k0 loteKey f a b c d e "" "" "" hinv).1
  | transportDeliverRepairingLote k0 loteKey a b c d e f g =>
    exact (transport_invariant_2 ctx w key k0 loteKey g a b c d e f "" "" hinv).2.1
  | transportDeliverUsingLote k0 loteKey a b c d e f =>
    exact (transport_invariant_2 ctx w key k0 loteKey f a b c d e "" "" "" hinv).2.2.1
  | transportDeliverTransferLote k0 loteKey a b c d e f g h i =>
    exact (transport_invariant_2 ctx w key k0 loteKey i a b c d e f g h hinv).2.2.2.1
  | transportDeliverTransshipmentLote k0 loteKey a b c d e f =>
    exact (transport_invariant_2 ctx w key k0 loteKey f a b c d e "" "" "" hinv).2.2.2.2.1
  | transportIsNonAvailable k0 =>
    exact (transport_invariant_1 ctx w key k0 "" "" "" "" "" "" "" "" hinv).2.2.2.2.2.1
  | transportIsAvailable k0 =>
    exact (transport_invariant_1 ctx w key k0 "" "" "" "" "" "" "" "" hinv).2.2.2.2.2.2.1
  | transportUpdateLocation k0 a b c d =>
    exact (transport_invariant_1 ctx w key k0 a b c d "" "" "" "" hinv).2.2.2.2.2.2.2.1
  | transportDestroyed k0 =>
    exact (transport_invariant_1 ctx w key k0 "" "" "" "" "" "" "" "" hinv).2.2.2.2.2.2.2.2

/-- C36 (an idle transport carries nothing): in every ledger reachable from a
successful `CreateTransport` of `key` through invocations of the transport
contract, by any callers and with any arguments, a transport record stored
under `key` has an empty shipment when its state is Available or NonAvailable
and a non-empty shipment when its state is Loading or Delivering. -/
theorem C36_idle_transport_carries_nothing (key : String) (w : World)
    (hr : TransportReachable key w) :
    ∀ t, w (Key.simple key) = some (Record.transport t) →
      ((t.TransportState = AvailableTransport ∨ t.TransportState = NonAvailableTransport) →
        t.Shipment = []) ∧
      ((t.TransportState = LoadingTrasport ∨ t.TransportState = DeliveringTransport) →
        t.Shipment ≠ []) := by
  have hinv : TransportInvariant w key := by
    induction hr with
    | created ctx w0 a b c d e f g h hok =>
      intro t
      revert hok
      simp only [CreateTransport, ValidRole, GetData, GetState, GetSubmittingClientIdentity,
        GetSubmittingClientOrg, VerifyClientOrgMatchesPeerOrg]
      repeat' split
      all_goals first
        | (intro h; simp at h; done)
        | (intro _ ht
           simp only [PutState, CreateCompositeKey] at ht
           simp at ht
           subst ht
           simp [IdleCarriesNothing, AvailableTransport, NonAvailableTransport,
             LoadingTrasport, DeliveringTransport, Transport.zero])
    | step ctx w0 call _ ih => exact TransportCall_invariant ctx w0 key call ih
  exact hinv

/-- Witness for C36: the transport `T1` is created on the sample ledger and
loaded with the lot `L1`; it is Loading and its shipment is not empty. -/
theorem C36_idle_transport_carries_nothing_witness :
    TransportReachable "T1"
      (LoadLoteInTransport sampleCtx
        (CreateTransport sampleCtx (sampleWorld (sampleSite [] [] []) (sampleLote StoredLote 0))
          "T1" "40" "t" "0" "cu" "hav" "23" "-82" "truck").2 "T1" "1" "L1").2 ∧
    transportStateAt
      (LoadLoteInTransport sampleCtx
        (CreateTransport sampleCtx (sampleWorld (sampleSite [] [] []) (sampleLote StoredLote 0))
          "T1" "40" "t" "0" "cu" "hav" "23" "-82" "truck").2 "T1" "1" "L1").2 "T1" =
      some LoadingTrasport ∧
    ∀ t,
      (LoadLoteInTransport sampleCtx
        (CreateTransport sampleCtx (sampleWorld (sampleSite [] [] []) (sampleLote StoredLote 0))
          "T1" "40" "t" "0" "cu" "hav" "23" "-82" "truck").2 "T1" "1" "L1").2
        (Key.simple "T1") = some (Record.transport t) →
      ((t.TransportState = AvailableTransport ∨ t.TransportState = NonAvailableTransport) →
        t.Shipment = []) ∧
      ((t.TransportState = LoadingTrasport ∨ t.TransportState = DeliveringTransport) →
        t.Shipment ≠ []) :=
  ⟨TransportReachable.step sampleCtx _ (TransportCall.loadLoteInTransport "T1" "1" "L1")
      (TransportReachable.created sampleCtx _ "40" "t" "0" "cu" "hav" "23" "-82" "truck"
        (by decide)),
    by decide,
    C36_idle_transport_carries_nothing "T1" _
      (TransportReachable.step sampleCtx _ (TransportCall.loadLoteInTransport "T1" "1" "L1")
        (TransportReachable.created sampleCtx _ "40" "t" "0" "cu" "hav" "23" "-82" "truck"
          (by decide)))⟩

end SupplyChain
